import Mathlib

/-!
Si4455 serial driver: a shallow embedding of `si4455.c`.

The driver state (`struct si4455_port`, together with the parts of the
`uart_port` it touches) is an explicit record that every driver function
takes and returns.  The world outside the driver is an `Env`:

* the SPI bus is an oracle that maps the history of bus operations (the one
  being answered included, oldest first) to the reply of the chip;
* `kzalloc` is an oracle indexed by the number of allocations made so far.

Every bus operation the driver issues is appended to `log`, so "issues no
bus operation" is `log` left unchanged and "sends frame f" is an
`spi_write f` entry of the log.

Machine integers are naturals and integers; the 32-bit counters wrap with an
explicit `% 2 ^ 32`, bytes are taken `% 256` where the C code narrows to `u8`.
Error codes are negative integers as in the kernel.
-/

namespace Si4455

/-! ## Constants of `si4455.c` -/

def SI4455_FIFO_SIZE : Nat := 64
def SI4455_CMD_ID_EZCONFIG_CHECK : Nat := 0x19
def SI4455_CMD_ID_PART_INFO : Nat := 0x01
def SI4455_CMD_REPLY_COUNT_PART_INFO : Nat := 9
def SI4455_CMD_ID_GET_INT_STATUS : Nat := 0x20
def SI4455_CMD_REPLY_COUNT_GET_INT_STATUS : Nat := 8
def SI4455_CMD_ID_FIFO_INFO : Nat := 0x15
def SI4455_CMD_ARG_COUNT_FIFO_INFO : Nat := 2
def SI4455_CMD_REPLY_COUNT_FIFO_INFO : Nat := 2
def SI4455_CMD_FIFO_INFO_ARG_TX_BIT : Nat := 0x01
def SI4455_CMD_FIFO_INFO_ARG_RX_BIT : Nat := 0x02
def SI4455_CMD_ID_READ_CMD_BUFF : Nat := 0x44
def SI4455_CMD_ID_READ_RX_FIFO : Nat := 0x77
def SI4455_CMD_ID_WRITE_TX_FIFO : Nat := 0x66
def SI4455_CMD_ID_START_RX : Nat := 0x32
def SI4455_CMD_ARG_COUNT_START_RX : Nat := 8
def SI4455_CMD_START_RX_RXTIMEOUT_STATE_RX : Nat := 8
def SI4455_CMD_START_RX_RXVALID_STATE_RX : Nat := 8
def SI4455_CMD_START_RX_RXINVALID_STATE_RX : Nat := 8
def SI4455_CMD_ID_START_TX : Nat := 0x31
def SI4455_CMD_ARG_COUNT_START_TX : Nat := 5
def SI4455_CMD_ID_CHANGE_STATE : Nat := 0x34
def SI4455_CMD_ARG_COUNT_CHANGE_STATE : Nat := 2
def SI4455_CMD_CHANGE_STATE_STATE_SLEEP : Nat := 1
def SI4455_CMD_GET_CHIP_STATUS_ERROR_PEND_MASK : Nat := 0x08
def SI4455_CMD_GET_CHIP_STATUS_ERROR_PEND_BIT : Nat := 0x08
def SI4455_CMD_GET_INT_STATUS_PACKET_SENT_PEND_BIT : Nat := 0x20
def SI4455_CMD_GET_INT_STATUS_PACKET_RX_PEND_BIT : Nat := 0x10
def SI4455_CMD_GET_INT_STATUS_CRC_ERROR_BIT : Nat := 0x08
def SI4455_CMD_ID_GET_MODEM_STATUS : Nat := 0x22
def SI4455_CMD_ARG_COUNT_GET_MODEM_STATUS : Nat := 2
def SI4455_CMD_REPLY_COUNT_GET_MODEM_STATUS : Nat := 8

/-! ## Kernel constants the driver relies on -/

/-- Errno `EINVAL`; the driver returns `-EINVAL`. -/
def EINVAL : Int := 22
/-- Errno `ENOMEM`; the driver returns `-ENOMEM`. -/
def ENOMEM : Int := 12
/-- Errno for an input/output error (value 5); the driver returns its negation. -/
def EIO_CODE : Int := 5
/-- Errno `ENOENT`, the value taken for a failed firmware lookup. -/
def ENOENT : Int := 2
/-- Errno `ENODEV`. -/
def ENODEV : Int := 19
/-- Errno `ERANGE`. -/
def ERANGE : Int := 34
/-- Size of the circular transmit buffer of `serial_core` (one page). -/
def UART_XMIT_SIZE : Nat := 4096
/-- Modem-control bit "clear to send". -/
def TIOCM_CTS : Nat := 0x020
/-- Modem-control bit "carrier detect". -/
def TIOCM_CAR : Nat := 0x040
/-- Modem-control bit "data set ready". -/
def TIOCM_DSR : Nat := 0x100
/-- Value reported by `tx_empty` when the transmitter is empty. -/
def TIOCSER_TEMT : Nat := 0x01
/-- Number of port lines of the driver (`SI4455_UART_NRMAX`). -/
def SI4455_UART_NRMAX : Nat := 16

/-! ## Data model -/

structure si4455_part_info where
  chip_rev : Nat
  part : Nat
  pbuild : Nat
  id : Nat
  customer : Nat
  rom_id : Nat
  bond : Nat
  deriving DecidableEq, Repr

structure si4455_int_status where
  int_pend : Nat
  int_status : Nat
  ph_pend : Nat
  ph_status : Nat
  modem_pend : Nat
  modem_status : Nat
  chip_pend : Nat
  chip_status : Nat
  deriving DecidableEq, Repr

structure si4455_modem_status where
  modem_pend : Nat
  modem_status : Nat
  curr_rssi : Nat
  latch_rssi : Nat
  ant1_rssi : Nat
  ant2_rssi : Nat
  afc_freq_offset : Nat
  deriving DecidableEq, Repr

/-- The C `struct si4455_fifo_info`; the suffix keeps it apart from the
function of the same name. -/
structure si4455_fifo_info_s where
  rx_fifo_count : Nat
  tx_fifo_space : Nat
  deriving DecidableEq, Repr

/-- The circular transmit queue of the serial core (`struct circ_buf`): the
byte stored at each index, and the producer and consumer indices. -/
structure circ_buf where
  buf : Nat → Nat
  head : Nat
  tail : Nat

/-- One operation on the SPI bus. -/
inductive BusOp where
  /-- A call of `spi_sync_transfer` with a transmit segment followed by a
  receive segment of `rx_len` bytes. -/
  | transfer (tx : List Nat) (rx_len : Nat)
  /-- A call of `spi_write` with the given frame. -/
  | write (frame : List Nat)
  deriving DecidableEq, Repr

/-- The answer of the bus to one operation: the return value of the SPI call
and the bytes clocked in (used by `transfer` only). -/
structure BusReply where
  ret : Int
  rx : List Nat
  deriving DecidableEq, Repr

/-- One operation on the shutdown GPIO line (the power rail). -/
inductive GpioOp where
  /-- The call `gpiod_direction_output(gpio, value)`. -/
  | direction_output (value : Nat)
  /-- The call `gpiod_set_value(gpio, value)`. -/
  | set_value (value : Nat)
  deriving DecidableEq, Repr

/-- The deferred work items of the driver. -/
inductive Work where
  | tx_work
  | tx_wd_work
  | cts_wd_work
  deriving DecidableEq, Repr

/-- The world outside the driver. -/
structure Env where
  /-- Reply of the bus to the last operation of the given history. -/
  bus : List BusOp → BusReply
  /-- Whether the allocation with the given sequence number succeeds. -/
  alloc : Nat → Bool

/-- The driver state: the fields of `struct si4455_port` (the LinkState of the
specification), followed by the state of the collaborators the driver acts on. -/
structure si4455_port where
  part_info : si4455_part_info
  modem_status : si4455_modem_status
  tx_channel : Nat
  rx_channel : Nat
  package_size : Nat
  current_rssi : Nat
  cts_error_count : Nat
  tx_error_count : Nat
  power_count : Int
  tx_wd_timeout : Nat
  tx_pending_size : Nat
  connected : Bool
  suspended : Bool
  configured : Bool
  cts_error : Bool
  tx_pending : Bool
  rx_pending : Bool
  tx_stopped : Bool
  rx_stopped : Bool
  /-- Outbound queue, `port->state->xmit`. -/
  xmit : circ_buf
  /-- Value of `uart_tx_stopped(port)`, owned by the serial core. -/
  uart_stopped : Bool
  /-- Counter `port->icount.tx`. -/
  icount_tx : Nat
  /-- Counter `port->icount.rx`. -/
  icount_rx : Nat
  /-- Inbound queue: the bytes handed to `uart_insert_char`, oldest first. -/
  flip : List Nat
  /-- Number of calls of `tty_flip_buffer_push`. -/
  flip_pushes : Nat
  /-- Arguments of the calls of `uart_handle_cts_change`, oldest first. -/
  cts_changes : List Nat
  /-- Transmit watchdog timer: the delay in ms it was last armed with. -/
  tx_wd_timer : Option Nat
  /-- Bus-health watchdog timer: the delay in ms it was last armed with. -/
  cts_wd_timer : Option Nat
  /-- Work items handed to `schedule_work`, oldest first. -/
  works : List Work
  /-- Operations on the shutdown GPIO, oldest first. -/
  gpio : List GpioOp
  /-- Operations issued on the SPI bus, oldest first. -/
  log : List BusOp
  /-- Number of allocations made so far. -/
  allocs : Nat

/-! ## Bus primitives -/

/-- The byte `l[i]` of a buffer (0 outside of it). -/
def byte_at (l : List Nat) (i : Nat) : Nat :=
  l.getD i 0

/-- The `n` bytes a receive segment of length `n` holds after a transfer. -/
def rx_bytes (r : BusReply) (n : Nat) : List Nat :=
  (List.range n).map (fun i => byte_at r.rx i % 256)

/-- The call `spi_sync_transfer` with one transmit and one receive segment:
returns the status, the received bytes and the new state. -/
def spi_sync_transfer (env : Env) (tx : List Nat) (rx_len : Nat) (s : si4455_port) :
    Int × List Nat × si4455_port :=
  let log := s.log ++ [BusOp.transfer tx rx_len]
  (( env.bus log).ret, rx_bytes (env.bus log) rx_len, { s with log := log })

/-- The call `spi_write`. -/
def spi_write (env : Env) (frame : List Nat) (s : si4455_port) : Int × si4455_port :=
  let log := s.log ++ [BusOp.write frame]
  (( env.bus log).ret, { s with log := log })

/-- The call `kzalloc`: whether it succeeded, and the new state. -/
def kzalloc (env : Env) (s : si4455_port) : Bool × si4455_port :=
  (env.alloc s.allocs, { s with allocs := s.allocs + 1 })

/-- The loop `while (--timeout > 0)` of `si4455_get_response`.  The first
numeric argument is the value of `timeout` before the decrement, the second
the current `ret`.  Returns `ret`, the final `timeout`, the caller's buffer
and the state. -/
def get_response_loop (env : Env) (length : Nat) (data : Option (List Nat)) :
    Nat → Int → si4455_port → Int × Int × Option (List Nat) × si4455_port
  | 0, ret, s => (ret, -1, data, s)
  | t + 1, ret, s =>
    if 0 < t then
      let r := spi_sync_transfer env [SI4455_CMD_ID_READ_CMD_BUFF] (1 + length) s
      if r.1 ≠ 0 then (r.1, (t : Int), data, r.2.2)
      else if byte_at r.2.1 0 = 0xFF then
        (r.1, (t : Int), (if 0 < length ∧ data.isSome then some (r.2.1.drop 1) else data), r.2.2)
      else get_response_loop env length data t r.1 r.2.2
    else (ret, 0, data, s)

/-- Embedding of `si4455_get_response`.  `data` is the caller's reply buffer
(`none` for a NULL pointer); the result carries its new contents. -/
def si4455_get_response (env : Env) (length : Nat) (data : Option (List Nat))
    (s : si4455_port) : Int × Option (List Nat) × si4455_port :=
  if 0 < length ∧ data.isNone then (-EINVAL, data, s)
  else
    let a := kzalloc env s
    if a.1 = false then (-ENOMEM, data, a.2)
    else
      let r := get_response_loop env length data 100 0 a.2
      if r.1 = 0 ∧ r.2.1 = 0 then (- EIO_CODE, r.2.2.1, r.2.2.2)
      else (r.1, r.2.2.1, r.2.2.2)

/-- Embedding of `si4455_poll_cts`. -/
def si4455_poll_cts (env : Env) (s : si4455_port) : Int × si4455_port :=
  let r := si4455_get_response env 0 none s
  if r.1 = - EIO_CODE then
    (r.1, { r.2.2 with
      cts_error_count := (r.2.2.cts_error_count + 1) % 2 ^ 32
      cts_error := true })
  else (r.1, r.2.2)

/-- Embedding of `si4455_send_command`. -/
def si4455_send_command (env : Env) (length : Nat) (data : List Nat) (s : si4455_port) :
    Int × si4455_port :=
  let p := si4455_poll_cts env s
  if p.1 ≠ 0 then p
  else spi_write env (data.take length) p.2

/-- Embedding of `si4455_send_command_get_response`. -/
def si4455_send_command_get_response (env : Env) (out_length : Nat) (data_out : List Nat)
    (in_length : Nat) (data_in : Option (List Nat)) (s : si4455_port) :
    Int × Option (List Nat) × si4455_port :=
  let c := si4455_send_command env out_length data_out s
  if c.1 ≠ 0 then (c.1, data_in, c.2)
  else si4455_get_response env in_length data_in c.2

/-- Embedding of `si4455_read_data`.  `data` is the caller's buffer; it holds
the received bytes when the transfer succeeded. -/
def si4455_read_data (env : Env) (command : Nat) (poll : Bool) (length : Nat)
    (data : List Nat) (s : si4455_port) : Int × List Nat × si4455_port :=
  let p := if poll then si4455_poll_cts env s else (0, s)
  if p.1 ≠ 0 then (p.1, data, p.2)
  else
    let r := spi_sync_transfer env [command % 256] length p.2
    if r.1 ≠ 0 then (r.1, data, r.2.2) else (r.1, r.2.1, r.2.2)

/-- Embedding of `si4455_write_data`. -/
def si4455_write_data (env : Env) (command : Nat) (poll : Bool) (length : Nat)
    (data : List Nat) (s : si4455_port) : Int × si4455_port :=
  let p := if poll then si4455_poll_cts env s else (0, s)
  if p.1 ≠ 0 then p
  else
    let a := kzalloc env p.2
    if a.1 = false then (-ENOMEM, a.2)
    else spi_write env ((command % 256) :: data.take length) a.2

/-! ## Power rail -/

/-- Embedding of `si4455_set_power`; the shutdown GPIO is present on every
port that finished `devm_gpiod_get`.  The sleeps are not modelled. -/
def si4455_set_power (on_ : Bool) (s : si4455_port) : si4455_port :=
  let s1 := { s with gpio := s.gpio ++ [GpioOp.direction_output 0] }
  if on_ then { s1 with gpio := s1.gpio ++ [GpioOp.set_value 1] } else s1

/-- Embedding of `si4455_s_power`: the reference-counted power switch. -/
def si4455_s_power (on_ : Bool) (s : si4455_port) : Int × si4455_port :=
  let s1 := if s.power_count = (if on_ then 0 else 1) then si4455_set_power on_ s else s
  (0, { s1 with power_count := s1.power_count + (if on_ then 1 else -1) })

/-! ## Status queries -/

/-- Embedding of `si4455_get_part_info`; the two-byte fields are copied with
`memcpy` on a little-endian host. -/
def si4455_get_part_info (env : Env) (result : si4455_part_info) (s : si4455_port) :
    Int × si4455_part_info × si4455_port :=
  let r := si4455_send_command_get_response env 1 [SI4455_CMD_ID_PART_INFO]
    SI4455_CMD_REPLY_COUNT_PART_INFO (some (List.replicate SI4455_CMD_REPLY_COUNT_PART_INFO 0)) s
  if r.1 ≠ 0 then (r.1, result, r.2.2)
  else
    let d := r.2.1.getD []
    (0, { chip_rev := byte_at d 0
          part := byte_at d 1 + 256 * byte_at d 2
          pbuild := byte_at d 3
          id := byte_at d 4 + 256 * byte_at d 5
          customer := byte_at d 6
          rom_id := byte_at d 7
          bond := byte_at d 8 }, r.2.2)

/-- The request frame of the InterruptStatus query. -/
def int_status_frame (ph_clear modem_clear chip_clear : Nat) : List Nat :=
  [SI4455_CMD_ID_GET_INT_STATUS, ph_clear % 256, modem_clear % 256, chip_clear % 256]

/-- Embedding of `si4455_get_int_status`.  `result` is the caller's record,
left as it is when the query fails. -/
def si4455_get_int_status (env : Env) (ph_clear modem_clear chip_clear : Nat)
    (result : si4455_int_status) (s : si4455_port) :
    Int × si4455_int_status × si4455_port :=
  let r := si4455_send_command_get_response env 4
    (int_status_frame ph_clear modem_clear chip_clear)
    SI4455_CMD_REPLY_COUNT_GET_INT_STATUS
    (some (List.replicate SI4455_CMD_REPLY_COUNT_GET_INT_STATUS 0)) s
  if r.1 ≠ 0 then (r.1, result, r.2.2)
  else
    let d := r.2.1.getD []
    (0, { int_pend := byte_at d 0
          int_status := byte_at d 1
          ph_pend := byte_at d 2
          ph_status := byte_at d 3
          modem_pend := byte_at d 4
          modem_status := byte_at d 5
          chip_pend := byte_at d 6
          chip_status := byte_at d 7 }, r.2.2)

/-- Embedding of `si4455_get_modem_status`. -/
def si4455_get_modem_status (env : Env) (modem_clear : Nat)
    (result : si4455_modem_status) (s : si4455_port) :
    Int × si4455_modem_status × si4455_port :=
  let r := si4455_send_command_get_response env SI4455_CMD_ARG_COUNT_GET_MODEM_STATUS
    [SI4455_CMD_ID_GET_MODEM_STATUS, modem_clear % 256]
    SI4455_CMD_REPLY_COUNT_GET_MODEM_STATUS
    (some (List.replicate SI4455_CMD_REPLY_COUNT_GET_MODEM_STATUS 0)) s
  if r.1 ≠ 0 then (r.1, result, r.2.2)
  else
    let d := r.2.1.getD []
    (0, { modem_pend := byte_at d 0
          modem_status := byte_at d 1
          curr_rssi := byte_at d 2
          latch_rssi := byte_at d 3
          ant1_rssi := byte_at d 4
          ant2_rssi := byte_at d 5
          afc_freq_offset := byte_at d 6 + 256 * byte_at d 7 }, r.2.2)

/-- Embedding of `si4455_fifo_info`. -/
def si4455_fifo_info (env : Env) (fifo : Nat) (result : si4455_fifo_info_s)
    (s : si4455_port) : Int × si4455_fifo_info_s × si4455_port :=
  let r := si4455_send_command_get_response env SI4455_CMD_ARG_COUNT_FIFO_INFO
    [SI4455_CMD_ID_FIFO_INFO, fifo % 256]
    SI4455_CMD_REPLY_COUNT_FIFO_INFO (some (List.replicate SI4455_CMD_REPLY_COUNT_FIFO_INFO 0)) s
  if r.1 ≠ 0 then (r.1, result, r.2.2)
  else
    let d := r.2.1.getD []
    (0, { rx_fifo_count := byte_at d 0, tx_fifo_space := byte_at d 1 }, r.2.2)

/-- Embedding of `si4455_read_rx_fifo`. -/
def si4455_read_rx_fifo (env : Env) (length : Nat) (data : List Nat) (s : si4455_port) :
    Int × List Nat × si4455_port :=
  si4455_read_data env SI4455_CMD_ID_READ_RX_FIFO false length data s

/-- Embedding of `si4455_write_tx_fifo`. -/
def si4455_write_tx_fifo (env : Env) (length : Nat) (data : List Nat) (s : si4455_port) :
    Int × si4455_port :=
  si4455_write_data env SI4455_CMD_ID_WRITE_TX_FIFO false length data s

/-! ## Radio commands -/

/-- The frame of the start-receive command (`data_out` of `si4455_rx`). -/
def rx_frame (channel condition length next_state1 next_state2 next_state3 : Nat) : List Nat :=
  [SI4455_CMD_ID_START_RX, channel % 256, condition % 256,
   (length % 65536 / 256) % 256, length % 256,
   next_state1 % 256, next_state2 % 256, next_state3 % 256]

/-- Embedding of `si4455_rx`; `length` is narrowed to `u16`. -/
def si4455_rx (env : Env) (channel condition length next_state1 next_state2 next_state3 : Nat)
    (s : si4455_port) : Int × si4455_port :=
  si4455_send_command env SI4455_CMD_ARG_COUNT_START_RX
    (rx_frame channel condition length next_state1 next_state2 next_state3) s

/-- The six bytes of `data_out` in `si4455_tx`; the last one is written only
on the chip revision with `rom_id = 6` (and read only then). -/
def tx_frame (rom_id channel condition length : Nat) : List Nat :=
  [SI4455_CMD_ID_START_TX, channel % 256, condition % 256,
   (length % 65536 / 256) % 256, length % 256, if rom_id = 6 then 0x44 else 0]

/-- Embedding of `si4455_tx`; `channel` is narrowed to `u8`, `length` to `u16`. -/
def si4455_tx (env : Env) (channel condition length : Nat) (s : si4455_port) :
    Int × si4455_port :=
  let out_length :=
    if s.part_info.rom_id = 6 then SI4455_CMD_ARG_COUNT_START_TX + 1
    else SI4455_CMD_ARG_COUNT_START_TX
  si4455_send_command env out_length (tx_frame s.part_info.rom_id channel condition length) s

/-- Embedding of `si4455_change_state`. -/
def si4455_change_state (env : Env) (next_state1 : Nat) (s : si4455_port) :
    Int × si4455_port :=
  si4455_send_command env SI4455_CMD_ARG_COUNT_CHANGE_STATE
    [SI4455_CMD_ID_CHANGE_STATE, next_state1 % 256] s

/-! ## Transmit and receive sessions -/

/-- The zero-initialised `struct si4455_int_status`. -/
def int_status_zero : si4455_int_status :=
  { int_pend := 0, int_status := 0, ph_pend := 0, ph_status := 0,
    modem_pend := 0, modem_status := 0, chip_pend := 0, chip_status := 0 }

/-- The zero-initialised `struct si4455_fifo_info`. -/
def fifo_info_zero : si4455_fifo_info_s := { rx_fifo_count := 0, tx_fifo_space := 0 }

/-- Embedding of `si4455_begin_tx`.  `length` is the C `int`; `data` is the
caller's buffer. -/
def si4455_begin_tx (env : Env) (channel : Nat) (length : Int) (data : List Nat)
    (s : si4455_port) : Int × si4455_port :=
  if length > SI4455_FIFO_SIZE ∨ length < 0 then (-EINVAL, s)
  else
    let i := si4455_get_int_status env 0 0 0 int_status_zero s
    if i.1 ≠ 0 then (i.1, i.2.2)
    else
      let f := si4455_fifo_info env SI4455_CMD_FIFO_INFO_ARG_TX_BIT fifo_info_zero i.2.2
      if f.1 ≠ 0 then (f.1, f.2.2)
      else
        let w := si4455_write_tx_fifo env (length.toNat % 65536) data f.2.2
        if w.1 ≠ 0 then w
        else
          let t := si4455_tx env channel 0x10 length.toNat w.2
          if t.1 ≠ 0 then t else (0, t.2)

/-- Embedding of `si4455_end_tx`. -/
def si4455_end_tx (env : Env) (s : si4455_port) : Int × si4455_port :=
  let i := si4455_get_int_status env 0 0 0 int_status_zero s
  if i.1 ≠ 0 then (i.1, i.2.2) else (0, i.2.2)

/-- Embedding of `si4455_begin_rx`. -/
def si4455_begin_rx (env : Env) (channel length : Nat) (s : si4455_port) :
    Int × si4455_port :=
  let i := si4455_get_int_status env 0 0 0 int_status_zero s
  if i.1 ≠ 0 then (i.1, i.2.2)
  else
    let f := si4455_fifo_info env SI4455_CMD_FIFO_INFO_ARG_RX_BIT fifo_info_zero i.2.2
    if f.1 ≠ 0 then (f.1, f.2.2)
    else if f.2.2.rx_stopped then (0, f.2.2)
    else
      let r := si4455_rx env channel 0x00 length
        SI4455_CMD_START_RX_RXTIMEOUT_STATE_RX
        SI4455_CMD_START_RX_RXVALID_STATE_RX
        SI4455_CMD_START_RX_RXINVALID_STATE_RX f.2.2
      if r.1 ≠ 0 then r else (0, r.2)

/-- Embedding of `si4455_end_rx`. -/
def si4455_end_rx (env : Env) (length : Nat) (data : List Nat) (s : si4455_port) :
    Int × List Nat × si4455_port :=
  si4455_read_rx_fifo env length data s

/-! ## Configuration loader -/

/-- The loop of `si4455_configure`.  `data` is what `configuration_data`
points to (the rest of the firmware image), `int_status` and `ret` are the
local variables that live across iterations.  The result is `none` when the
loop reads past the end of the image (or runs out of `fuel`, which the image
length bounds); otherwise it is `ret`, the final `int_status` and the state. -/
def configure_loop (env : Env) :
    Nat → List Nat → Int → si4455_int_status → si4455_port →
      Option (Int × si4455_int_status × si4455_port)
  | 0, _, _, _, _ => none
  | fuel + 1, data, ret, int_status, s =>
    match data with
    | [] => none
    | 0 :: _ => some (ret, int_status, s)
    | count :: rest =>
      match rest with
      | [] => none
      | cmd :: payload =>
        if 16 < count ∧ count ≤ 128 ∧ cmd = SI4455_CMD_ID_WRITE_TX_FIFO then
          if payload.length < count - 1 then none
          else
            let w := si4455_write_data env SI4455_CMD_ID_WRITE_TX_FIFO true (count - 1) payload s
            if w.1 ≠ 0 then some (w.1, int_status, w.2)
            else configure_loop env fuel (payload.drop (count - 1)) w.1 int_status w.2
        else if 16 < count then some (-EINVAL, int_status, s)
        else if rest.length < count then none
        else
          let radio_cmd := rest.take count
          let r := si4455_send_command_get_response env count radio_cmd 1 (some [0]) s
          if r.1 ≠ 0 then some (r.1, int_status, r.2.2)
          else if byte_at radio_cmd 0 = SI4455_CMD_ID_EZCONFIG_CHECK ∧ byte_at (r.2.1.getD []) 0 ≠ 0 then
            some (- EIO_CODE, int_status, r.2.2)
          else
            let i := si4455_get_int_status env 0 0 0 int_status r.2.2
            if i.2.1.chip_pend &&& SI4455_CMD_GET_CHIP_STATUS_ERROR_PEND_MASK ≠ 0 then
              some (- EIO_CODE, i.2.1, i.2.2)
            else configure_loop env fuel (rest.drop count) r.1 i.2.1 i.2.2

/-- Embedding of `si4455_configure`; `configuration_data` is the firmware
image, whose bytes are `u8`. -/
def si4455_configure (env : Env) (configuration_data : List Nat) (s : si4455_port) :
    Option (Int × si4455_port) :=
  (configure_loop env configuration_data.length configuration_data 0 int_status_zero s).map
    (fun r => (r.1, r.2.2))

/-- Embedding of `si4455_re_configure`; `configuration` is the data of the
firmware image. -/
def si4455_re_configure (env : Env) (configuration : List Nat) (s : si4455_port) :
    Option (Int × si4455_port) :=
  let s1 := { s with configured := false }
  let s2 := if s1.power_count = 0 then (si4455_s_power true s1).2 else s1
  (si4455_configure env configuration s2).map
    (fun r => if r.1 = 0 then (r.1, { r.2 with configured := true, cts_error := false }) else r)

/-! ## The circular transmit queue (`linux/circ_buf.h`, `serial_core.h`) -/

/-- The kernel's `CIRC_CNT(head, tail, size)`, that is `(head - tail) & (size - 1)`
in two's complement, for a power of two `size`. -/
def CIRC_CNT (head tail size : Nat) : Nat :=
  (head + (size - tail % size)) % size

/-- The kernel's `CIRC_CNT_TO_END(head, tail, size)`: the bytes that can be
read before the buffer wraps. -/
def CIRC_CNT_TO_END (head tail size : Nat) : Nat :=
  let end_ := size - tail
  let n := (head + end_) % size
  if n < end_ then n else end_

/-- The kernel's `uart_circ_chars_pending`. -/
def uart_circ_chars_pending (xmit : circ_buf) : Nat :=
  CIRC_CNT xmit.head xmit.tail UART_XMIT_SIZE

/-- The kernel's `uart_circ_empty`. -/
def uart_circ_empty (xmit : circ_buf) : Bool :=
  xmit.head = xmit.tail

/-- The bytes `memcpy` reads from `buf + off`, `n` of them. -/
def circ_read (buf : Nat → Nat) (off n : Nat) : List Nat :=
  (List.range n).map (fun i => buf (off + i))

/-- The call `uart_handle_cts_change(port, status)` as the driver sees it: the
signal is handed to the serial core. -/
def uart_handle_cts_change (status : Nat) (s : si4455_port) : si4455_port :=
  { s with cts_changes := s.cts_changes ++ [status] }

/-! ## Transmit path -/

/-- The payload `si4455_start_tx_xmit` copies out of the queue: `tx_pending`
bytes from `tail`, in two pieces when they wrap. -/
def xmit_payload (xmit : circ_buf) (tx_pending : Nat) : List Nat :=
  let tx_to_end := CIRC_CNT_TO_END xmit.head xmit.tail UART_XMIT_SIZE
  if tx_to_end < tx_pending then
    circ_read xmit.buf xmit.tail tx_to_end ++ circ_read xmit.buf 0 (tx_pending - tx_to_end)
  else circ_read xmit.buf xmit.tail tx_pending

/-- Embedding of `si4455_start_tx_xmit`. -/
def si4455_start_tx_xmit (env : Env) (s : si4455_port) : Int × si4455_port :=
  if s.tx_stopped then (0, s)
  else
    let tx_pending := uart_circ_chars_pending s.xmit
    if tx_pending = 0 ∨ tx_pending < s.package_size then (0, s)
    else
      let max_length := if s.package_size = 0 then SI4455_FIFO_SIZE - 3 else s.package_size
      let tx_pending := if tx_pending > max_length then max_length else tx_pending
      let a := kzalloc env s
      if a.1 = false then (-ENOMEM, a.2)
      else
        let payload := xmit_payload s.xmit tx_pending
        let data := if s.package_size = 0 then (tx_pending % 256) :: payload else payload
        let r :=
          if s.package_size = 0 then
            si4455_begin_tx env a.2.tx_channel ((tx_pending : Int) + 1) data a.2
          else si4455_begin_tx env a.2.tx_channel (tx_pending : Int) data a.2
        if r.1 = 0 then
          let s1 := { r.2 with tx_pending := true, tx_pending_size := tx_pending }
          let s2 := uart_handle_cts_change 0 s1
          (r.1, { s2 with tx_wd_timer := some s2.tx_wd_timeout })
        else r

/-- Embedding of `si4455_cancel_tx`. -/
def si4455_cancel_tx (env : Env) (s : si4455_port) : Int × si4455_port :=
  if s.tx_pending then
    let e := si4455_end_tx env s
    let s1 := { e.2 with tx_pending := false, tx_pending_size := 0 }
    let s2 := uart_handle_cts_change TIOCM_CTS s1
    si4455_change_state env SI4455_CMD_CHANGE_STATE_STATE_SLEEP s2
  else (0, s)

/-- Embedding of `si4455_do_work`, the Reconciler. -/
def si4455_do_work (env : Env) (s : si4455_port) : Int × si4455_port :=
  if !s.suspended ∧ s.connected ∧ s.configured ∧ s.power_count > 0 then
    let t :=
      if !(uart_circ_empty s.xmit || s.uart_stopped || s.tx_pending) then
        si4455_start_tx_xmit env s
      else (0, s)
    if t.1 = 0 ∧ !t.2.tx_pending then
      si4455_begin_rx env t.2.rx_channel t.2.package_size t.2
    else t
  else (0, s)

/-- Embedding of `si4455_handle_rx_pend`. -/
def si4455_handle_rx_pend (env : Env) (fifo_info : si4455_fifo_info_s) (s : si4455_port) :
    si4455_port :=
  let length := if s.package_size = 0 then fifo_info.rx_fifo_count else s.package_size
  let a := kzalloc env s
  if a.1 = false then a.2
  else
    let e := si4455_end_rx env length (List.replicate length 0) a.2
    if e.1 ≠ 0 then e.2.2
    else if !e.2.2.rx_stopped then
      { e.2.2 with
        flip := e.2.2.flip ++ e.2.1.take length
        icount_rx := (e.2.2.icount_rx + length) % 2 ^ 32
        flip_pushes := e.2.2.flip_pushes + 1 }
    else e.2.2

/-- Embedding of `si4455_handle_tx_pend`; the mask `& (UART_XMIT_SIZE - 1)` is
the remainder modulo the power of two `UART_XMIT_SIZE`. -/
def si4455_handle_tx_pend (env : Env) (s : si4455_port) : si4455_port :=
  if s.tx_pending then
    let sent := if s.package_size = 0 then s.tx_pending_size else s.package_size
    let s1 := { s with
      icount_tx := (s.icount_tx + sent) % 2 ^ 32
      xmit := { s.xmit with tail := (s.xmit.tail + sent) % UART_XMIT_SIZE } }
    let e := si4455_end_tx env s1
    let s2 := { e.2 with tx_pending := false, tx_pending_size := 0 }
    uart_handle_cts_change TIOCM_CTS s2
  else s

/-- The kernel's `irqreturn_t`, as far as the driver uses it. -/
inductive irqreturn_t where
  | IRQ_NONE
  | IRQ_HANDLED
  deriving DecidableEq, Repr

/-- The part of `si4455_ist` that runs after a successful InterruptStatus
query and before the lock is released: the priority chain.  Returns
`have_to_do` and the state. -/
def si4455_ist_dispatch (env : Env) (int_status : si4455_int_status) (s : si4455_port) :
    Bool × si4455_port :=
  if int_status.chip_pend &&& SI4455_CMD_GET_CHIP_STATUS_ERROR_PEND_BIT ≠ 0 then
    let c := si4455_change_state env SI4455_CMD_CHANGE_STATE_STATE_SLEEP s
    let f := si4455_fifo_info env SI4455_CMD_FIFO_INFO_ARG_RX_BIT fifo_info_zero c.2
    (true, f.2.2)
  else if int_status.ph_pend &&& SI4455_CMD_GET_INT_STATUS_PACKET_SENT_PEND_BIT ≠ 0 then
    let c := si4455_change_state env SI4455_CMD_CHANGE_STATE_STATE_SLEEP s
    (true, si4455_handle_tx_pend env c.2)
  else if int_status.ph_pend &&& SI4455_CMD_GET_INT_STATUS_PACKET_RX_PEND_BIT ≠ 0 then
    let m := si4455_get_modem_status env 0 s.modem_status s
    let s1 := { m.2.2 with modem_status := m.2.1 }
    let s2 := { s1 with current_rssi := s1.modem_status.curr_rssi }
    let c := si4455_change_state env SI4455_CMD_CHANGE_STATE_STATE_SLEEP s2
    let f := si4455_fifo_info env 0 fifo_info_zero c.2
    (true, si4455_handle_rx_pend env f.2.1 f.2.2)
  else if int_status.ph_pend &&& SI4455_CMD_GET_INT_STATUS_CRC_ERROR_BIT ≠ 0 then
    let c := si4455_change_state env SI4455_CMD_CHANGE_STATE_STATE_SLEEP s
    let f := si4455_fifo_info env SI4455_CMD_FIFO_INFO_ARG_RX_BIT fifo_info_zero c.2
    (true, f.2.2)
  else (false, s)

/-- Embedding of `si4455_ist`, the interrupt dispatcher. -/
def si4455_ist (env : Env) (s : si4455_port) : irqreturn_t × si4455_port :=
  if s.suspended ∨ !s.connected ∨ !s.configured ∨ s.power_count = 0 then
    (irqreturn_t.IRQ_NONE, s)
  else
    let i := si4455_get_int_status env 0 0 0 int_status_zero s
    if i.1 ≠ 0 then (irqreturn_t.IRQ_NONE, i.2.2)
    else
      let d := si4455_ist_dispatch env i.2.1 i.2.2
      if d.1 then (irqreturn_t.IRQ_HANDLED, (si4455_do_work env d.2).2)
      else (irqreturn_t.IRQ_HANDLED, d.2)

/-! ## Watchdogs -/

/-- The call `schedule_work`. -/
def schedule_work (w : Work) (s : si4455_port) : si4455_port :=
  { s with works := s.works ++ [w] }

/-- Embedding of `si4455_tx_wd_event`, the transmit watchdog timer callback. -/
def si4455_tx_wd_event (s : si4455_port) : si4455_port :=
  if s.tx_pending then schedule_work Work.tx_wd_work s else s

/-- Embedding of `si4455_tx_wd_proc`, the transmit watchdog work. -/
def si4455_tx_wd_proc (env : Env) (s : si4455_port) : si4455_port :=
  if s.connected ∧ s.tx_pending then
    let c := si4455_cancel_tx env s
    let s1 := { c.2 with tx_error_count := (c.2.tx_error_count + 1) % 2 ^ 32 }
    (si4455_do_work env s1).2
  else s

/-- Embedding of `si4455_cts_wd_event`, the bus-health timer callback. -/
def si4455_cts_wd_event (s : si4455_port) : si4455_port :=
  if s.cts_error then schedule_work Work.cts_wd_work s
  else { s with cts_wd_timer := some 100 }

/-- The part of `si4455_cts_wd_proc` that runs under the lock.  `ez_fw` is
what `request_firmware` delivers: the image, or `none` when the lookup fails
(a nonzero return, taken to be `-ENOENT`).  Returns `have_to_work` and the
state. -/
def si4455_cts_wd_locked (env : Env) (ez_fw : Option (List Nat)) (s : si4455_port) :
    Option (Bool × si4455_port) :=
  let r : Option (Bool × si4455_port) :=
    if s.cts_error then
      match ez_fw with
      | none => some (false, s)
      | some fw =>
        let p := si4455_s_power false s
        (si4455_re_configure env fw p.2).map (fun c => (decide (c.1 = 0), c.2))
    else some (false, s)
  r.map (fun x => (x.1, if x.2.connected then { x.2 with cts_wd_timer := some 100 } else x.2))

/-- Embedding of `si4455_cts_wd_proc`, the bus-health watchdog work. -/
def si4455_cts_wd_proc (env : Env) (ez_fw : Option (List Nat)) (s : si4455_port) :
    Option si4455_port :=
  (si4455_cts_wd_locked env ez_fw s).map
    (fun x => if x.1 then (si4455_do_work env x.2).2 else x.2)

/-- Embedding of `si4455_tx_proc`. -/
def si4455_tx_proc (env : Env) (s : si4455_port) : si4455_port :=
  (si4455_do_work env s).2

/-! ## Serial-core operations -/

/-- Embedding of `si4455_tx_empty`. -/
def si4455_tx_empty (s : si4455_port) : Nat :=
  if s.tx_pending then 0 else TIOCSER_TEMT

/-- Embedding of `si4455_get_mctrl`. -/
def si4455_get_mctrl (s : si4455_port) : Nat :=
  (if s.configured then TIOCM_CAR ||| TIOCM_DSR else 0) ||| (if s.tx_pending then 0 else TIOCM_CTS)

/-- Embedding of `si4455_startup`. -/
def si4455_startup (env : Env) (s : si4455_port) : Int × si4455_port :=
  si4455_do_work env
    { s with
      tx_pending := false
      tx_stopped := false
      rx_stopped := false
      connected := true
      cts_wd_timer := some 100 }

/-- Embedding of `si4455_shutdown`. -/
def si4455_shutdown (env : Env) (s : si4455_port) : si4455_port :=
  (si4455_change_state env SI4455_CMD_CHANGE_STATE_STATE_SLEEP
    { s with tx_wd_timer := none, cts_wd_timer := none, connected := false }).2

/-- Embedding of `si4455_start_tx`. -/
def si4455_start_tx (s : si4455_port) : si4455_port :=
  schedule_work Work.tx_work { s with tx_stopped := false }

/-- Embedding of `si4455_stop_tx`. -/
def si4455_stop_tx (s : si4455_port) : si4455_port :=
  { s with tx_stopped := true }

/-- Embedding of `si4455_stop_rx`. -/
def si4455_stop_rx (env : Env) (s : si4455_port) : si4455_port :=
  (si4455_change_state env SI4455_CMD_CHANGE_STATE_STATE_SLEEP { s with rx_stopped := true }).2

/-! ## Power management -/

/-- Embedding of `si4455_suspend`; `uart_suspend` is the return value of the
serial core's `uart_suspend_port`. -/
def si4455_suspend (env : Env) (uart_suspend : Int) (s : si4455_port) : Int × si4455_port :=
  let c := si4455_cancel_tx env s
  if c.1 ≠ 0 then c
  else
    let r := si4455_change_state env SI4455_CMD_CHANGE_STATE_STATE_SLEEP c.2
    let s1 := { r.2 with suspended := decide (r.1 = 0) }
    if r.1 ≠ 0 then (r.1, s1) else (uart_suspend, s1)

/-- Embedding of `si4455_resume`; `uart_resume` is the return value of the
serial core's `uart_resume_port`. -/
def si4455_resume (env : Env) (uart_resume : Int) (s : si4455_port) : Int × si4455_port :=
  if uart_resume ≠ 0 then (uart_resume, s)
  else si4455_do_work env { s with suspended := false, rx_stopped := false }

/-! ## Operator-tunable parameters (sysfs) -/

/-- Embedding of `package_size_store`.  `parsed` is the outcome of `kstrtoul`
on the written text: its return value and the number read; `count` is the
number of bytes written. -/
def package_size_store (env : Env) (parsed : Int × Nat) (count : Nat) (s : si4455_port) :
    Int × si4455_port :=
  if parsed.1 ≠ 0 then (parsed.1, s)
  else if parsed.2 > SI4455_FIFO_SIZE then (-EINVAL, s)
  else
    let w := si4455_do_work env { s with package_size := parsed.2 % 2 ^ 32 }
    (if w.1 ≠ 0 then w.1 else (count : Int), w.2)

/-- Embedding of `rx_channel_store`. -/
def rx_channel_store (env : Env) (parsed : Int × Nat) (count : Nat) (s : si4455_port) :
    Int × si4455_port :=
  if parsed.1 ≠ 0 then (parsed.1, s)
  else
    let w := si4455_do_work env { s with rx_channel := parsed.2 % 2 ^ 32 }
    (if w.1 ≠ 0 then w.1 else (count : Int), w.2)

/-- Embedding of `tx_channel_store`. -/
def tx_channel_store (env : Env) (parsed : Int × Nat) (count : Nat) (s : si4455_port) :
    Int × si4455_port :=
  if parsed.1 ≠ 0 then (parsed.1, s)
  else
    let w := si4455_do_work env { s with tx_channel := parsed.2 % 2 ^ 32 }
    (if w.1 ≠ 0 then w.1 else (count : Int), w.2)

/-- Embedding of `tx_timeout_store`. -/
def tx_timeout_store (env : Env) (parsed : Int × Nat) (count : Nat) (s : si4455_port) :
    Int × si4455_port :=
  if parsed.1 ≠ 0 then (parsed.1, s)
  else
    let w := si4455_do_work env { s with tx_wd_timeout := parsed.2 % 2 ^ 32 }
    (if w.1 ≠ 0 then w.1 else (count : Int), w.2)

/-! ## Bring-up -/

/-- What `si4455_probe` obtains from its collaborators: the free port line,
the shutdown GPIO, the device-tree properties (each a 32-bit value when
present), the firmware image and the results of the registration calls. -/
structure probe_input where
  /-- Result of `find_first_zero_bit` on the port-line bitmap. -/
  line : Nat
  /-- Whether `devm_gpiod_get` delivered the shutdown GPIO. -/
  shdn_gpio : Bool
  /-- Property `silabs,package-size`. -/
  dt_package_size : Option Nat
  /-- Property `silabs,tx-channel`. -/
  dt_tx_channel : Option Nat
  /-- Property `silabs,rx-channel`. -/
  dt_rx_channel : Option Nat
  /-- Property `silabs,tx-timeout-ms`. -/
  dt_tx_timeout_ms : Option Nat
  /-- Whether the property `firmware-name` is present. -/
  dt_firmware_name : Bool
  /-- What `request_firmware` delivers. -/
  ez_fw : Option (List Nat)
  /-- Return value of `uart_add_one_port`. -/
  uart_add_one_port : Int
  /-- Return value of `sysfs_create_group`. -/
  sysfs_create_group : Int
  /-- Return value of `devm_request_threaded_irq`. -/
  request_irq : Int

/-- The label `out_generic` of `si4455_probe`. -/
def probe_out_generic (ret : Int) (s : si4455_port) : Option (Int × si4455_port) :=
  some (ret, (si4455_s_power false s).2)

/-- The part of `si4455_probe` from `si4455_s_power(dev, true)` on. -/
def probe_bring_up (env : Env) (a : probe_input) (s : si4455_port) :
    Option (Int × si4455_port) :=
  let s1 := (si4455_s_power true s).2
  let pi := si4455_get_part_info env s1.part_info s1
  let s2 := { pi.2.2 with part_info := pi.2.1 }
  let ret := if pi.1 = 0 ∧ s2.part_info.part ≠ 0x5544 then -ENODEV else pi.1
  if ret ≠ 0 then probe_out_generic ret s2
  else
    match a.ez_fw with
    | none => probe_out_generic (-EINVAL) s2
    | some fw =>
      match si4455_re_configure env fw s2 with
      | none => none
      | some c =>
        if c.1 ≠ 0 then probe_out_generic (-EINVAL) c.2
        else
          let st := si4455_change_state env SI4455_CMD_CHANGE_STATE_STATE_SLEEP c.2
          if st.1 ≠ 0 then probe_out_generic st.1 st.2
          else if a.uart_add_one_port ≠ 0 then probe_out_generic a.uart_add_one_port st.2
          else if a.sysfs_create_group ≠ 0 then probe_out_generic a.sysfs_create_group st.2
          else if a.request_irq = 0 then some (0, st.2)
          else probe_out_generic a.request_irq st.2

/-- Embedding of `si4455_probe`, run on the freshly zeroed port structure. -/
def si4455_probe (env : Env) (a : probe_input) (s : si4455_port) :
    Option (Int × si4455_port) :=
  let al := kzalloc env s
  if al.1 = false then some (-ENOMEM, al.2)
  else
    let s := al.2
    if a.line = SI4455_UART_NRMAX then probe_out_generic (-ERANGE) s
    else if a.shdn_gpio = false then probe_out_generic (-EINVAL) s
    else
      match a.dt_package_size with
      | none => probe_out_generic (-EINVAL) s
      | some ps =>
        let s := { s with package_size := ps % 2 ^ 32 }
        if s.package_size > SI4455_FIFO_SIZE then probe_out_generic (-EINVAL) s
        else
          match a.dt_tx_channel with
          | none => probe_out_generic (-EINVAL) s
          | some txc =>
            let s := { s with tx_channel := txc % 2 ^ 32 }
            match a.dt_rx_channel with
            | none => probe_out_generic (-EINVAL) s
            | some rxc =>
              let s := { s with rx_channel := rxc % 2 ^ 32 }
              let s := { s with tx_wd_timeout :=
                match a.dt_tx_timeout_ms with
                | none => 100
                | some t => t % 2 ^ 32 }
              if a.dt_firmware_name = false then probe_out_generic (-EINVAL) s
              else probe_bring_up env a s

/-! ## Reachable states -/

/-- The zero-initialised port structure that `devm_kzalloc` delivers, with an
empty outbound queue and nothing done yet. -/
def zero_port : si4455_port :=
  { part_info := { chip_rev := 0, part := 0, pbuild := 0, id := 0, customer := 0,
                   rom_id := 0, bond := 0 }
    modem_status := { modem_pend := 0, modem_status := 0, curr_rssi := 0, latch_rssi := 0,
                      ant1_rssi := 0, ant2_rssi := 0, afc_freq_offset := 0 }
    tx_channel := 0
    rx_channel := 0
    package_size := 0
    current_rssi := 0
    cts_error_count := 0
    tx_error_count := 0
    power_count := 0
    tx_wd_timeout := 0
    tx_pending_size := 0
    connected := false
    suspended := false
    configured := false
    cts_error := false
    tx_pending := false
    rx_pending := false
    tx_stopped := false
    rx_stopped := false
    xmit := { buf := fun _ => 0, head := 0, tail := 0 }
    uart_stopped := false
    icount_tx := 0
    icount_rx := 0
    flip := []
    flip_pushes := 0
    cts_changes := []
    tx_wd_timer := none
    cts_wd_timer := none
    works := []
    gpio := []
    log := []
    allocs := 0 }

/-- The serial core puts one byte into the outbound queue, when there is room
for it. -/
def uart_write (c : Nat) (s : si4455_port) : si4455_port :=
  if uart_circ_chars_pending s.xmit < UART_XMIT_SIZE - 1 then
    { s with xmit :=
      { buf := fun i => if i = s.xmit.head then c % 256 else s.xmit.buf i
        head := (s.xmit.head + 1) % UART_XMIT_SIZE
        tail := s.xmit.tail } }
  else s

/-- One step of the driver: any entry point, called by the serial core, the
interrupt line, a timer, the work queue, power management or the operator,
with any input; and the two actions of the serial core on the state it
shares with the driver. -/
inductive Step (env : Env) : si4455_port → si4455_port → Prop where
  | probe (a : probe_input) (s : si4455_port) (r : Int × si4455_port) :
      si4455_probe env a s = some r → Step env s r.2
  | startup (s : si4455_port) : Step env s (si4455_startup env s).2
  | shutdown (s : si4455_port) : Step env s (si4455_shutdown env s)
  | do_work (s : si4455_port) : Step env s (si4455_do_work env s).2
  | start_tx_xmit (s : si4455_port) : Step env s (si4455_start_tx_xmit env s).2
  | cancel_tx (s : si4455_port) : Step env s (si4455_cancel_tx env s).2
  | ist (s : si4455_port) : Step env s (si4455_ist env s).2
  | tx_wd_event (s : si4455_port) : Step env s (si4455_tx_wd_event s)
  | tx_wd_proc (s : si4455_port) : Step env s (si4455_tx_wd_proc env s)
  | cts_wd_event (s : si4455_port) : Step env s (si4455_cts_wd_event s)
  | cts_wd_proc (ez_fw : Option (List Nat)) (s s2 : si4455_port) :
      si4455_cts_wd_proc env ez_fw s = some s2 → Step env s s2
  | tx_proc (s : si4455_port) : Step env s (si4455_tx_proc env s)
  | start_tx (s : si4455_port) : Step env s (si4455_start_tx s)
  | stop_tx (s : si4455_port) : Step env s (si4455_stop_tx s)
  | stop_rx (s : si4455_port) : Step env s (si4455_stop_rx env s)
  | suspend (r : Int) (s : si4455_port) : Step env s (si4455_suspend env r s).2
  | resume (r : Int) (s : si4455_port) : Step env s (si4455_resume env r s).2
  | package_size_store (parsed : Int × Nat) (count : Nat) (s : si4455_port) :
      Step env s (package_size_store env parsed count s).2
  | rx_channel_store (parsed : Int × Nat) (count : Nat) (s : si4455_port) :
      Step env s (rx_channel_store env parsed count s).2
  | tx_channel_store (parsed : Int × Nat) (count : Nat) (s : si4455_port) :
      Step env s (tx_channel_store env parsed count s).2
  | tx_timeout_store (parsed : Int × Nat) (count : Nat) (s : si4455_port) :
      Step env s (tx_timeout_store env parsed count s).2
  | uart_write (c : Nat) (s : si4455_port) : Step env s (uart_write c s)
  | uart_flow (stopped : Bool) (s : si4455_port) :
      Step env s { s with uart_stopped := stopped }

/-- The states the driver can be in: those reached from the zero-initialised
port by any sequence of steps. -/
inductive Reachable (env : Env) : si4455_port → Prop where
  | init : Reachable env zero_port
  | step (s s2 : si4455_port) : Reachable env s → Step env s s2 → Reachable env s2

/-! ## Vocabulary of the statements -/

/-- The status read of the readiness poll: one `READ_CMD_BUFF` byte out, the
sentinel byte and `n` reply bytes in. -/
def read_cmd_buff (n : Nat) : BusOp :=
  BusOp.transfer [SI4455_CMD_ID_READ_CMD_BUFF] (1 + n)

/-- The reply of the bus to the `k`-th (counted from 0) of consecutive status
reads issued after the history `h`. -/
def poll_reply (env : Env) (h : List BusOp) (n k : Nat) : BusReply :=
  env.bus (h ++ List.replicate (k + 1) (read_cmd_buff n))

/-- The first byte of the reply is the ready sentinel `0xFF`. -/
def poll_ready (r : BusReply) : Prop :=
  byte_at r.rx 0 % 256 = 0xFF

instance (r : BusReply) : Decidable (poll_ready r) := by
  unfold poll_ready; infer_instance

/-- A bus on which every operation succeeds: every SPI call returns 0, every
transient buffer is allocated, and every readiness poll sees the sentinel
within the retry budget of 99 status reads. -/
structure BusOk (env : Env) : Prop where
  alloc : ∀ k, env.alloc k = true
  ret : ∀ h, (env.bus h).ret = 0
  ready : ∀ h n, ∃ k, k < 99 ∧ poll_ready (poll_reply env h n k)

/-- The frames written to the bus with `spi_write`, oldest first. -/
def writes : List BusOp → List (List Nat)
  | [] => []
  | BusOp.write f :: l => f :: writes l
  | BusOp.transfer _ _ :: l => writes l

/-- A chip that is always ready and answers every query with zero bytes, on a
machine where every allocation succeeds. -/
def ready_env : Env :=
  { bus := fun _ => { ret := 0, rx := [0xFF] }
    alloc := fun _ => true }

/-- A chip that never reports ready. -/
def busy_env : Env :=
  { bus := fun _ => { ret := 0, rx := [0x00] }
    alloc := fun _ => true }

/-- The state after `si4455_get_response` made `k` status reads. -/
def after_polls (s : si4455_port) (n k : Nat) : si4455_port :=
  { s with log := s.log ++ List.replicate k (read_cmd_buff n), allocs := s.allocs + 1 }

/-- The state `s2` differs from `s1` at most in what the bus transport
changes: the bus log, the allocation count and the bus-error bookkeeping. -/
def bus_frame (s1 s2 : si4455_port) : Prop :=
  s2 = { s1 with
    log := s2.log
    allocs := s2.allocs
    cts_error_count := s2.cts_error_count
    cts_error := s2.cts_error } ∧
  s1.log <+: s2.log

/-- The state `s2` is `s1` after bus traffic that wrote exactly the frames
`fs`, in this order, and changed nothing but the bus log (which it extended)
and the allocation count. -/
def Sent (s1 s2 : si4455_port) (fs : List (List Nat)) : Prop :=
  s2 = { s1 with log := s2.log, allocs := s2.allocs } ∧
    s1.log <+: s2.log ∧
    writes s2.log = writes s1.log ++ fs

/-- The image of a configuration table: each record `r` (opcode, then
arguments) preceded by its length byte. -/
def encode_records : List (List Nat) → List Nat
  | [] => []
  | r :: rs => r.length :: (r ++ encode_records rs)

/-- A record the loader streams to the FIFO: longer than the 16-byte staging
frame, at most 128 bytes, with the FIFO-write opcode. -/
def is_stream_record (r : List Nat) : Prop :=
  16 < r.length ∧ r.length ≤ 128 ∧ byte_at r 0 = SI4455_CMD_ID_WRITE_TX_FIFO

instance (r : List Nat) : Decidable (is_stream_record r) := by
  unfold is_stream_record; infer_instance

/-- A record of a well-formed table: a command of 1 to 16 bytes, or a
FIFO-write record of 17 to 127 bytes. -/
def well_formed_record (r : List Nat) : Prop :=
  (1 ≤ r.length ∧ r.length ≤ 16) ∨
    (17 ≤ r.length ∧ r.length ≤ 127 ∧ byte_at r 0 = SI4455_CMD_ID_WRITE_TX_FIFO)

instance (r : List Nat) : Decidable (well_formed_record r) := by
  unfold well_formed_record; infer_instance

/-- The frames the loader writes for a table: every record as it stands, a
command record followed by the loader's InterruptStatus query. -/
def loader_frames : List (List Nat) → List (List Nat)
  | [] => []
  | r :: rs =>
    if is_stream_record r then r :: loader_frames rs
    else r :: int_status_frame 0 0 0 :: loader_frames rs

/-- No EZConfig check fails: whenever the chip reports ready after a command
whose opcode is `EZCONFIG_CHECK`, the reply byte it delivers is zero. -/
def NoCheckError (env : Env) : Prop :=
  ∀ (h : List BusOp) (f : List Nat) (k : Nat),
    byte_at f 0 = SI4455_CMD_ID_EZCONFIG_CHECK →
    poll_ready (poll_reply env (h ++ [BusOp.write f]) 1 k) →
    byte_at (poll_reply env (h ++ [BusOp.write f]) 1 k).rx 1 % 256 = 0

/-- No chip error is reported: whenever the chip reports ready after an
InterruptStatus query, the error-pending bit of `chip_pend` is clear. -/
def NoChipError (env : Env) : Prop :=
  ∀ (h : List BusOp) (k : Nat),
    poll_ready (poll_reply env (h ++ [BusOp.write (int_status_frame 0 0 0)]) 8 k) →
    (byte_at (poll_reply env (h ++ [BusOp.write (int_status_frame 0 0 0)]) 8 k).rx 7 % 256) &&&
      SI4455_CMD_GET_CHIP_STATUS_ERROR_PEND_MASK = 0

/-- The configuration table of the scenarios: one 7-byte power-up record
(`RF_POWER_UP` of the example configurations) followed by the terminator. -/
def power_up_blob : List Nat :=
  [0x07, 0x02, 0x01, 0x00, 0x01, 0xC9, 0xC3, 0x80, 0x00]

/-- An always-ready Si4455: every reply carries the part number `0x5544` in
the position where PartInfo reports it, and zero in the reply byte of a
command and in `chip_pend`. -/
def chip_env : Env :=
  { bus := fun _ => { ret := 0, rx := [0xFF, 0x00, 0x44, 0x55] }
    alloc := fun _ => true }

/-- A complete device-tree node and collaborators that all succeed: fixed mode
with packages of one byte. -/
def probe_ok_input : probe_input :=
  { line := 0
    shdn_gpio := true
    dt_package_size := some 1
    dt_tx_channel := some 2
    dt_rx_channel := some 3
    dt_tx_timeout_ms := none
    dt_firmware_name := true
    ez_fw := some power_up_blob
    uart_add_one_port := 0
    sysfs_create_group := 0
    request_irq := 0 }

/-- The port after a successful bring-up. -/
def c3_probed : si4455_port :=
  ((si4455_probe chip_env probe_ok_input zero_port).getD (0, zero_port)).2

/-- The port after bring-up, `startup`, one byte written by the serial core
and a run of the Reconciler, which starts a transmission. -/
def c3_sending : si4455_port :=
  (si4455_do_work chip_env (uart_write 0x41 (si4455_startup chip_env c3_probed).2)).2

/-- A well-formed table for the scenarios: the power-up command, a streamed
FIFO-write record of 17 bytes and the EZConfig check. -/
def c4_records : List (List Nat) :=
  [[0x02, 0x01, 0x00, 0x01, 0xC9, 0xC3, 0x80],
   0x66 :: List.replicate 16 0xAA,
   [0x19, 0xB2, 0x06]]

/-- The state in which `si4455_re_configure` calls the loader: `configured`
cleared, and the power rail switched on if nothing held it. -/
def configure_entry (s : si4455_port) : si4455_port :=
  if ({ s with configured := false } : si4455_port).power_count = 0 then
    (si4455_s_power true { s with configured := false }).2
  else { s with configured := false }

/-- An always-ready chip that answers every command with the reply byte 1. -/
def check_fail_env : Env :=
  { bus := fun _ => { ret := 0, rx := [0xFF, 0x01] }
    alloc := fun _ => true }

/-- An always-ready chip whose every InterruptStatus reply has the
chip-error-pending bit set in `chip_pend`. -/
def chip_error_env : Env :=
  { bus := fun _ => { ret := 0, rx := [0xFF, 0, 0, 0, 0, 0, 0, 0x08, 0] }
    alloc := fun _ => true }

/-- The power-up command of the example configurations. -/
def power_up_record : List Nat :=
  [0x02, 0x01, 0x00, 0x01, 0xC9, 0xC3, 0x80]

/-- The EZConfig check command of the example configurations. -/
def ezconfig_check_record : List Nat :=
  [0x19, 0xB2, 0x06]

/-- The GPIO configuration command of the example configurations. -/
def gpio_pin_cfg_record : List Nat :=
  [0x13, 0x04, 0x10, 0x00, 0x00, 0x00, 0x00, 0x00]

/-- The state the power-up record leaves on the always-ready chip. -/
def c5_loaded : si4455_port :=
  ((si4455_configure ready_env (encode_records [power_up_record] ++ [0]) zero_port).getD
    (0, zero_port)).2

/-- The state the power-up record leaves on the chip that fails the check,
starting from a port that was configured before. -/
def c6_loaded : si4455_port :=
  ((si4455_configure check_fail_env (encode_records [power_up_record] ++ [0])
    (configure_entry { zero_port with configured := true, power_count := 1 })).getD
    (0, zero_port)).2

/-- The state the power-up record leaves on a chip that reports ready and no
error until the bus log holds three writes, and a chip error from then on. -/
def c7_loaded_env : Env :=
  { bus := fun h =>
      { ret := 0
        rx := if (writes h).length < 3 then [0xFF] else [0xFF, 0, 0, 0, 0, 0, 0, 0x08, 0] }
    alloc := fun _ => true }

/-- The state the power-up record leaves on `c7_loaded_env`. -/
def c7_loaded : si4455_port :=
  ((si4455_configure c7_loaded_env (encode_records [power_up_record] ++ [0]) zero_port).getD
    (0, zero_port)).2

/-- A connected port on which a bus timeout was flagged, with the power rail
held once. -/
def c10_start : si4455_port :=
  { zero_port with
    connected := true
    configured := true
    cts_error := true
    cts_error_count := 1
    power_count := 1
    package_size := 4 }

/-- The frame of the most recent `spi_write` of a bus history (empty when
there is none). -/
def last_write : List BusOp → List Nat
  | [] => []
  | BusOp.write f :: l => if (writes l).isEmpty then f else last_write l
  | BusOp.transfer _ _ :: l => last_write l

/-- An always-ready chip that answers PartInfo with the part number `0x5544`
and every other query with a reply whose third byte has the packet-sent bit
set (and whose other bytes are zero). -/
def sent_env : Env :=
  { bus := fun h =>
      { ret := 0
        rx := if byte_at (last_write h) 0 = SI4455_CMD_ID_PART_INFO then [0xFF, 0, 0x44, 0x55]
              else [0xFF, 0, 0, 0x20] }
    alloc := fun _ => true }

/-- The port after bring-up in fixed mode with packages of 4 bytes, `startup`,
and 4 bytes written by the serial core. -/
def c2_start : si4455_port :=
  uart_write 0x44 (uart_write 0x43 (uart_write 0x42 (uart_write 0x41
    (si4455_startup sent_env
      ((si4455_probe sent_env { probe_ok_input with dt_package_size := some 4 }
        zero_port).getD (0, zero_port)).2).2)))

/-- The port after the Reconciler started the transmission of these 4 bytes. -/
def c2_armed : si4455_port :=
  (si4455_do_work sent_env c2_start).2

/-- The port after the operator wrote package size 8 while that transmission
was in flight. -/
def c2_resized : si4455_port :=
  (package_size_store sent_env (0, 8) 2 c2_armed).2

/-- The port after bring-up and `startup`: connected, configured, powered,
with nothing queued and nothing pending. -/
def idle_port : si4455_port :=
  (si4455_startup chip_env c3_probed).2

/-- The port after bring-up, `startup`, one queued byte, a run of the
Reconciler that starts a transmission, and `shutdown`: a transmission is
pending on a port that is no longer connected. -/
def c13_shut_down : si4455_port :=
  si4455_shutdown chip_env c3_sending

/-- A bus error flagged in `s1` is still flagged in `s2`. -/
def cts_sticky (s1 s2 : si4455_port) : Prop :=
  s1.cts_error = true → s2.cts_error = true

/-- An Si4455 that answers like `chip_env` until seven frames have been
written, and never reports ready afterwards. -/
def flaky_env : Env :=
  { bus := fun h =>
      { ret := 0
        rx := if (writes h).length < 7 then [0xFF, 0x00, 0x44, 0x55] else [0x00] }
    alloc := fun _ => true }

/-- The port after bring-up and `startup` on `flaky_env`, then `shutdown`,
whose sleep command runs into the bus timeout: not connected, still
configured, with the bus error flagged. -/
def c11_shut_down : si4455_port :=
  si4455_shutdown flaky_env
    (si4455_startup flaky_env
      ((si4455_probe flaky_env probe_ok_input zero_port).getD (0, zero_port)).2).2

/-- The number of queue bytes one transmission takes: the bytes available,
capped by the capacity, which is `package_size` in fixed mode and 61 in
variable mode. -/
def tx_chunk (s : si4455_port) : Nat :=
  min (uart_circ_chars_pending s.xmit)
    (if s.package_size = 0 then SI4455_FIFO_SIZE - 3 else s.package_size)

/-- The length `si4455_start_tx_xmit` passes to `si4455_begin_tx`: the chunk,
plus the length byte in variable mode. -/
def tx_length (s : si4455_port) : Int :=
  if s.package_size = 0 then (tx_chunk s : Int) + 1 else (tx_chunk s : Int)

/-- The buffer `si4455_start_tx_xmit` passes to `si4455_begin_tx`: the chunk
copied out of the queue, preceded by its length in variable mode. -/
def tx_data (s : si4455_port) : List Nat :=
  if s.package_size = 0 then (tx_chunk s % 256) :: xmit_payload s.xmit (tx_chunk s)
  else xmit_payload s.xmit (tx_chunk s)

/-- A port in variable mode with 10 bytes in the outbound queue. -/
def c17_start : si4455_port :=
  { zero_port with
    tx_channel := 5
    tx_wd_timeout := 100
    xmit := { buf := fun i => (0x30 + i) % 256, head := 10, tail := 0 } }

/-- The port after bring-up and `startup`, the package size set to 4 by the
operator, and two bytes written by the serial core: fewer bytes are queued than
one package takes. -/
def c16_short : si4455_port :=
  uart_write 0x42 (uart_write 0x41 (package_size_store chip_env (0, 4) 1 idle_port).2)

/-- An always-ready chip whose every InterruptStatus reply has both the
chip-error bit of `chip_pend` and the packet-sent bit of `ph_pend` set. -/
def error_and_sent_env : Env :=
  { bus := fun _ => { ret := 0, rx := [0xFF, 0, 0, 0x20, 0, 0, 0, 0x08, 0] }
    alloc := fun _ => true }

/-- An always-ready chip whose every InterruptStatus reply has both the
packet-sent and the packet-received bit of `ph_pend` set. -/
def sent_and_received_env : Env :=
  { bus := fun _ => { ret := 0, rx := [0xFF, 0, 0, 0x30] }
    alloc := fun _ => true }

/-- The calls made on a port that bring-up has set up: every entry point of the
driver but `si4455_probe`, each with its inputs, and the two actions of the
serial core on the state it shares with the driver. -/
inductive Event where
  | startup
  | shutdown
  | do_work
  | start_tx_xmit
  | cancel_tx
  | ist
  | tx_wd_event
  | tx_wd_proc
  | cts_wd_event
  | cts_wd_proc (ez_fw : Option (List Nat))
  | tx_proc
  | start_tx
  | stop_tx
  | stop_rx
  | suspend (r : Int)
  | resume (r : Int)
  | package_size_store (parsed : Int × Nat) (count : Nat)
  | rx_channel_store (parsed : Int × Nat) (count : Nat)
  | tx_channel_store (parsed : Int × Nat) (count : Nat)
  | tx_timeout_store (parsed : Int × Nat) (count : Nat)
  | uart_write (c : Nat)
  | uart_flow (stopped : Bool)

/-- The state after one call (`none` when the loader runs off its image). -/
def apply_event (env : Env) (e : Event) (s : si4455_port) : Option si4455_port :=
  match e with
  | Event.startup => some (si4455_startup env s).2
  | Event.shutdown => some (si4455_shutdown env s)
  | Event.do_work => some (si4455_do_work env s).2
  | Event.start_tx_xmit => some (si4455_start_tx_xmit env s).2
  | Event.cancel_tx => some (si4455_cancel_tx env s).2
  | Event.ist => some (si4455_ist env s).2
  | Event.tx_wd_event => some (si4455_tx_wd_event s)
  | Event.tx_wd_proc => some (si4455_tx_wd_proc env s)
  | Event.cts_wd_event => some (si4455_cts_wd_event s)
  | Event.cts_wd_proc ez_fw => si4455_cts_wd_proc env ez_fw s
  | Event.tx_proc => some (si4455_tx_proc env s)
  | Event.start_tx => some (si4455_start_tx s)
  | Event.stop_tx => some (si4455_stop_tx s)
  | Event.stop_rx => some (si4455_stop_rx env s)
  | Event.suspend r => some (si4455_suspend env r s).2
  | Event.resume r => some (si4455_resume env r s).2
  | Event.package_size_store parsed count => some (package_size_store env parsed count s).2
  | Event.rx_channel_store parsed count => some (rx_channel_store env parsed count s).2
  | Event.tx_channel_store parsed count => some (tx_channel_store env parsed count s).2
  | Event.tx_timeout_store parsed count => some (tx_timeout_store env parsed count s).2
  | Event.uart_write c => some (uart_write c s)
  | Event.uart_flow stopped => some { s with uart_stopped := stopped }

/-- The state after a sequence of calls, the first one first. -/
def run_events (env : Env) : List Event → si4455_port → Option si4455_port
  | [], s => some s
  | e :: es, s =>
    match apply_event env e s with
    | none => none
    | some s2 => run_events env es s2

/-- The states of a port in operation: those a successful bring-up of the
zero-initialised port structure delivers, and those reached from them by any
sequence of calls.  (When bring-up fails the port structure is released and
no call is made on it.) -/
def Operating (env : Env) (s : si4455_port) : Prop :=
  ∃ a r evs, si4455_probe env a zero_port = some (0, r) ∧ run_events env evs r = some s

/-- An InterruptStatus reply with the packet-sent bit of `ph_pend` set and
nothing else pending. -/
def sent_status : si4455_int_status :=
  { int_status_zero with ph_pend := 0x20 }

/-- The serial core writes the bytes to the outbound queue, one after the
other. -/
def enqueue (bytes : List Nat) (s : si4455_port) : si4455_port :=
  bytes.foldl (fun t c => uart_write c t) s

/-- The Reconciler and the packet-sent completion event in alternation: the
Reconciler runs; when it leaves a transmission pending, the interrupt
dispatcher handles a packet-sent reply and the Reconciler runs again, and so
on, until the Reconciler leaves no transmission pending.  `fuel` bounds the
number of runs of the Reconciler. -/
def drive (env : Env) : Nat → si4455_port → si4455_port
  | 0, s => s
  | fuel + 1, s =>
    let w := (si4455_do_work env s).2
    if w.tx_pending then drive env fuel (si4455_ist_dispatch env sent_status w).2
    else w

/-- The bytes that stay in the outbound queue when `n` bytes are driven out:
none in variable mode, the incomplete package in fixed mode. -/
def held_back (package_size n : Nat) : Nat :=
  if package_size = 0 then 0 else n % package_size

/-- The port after bring-up and `startup`, with the package size set to 4 by
the operator: nothing queued, nothing pending. -/
def c20_start : si4455_port :=
  (package_size_store chip_env (0, 4) 1 idle_port).2

/-- A link on which a transmission can be started: not suspended, connected,
configured, powered, not stopped, nothing pending, a package size within the
FIFO, and queue indices within the queue. -/
structure TxIdle (s : si4455_port) : Prop where
  suspended : s.suspended = false
  connected : s.connected = true
  configured : s.configured = true
  powered : 0 < s.power_count
  uart_stopped : s.uart_stopped = false
  tx_stopped : s.tx_stopped = false
  tx_pending : s.tx_pending = false
  package_size : s.package_size ≤ 64
  head : s.xmit.head < 4096
  tail : s.xmit.tail < 4096

/-- A port in variable mode with 100 bytes in the outbound queue. -/
def c26_long : si4455_port :=
  { zero_port with
    tx_channel := 5
    tx_wd_timeout := 100
    xmit := { buf := fun i => i % 256, head := 100, tail := 0 } }

/-- The start-transmit frame as the specification words it: the opcode, the
channel, the completion condition `0x10`, the two bytes of the length, and the
extra byte `0x44` on the chip revision with `rom_id = 6`. -/
def start_tx_frame (rom_id channel length : Nat) : List Nat :=
  [0x31, channel % 256, 0x10, (length / 256) % 256, length % 256] ++
    (if rom_id = 6 then [0x44] else [])

/-- The zeroed port of a chip of the revision with `rom_id = 6`. -/
def c22_rom6 : si4455_port :=
  { zero_port with part_info := { zero_port.part_info with rom_id := 6 } }

/-- The start-receive frame as the specification words it: the opcode, the
channel, the condition 0, the two bytes of the length, and the receive state 8
as the next state after a timeout, a valid packet and an invalid packet. -/
def start_rx_frame (channel length : Nat) : List Nat :=
  [0x32, channel % 256, 0x00, (length / 256) % 256, length % 256, 8, 8, 8]

/-- A port in variable mode whose outbound queue holds 4 bytes that wrap past
the end of the buffer: two at the indices 4094 and 4095, two at 0 and 1. -/
def c21_wrapped : si4455_port :=
  { zero_port with
    tx_channel := 5
    xmit := { buf := fun i => (i + 7) % 256, head := 2, tail := 4094 } }

/-- The number of bytes `si4455_handle_rx_pend` reads: `package_size` in fixed
mode, the reported occupancy of the receive FIFO in variable mode. -/
def rx_length (s : si4455_port) (fifo_info : si4455_fifo_info_s) : Nat :=
  if s.package_size = 0 then fifo_info.rx_fifo_count else s.package_size

/-- The read of `n` bytes from the receive FIFO as a bus operation. -/
def read_rx_fifo_op (n : Nat) : BusOp :=
  BusOp.transfer [SI4455_CMD_ID_READ_RX_FIFO] n

/-- An always-ready chip whose receive FIFO delivers the bytes 0x10, 0x11,
0x12, and so on. -/
def rx_data_env : Env :=
  { bus := fun _ => { ret := 0, rx := [0x10, 0x11, 0x12, 0x13, 0x14, 0x15, 0x16, 0x17] }
    alloc := fun _ => true }

/-- A chip on which every transfer fails with `-EIO`. -/
def rx_fail_env : Env :=
  { bus := fun _ => { ret := - EIO_CODE, rx := [0x10, 0x11, 0x12, 0x13] }
    alloc := fun _ => true }

/-- A chip that reports not ready until the bus has seen more than `k`
operations, and from then on answers every read with the sentinel followed by
the bytes `0xA1`, `0xA2`. -/
def slow_env (k : Nat) : Env :=
  { bus := fun h => { ret := 0, rx := if k < h.length then [0xFF, 0xA1, 0xA2] else [0x00] }
    alloc := fun _ => true }

/-- The number of status reads and other transfers at the end of a bus
history, after the last `spi_write`. -/
def trailing_reads (h : List BusOp) : Nat :=
  (h.reverse.takeWhile (fun op =>
    match op with
    | BusOp.transfer _ _ => true
    | BusOp.write _ => false)).length

/-- A chip that goes silent once: after it has answered the power-up command
(opcode `0x02`) it reports not ready for the next 99 status reads, and ready
again from then on; every other read is answered at once, with zero reply
bytes. -/
def c28_env : Env :=
  { bus := fun h =>
      { ret := 0
        rx := if byte_at (last_write h) 0 = 0x02 ∧ 2 ≤ trailing_reads h ∧ trailing_reads h ≤ 100
              then [0x00] else [0xFF] }
    alloc := fun _ => true }

/-- A port whose power rail is held once. -/
def c28_start : si4455_port :=
  { zero_port with power_count := 1 }

/-- The InterruptStatus request as the specification words it: the opcode
`0x20` and three zero clear masks. -/
def int_status_request : List Nat := [0x20, 0x00, 0x00, 0x00]

/-- The InterruptStatus exchange with the request `int_status_request`: the
frame is sent and the 8 reply bytes are fetched. -/
def int_status_exchange (env : Env) (s : si4455_port) : Int × Option (List Nat) × si4455_port :=
  si4455_send_command_get_response env 4 int_status_request 8 (some (List.replicate 8 0)) s

/-- The state `s` with another value in `tx_pending_size`. -/
def with_size (v : Nat) (s : si4455_port) : si4455_port :=
  { s with tx_pending_size := v }

/-- What the interrupt dispatcher notes from the ModemStatus query of a
received packet: the status, and its current RSSI. -/
def rx_noted (m : Int × si4455_modem_status × si4455_port) : si4455_port :=
  { m.2.2 with modem_status := m.2.1, current_rssi := m.2.1.curr_rssi }

/-- The two states differ at most in `tx_pending_size`. -/
def same_but_size (s1 s2 : si4455_port) : Prop :=
  with_size 0 s1 = with_size 0 s2

/-! ## The readiness poll -/

theorem byte_at_rx_bytes (r : BusReply) (n i : Nat) :
    byte_at (rx_bytes r n) i = if i < n then byte_at r.rx i % 256 else 0 := by
  by_cases h : i < n
  · simp [byte_at, rx_bytes, List.getD_eq_getElem?_getD, List.getElem?_map,
      List.getElem?_range h, h]
  · have hlen : (List.range n).length ≤ i := by
      simp; omega
    simp [byte_at, rx_bytes, List.getD_eq_getElem?_getD, h, List.getElem?_eq_none hlen]

theorem byte_at_rx_bytes_zero (r : BusReply) (n : Nat) :
    byte_at (rx_bytes r (1 + n)) 0 = byte_at r.rx 0 % 256 := by
  simp [byte_at_rx_bytes]

theorem poll_reply_snoc (env : Env) (h : List BusOp) (n k : Nat) :
    poll_reply env (h ++ [read_cmd_buff n]) n k = poll_reply env h n (k + 1) := by
  simp [poll_reply, List.replicate_succ]

theorem replicate_snoc_log (h : List BusOp) (p : BusOp) (k : Nat) :
    h ++ [p] ++ List.replicate k p = h ++ List.replicate (k + 1) p := by
  simp [List.replicate_succ]

/-- When none of the status reads the loop can make reports ready and none
fails, the loop runs the budget down to 0. -/
theorem get_response_loop_timeout (env : Env) (n : Nat) (data : Option (List Nat)) :
    ∀ (t : Nat) (ret : Int) (s : si4455_port), 2 ≤ t →
      (∀ k, k < t - 1 → (poll_reply env s.log n k).ret = 0 ∧
        ¬ poll_ready (poll_reply env s.log n k)) →
      get_response_loop env n data t ret s =
        (0, 0, data, { s with log := s.log ++ List.replicate (t - 1) (read_cmd_buff n) }) := by
  intro t
  induction t with
  | zero => intro ret s h; omega
  | succ t ih =>
    intro ret s ht h
    have h0 := h 0 (by omega)
    have hr : (env.bus (s.log ++ [read_cmd_buff n])).ret = 0 := by
      simpa [poll_reply] using h0.1
    have hn : ¬ (byte_at (env.bus (s.log ++ [read_cmd_buff n])).rx 0 % 256 = 255) := by
      simpa [poll_reply, poll_ready] using h0.2
    by_cases ht2 : t = 1
    · subst ht2
      simp [get_response_loop, spi_sync_transfer, byte_at_rx_bytes_zero, hr, hn,
        ← read_cmd_buff.eq_1]
    · have ht3 : 2 ≤ t := by omega
      have hpos : 0 < t := by omega
      rw [get_response_loop]
      simp only [hpos, if_true, spi_sync_transfer, ← read_cmd_buff.eq_1, hr, byte_at_rx_bytes_zero, hn,
        ne_eq, not_true_eq_false, if_false]
      rw [ih 0 _ ht3]
      · have : t + 1 - 1 = (t - 1) + 1 := by omega
        simp [this, List.replicate_succ]
      · intro k hk
        have := h (k + 1) (by omega)
        simpa [poll_reply_snoc] using this

/-- When the `k`-th status read is the first that fails or reports ready, the
loop stops there: it has made `k + 1` reads, and it has copied the reply
bytes of that read when the read succeeded. -/
theorem get_response_loop_stop (env : Env) (n : Nat) (data : Option (List Nat)) :
    ∀ (k t : Nat) (ret : Int) (s : si4455_port), k + 1 < t →
      (∀ j, j < k → (poll_reply env s.log n j).ret = 0 ∧
        ¬ poll_ready (poll_reply env s.log n j)) →
      ((poll_reply env s.log n k).ret ≠ 0 ∨ poll_ready (poll_reply env s.log n k)) →
      get_response_loop env n data t ret s =
        ((poll_reply env s.log n k).ret, ((t - 1 - k : Nat) : Int),
          (if (poll_reply env s.log n k).ret = 0 ∧ 0 < n ∧ data.isSome then
            some ((rx_bytes (poll_reply env s.log n k) (1 + n)).drop 1) else data),
          { s with log := s.log ++ List.replicate (k + 1) (read_cmd_buff n) }) := by
  intro k
  induction k with
  | zero =>
    intro t ret s ht _ hstop
    obtain ⟨t, rfl⟩ : ∃ u, t = u + 1 := ⟨t - 1, by omega⟩
    have hpos : 0 < t := by omega
    have e : poll_reply env s.log n 0 = env.bus (s.log ++ [read_cmd_buff n]) := by
      simp [poll_reply]
    rw [e] at hstop ⊢
    rw [get_response_loop]
    by_cases hr : (env.bus (s.log ++ [read_cmd_buff n])).ret = 0
    · have hrdy : byte_at (env.bus (s.log ++ [read_cmd_buff n])).rx 0 % 256 = 255 := by
        rcases hstop with h | h
        · exact absurd hr h
        · simpa [poll_ready] using h
      simp [hpos, spi_sync_transfer, ← read_cmd_buff.eq_1, hr, byte_at_rx_bytes_zero, hrdy]
    · simp [hpos, spi_sync_transfer, ← read_cmd_buff.eq_1, hr]
  | succ k ih =>
    intro t ret s ht hcont hstop
    obtain ⟨t, rfl⟩ : ∃ u, t = u + 1 := ⟨t - 1, by omega⟩
    have hpos : 0 < t := by omega
    have h0 := hcont 0 (by omega)
    have hr : (env.bus (s.log ++ [read_cmd_buff n])).ret = 0 := by
      simpa [poll_reply] using h0.1
    have hn : ¬ (byte_at (env.bus (s.log ++ [read_cmd_buff n])).rx 0 % 256 = 255) := by
      simpa [poll_reply, poll_ready] using h0.2
    rw [get_response_loop]
    simp only [hpos, if_true, spi_sync_transfer, ← read_cmd_buff.eq_1, hr, byte_at_rx_bytes_zero,
      hn, ne_eq, not_true_eq_false, if_false]
    rw [ih t 0 _ (by omega)]
    · have e : t + 1 - 1 - (k + 1) = t - 1 - k := by omega
      simp [poll_reply_snoc, List.replicate_succ]
      omega
    · intro j hj
      have := hcont (j + 1) (by omega)
      simpa [poll_reply_snoc] using this
    · simpa [poll_reply_snoc] using hstop

/-- Timeout of `si4455_get_response`: 99 status reads, none ready, none
failing, give `-EIO` and leave the reply buffer as it was. -/
theorem get_response_timeout (env : Env) (n : Nat) (data : Option (List Nat))
    (s : si4455_port) (hd : n = 0 ∨ data.isSome) (ha : env.alloc s.allocs = true)
    (h : ∀ k, k < 99 → (poll_reply env s.log n k).ret = 0 ∧
      ¬ poll_ready (poll_reply env s.log n k)) :
    si4455_get_response env n data s = (- EIO_CODE, data, after_polls s n 99) := by
  have hd2 : ¬ (0 < n ∧ data.isNone = true) := by
    rcases hd with h | h
    · omega
    · cases data <;> simp_all
  unfold si4455_get_response
  rw [if_neg hd2]
  simp only [kzalloc, ha]
  rw [get_response_loop_timeout env n data 100 0 _ (by omega) (by simpa using h)]
  simp [after_polls]

/-- Success of `si4455_get_response`: when the `k`-th status read (`k < 99`)
is the first ready one and no read before fails, the result is 0 after
`k + 1` reads, with the reply bytes of that read in the buffer. -/
theorem get_response_ready (env : Env) (n : Nat) (data : Option (List Nat))
    (s : si4455_port) (hd : n = 0 ∨ data.isSome) (ha : env.alloc s.allocs = true)
    (k : Nat) (hk : k < 99)
    (h : ∀ j, j < k → (poll_reply env s.log n j).ret = 0 ∧
      ¬ poll_ready (poll_reply env s.log n j))
    (hr : (poll_reply env s.log n k).ret = 0) (hrdy : poll_ready (poll_reply env s.log n k)) :
    si4455_get_response env n data s =
      (0, (if 0 < n then some ((rx_bytes (poll_reply env s.log n k) (1 + n)).drop 1) else data),
        after_polls s n (k + 1)) := by
  have hd2 : ¬ (0 < n ∧ data.isNone = true) := by
    rcases hd with h | h
    · omega
    · cases data <;> simp_all
  unfold si4455_get_response
  rw [if_neg hd2]
  simp only [kzalloc, ha]
  rw [get_response_loop_stop env n data k 100 0 _ (by omega) (by simpa using h)
    (by simpa using Or.inr hrdy)]
  have hne : ¬ (((100 - 1 - k : Nat) : Int) = 0) := by omega
  have hr2 : (poll_reply env (s.log) n k).ret = 0 := hr
  rcases hd with h0 | hs
  · subst h0; simp [hr2, hne, after_polls]
  · by_cases hn : 0 < n <;> simp [hr2, hne, after_polls, hs, hn]

/-- Transfer error in `si4455_get_response`: when the `k`-th status read is
the first to fail, before any ready one, its error is returned. -/
theorem get_response_error (env : Env) (n : Nat) (data : Option (List Nat))
    (s : si4455_port) (hd : n = 0 ∨ data.isSome) (ha : env.alloc s.allocs = true)
    (k : Nat) (hk : k < 99)
    (h : ∀ j, j < k → (poll_reply env s.log n j).ret = 0 ∧
      ¬ poll_ready (poll_reply env s.log n j))
    (hr : (poll_reply env s.log n k).ret ≠ 0) :
    si4455_get_response env n data s =
      ((poll_reply env s.log n k).ret, data, after_polls s n (k + 1)) := by
  have hd2 : ¬ (0 < n ∧ data.isNone = true) := by
    rcases hd with h | h
    · omega
    · cases data <;> simp_all
  unfold si4455_get_response
  rw [if_neg hd2]
  simp only [kzalloc, ha]
  rw [get_response_loop_stop env n data k 100 0 _ (by omega) (by simpa using h)
    (by simpa using Or.inl hr)]
  simp [hr, after_polls]

/-! ## What the bus transport leaves alone -/

theorem bus_frame_refl (s : si4455_port) : bus_frame s s := by
  constructor
  · cases s; rfl
  · exact List.prefix_refl _

theorem bus_frame_trans {s1 s2 s3 : si4455_port} (h12 : bus_frame s1 s2)
    (h23 : bus_frame s2 s3) : bus_frame s1 s3 := by
  obtain ⟨a, b⟩ := h12
  obtain ⟨c, d⟩ := h23
  constructor
  · rw [c, a]
  · exact List.IsPrefix.trans b d

theorem bus_frame_spi_sync_transfer (env : Env) (tx : List Nat) (n : Nat) (s : si4455_port) :
    bus_frame s (spi_sync_transfer env tx n s).2.2 := by
  constructor
  · cases s; rfl
  · exact List.prefix_append _ _

theorem bus_frame_spi_write (env : Env) (f : List Nat) (s : si4455_port) :
    bus_frame s (spi_write env f s).2 := by
  constructor
  · cases s; rfl
  · exact List.prefix_append _ _

theorem bus_frame_kzalloc (env : Env) (s : si4455_port) : bus_frame s (kzalloc env s).2 := by
  constructor
  · cases s; rfl
  · exact List.prefix_refl _

/-- Recording a bus timeout touches the bus-error bookkeeping only. -/
theorem bus_frame_cts_error (s : si4455_port) (c : Nat) (e : Bool) :
    bus_frame s { s with cts_error_count := c, cts_error := e } := by
  constructor
  · cases s; rfl
  · exact List.prefix_refl _

theorem bus_frame_get_response_loop (env : Env) (n : Nat) (data : Option (List Nat)) :
    ∀ (t : Nat) (ret : Int) (s : si4455_port),
      bus_frame s (get_response_loop env n data t ret s).2.2.2 := by
  intro t
  induction t with
  | zero => intro ret s; exact bus_frame_refl s
  | succ t ih =>
    intro ret s
    rw [get_response_loop]
    dsimp only
    split_ifs
    all_goals first
      | exact bus_frame_spi_sync_transfer env _ _ s
      | exact bus_frame_trans (bus_frame_spi_sync_transfer env _ _ s) (ih _ _)
      | exact bus_frame_refl s

theorem bus_frame_get_response (env : Env) (n : Nat) (data : Option (List Nat))
    (s : si4455_port) : bus_frame s (si4455_get_response env n data s).2.2 := by
  unfold si4455_get_response
  dsimp only
  split_ifs
  · exact bus_frame_refl s
  · exact bus_frame_kzalloc env s
  · exact bus_frame_trans (bus_frame_kzalloc env s) (bus_frame_get_response_loop env n data _ _ _)
  · exact bus_frame_trans (bus_frame_kzalloc env s) (bus_frame_get_response_loop env n data _ _ _)

theorem bus_frame_poll_cts (env : Env) (s : si4455_port) :
    bus_frame s (si4455_poll_cts env s).2 := by
  unfold si4455_poll_cts
  dsimp only
  have h := bus_frame_get_response env 0 none s
  split_ifs
  · exact bus_frame_trans h (bus_frame_cts_error _ _ _)
  · exact h

theorem bus_frame_send_command (env : Env) (l : Nat) (d : List Nat) (s : si4455_port) :
    bus_frame s (si4455_send_command env l d s).2 := by
  unfold si4455_send_command
  dsimp only
  split_ifs
  · exact bus_frame_poll_cts env s
  · exact bus_frame_trans (bus_frame_poll_cts env s) (bus_frame_spi_write env _ _)

theorem bus_frame_send_command_get_response (env : Env) (ol : Nat) (d : List Nat) (il : Nat)
    (di : Option (List Nat)) (s : si4455_port) :
    bus_frame s (si4455_send_command_get_response env ol d il di s).2.2 := by
  unfold si4455_send_command_get_response
  dsimp only
  split_ifs
  · exact bus_frame_send_command env ol d s
  · exact bus_frame_trans (bus_frame_send_command env ol d s) (bus_frame_get_response env _ _ _)

theorem bus_frame_read_data (env : Env) (c : Nat) (poll : Bool) (l : Nat) (d : List Nat)
    (s : si4455_port) : bus_frame s (si4455_read_data env c poll l d s).2.2 := by
  unfold si4455_read_data
  dsimp only
  split_ifs
  all_goals first
    | exact bus_frame_poll_cts env s
    | exact bus_frame_refl s
    | exact bus_frame_trans (bus_frame_poll_cts env s) (bus_frame_spi_sync_transfer env _ _ _)
    | exact bus_frame_trans (bus_frame_refl s) (bus_frame_spi_sync_transfer env _ _ _)

theorem bus_frame_write_data (env : Env) (c : Nat) (poll : Bool) (l : Nat) (d : List Nat)
    (s : si4455_port) : bus_frame s (si4455_write_data env c poll l d s).2 := by
  unfold si4455_write_data
  dsimp only
  cases poll
  · simp only [Bool.false_eq_true, if_false]
    split_ifs
    · exact absurd rfl ‹_›
    · exact bus_frame_kzalloc env s
    · exact bus_frame_trans (bus_frame_kzalloc env s) (bus_frame_spi_write env _ _)
  · simp only [if_true]
    split_ifs
    · exact bus_frame_poll_cts env s
    · exact bus_frame_trans (bus_frame_poll_cts env s) (bus_frame_kzalloc env _)
    · exact bus_frame_trans (bus_frame_poll_cts env s)
        (bus_frame_trans (bus_frame_kzalloc env _) (bus_frame_spi_write env _ _))

theorem bus_frame_get_part_info (env : Env) (r : si4455_part_info) (s : si4455_port) :
    bus_frame s (si4455_get_part_info env r s).2.2 := by
  unfold si4455_get_part_info
  dsimp only
  split_ifs <;> exact bus_frame_send_command_get_response env _ _ _ _ s

theorem bus_frame_get_int_status (env : Env) (a b c : Nat) (r : si4455_int_status)
    (s : si4455_port) : bus_frame s (si4455_get_int_status env a b c r s).2.2 := by
  unfold si4455_get_int_status
  dsimp only
  split_ifs <;> exact bus_frame_send_command_get_response env _ _ _ _ s

theorem bus_frame_get_modem_status (env : Env) (a : Nat) (r : si4455_modem_status)
    (s : si4455_port) : bus_frame s (si4455_get_modem_status env a r s).2.2 := by
  unfold si4455_get_modem_status
  dsimp only
  split_ifs <;> exact bus_frame_send_command_get_response env _ _ _ _ s

theorem bus_frame_fifo_info (env : Env) (a : Nat) (r : si4455_fifo_info_s)
    (s : si4455_port) : bus_frame s (si4455_fifo_info env a r s).2.2 := by
  unfold si4455_fifo_info
  dsimp only
  split_ifs <;> exact bus_frame_send_command_get_response env _ _ _ _ s

theorem bus_frame_rx (env : Env) (a b c d e f : Nat) (s : si4455_port) :
    bus_frame s (si4455_rx env a b c d e f s).2 :=
  bus_frame_send_command env _ _ s

theorem bus_frame_tx (env : Env) (a b c : Nat) (s : si4455_port) :
    bus_frame s (si4455_tx env a b c s).2 :=
  bus_frame_send_command env _ _ s

theorem bus_frame_change_state (env : Env) (a : Nat) (s : si4455_port) :
    bus_frame s (si4455_change_state env a s).2 :=
  bus_frame_send_command env _ _ s

theorem bus_frame_begin_tx (env : Env) (ch : Nat) (l : Int) (d : List Nat) (s : si4455_port) :
    bus_frame s (si4455_begin_tx env ch l d s).2 := by
  have h1 := bus_frame_get_int_status env 0 0 0 int_status_zero s
  have h2 := bus_frame_trans h1 (bus_frame_fifo_info env SI4455_CMD_FIFO_INFO_ARG_TX_BIT
    fifo_info_zero (si4455_get_int_status env 0 0 0 int_status_zero s).2.2)
  have h3 := bus_frame_trans h2 (bus_frame_write_data env SI4455_CMD_ID_WRITE_TX_FIFO false
    (l.toNat % 65536) d _)
  have h4 := bus_frame_trans h3 (bus_frame_tx env ch 0x10 l.toNat _)
  unfold si4455_begin_tx si4455_write_tx_fifo
  dsimp only
  split_ifs
  all_goals first
    | exact bus_frame_refl s
    | exact h1
    | exact h2
    | exact h3
    | exact h4

theorem bus_frame_end_tx (env : Env) (s : si4455_port) :
    bus_frame s (si4455_end_tx env s).2 := by
  unfold si4455_end_tx
  dsimp only
  split_ifs <;> exact bus_frame_get_int_status env 0 0 0 int_status_zero s

theorem bus_frame_begin_rx (env : Env) (ch l : Nat) (s : si4455_port) :
    bus_frame s (si4455_begin_rx env ch l s).2 := by
  have h1 := bus_frame_get_int_status env 0 0 0 int_status_zero s
  have h2 := bus_frame_trans h1 (bus_frame_fifo_info env SI4455_CMD_FIFO_INFO_ARG_RX_BIT
    fifo_info_zero (si4455_get_int_status env 0 0 0 int_status_zero s).2.2)
  have h3 := bus_frame_trans h2 (bus_frame_rx env ch 0x00 l
    SI4455_CMD_START_RX_RXTIMEOUT_STATE_RX SI4455_CMD_START_RX_RXVALID_STATE_RX
    SI4455_CMD_START_RX_RXINVALID_STATE_RX _)
  unfold si4455_begin_rx
  dsimp only
  split_ifs
  all_goals first
    | exact h1
    | exact h2
    | exact h3

theorem bus_frame_end_rx (env : Env) (l : Nat) (d : List Nat) (s : si4455_port) :
    bus_frame s (si4455_end_rx env l d s).2.2 :=
  bus_frame_read_data env _ _ _ _ s

/-- Whatever the configuration loader does, it changes the state through the
bus transport only. -/
theorem bus_frame_configure_loop (env : Env) :
    ∀ (fuel : Nat) (data : List Nat) (ret : Int) (i : si4455_int_status) (s : si4455_port)
      (r : Int × si4455_int_status × si4455_port),
      configure_loop env fuel data ret i s = some r → bus_frame s r.2.2 := by
  intro fuel
  induction fuel with
  | zero => intro data ret i s r h; simp [configure_loop] at h
  | succ fuel ih =>
    intro data ret i s r h
    unfold configure_loop at h
    split at h
    · simp at h
    · simp only [Option.some.injEq] at h
      subst h
      exact bus_frame_refl s
    · split at h
      · simp at h
      · dsimp only at h
        split_ifs at h
        all_goals first
          | (simp only [Option.some.injEq] at h
             subst h
             first
               | exact bus_frame_refl s
               | exact bus_frame_write_data env _ _ _ _ s
               | exact bus_frame_send_command_get_response env _ _ _ _ s
               | exact bus_frame_trans (bus_frame_send_command_get_response env _ _ _ _ s)
                   (bus_frame_get_int_status env _ _ _ _ _))
          | exact bus_frame_trans (bus_frame_write_data env _ _ _ _ s) (ih _ _ _ _ _ h)
          | exact bus_frame_trans
              (bus_frame_trans (bus_frame_send_command_get_response env _ _ _ _ s)
                (bus_frame_get_int_status env _ _ _ _ _)) (ih _ _ _ _ _ h)

theorem bus_frame_configure (env : Env) (data : List Nat) (s : si4455_port)
    (r : Int × si4455_port) (h : si4455_configure env data s = some r) :
    bus_frame s r.2 := by
  unfold si4455_configure at h
  rcases hl : configure_loop env data.length data 0 int_status_zero s with _ | x
  · simp [hl] at h
  · simp [hl] at h
    subst h
    exact bus_frame_configure_loop env _ _ _ _ _ _ hl

/-! ## One iteration of the configuration loader -/

/-- The loader stops with the current `ret` at a zero length byte, whatever
follows it. -/
theorem configure_loop_zero (env : Env) (fuel : Nat) (junk : List Nat) (ret : Int)
    (i : si4455_int_status) (s : si4455_port) :
    configure_loop env (fuel + 1) (0 :: junk) ret i s = some (ret, i, s) := by
  unfold configure_loop
  rfl

/-- One iteration of the loader on a record with a nonzero length byte. -/
theorem configure_loop_step (env : Env) (fuel count cmd : Nat) (payload : List Nat)
    (ret : Int) (i : si4455_int_status) (s : si4455_port) (h0 : count ≠ 0) :
    configure_loop env (fuel + 1) (count :: cmd :: payload) ret i s =
      if 16 < count ∧ count ≤ 128 ∧ cmd = SI4455_CMD_ID_WRITE_TX_FIFO then
        if payload.length < count - 1 then none
        else if (si4455_write_data env SI4455_CMD_ID_WRITE_TX_FIFO true (count - 1) payload s).1 ≠ 0
        then some ((si4455_write_data env SI4455_CMD_ID_WRITE_TX_FIFO true (count - 1) payload s).1,
          i, (si4455_write_data env SI4455_CMD_ID_WRITE_TX_FIFO true (count - 1) payload s).2)
        else configure_loop env fuel (payload.drop (count - 1))
          (si4455_write_data env SI4455_CMD_ID_WRITE_TX_FIFO true (count - 1) payload s).1 i
          (si4455_write_data env SI4455_CMD_ID_WRITE_TX_FIFO true (count - 1) payload s).2
      else if 16 < count then some (-EINVAL, i, s)
      else if (cmd :: payload).length < count then none
      else
        if (si4455_send_command_get_response env count ((cmd :: payload).take count) 1
            (some [0]) s).1 ≠ 0 then
          some ((si4455_send_command_get_response env count ((cmd :: payload).take count) 1
            (some [0]) s).1, i,
            (si4455_send_command_get_response env count ((cmd :: payload).take count) 1
              (some [0]) s).2.2)
        else if byte_at ((cmd :: payload).take count) 0 = SI4455_CMD_ID_EZCONFIG_CHECK ∧
            byte_at ((si4455_send_command_get_response env count ((cmd :: payload).take count) 1
              (some [0]) s).2.1.getD []) 0 ≠ 0 then
          some (- EIO_CODE, i,
            (si4455_send_command_get_response env count ((cmd :: payload).take count) 1
              (some [0]) s).2.2)
        else if (si4455_get_int_status env 0 0 0 i
            (si4455_send_command_get_response env count ((cmd :: payload).take count) 1
              (some [0]) s).2.2).2.1.chip_pend &&& SI4455_CMD_GET_CHIP_STATUS_ERROR_PEND_MASK ≠ 0
        then
          some (- EIO_CODE,
            (si4455_get_int_status env 0 0 0 i
              (si4455_send_command_get_response env count ((cmd :: payload).take count) 1
                (some [0]) s).2.2).2.1,
            (si4455_get_int_status env 0 0 0 i
              (si4455_send_command_get_response env count ((cmd :: payload).take count) 1
                (some [0]) s).2.2).2.2)
        else configure_loop env fuel ((cmd :: payload).drop count)
          (si4455_send_command_get_response env count ((cmd :: payload).take count) 1
            (some [0]) s).1
          (si4455_get_int_status env 0 0 0 i
            (si4455_send_command_get_response env count ((cmd :: payload).take count) 1
              (some [0]) s).2.2).2.1
          (si4455_get_int_status env 0 0 0 i
            (si4455_send_command_get_response env count ((cmd :: payload).take count) 1
              (some [0]) s).2.2).2.2 := by
  conv_lhs => unfold configure_loop
  split
  · rename_i h; simp at h
  · rename_i h
    simp only [List.cons.injEq] at h
    exact absurd h.1 h0
  · rename_i h
    simp only [List.cons.injEq] at h
    obtain ⟨rfl, rfl⟩ := h
    rfl

theorem take_length_append (r tail : List Nat) : (r ++ tail).take r.length = r := by
  simp

theorem drop_length_append (r tail : List Nat) : (r ++ tail).drop r.length = tail := by
  simp

/-- The loader on a command record of 1 to 16 bytes: it sends the record,
fetches the one-byte reply, checks it for an EZConfig check, then queries the
interrupt status and checks the chip-error bit. -/
theorem configure_loop_short (env : Env) (fuel : Nat) (r tail : List Nat) (ret : Int)
    (i : si4455_int_status) (s : si4455_port) (h1 : 1 ≤ r.length) (h16 : r.length ≤ 16) :
    configure_loop env (fuel + 1) (r.length :: (r ++ tail)) ret i s =
      if (si4455_send_command_get_response env r.length r 1 (some [0]) s).1 ≠ 0 then
        some ((si4455_send_command_get_response env r.length r 1 (some [0]) s).1, i,
          (si4455_send_command_get_response env r.length r 1 (some [0]) s).2.2)
      else if byte_at r 0 = SI4455_CMD_ID_EZCONFIG_CHECK ∧
          byte_at ((si4455_send_command_get_response env r.length r 1
            (some [0]) s).2.1.getD []) 0 ≠ 0 then
        some (- EIO_CODE, i, (si4455_send_command_get_response env r.length r 1 (some [0]) s).2.2)
      else if (si4455_get_int_status env 0 0 0 i
          (si4455_send_command_get_response env r.length r 1 (some [0]) s).2.2).2.1.chip_pend &&&
            SI4455_CMD_GET_CHIP_STATUS_ERROR_PEND_MASK ≠ 0 then
        some (- EIO_CODE,
          (si4455_get_int_status env 0 0 0 i
            (si4455_send_command_get_response env r.length r 1 (some [0]) s).2.2).2.1,
          (si4455_get_int_status env 0 0 0 i
            (si4455_send_command_get_response env r.length r 1 (some [0]) s).2.2).2.2)
      else configure_loop env fuel tail
        (si4455_send_command_get_response env r.length r 1 (some [0]) s).1
        (si4455_get_int_status env 0 0 0 i
          (si4455_send_command_get_response env r.length r 1 (some [0]) s).2.2).2.1
        (si4455_get_int_status env 0 0 0 i
          (si4455_send_command_get_response env r.length r 1 (some [0]) s).2.2).2.2 := by
  cases r with
  | nil => simp at h1
  | cons c p =>
    have hc : (c :: p).length ≠ 0 := by simp
    have e : c :: p ++ tail = c :: (p ++ tail) := rfl
    rw [e, configure_loop_step env fuel _ c (p ++ tail) ret i s hc]
    have h17 : ¬ (16 < (c :: p).length) := by omega
    have hlen : ¬ ((c :: (p ++ tail)).length < (c :: p).length) := by simp
    have ht : (c :: (p ++ tail)).take (c :: p).length = c :: p := by
      rw [← e]; exact take_length_append _ _
    have hd : (c :: (p ++ tail)).drop (c :: p).length = tail := by
      rw [← e]; exact drop_length_append _ _
    rw [if_neg (fun h => h17 h.1), if_neg h17, if_neg hlen, ht, hd]

/-- The loader on a record longer than 16 bytes that is not a FIFO-write
record of at most 128 bytes: command too large, nothing is sent. -/
theorem configure_loop_too_large (env : Env) (fuel : Nat) (r tail : List Nat) (ret : Int)
    (i : si4455_int_status) (s : si4455_port) (h16 : 16 < r.length)
    (hns : ¬ is_stream_record r) :
    configure_loop env (fuel + 1) (r.length :: (r ++ tail)) ret i s = some (-EINVAL, i, s) := by
  cases r with
  | nil => simp at h16
  | cons c p =>
    have hc : (c :: p).length ≠ 0 := by simp
    have e : c :: p ++ tail = c :: (p ++ tail) := rfl
    rw [e, configure_loop_step env fuel _ c (p ++ tail) ret i s hc]
    have hn : ¬ (16 < (c :: p).length ∧ (c :: p).length ≤ 128 ∧
        c = SI4455_CMD_ID_WRITE_TX_FIFO) := by
      intro h
      apply hns
      exact ⟨h.1, h.2.1, by simpa [byte_at] using h.2.2⟩
    rw [if_neg hn, if_pos h16]

/-- The data `si4455_write_data` sends are the first `length` bytes of the
caller's buffer. -/
theorem write_data_take (env : Env) (c : Nat) (poll : Bool) (l : Nat) (d : List Nat)
    (s : si4455_port) :
    si4455_write_data env c poll l d s = si4455_write_data env c poll l (d.take l) s := by
  simp [si4455_write_data, List.take_take]

/-- The loader on a FIFO-write record of 17 to 128 bytes: the payload is
streamed with one readiness-polled write, and no status query follows. -/
theorem configure_loop_stream (env : Env) (fuel : Nat) (r tail : List Nat) (ret : Int)
    (i : si4455_int_status) (s : si4455_port) (hs : is_stream_record r) :
    configure_loop env (fuel + 1) (r.length :: (r ++ tail)) ret i s =
      if (si4455_write_data env SI4455_CMD_ID_WRITE_TX_FIFO true (r.length - 1) r.tail s).1 ≠ 0
      then
        some ((si4455_write_data env SI4455_CMD_ID_WRITE_TX_FIFO true (r.length - 1) r.tail s).1,
          i, (si4455_write_data env SI4455_CMD_ID_WRITE_TX_FIFO true (r.length - 1) r.tail s).2)
      else configure_loop env fuel tail
        (si4455_write_data env SI4455_CMD_ID_WRITE_TX_FIFO true (r.length - 1) r.tail s).1 i
        (si4455_write_data env SI4455_CMD_ID_WRITE_TX_FIFO true (r.length - 1) r.tail s).2 := by
  obtain ⟨h16, h128, hop⟩ := hs
  cases r with
  | nil => simp at h16
  | cons c p =>
    have hc : (c :: p).length ≠ 0 := by simp
    have e : c :: p ++ tail = c :: (p ++ tail) := rfl
    rw [e, configure_loop_step env fuel _ c (p ++ tail) ret i s hc]
    have hy : 16 < (c :: p).length ∧ (c :: p).length ≤ 128 ∧
        c = SI4455_CMD_ID_WRITE_TX_FIFO := ⟨h16, h128, by simpa [byte_at] using hop⟩
    have hl : (c :: p).length - 1 = p.length := by simp
    have hlen : ¬ ((p ++ tail).length < p.length) := by simp
    rw [if_pos hy, hl, if_neg hlen, write_data_take env _ true p.length (p ++ tail) s,
      take_length_append, drop_length_append]
    simp only [List.tail_cons]

/-! ## The loader needs no more fuel than the image is long -/

/-- The length of the image is fuel enough for the loader: more fuel does not
change the outcome. -/
theorem configure_loop_fuel (env : Env) :
    ∀ (fuel : Nat) (data : List Nat) (ret : Int) (i : si4455_int_status) (s : si4455_port),
      data.length ≤ fuel → ∀ extra,
        configure_loop env (fuel + extra) data ret i s = configure_loop env fuel data ret i s := by
  intro fuel
  induction fuel with
  | zero =>
    intro data ret i s hl extra
    have hd : data = [] := List.length_eq_zero.mp (by omega)
    subst hd
    cases extra with
    | zero => rfl
    | succ e =>
      show configure_loop env (0 + (e + 1)) [] ret i s = _
      rw [Nat.zero_add]
      unfold configure_loop
      rfl
  | succ fuel ih =>
    intro data ret i s hl extra
    have hf : fuel + 1 + extra = (fuel + extra) + 1 := by omega
    rw [hf]
    match data, hl with
    | [], _ =>
      unfold configure_loop
      rfl
    | [c], _ =>
      by_cases hc : c = 0
      · subst hc
        rw [configure_loop_zero, configure_loop_zero]
      · unfold configure_loop
        simp
    | c :: cmd :: payload, hl =>
      by_cases hc : c = 0
      · subst hc
        rw [configure_loop_zero, configure_loop_zero]
      · have hp : payload.length ≤ fuel := by
          simp at hl
          omega
        rw [configure_loop_step env _ c cmd payload ret i s hc,
          configure_loop_step env _ c cmd payload ret i s hc]
        rw [ih (payload.drop (c - 1)) _ i _ (by simp; omega) extra]
        have hdrop : ((cmd :: payload).drop c).length ≤ fuel := by
          have hc1 : 1 ≤ c := by omega
          simp
          omega
        rw [ih ((cmd :: payload).drop c) _ _ _ hdrop extra]

/-! ## A bus on which every operation succeeds -/

theorem Sent_refl (s : si4455_port) : Sent s s [] := by
  refine ⟨?_, List.prefix_refl _, ?_⟩
  · cases s; rfl
  · simp

theorem Sent_trans {s1 s2 s3 : si4455_port} {f g : List (List Nat)} (h12 : Sent s1 s2 f)
    (h23 : Sent s2 s3 g) : Sent s1 s3 (f ++ g) := by
  obtain ⟨a, p, b⟩ := h12
  obtain ⟨c, q, d⟩ := h23
  refine ⟨?_, List.IsPrefix.trans p q, ?_⟩
  · rw [c, a]
  · rw [d, b, List.append_assoc]

theorem writes_append (l1 l2 : List BusOp) : writes (l1 ++ l2) = writes l1 ++ writes l2 := by
  induction l1 with
  | nil => rfl
  | cons a l ih =>
    cases a <;> simp [writes, ih]

theorem writes_replicate_read (k n : Nat) : writes (List.replicate k (read_cmd_buff n)) = [] := by
  induction k with
  | zero => rfl
  | succ k ih =>
    rw [List.replicate_succ]
    show writes (List.replicate k (read_cmd_buff n)) = []
    exact ih

theorem Sent_after_polls (s : si4455_port) (n k : Nat) : Sent s (after_polls s n k) [] := by
  refine ⟨?_, List.prefix_append _ _, ?_⟩
  · cases s; rfl
  · simp [after_polls, writes_append, writes_replicate_read]

theorem Sent_spi_write (env : Env) (f : List Nat) (s : si4455_port) :
    Sent s (spi_write env f s).2 [f] := by
  refine ⟨?_, List.prefix_append _ _, ?_⟩
  · cases s; rfl
  · simp [spi_write, writes_append, writes]

theorem Sent_kzalloc (env : Env) (s : si4455_port) : Sent s (kzalloc env s).2 [] := by
  refine ⟨?_, List.prefix_refl _, ?_⟩
  · cases s; rfl
  · simp [kzalloc]

theorem Sent_bus_frame {s1 s2 : si4455_port} {f : List (List Nat)} (h : Sent s1 s2 f) :
    bus_frame s1 s2 := by
  obtain ⟨a, p, _⟩ := h
  refine ⟨?_, p⟩
  rw [a]

/-- On a bus on which every operation succeeds, consecutive status reads
reach a first ready one within the budget. -/
theorem BusOk.first_ready {env : Env} (ok : BusOk env) (h : List BusOp) (n : Nat) :
    ∃ k, k < 99 ∧
      (∀ j, j < k → (poll_reply env h n j).ret = 0 ∧ ¬ poll_ready (poll_reply env h n j)) ∧
      (poll_reply env h n k).ret = 0 ∧ poll_ready (poll_reply env h n k) := by
  classical
  have hex : ∃ k, poll_ready (poll_reply env h n k) := by
    obtain ⟨k, _, hk⟩ := ok.ready h n
    exact ⟨k, hk⟩
  refine ⟨Nat.find hex, ?_, ?_, ok.ret _, Nat.find_spec hex⟩
  · obtain ⟨k, hk99, hk⟩ := ok.ready h n
    exact lt_of_le_of_lt (Nat.find_min' hex hk) hk99
  · intro j hj
    exact ⟨ok.ret _, Nat.find_min hex hj⟩

theorem get_response_ok {env : Env} (ok : BusOk env) (n : Nat) (data : Option (List Nat))
    (s : si4455_port) (hd : n = 0 ∨ data.isSome) :
    ∃ k, poll_ready (poll_reply env s.log n k) ∧
      si4455_get_response env n data s =
        (0, (if 0 < n then some ((rx_bytes (poll_reply env s.log n k) (1 + n)).drop 1) else data),
          after_polls s n (k + 1)) := by
  obtain ⟨k, hk, hb, hr, hrdy⟩ := ok.first_ready s.log n
  exact ⟨k, hrdy, get_response_ready env n data s hd (ok.alloc _) k hk hb hr hrdy⟩

theorem poll_cts_ok {env : Env} (ok : BusOk env) (s : si4455_port) :
    ∃ k, si4455_poll_cts env s = (0, after_polls s 0 (k + 1)) := by
  obtain ⟨k, _, h⟩ := get_response_ok ok 0 none s (Or.inl rfl)
  refine ⟨k, ?_⟩
  unfold si4455_poll_cts
  simp [h, EIO_CODE]

theorem send_command_ok {env : Env} (ok : BusOk env) (l : Nat) (d : List Nat)
    (s : si4455_port) :
    ∃ h s2, si4455_send_command env l d s = (0, s2) ∧ Sent s s2 [d.take l] ∧
      s2.log = h ++ [BusOp.write (d.take l)] := by
  obtain ⟨k, hk⟩ := poll_cts_ok ok s
  refine ⟨(after_polls s 0 (k + 1)).log, (spi_write env (d.take l) (after_polls s 0 (k + 1))).2,
    ?_, ?_, ?_⟩
  · unfold si4455_send_command
    simp [hk, spi_write, ok.ret]
  · simpa using Sent_trans (Sent_after_polls s 0 (k + 1)) (Sent_spi_write env (d.take l) _)
  · simp [spi_write]

theorem send_command_get_response_ok {env : Env} (ok : BusOk env) (l : Nat) (d : List Nat)
    (n : Nat) (di : Option (List Nat)) (s : si4455_port) (hd : n = 0 ∨ di.isSome) :
    ∃ h k s2, poll_ready (poll_reply env (h ++ [BusOp.write (d.take l)]) n k) ∧
      si4455_send_command_get_response env l d n di s =
        (0, (if 0 < n then
            some ((rx_bytes (poll_reply env (h ++ [BusOp.write (d.take l)]) n k) (1 + n)).drop 1)
          else di), s2) ∧
      Sent s s2 [d.take l] := by
  obtain ⟨h, s1, hc, hs, hlog⟩ := send_command_ok ok l d s
  obtain ⟨k, hrdy, hg⟩ := get_response_ok ok n di s1 hd
  refine ⟨h, k, after_polls s1 n (k + 1), ?_, ?_, ?_⟩
  · rw [← hlog]; exact hrdy
  · unfold si4455_send_command_get_response
    simp only [hc, ne_eq, not_true_eq_false, if_false, hg, hlog]
  · simpa using Sent_trans hs (Sent_after_polls s1 n (k + 1))

theorem write_data_ok {env : Env} (ok : BusOk env) (c : Nat) (poll : Bool) (l : Nat)
    (d : List Nat) (s : si4455_port) :
    ∃ s2, si4455_write_data env c poll l d s = (0, s2) ∧ Sent s s2 [(c % 256) :: d.take l] := by
  cases poll
  · refine ⟨(spi_write env ((c % 256) :: d.take l) (kzalloc env s).2).2, ?_, ?_⟩
    · simp [si4455_write_data, kzalloc, ok.alloc, spi_write, ok.ret]
    · simpa using Sent_trans (Sent_kzalloc env s) (Sent_spi_write env _ _)
  · obtain ⟨k, hk⟩ := poll_cts_ok ok s
    refine ⟨(spi_write env ((c % 256) :: d.take l) (kzalloc env (after_polls s 0 (k + 1))).2).2,
      ?_, ?_⟩
    · simp [si4455_write_data, hk, kzalloc, ok.alloc, spi_write, ok.ret]
    · simpa using Sent_trans (Sent_after_polls s 0 (k + 1))
        (Sent_trans (Sent_kzalloc env _) (Sent_spi_write env _ _))

theorem byte_at_drop_one (l : List Nat) (i : Nat) : byte_at (l.drop 1) i = byte_at l (i + 1) := by
  cases l with
  | nil => simp [byte_at]
  | cons a t => simp [byte_at, List.getD_eq_getElem?_getD]

theorem byte_at_tail (l : List Nat) (i : Nat) : byte_at l.tail i = byte_at l (i + 1) := by
  cases l with
  | nil => simp [byte_at]
  | cons a t => simp [byte_at, List.getD_eq_getElem?_getD]

theorem int_status_frame_take (a b c : Nat) :
    (int_status_frame a b c).take 4 = int_status_frame a b c := rfl

theorem get_int_status_ok {env : Env} (ok : BusOk env) (a b c : Nat) (r : si4455_int_status)
    (s : si4455_port) :
    ∃ h k r2 s2, poll_ready (poll_reply env (h ++ [BusOp.write (int_status_frame a b c)]) 8 k) ∧
      si4455_get_int_status env a b c r s = (0, r2, s2) ∧
      r2.chip_pend =
        byte_at (poll_reply env (h ++ [BusOp.write (int_status_frame a b c)]) 8 k).rx 7 % 256 ∧
      Sent s s2 [int_status_frame a b c] := by
  obtain ⟨h, k, s2, hrdy, hg, hs⟩ := send_command_get_response_ok ok 4 (int_status_frame a b c)
    SI4455_CMD_REPLY_COUNT_GET_INT_STATUS
    (some (List.replicate SI4455_CMD_REPLY_COUNT_GET_INT_STATUS 0)) s (Or.inr rfl)
  rw [int_status_frame_take] at hrdy hg hs
  refine ⟨h, k, (si4455_get_int_status env a b c r s).2.1, s2, hrdy, ?_, ?_, hs⟩
  · unfold si4455_get_int_status
    simp only [hg, ne_eq, not_true_eq_false, if_false]
  · unfold si4455_get_int_status
    simp only [hg, ne_eq, not_true_eq_false, if_false]
    simp [SI4455_CMD_REPLY_COUNT_GET_INT_STATUS, byte_at_tail, byte_at_rx_bytes]

theorem fifo_info_ok {env : Env} (ok : BusOk env) (a : Nat) (r : si4455_fifo_info_s)
    (s : si4455_port) :
    ∃ r2 s2, si4455_fifo_info env a r s = (0, r2, s2) ∧
      Sent s s2 [[SI4455_CMD_ID_FIFO_INFO, a % 256]] := by
  obtain ⟨h, k, s2, _, hg, hs⟩ := send_command_get_response_ok ok SI4455_CMD_ARG_COUNT_FIFO_INFO
    [SI4455_CMD_ID_FIFO_INFO, a % 256] SI4455_CMD_REPLY_COUNT_FIFO_INFO
    (some (List.replicate SI4455_CMD_REPLY_COUNT_FIFO_INFO 0)) s (Or.inr rfl)
  refine ⟨(si4455_fifo_info env a r s).2.1, s2, ?_, hs⟩
  unfold si4455_fifo_info
  simp only [hg, ne_eq, not_true_eq_false, if_false]

theorem tx_ok {env : Env} (ok : BusOk env) (ch cond l : Nat) (s : si4455_port) :
    ∃ s2, si4455_tx env ch cond l s = (0, s2) ∧
      Sent s s2 [(tx_frame s.part_info.rom_id ch cond l).take
        (if s.part_info.rom_id = 6 then 6 else 5)] := by
  obtain ⟨h, s2, hc, hs, _⟩ := send_command_ok ok
    (if s.part_info.rom_id = 6 then SI4455_CMD_ARG_COUNT_START_TX + 1
      else SI4455_CMD_ARG_COUNT_START_TX) (tx_frame s.part_info.rom_id ch cond l) s
  exact ⟨s2, hc, hs⟩

theorem rx_ok {env : Env} (ok : BusOk env) (ch cond l n1 n2 n3 : Nat) (s : si4455_port) :
    ∃ s2, si4455_rx env ch cond l n1 n2 n3 s = (0, s2) ∧
      Sent s s2 [rx_frame ch cond l n1 n2 n3] := by
  obtain ⟨h, s2, hc, hs, _⟩ := send_command_ok ok SI4455_CMD_ARG_COUNT_START_RX
    (rx_frame ch cond l n1 n2 n3) s
  exact ⟨s2, hc, hs⟩

theorem change_state_ok {env : Env} (ok : BusOk env) (st : Nat) (s : si4455_port) :
    ∃ s2, si4455_change_state env st s = (0, s2) ∧
      Sent s s2 [[SI4455_CMD_ID_CHANGE_STATE, st % 256]] := by
  obtain ⟨h, s2, hc, hs, _⟩ := send_command_ok ok SI4455_CMD_ARG_COUNT_CHANGE_STATE
    [SI4455_CMD_ID_CHANGE_STATE, st % 256] s
  exact ⟨s2, hc, hs⟩

/-- On a bus on which every operation succeeds, `si4455_begin_tx` with a
length in range returns 0 after the handshake queries, the FIFO write and the
start-transmit command. -/
theorem begin_tx_ok {env : Env} (ok : BusOk env) (ch : Nat) (l : Int) (d : List Nat)
    (s : si4455_port) (h0 : 0 ≤ l) (h64 : l ≤ 64) :
    ∃ s2, si4455_begin_tx env ch l d s = (0, s2) ∧
      Sent s s2 [int_status_frame 0 0 0,
        [SI4455_CMD_ID_FIFO_INFO, SI4455_CMD_FIFO_INFO_ARG_TX_BIT % 256],
        (SI4455_CMD_ID_WRITE_TX_FIFO % 256) :: d.take (l.toNat % 65536),
        (tx_frame s.part_info.rom_id ch 0x10 l.toNat).take
          (if s.part_info.rom_id = 6 then 6 else 5)] := by
  obtain ⟨_, _, r1, s1, _, hi, _, hs1⟩ := get_int_status_ok ok 0 0 0 int_status_zero s
  obtain ⟨r2, s2, hf, hs2⟩ := fifo_info_ok ok SI4455_CMD_FIFO_INFO_ARG_TX_BIT fifo_info_zero s1
  obtain ⟨s3, hw, hs3⟩ := write_data_ok ok SI4455_CMD_ID_WRITE_TX_FIFO false
    (l.toNat % 65536) d s2
  obtain ⟨s4, ht, hs4⟩ := tx_ok ok ch 0x10 l.toNat s3
  have hrom : s3.part_info.rom_id = s.part_info.rom_id := by
    have e := Sent_trans (Sent_trans hs1 hs2) hs3
    rw [e.1]
  rw [hrom] at hs4
  refine ⟨s4, ?_, ?_⟩
  · unfold si4455_begin_tx si4455_write_tx_fifo
    have hr : ¬ (l > (SI4455_FIFO_SIZE : Int) ∨ l < 0) := by
      simp only [SI4455_FIFO_SIZE]; omega
    simp only [hr, if_false, hi, hf, hw, ht, ne_eq, not_true_eq_false]
  · simpa using Sent_trans (Sent_trans (Sent_trans hs1 hs2) hs3) hs4

/-! ## Claims C1 and C9: the length check of begin_tx and the readiness poll -/

/-- When the buffer for the reply is allocated, `si4455_get_response` makes at
least one status read. -/
theorem get_response_first_read (env : Env) (n : Nat) (data : Option (List Nat))
    (s : si4455_port) (hd : n = 0 ∨ data.isSome) (ha : env.alloc s.allocs = true) :
    ∃ t, (si4455_get_response env n data s).2.2.log = s.log ++ read_cmd_buff n :: t := by
  have hd2 : ¬ (0 < n ∧ data.isNone = true) := by
    rcases hd with h | h
    · omega
    · cases data <;> simp_all
  have key : ∃ t, (get_response_loop env n data 100 0 (kzalloc env s).2).2.2.2.log =
      s.log ++ read_cmd_buff n :: t := by
    rw [get_response_loop]
    dsimp only
    have h1 : (spi_sync_transfer env [SI4455_CMD_ID_READ_CMD_BUFF] (1 + n) (kzalloc env s).2).2.2.log
        = s.log ++ [read_cmd_buff n] := rfl
    split_ifs
    · exact ⟨[], by simp [h1]⟩
    · exact ⟨[], by simp [h1]⟩
    · exact ⟨[], by simp [h1]⟩
    · obtain ⟨t, ht⟩ := (bus_frame_get_response_loop env n data 99
        (spi_sync_transfer env [SI4455_CMD_ID_READ_CMD_BUFF] (1 + n) (kzalloc env s).2).1
        (spi_sync_transfer env [SI4455_CMD_ID_READ_CMD_BUFF] (1 + n) (kzalloc env s).2).2.2).2
      exact ⟨t, by rw [← ht, h1]; simp⟩
    · omega
  unfold si4455_get_response
  rw [if_neg hd2]
  dsimp only
  have hk : (kzalloc env s).1 = true := ha
  simp only [hk, Bool.true_eq_false, if_false]
  split_ifs <;> exact key

/-- The first thing `si4455_begin_tx` does with a length in range is the
readiness poll of the InterruptStatus query: it either fails to allocate the
poll buffer and returns `-ENOMEM`, or issues a status read. -/
theorem begin_tx_in_range (env : Env) (ch : Nat) (l : Int) (d : List Nat) (s : si4455_port)
    (h0 : 0 ≤ l) (h64 : l ≤ 64) :
    (si4455_begin_tx env ch l d s).1 = -ENOMEM ∨
      ∃ t, (si4455_begin_tx env ch l d s).2.log = s.log ++ read_cmd_buff 0 :: t := by
  have hr : ¬ (l > (SI4455_FIFO_SIZE : Int) ∨ l < 0) := by
    simp only [SI4455_FIFO_SIZE]; omega
  by_cases ha : env.alloc s.allocs = true
  · right
    obtain ⟨t, ht⟩ := get_response_first_read env 0 none s (Or.inl rfl) ha
    have hp : ∃ t, (si4455_poll_cts env s).2.log = s.log ++ read_cmd_buff 0 :: t := by
      unfold si4455_poll_cts
      dsimp only
      split_ifs <;> exact ⟨t, ht⟩
    obtain ⟨t1, ht1⟩ := hp
    have ext : ∀ s2, bus_frame (si4455_poll_cts env s).2 s2 →
        ∃ t, s2.log = s.log ++ read_cmd_buff 0 :: t := by
      intro s2 h
      obtain ⟨u, hu⟩ := h.2
      exact ⟨t1 ++ u, by rw [← hu, ht1]; simp⟩
    have hsc : ∀ ln dd, ∃ t, (si4455_send_command env ln dd s).2.log =
        s.log ++ read_cmd_buff 0 :: t := by
      intro ln dd
      unfold si4455_send_command
      dsimp only
      split_ifs
      · exact ⟨t1, ht1⟩
      · exact ext _ (bus_frame_spi_write env _ _)
    have hgi : ∃ t, (si4455_get_int_status env 0 0 0 int_status_zero s).2.2.log =
        s.log ++ read_cmd_buff 0 :: t := by
      obtain ⟨t2, ht2⟩ := hsc 4 (int_status_frame 0 0 0)
      have ext2 : ∀ s2, bus_frame (si4455_send_command env 4 (int_status_frame 0 0 0) s).2 s2 →
          ∃ t, s2.log = s.log ++ read_cmd_buff 0 :: t := by
        intro s2 h
        obtain ⟨u, hu⟩ := h.2
        exact ⟨t2 ++ u, by rw [← hu, ht2]; simp⟩
      have : ∃ t, (si4455_send_command_get_response env 4 (int_status_frame 0 0 0)
          SI4455_CMD_REPLY_COUNT_GET_INT_STATUS
          (some (List.replicate SI4455_CMD_REPLY_COUNT_GET_INT_STATUS 0)) s).2.2.log =
          s.log ++ read_cmd_buff 0 :: t := by
        unfold si4455_send_command_get_response
        dsimp only
        split_ifs
        · exact ⟨t2, ht2⟩
        · exact ext2 _ (bus_frame_get_response env _ _ _)
      unfold si4455_get_int_status
      dsimp only
      split_ifs <;> exact this
    obtain ⟨t3, ht3⟩ := hgi
    have ext3 : ∀ s2, bus_frame (si4455_get_int_status env 0 0 0 int_status_zero s).2.2 s2 →
        ∃ t, s2.log = s.log ++ read_cmd_buff 0 :: t := by
      intro s2 h
      obtain ⟨u, hu⟩ := h.2
      exact ⟨t3 ++ u, by rw [← hu, ht3]; simp⟩
    have h2 := bus_frame_fifo_info env SI4455_CMD_FIFO_INFO_ARG_TX_BIT
      fifo_info_zero (si4455_get_int_status env 0 0 0 int_status_zero s).2.2
    have h3 := bus_frame_trans h2 (bus_frame_write_data env SI4455_CMD_ID_WRITE_TX_FIFO false
      (l.toNat % 65536) d _)
    have h4 := bus_frame_trans h3 (bus_frame_tx env ch 0x10 l.toNat _)
    unfold si4455_begin_tx si4455_write_tx_fifo
    rw [if_neg hr]
    dsimp only
    split_ifs
    all_goals first
      | exact ⟨t3, ht3⟩
      | exact ext3 _ h2
      | exact ext3 _ h3
      | exact ext3 _ h4
  · left
    have ha2 : env.alloc s.allocs = false := by simpa using ha
    unfold si4455_begin_tx
    rw [if_neg hr]
    simp [si4455_get_int_status, si4455_send_command_get_response, si4455_send_command,
      si4455_poll_cts, si4455_get_response, kzalloc, ha2, ENOMEM, EIO_CODE]

/-- C1: `si4455_begin_tx` returns `-EINVAL` with the bus log (indeed the whole
state) untouched exactly when `length < 0` or `length > 64`; on a bus on which
every operation succeeds it returns 0 for every length from 0 to 64.  In
particular length 65 is rejected and length 0 is accepted. -/
theorem c1_begin_tx_length_check (env : Env) (channel : Nat) (length : Int) (data : List Nat)
    (s : si4455_port) :
    (((si4455_begin_tx env channel length data s).1 = -EINVAL ∧
        (si4455_begin_tx env channel length data s).2.log = s.log) ↔
      (length < 0 ∨ length > 64)) ∧
    ((length < 0 ∨ length > 64) → si4455_begin_tx env channel length data s = (-EINVAL, s)) ∧
    (BusOk env → 0 ≤ length → length ≤ 64 →
      (si4455_begin_tx env channel length data s).1 = 0) ∧
    si4455_begin_tx env channel 65 data s = (-EINVAL, s) ∧
    (BusOk env → (si4455_begin_tx env channel 0 data s).1 = 0) := by
  have hout : ∀ l : Int, (l < 0 ∨ l > 64) →
      si4455_begin_tx env channel l data s = (-EINVAL, s) := by
    intro l h
    have hr : (l > (SI4455_FIFO_SIZE : Int) ∨ l < 0) := by
      simp only [SI4455_FIFO_SIZE]; omega
    unfold si4455_begin_tx
    rw [if_pos hr]
  have hok : ∀ l : Int, BusOk env → 0 ≤ l → l ≤ 64 →
      (si4455_begin_tx env channel l data s).1 = 0 := by
    intro l ok h0 h64
    obtain ⟨s2, h, _⟩ := begin_tx_ok ok channel l data s h0 h64
    rw [h]
  refine ⟨⟨?_, ?_⟩, hout length, hok length, hout 65 (by omega), fun ok => hok 0 ok (by omega) (by omega)⟩
  · rintro ⟨hret, hlog⟩
    by_contra hcon
    have h0 : 0 ≤ length := by omega
    have h64 : length ≤ 64 := by omega
    rcases begin_tx_in_range env channel length data s h0 h64 with h | ⟨t, ht⟩
    · rw [h] at hret
      simp [ENOMEM, EINVAL] at hret
    · rw [ht] at hlog
      simp at hlog
  · intro h
    rw [hout length h]
    exact ⟨rfl, rfl⟩

theorem ready_env_ok : BusOk ready_env :=
  ⟨fun _ => rfl, fun _ => rfl, fun _ _ => ⟨0, by omega, rfl⟩⟩

/-- Witness of C1 on the always-ready chip: a full 64-byte payload and the
empty payload are both accepted. -/
theorem c1_begin_tx_witness :
    BusOk ready_env ∧
    (si4455_begin_tx ready_env 3 64 (List.replicate 64 0) zero_port).1 = 0 ∧
    (si4455_begin_tx ready_env 3 0 [] zero_port).1 = 0 :=
  ⟨ready_env_ok,
   (c1_begin_tx_length_check ready_env 3 64 (List.replicate 64 0) zero_port).2.2.1
     ready_env_ok (by decide) (by decide),
   (c1_begin_tx_length_check ready_env 3 0 [] zero_port).2.2.2.2 ready_env_ok⟩

/-- C9: when the poll buffer is allocated, and each of the 99 status reads of
the retry budget succeeds as a transfer but shows a first byte other than
`0xFF`, `si4455_poll_cts` stops after exactly these 99 reads, returns the
timeout error (errno 5, negated), increments the 32-bit counter
`cts_error_count` by one and sets `cts_error`.  When instead the `k`-th read
(`k < 99`) is the first to show the sentinel and none before it fails, it
returns 0 after `k + 1` reads and leaves `cts_error_count` and `cts_error`
(and every other field but the bus log and the allocation count) as they
were. -/
theorem c9_poll_cts_timeout (env : Env) (s : si4455_port)
    (ha : env.alloc s.allocs = true) :
    ((∀ k, k < 99 → (poll_reply env s.log 0 k).ret = 0 ∧
        ¬ poll_ready (poll_reply env s.log 0 k)) →
      (si4455_poll_cts env s).1 = - EIO_CODE ∧
      (si4455_poll_cts env s).2.log = s.log ++ List.replicate 99 (read_cmd_buff 0) ∧
      (si4455_poll_cts env s).2.cts_error_count = (s.cts_error_count + 1) % 2 ^ 32 ∧
      (s.cts_error_count + 1 < 2 ^ 32 →
        (si4455_poll_cts env s).2.cts_error_count = s.cts_error_count + 1) ∧
      (si4455_poll_cts env s).2.cts_error = true) ∧
    (∀ k, k < 99 →
      (∀ j, j < k → (poll_reply env s.log 0 j).ret = 0 ∧
        ¬ poll_ready (poll_reply env s.log 0 j)) →
      (poll_reply env s.log 0 k).ret = 0 → poll_ready (poll_reply env s.log 0 k) →
      si4455_poll_cts env s = (0, after_polls s 0 (k + 1)) ∧
      (si4455_poll_cts env s).2.log = s.log ++ List.replicate (k + 1) (read_cmd_buff 0) ∧
      (si4455_poll_cts env s).2.cts_error_count = s.cts_error_count ∧
      (si4455_poll_cts env s).2.cts_error = s.cts_error) := by
  constructor
  · intro h
    have hg := get_response_timeout env 0 none s (Or.inl rfl) ha h
    have hp : si4455_poll_cts env s = (- EIO_CODE,
        { after_polls s 0 99 with
          cts_error_count := (s.cts_error_count + 1) % 2 ^ 32
          cts_error := true }) := by
      unfold si4455_poll_cts
      simp [hg, after_polls]
    rw [hp]
    refine ⟨rfl, rfl, rfl, ?_, rfl⟩
    intro hlt
    exact Nat.mod_eq_of_lt hlt
  · intro k hk hb hr hrdy
    have hg := get_response_ready env 0 none s (Or.inl rfl) ha k hk hb hr hrdy
    have hp : si4455_poll_cts env s = (0, after_polls s 0 (k + 1)) := by
      unfold si4455_poll_cts
      simp [hg, EIO_CODE]
    rw [hp]
    exact ⟨rfl, rfl, rfl, rfl⟩

/-- Witness of C9: on a chip that never reports ready the poll times out after
99 reads and flags the bus error; on the always-ready chip it succeeds at the
first read and flags nothing. -/
theorem c9_poll_cts_witness :
    ((si4455_poll_cts busy_env zero_port).1 = - EIO_CODE ∧
      (si4455_poll_cts busy_env zero_port).2.log = List.replicate 99 (read_cmd_buff 0) ∧
      (si4455_poll_cts busy_env zero_port).2.cts_error_count = 1 ∧
      (si4455_poll_cts busy_env zero_port).2.cts_error = true) ∧
    ((si4455_poll_cts ready_env zero_port).1 = 0 ∧
      (si4455_poll_cts ready_env zero_port).2.cts_error_count = 0 ∧
      (si4455_poll_cts ready_env zero_port).2.cts_error = false) := by
  have hb := (c9_poll_cts_timeout busy_env zero_port rfl).1
    (fun _ _ => ⟨rfl, by simp [poll_ready, poll_reply, busy_env, byte_at]⟩)
  have hr := (c9_poll_cts_timeout ready_env zero_port rfl).2 0 (by omega)
    (fun j hj => absurd hj (by omega)) rfl rfl
  refine ⟨⟨hb.1, ?_, ?_, hb.2.2.2.2⟩, ?_, ?_, ?_⟩
  · simpa [zero_port] using hb.2.1
  · simpa [zero_port] using hb.2.2.1
  · rw [hr.1]
  · rw [hr.2.2.1]; rfl
  · rw [hr.2.2.2]; rfl

/-! ## Claim C2: the tail advance of the packet-sent handling -/

theorem c2_resized_reachable : Reachable sent_env c2_resized := by
  have hp : si4455_probe sent_env { probe_ok_input with dt_package_size := some 4 } zero_port =
      some ((si4455_probe sent_env { probe_ok_input with dt_package_size := some 4 }
        zero_port).getD (0, zero_port)) := by
    have hs : (si4455_probe sent_env { probe_ok_input with dt_package_size := some 4 }
        zero_port).isSome = true := by decide
    cases h : si4455_probe sent_env { probe_ok_input with dt_package_size := some 4 }
        zero_port with
    | none => rw [h] at hs; exact absurd hs (by decide)
    | some r => rfl
  have h1 := Reachable.step _ _ Reachable.init (Step.probe _ zero_port _ hp)
  have h2 := Reachable.step _ _ h1 (Step.startup _)
  have h3 := Reachable.step _ _ h2 (Step.uart_write 0x41 _)
  have h4 := Reachable.step _ _ h3 (Step.uart_write 0x42 _)
  have h5 := Reachable.step _ _ h4 (Step.uart_write 0x43 _)
  have h6 := Reachable.step _ _ h5 (Step.uart_write 0x44 _)
  have h7 := Reachable.step _ _ h6 (Step.do_work _)
  exact Reachable.step _ _ h7 (Step.package_size_store (0, 8) 2 _)

/-- C2, evaluated on a reachable state: after bring-up in fixed mode with
packages of 4 bytes, 4 queued bytes are sent (recorded `tx_pending_size = 4`,
tail 0, head 4); the operator then sets the package size to 8; the
packet-sent handling moves the queue tail to 8, past the head, instead of by
the 4 bytes recorded.  Through the interrupt dispatcher the same happens, and
the Reconciler that follows finds 4092 bytes "pending" and starts a
transmission of 8 bytes that were never queued. -/
theorem c2_tail_advance_ignores_recorded_size :
    Reachable sent_env c2_resized ∧
    c2_armed.tx_pending = true ∧ c2_armed.tx_pending_size = 4 ∧
    c2_armed.xmit.tail = 0 ∧ c2_armed.xmit.head = 4 ∧
    c2_resized.tx_pending = true ∧ c2_resized.tx_pending_size = 4 ∧
    c2_resized.package_size = 8 ∧ c2_resized.xmit.tail = 0 ∧
    (si4455_handle_tx_pend sent_env c2_resized).xmit.tail = 8 ∧
    (si4455_handle_tx_pend sent_env c2_resized).xmit.tail ≠
      (c2_resized.xmit.tail + c2_resized.tx_pending_size) % UART_XMIT_SIZE ∧
    (si4455_handle_tx_pend sent_env c2_resized).xmit.head = 4 ∧
    uart_circ_chars_pending (si4455_handle_tx_pend sent_env c2_resized).xmit = 4092 ∧
    (si4455_ist sent_env c2_resized).2.xmit.tail = 8 ∧
    (si4455_ist sent_env c2_resized).2.tx_pending = true ∧
    (si4455_ist sent_env c2_resized).2.tx_pending_size = 8 := by
  refine ⟨c2_resized_reachable, by decide, by decide, by decide, by decide, by decide,
    by decide, by decide, by decide, by decide, by decide, by decide, by decide, by decide,
    by decide, by decide⟩

/-! ## Claim C3: the pending flags -/

theorem bus_frame_rx_pending {s1 s2 : si4455_port} (h : bus_frame s1 s2) :
    s2.rx_pending = s1.rx_pending := by
  rw [h.1]

@[simp] theorem rxp_kzalloc (env : Env) (s : si4455_port) :
    (kzalloc env s).2.rx_pending = s.rx_pending := rfl

@[simp] theorem rxp_begin_tx (env : Env) (ch : Nat) (l : Int) (d : List Nat) (s : si4455_port) :
    (si4455_begin_tx env ch l d s).2.rx_pending = s.rx_pending :=
  bus_frame_rx_pending (bus_frame_begin_tx env ch l d s)

@[simp] theorem rxp_end_tx (env : Env) (s : si4455_port) :
    (si4455_end_tx env s).2.rx_pending = s.rx_pending :=
  bus_frame_rx_pending (bus_frame_end_tx env s)

@[simp] theorem rxp_begin_rx (env : Env) (ch l : Nat) (s : si4455_port) :
    (si4455_begin_rx env ch l s).2.rx_pending = s.rx_pending :=
  bus_frame_rx_pending (bus_frame_begin_rx env ch l s)

@[simp] theorem rxp_end_rx (env : Env) (l : Nat) (d : List Nat) (s : si4455_port) :
    (si4455_end_rx env l d s).2.2.rx_pending = s.rx_pending :=
  bus_frame_rx_pending (bus_frame_end_rx env l d s)

@[simp] theorem rxp_change_state (env : Env) (a : Nat) (s : si4455_port) :
    (si4455_change_state env a s).2.rx_pending = s.rx_pending :=
  bus_frame_rx_pending (bus_frame_change_state env a s)

@[simp] theorem rxp_fifo_info (env : Env) (a : Nat) (r : si4455_fifo_info_s) (s : si4455_port) :
    (si4455_fifo_info env a r s).2.2.rx_pending = s.rx_pending :=
  bus_frame_rx_pending (bus_frame_fifo_info env a r s)

@[simp] theorem rxp_get_int_status (env : Env) (a b c : Nat) (r : si4455_int_status)
    (s : si4455_port) :
    (si4455_get_int_status env a b c r s).2.2.rx_pending = s.rx_pending :=
  bus_frame_rx_pending (bus_frame_get_int_status env a b c r s)

@[simp] theorem rxp_get_modem_status (env : Env) (a : Nat) (r : si4455_modem_status)
    (s : si4455_port) :
    (si4455_get_modem_status env a r s).2.2.rx_pending = s.rx_pending :=
  bus_frame_rx_pending (bus_frame_get_modem_status env a r s)

@[simp] theorem rxp_get_part_info (env : Env) (r : si4455_part_info) (s : si4455_port) :
    (si4455_get_part_info env r s).2.2.rx_pending = s.rx_pending :=
  bus_frame_rx_pending (bus_frame_get_part_info env r s)

@[simp] theorem rxp_s_power (b : Bool) (s : si4455_port) :
    (si4455_s_power b s).2.rx_pending = s.rx_pending := by
  unfold si4455_s_power si4455_set_power
  dsimp only
  split_ifs <;> rfl

@[simp] theorem rxp_start_tx_xmit (env : Env) (s : si4455_port) :
    (si4455_start_tx_xmit env s).2.rx_pending = s.rx_pending := by
  unfold si4455_start_tx_xmit
  dsimp only
  split_ifs <;> simp [uart_handle_cts_change]

@[simp] theorem rxp_cancel_tx (env : Env) (s : si4455_port) :
    (si4455_cancel_tx env s).2.rx_pending = s.rx_pending := by
  unfold si4455_cancel_tx
  dsimp only
  split_ifs <;> simp [uart_handle_cts_change]

@[simp] theorem rxp_do_work (env : Env) (s : si4455_port) :
    (si4455_do_work env s).2.rx_pending = s.rx_pending := by
  unfold si4455_do_work
  dsimp only
  split_ifs <;> simp

@[simp] theorem rxp_handle_rx_pend (env : Env) (f : si4455_fifo_info_s) (s : si4455_port) :
    (si4455_handle_rx_pend env f s).rx_pending = s.rx_pending := by
  unfold si4455_handle_rx_pend
  dsimp only
  split_ifs <;> simp

@[simp] theorem rxp_handle_tx_pend (env : Env) (s : si4455_port) :
    (si4455_handle_tx_pend env s).rx_pending = s.rx_pending := by
  unfold si4455_handle_tx_pend
  dsimp only
  split_ifs <;> simp [uart_handle_cts_change]

@[simp] theorem rxp_ist_dispatch (env : Env) (i : si4455_int_status) (s : si4455_port) :
    (si4455_ist_dispatch env i s).2.rx_pending = s.rx_pending := by
  unfold si4455_ist_dispatch
  dsimp only
  split_ifs <;> simp

@[simp] theorem rxp_ist (env : Env) (s : si4455_port) :
    (si4455_ist env s).2.rx_pending = s.rx_pending := by
  unfold si4455_ist
  dsimp only
  split_ifs <;> simp

@[simp] theorem rxp_tx_wd_proc (env : Env) (s : si4455_port) :
    (si4455_tx_wd_proc env s).rx_pending = s.rx_pending := by
  unfold si4455_tx_wd_proc
  dsimp only
  split_ifs <;> simp

theorem rxp_re_configure (env : Env) (fw : List Nat) (s : si4455_port) (r : Int × si4455_port)
    (h : si4455_re_configure env fw s = some r) : r.2.rx_pending = s.rx_pending := by
  unfold si4455_re_configure at h
  dsimp only at h
  rcases hc : si4455_configure env fw
      (if s.power_count = 0 then (si4455_s_power true { s with configured := false }).2
        else { s with configured := false }) with _ | c
  · simp [hc] at h
  · have hf := bus_frame_rx_pending (bus_frame_configure env fw _ c hc)
    have hs : (if s.power_count = 0 then (si4455_s_power true { s with configured := false }).2
        else { s with configured := false }).rx_pending = s.rx_pending := by
      split_ifs <;> simp
    simp only [hc, Option.map_some', Option.some.injEq] at h
    subst h
    split_ifs <;> simp [hf, hs]

theorem rxp_cts_wd_proc (env : Env) (fw : Option (List Nat)) (s s2 : si4455_port)
    (h : si4455_cts_wd_proc env fw s = some s2) : s2.rx_pending = s.rx_pending := by
  unfold si4455_cts_wd_proc si4455_cts_wd_locked at h
  dsimp only at h
  by_cases hce : s.cts_error = true
  · cases fw with
    | none =>
      simp [hce] at h
      subst h
      split_ifs <;> simp
    | some fw =>
      rcases hc : si4455_re_configure env fw (si4455_s_power false s).2 with _ | c
      · simp [hce, hc] at h
      · have hr := rxp_re_configure env fw _ c hc
        simp [hce, hc] at h
        subst h
        split_ifs <;> simp [hr]
  · simp [hce] at h
    subst h
    split_ifs <;> simp

theorem rxp_probe_out_generic (ret : Int) (s : si4455_port) (r : Int × si4455_port)
    (h : probe_out_generic ret s = some r) : r.2.rx_pending = s.rx_pending := by
  unfold probe_out_generic at h
  simp only [Option.some.injEq] at h
  subst h
  simp

theorem rxp_probe_bring_up (env : Env) (a : probe_input) (s : si4455_port)
    (r : Int × si4455_port) (h : probe_bring_up env a s = some r) :
    r.2.rx_pending = s.rx_pending := by
  unfold probe_bring_up at h
  dsimp only at h
  repeat' (split at h)
  all_goals first
    | (simp at h; done)
    | (have hr := rxp_re_configure env _ _ _ (by assumption)
       simp at hr
       first
         | (rw [rxp_probe_out_generic _ _ _ h]; simp [hr])
         | (simp only [Option.some.injEq] at h; subst h; simp [hr]))
    | (rw [rxp_probe_out_generic _ _ _ h]; simp)

theorem rxp_probe (env : Env) (a : probe_input) (s : si4455_port)
    (r : Int × si4455_port) (h : si4455_probe env a s = some r) :
    r.2.rx_pending = s.rx_pending := by
  unfold si4455_probe at h
  dsimp only at h
  repeat' (split at h)
  all_goals first
    | (simp at h; done)
    | (rw [rxp_probe_bring_up _ _ _ _ h]; simp)
    | (rw [rxp_probe_out_generic _ _ _ h]; simp)
    | (simp only [Option.some.injEq] at h; subst h; simp)

/-- No step of the driver changes `rx_pending`. -/
theorem rxp_step (env : Env) (s s2 : si4455_port) (h : Step env s s2) :
    s2.rx_pending = s.rx_pending := by
  cases h with
  | probe a _ r h => exact rxp_probe env a s r h
  | startup => unfold si4455_startup; simp
  | shutdown => unfold si4455_shutdown; simp
  | do_work => simp
  | start_tx_xmit => simp
  | cancel_tx => simp
  | ist => simp
  | tx_wd_event => unfold si4455_tx_wd_event schedule_work; split_ifs <;> rfl
  | tx_wd_proc => simp
  | cts_wd_event => unfold si4455_cts_wd_event schedule_work; split_ifs <;> rfl
  | cts_wd_proc fw _ _ h => exact rxp_cts_wd_proc env fw s s2 h
  | tx_proc => unfold si4455_tx_proc; simp
  | start_tx => rfl
  | stop_tx => rfl
  | stop_rx => unfold si4455_stop_rx; simp
  | suspend r => unfold si4455_suspend; dsimp only; split_ifs <;> simp
  | resume r => unfold si4455_resume; split_ifs <;> simp
  | package_size_store p c => unfold package_size_store; dsimp only; split_ifs <;> simp
  | rx_channel_store p c => unfold rx_channel_store; dsimp only; split_ifs <;> simp
  | tx_channel_store p c => unfold tx_channel_store; dsimp only; split_ifs <;> simp
  | tx_timeout_store p c => unfold tx_timeout_store; dsimp only; split_ifs <;> simp
  | uart_write c => unfold uart_write; split_ifs <;> rfl
  | uart_flow b => rfl

/-- C3: in every state reachable from the zero-initialised port by any
sequence of driver operations, `tx_pending` and `rx_pending` are not both
true.  (No operation ever sets `rx_pending`, so it is false throughout.) -/
theorem c3_never_both_pending (env : Env) (s : si4455_port) (h : Reachable env s) :
    ¬ (s.tx_pending = true ∧ s.rx_pending = true) := by
  have hrx : s.rx_pending = false := by
    induction h with
    | init => rfl
    | step s s2 _ hstep ih => rw [rxp_step env s s2 hstep, ih]
  intro hb
  rw [hrx] at hb
  exact Bool.false_ne_true hb.2

theorem c3_sending_reachable : Reachable chip_env c3_sending := by
  have hp : si4455_probe chip_env probe_ok_input zero_port =
      some ((si4455_probe chip_env probe_ok_input zero_port).getD (0, zero_port)) := by
    have hs : (si4455_probe chip_env probe_ok_input zero_port).isSome = true := by decide
    cases h : si4455_probe chip_env probe_ok_input zero_port with
    | none => rw [h] at hs; exact absurd hs (by decide)
    | some r => rfl
  have h1 : Reachable chip_env c3_probed :=
    Reachable.step _ _ Reachable.init (Step.probe probe_ok_input zero_port _ hp)
  have h2 := Reachable.step _ _ h1 (Step.startup c3_probed)
  have h3 := Reachable.step _ _ h2 (Step.uart_write 0x41 _)
  exact Reachable.step _ _ h3 (Step.do_work _)

/-- Witness of C3: after bring-up, startup, one queued byte and a run of the
Reconciler a transmission is pending, and the two flags are not both set. -/
theorem c3_never_both_pending_witness :
    c3_sending.tx_pending = true ∧
    ¬ (c3_sending.tx_pending = true ∧ c3_sending.rx_pending = true) :=
  ⟨by decide, c3_never_both_pending chip_env c3_sending c3_sending_reachable⟩

/-! ## Claims C4 to C8 and C10: the configuration loader and the bus-health recovery -/

theorem encode_records_cons (r : List Nat) (rs : List (List Nat)) (tail : List Nat) :
    encode_records (r :: rs) ++ tail = r.length :: (r ++ (encode_records rs ++ tail)) := by
  simp [encode_records]

theorem encode_records_length (recs : List (List Nat)) :
    recs.length ≤ (encode_records recs).length := by
  induction recs with
  | nil => simp [encode_records]
  | cons r rs ih => simp [encode_records]; omega

theorem reply_byte_zero (r : BusReply) :
    byte_at ((some ((rx_bytes r (1 + 1)).drop 1) : Option (List Nat)).getD []) 0 =
      byte_at r.rx 1 % 256 := by
  simp [byte_at_tail, byte_at_rx_bytes]

/-- The loader on a well-formed table, on a bus on which every operation
succeeds and the chip reports neither a failed EZConfig check nor a chip
error: every record is sent, in order, and the loop ends at the terminator
with `ret = 0`, whatever follows the terminator and whatever fuel is left. -/
theorem configure_loop_well_formed {env : Env} (ok : BusOk env) (he : NoChipError env) :
    ∀ (recs : List (List Nat)), (∀ r ∈ recs, well_formed_record r) →
    (∀ r ∈ recs, byte_at r 0 = SI4455_CMD_ID_EZCONFIG_CHECK → NoCheckError env) →
    ∀ (ret : Int) (i : si4455_int_status) (s : si4455_port),
      ∃ i2 s2, Sent s s2 (loader_frames recs) ∧
        ∀ fuel junk, recs.length < fuel →
          configure_loop env fuel (encode_records recs ++ 0 :: junk) ret i s =
            some ((if recs = [] then ret else 0), i2, s2) := by
  intro recs
  induction recs with
  | nil =>
    intro _ _ ret i s
    refine ⟨i, s, Sent_refl s, ?_⟩
    intro fuel junk hf
    obtain ⟨f, rfl⟩ : ∃ f, fuel = f + 1 := ⟨fuel - 1, by omega⟩
    simp [encode_records, configure_loop_zero]
  | cons r rs ih =>
    intro hwf hc ret i s
    have hr := hwf r (List.mem_cons_self _ _)
    have hrs : ∀ x ∈ rs, well_formed_record x := fun x hx => hwf x (List.mem_cons_of_mem _ hx)
    have hcs : ∀ x ∈ rs, byte_at x 0 = SI4455_CMD_ID_EZCONFIG_CHECK → NoCheckError env :=
      fun x hx => hc x (List.mem_cons_of_mem _ hx)
    rcases hr with ⟨h1, h16⟩ | ⟨h17, h127, hop⟩
    · -- a command record
      have hns : ¬ is_stream_record r := fun h => by have := h.1; omega
      obtain ⟨h, k, s1, hrdy, hg, hs1⟩ := send_command_get_response_ok ok r.length r 1
        (some [0]) s (Or.inr rfl)
      rw [List.take_length] at hrdy hg hs1
      obtain ⟨h', k', i2, s2, hrdy', hgi, hchip, hs2⟩ := get_int_status_ok ok 0 0 0 i s1
      have hchk : ¬ (byte_at r 0 = SI4455_CMD_ID_EZCONFIG_CHECK ∧
          byte_at ((si4455_send_command_get_response env r.length r 1
            (some [0]) s).2.1.getD []) 0 ≠ 0) := by
        rintro ⟨hop, hne⟩
        apply hne
        rw [hg]
        simp only [Nat.lt_one_iff, Nat.pos_of_ne_zero, if_true]
        have := hc r (List.mem_cons_self _ _) hop h r k hop hrdy
        simpa [byte_at_tail, byte_at_rx_bytes] using this
      have hpend : ¬ ((si4455_get_int_status env 0 0 0 i
          (si4455_send_command_get_response env r.length r 1 (some [0]) s).2.2).2.1.chip_pend &&&
            SI4455_CMD_GET_CHIP_STATUS_ERROR_PEND_MASK ≠ 0) := by
        rw [hg]
        simp only [hgi, hchip]
        have := he h' k' hrdy'
        simpa using this
      obtain ⟨i3, s3, hs3, hrun⟩ := ih hrs hcs 0 i2 s2
      refine ⟨i3, s3, ?_, ?_⟩
      · have := Sent_trans (Sent_trans hs1 hs2) hs3
        simpa [loader_frames, hns] using this
      · intro fuel junk hf
        obtain ⟨f, rfl⟩ : ∃ f, fuel = f + 1 := ⟨fuel - 1, by omega⟩
        have hf2 : rs.length < f := by simpa using hf
        rw [encode_records_cons, configure_loop_short env f r _ ret i s h1 h16]
        rw [if_neg (by rw [hg]; simp), if_neg hchk, if_neg hpend]
        rw [hg]
        simp only [hgi]
        rw [hrun f junk hf2]
        by_cases hnil : rs = [] <;> simp [hnil]
    · -- a streamed FIFO-write record
      have hst : is_stream_record r := ⟨by omega, by omega, hop⟩
      obtain ⟨s1, hw, hs1⟩ := write_data_ok ok SI4455_CMD_ID_WRITE_TX_FIFO true
        (r.length - 1) r.tail s
      have hfr : (SI4455_CMD_ID_WRITE_TX_FIFO % 256) :: r.tail.take (r.length - 1) = r := by
        cases r with
        | nil => simp at h17
        | cons c p =>
          have : c = SI4455_CMD_ID_WRITE_TX_FIFO := by simpa [byte_at] using hop
          subst this
          simp [SI4455_CMD_ID_WRITE_TX_FIFO]
      rw [hfr] at hs1
      obtain ⟨i3, s3, hs3, hrun⟩ := ih hrs hcs 0 i s1
      refine ⟨i3, s3, ?_, ?_⟩
      · have := Sent_trans hs1 hs3
        simpa [loader_frames, hst] using this
      · intro fuel junk hf
        obtain ⟨f, rfl⟩ : ∃ f, fuel = f + 1 := ⟨fuel - 1, by omega⟩
        have hf2 : rs.length < f := by simpa using hf
        rw [encode_records_cons, configure_loop_stream env f r _ ret i s hst]
        rw [hw]
        simp only [ne_eq, not_true_eq_false, if_false]
        rw [hrun f junk hf2]
        by_cases hnil : rs = [] <;> simp [hnil]

/-- C4: for every well-formed configuration table (records of 1 to 16 bytes,
or of 17 to 127 bytes with opcode `0x66`, then a zero length byte), on a bus
on which every operation succeeds, no EZConfig check reply is nonzero and no
chip-error bit is reported, `si4455_configure` returns 0; the frames it
writes are exactly the records in table order, each as it stands in the table
(a command record is followed by the loader's own InterruptStatus query); and
the outcome is the same whatever bytes follow the terminator, so none of them
is read.  Nothing but the bus log and the allocation count changes. -/
theorem c4_configure_well_formed (env : Env) (ok : BusOk env) (hc : NoCheckError env)
    (he : NoChipError env) (recs : List (List Nat))
    (hwf : ∀ r ∈ recs, well_formed_record r) (s : si4455_port) :
    ∃ s2, (∀ junk, si4455_configure env (encode_records recs ++ 0 :: junk) s = some (0, s2)) ∧
      writes s2.log = writes s.log ++ loader_frames recs ∧
      Sent s s2 (loader_frames recs) := by
  obtain ⟨i2, s2, hs, hrun⟩ := configure_loop_well_formed ok he recs hwf (fun _ _ _ => hc) 0
    int_status_zero s
  refine ⟨s2, ?_, hs.2.2, hs⟩
  intro junk
  unfold si4455_configure
  have hlen : recs.length < (encode_records recs ++ 0 :: junk).length := by
    have := encode_records_length recs
    simp
    omega
  rw [hrun _ junk hlen]
  by_cases hnil : recs = [] <;> simp [hnil]

theorem ready_env_no_check_error : NoCheckError ready_env :=
  fun _ _ _ _ _ => rfl

theorem ready_env_no_chip_error : NoChipError ready_env := by
  intro h k _
  simp [poll_reply, ready_env, byte_at]

/-- Witness of C4: a table with a command, a streamed record and an EZConfig
check, followed by the terminator and two stray bytes, loads with result 0 on
the always-ready chip, and the frames written are the three records with the
status query after each command. -/
theorem c4_configure_witness :
    (si4455_configure ready_env (encode_records c4_records ++ [0, 0xDE, 0xAD]) zero_port).map
        (fun r => (r.1, writes r.2.log)) =
      some (0, [[0x02, 0x01, 0x00, 0x01, 0xC9, 0xC3, 0x80], [0x20, 0, 0, 0],
        0x66 :: List.replicate 16 0xAA, [0x19, 0xB2, 0x06], [0x20, 0, 0, 0]]) := by
  obtain ⟨s2, h1, h2, _⟩ := c4_configure_well_formed ready_env ready_env_ok
    ready_env_no_check_error ready_env_no_chip_error c4_records (by decide) zero_port
  rw [h1 [0xDE, 0xAD]]
  simp only [Option.map_some', h2]
  rfl

/-- Running the loader on a table that starts with records which load without
error is running it on the rest of the table from the state these records
leave; and the chip-error bit of the status the loader carries stays clear. -/
theorem configure_loop_after_records (env : Env) :
    ∀ (pre : List (List Nat)), (∀ x ∈ pre, 1 ≤ x.length) →
    ∀ (fuel : Nat) (ret : Int) (i : si4455_int_status) (s : si4455_port)
      (r : Int × si4455_int_status × si4455_port),
      configure_loop env fuel (encode_records pre ++ [0]) ret i s = some r → r.1 = 0 →
      (i.chip_pend &&& SI4455_CMD_GET_CHIP_STATUS_ERROR_PEND_MASK = 0 →
        r.2.1.chip_pend &&& SI4455_CMD_GET_CHIP_STATUS_ERROR_PEND_MASK = 0) ∧
      ∀ (f : Nat) (tail : List Nat),
        configure_loop env (pre.length + f) (encode_records pre ++ tail) ret i s =
          configure_loop env f tail 0 r.2.1 r.2.2 := by
  intro pre
  induction pre with
  | nil =>
    intro _ fuel ret i s r h hr
    cases fuel with
    | zero => simp [configure_loop] at h
    | succ fuel =>
      simp only [encode_records, List.nil_append, configure_loop_zero, Option.some.injEq] at h
      subst h
      simp only at hr
      subst hr
      exact ⟨fun hi => hi, fun f tail => by simp [encode_records]⟩
  | cons x xs ih =>
    intro hpre fuel ret i s r h hr
    have hx := hpre x (List.mem_cons_self _ _)
    have hxs : ∀ y ∈ xs, 1 ≤ y.length := fun y hy => hpre y (List.mem_cons_of_mem _ hy)
    cases fuel with
    | zero => simp [configure_loop] at h
    | succ fuel =>
      rw [encode_records_cons] at h
      have hfuel : ∀ f, (x :: xs).length + f = (xs.length + f) + 1 := by
        intro f; simp; omega
      by_cases h16 : x.length ≤ 16
      · rw [configure_loop_short env fuel x _ ret i s hx h16] at h
        split_ifs at h with c1 c2 c3
        · simp only [Option.some.injEq] at h
          subst h
          exact absurd hr c1
        · simp only [Option.some.injEq] at h
          subst h
          simp [EIO_CODE] at hr
        · simp only [Option.some.injEq] at h
          subst h
          simp [EIO_CODE] at hr
        · obtain ⟨hinv, hrun⟩ := ih hxs fuel _ _ _ r h hr
          refine ⟨fun _ => hinv (by simpa using c3), ?_⟩
          intro f tail
          rw [hfuel, encode_records_cons, configure_loop_short env _ x _ ret i s hx h16,
            if_neg c1, if_neg c2, if_neg c3]
          exact hrun f tail
      · have h17 : 16 < x.length := by omega
        by_cases hst : is_stream_record x
        · rw [configure_loop_stream env fuel x _ ret i s hst] at h
          split_ifs at h with c1
          · simp only [Option.some.injEq] at h
            subst h
            exact absurd hr c1
          · obtain ⟨hinv, hrun⟩ := ih hxs fuel _ _ _ r h hr
            refine ⟨hinv, ?_⟩
            intro f tail
            rw [hfuel, encode_records_cons, configure_loop_stream env _ x _ ret i s hst,
              if_neg c1]
            exact hrun f tail
        · rw [configure_loop_too_large env fuel x _ ret i s h17 hst] at h
          simp only [Option.some.injEq] at h
          subst h
          simp [EINVAL] at hr

/-- The form of `configure_loop_after_records` for `si4455_configure`: when the
records `pre`, followed by a terminator, load with result 0 and leave the
state `s1`, the loader run on `pre` followed by anything continues on that
rest from `s1`, with a carried status whose chip-error bit is clear. -/
theorem configure_after_records (env : Env) (pre : List (List Nat))
    (hpre : ∀ x ∈ pre, 1 ≤ x.length) (s s1 : si4455_port)
    (hload : si4455_configure env (encode_records pre ++ [0]) s = some (0, s1)) :
    ∃ i1 : si4455_int_status,
      i1.chip_pend &&& SI4455_CMD_GET_CHIP_STATUS_ERROR_PEND_MASK = 0 ∧
      ∀ tail : List Nat,
        si4455_configure env (encode_records pre ++ tail) s =
          (configure_loop env ((encode_records pre).length - pre.length + tail.length) tail 0
            i1 s1).map (fun r => (r.1, r.2.2)) := by
  unfold si4455_configure at hload
  rcases hl : configure_loop env (encode_records pre ++ [0]).length (encode_records pre ++ [0]) 0
      int_status_zero s with _ | r
  · rw [hl] at hload
    simp at hload
  · rw [hl] at hload
    simp only [Option.map_some', Option.some.injEq, Prod.mk.injEq] at hload
    obtain ⟨hr, hs⟩ := hload
    obtain ⟨hinv, hrun⟩ := configure_loop_after_records env pre hpre _ _ _ _ r hl hr
    refine ⟨r.2.1, hinv (by decide), ?_⟩
    intro tail
    unfold si4455_configure
    have hlen : (encode_records pre ++ tail).length =
        pre.length + ((encode_records pre).length - pre.length + tail.length) := by
      have := encode_records_length pre
      simp
      omega
    rw [hlen, hrun, hs]

set_option maxRecDepth 100000

theorem option_pair_eq {α : Type} (o : Option (Int × α)) (d : Int × α)
    (h1 : o.isSome = true) (h2 : (o.getD d).1 = 0) : o = some (0, (o.getD d).2) := by
  cases o with
  | none => simp at h1
  | some p =>
    simp only [Option.getD_some] at h2 ⊢
    rw [← h2]

theorem re_configure_eq (env : Env) (fw : List Nat) (s : si4455_port) :
    si4455_re_configure env fw s =
      (si4455_configure env fw (configure_entry s)).map
        (fun r => if r.1 = 0 then (r.1, { r.2 with configured := true, cts_error := false })
          else r) := rfl

theorem configure_entry_configured (s : si4455_port) :
    (configure_entry s).configured = false := by
  unfold configure_entry si4455_s_power si4455_set_power
  dsimp only
  split_ifs <;> rfl

theorem bus_frame_configured {s1 s2 : si4455_port} (h : bus_frame s1 s2) :
    s2.configured = s1.configured := by
  rw [h.1]

/-- C5, counterexample: a record of length 128 with the FIFO-write opcode is
not rejected; the loader streams its 127 payload bytes and returns 0. -/
theorem c5_length_128_is_streamed :
    (si4455_configure ready_env (128 :: (0x66 :: List.replicate 127 0x55) ++ [0])
        zero_port).map (fun r => (r.1, writes r.2.log)) =
      some (0, [0x66 :: List.replicate 127 0x55]) := by
  decide

/-- C5, amended: after records that loaded without error (leaving the state
`s1`), a record `r` longer than 16 bytes is streamed exactly when its length
is at most 128 and its opcode is `0x66`: then the loader makes one
readiness-polled `si4455_write_data` call with the `length - 1` payload bytes
(which, on a bus on which every operation succeeds, writes the frame `r`);
every other record longer than 16 bytes (another opcode, or a length of 129 or
more) makes the loader return `-EINVAL` in the state `s1`, so nothing of that
record or of a later one reaches the bus. -/
theorem c5_long_records (env : Env) (pre : List (List Nat)) (r rest : List Nat)
    (s s1 : si4455_port) (hpre : ∀ x ∈ pre, 1 ≤ x.length)
    (hload : si4455_configure env (encode_records pre ++ [0]) s = some (0, s1))
    (h16 : 16 < r.length) :
    (¬ (r.length ≤ 128 ∧ byte_at r 0 = SI4455_CMD_ID_WRITE_TX_FIFO) →
      si4455_configure env (encode_records pre ++ r.length :: (r ++ rest)) s =
        some (-EINVAL, s1)) ∧
    (r.length ≤ 128 ∧ byte_at r 0 = SI4455_CMD_ID_WRITE_TX_FIFO →
      (∀ junk, si4455_configure env (encode_records pre ++ r.length :: (r ++ 0 :: junk)) s =
        some (si4455_write_data env SI4455_CMD_ID_WRITE_TX_FIFO true (r.length - 1) r.tail s1)) ∧
      (BusOk env → ∃ s2,
        si4455_write_data env SI4455_CMD_ID_WRITE_TX_FIFO true (r.length - 1) r.tail s1 =
          (0, s2) ∧ Sent s1 s2 [r])) := by
  obtain ⟨i1, _, hrun⟩ := configure_after_records env pre hpre s s1 hload
  constructor
  · intro hns
    have hns2 : ¬ is_stream_record r := fun h => hns ⟨h.2.1, h.2.2⟩
    rw [hrun]
    have hf : (encode_records pre).length - pre.length + (r.length :: (r ++ rest)).length =
        ((encode_records pre).length - pre.length + (r ++ rest).length) + 1 := by
      simp; omega
    rw [hf, configure_loop_too_large env _ r rest 0 i1 s1 h16 hns2]
    rfl
  · intro hst
    have hst2 : is_stream_record r := ⟨h16, hst.1, hst.2⟩
    constructor
    · intro junk
      rw [hrun]
      have hf : (encode_records pre).length - pre.length +
          (r.length :: (r ++ 0 :: junk)).length =
          ((encode_records pre).length - pre.length + (r ++ junk).length + 1) + 1 := by
        simp; omega
      rw [hf, configure_loop_stream env _ r _ 0 i1 s1 hst2]
      split_ifs with c1
      · rfl
      · rw [configure_loop_zero]
        rfl
    · intro ok
      obtain ⟨s2, hw, hs⟩ := write_data_ok ok SI4455_CMD_ID_WRITE_TX_FIFO true
        (r.length - 1) r.tail s1
      refine ⟨s2, hw, ?_⟩
      have hfr : (SI4455_CMD_ID_WRITE_TX_FIFO % 256) :: r.tail.take (r.length - 1) = r := by
        cases r with
        | nil => simp at h16
        | cons c p =>
          have : c = SI4455_CMD_ID_WRITE_TX_FIFO := by simpa [byte_at] using hst.2
          subst this
          simp [SI4455_CMD_ID_WRITE_TX_FIFO]
      rw [hfr] at hs
      exact hs

theorem c5_loaded_eq :
    si4455_configure ready_env (encode_records [power_up_record] ++ [0]) zero_port =
      some (0, c5_loaded) :=
  option_pair_eq _ _ (by decide) (by decide)

/-- Witness of C5: after the power-up record, a 17-byte record with the
opcode `0x13` makes the loader return `-EINVAL`, and the bus has seen only the
power-up record and its status query. -/
theorem c5_long_records_witness :
    (si4455_configure ready_env
        (encode_records [power_up_record] ++ 17 :: ((0x13 :: List.replicate 16 0) ++
          [3, 0x19, 0xB2, 0x06, 0])) zero_port).map (fun r => (r.1, writes r.2.log)) =
      some (-EINVAL, [power_up_record, [0x20, 0, 0, 0]]) := by
  have h := (c5_long_records ready_env [power_up_record] (0x13 :: List.replicate 16 0)
    [3, 0x19, 0xB2, 0x06, 0] zero_port c5_loaded (by decide) c5_loaded_eq (by decide)).1
    (by decide)
  have e : (0x13 :: List.replicate 16 0).length = 17 := by decide
  rw [e] at h
  rw [h]
  decide

/-- C6: when the records before an EZConfig-verification record (opcode
`0x19`, at most 16 bytes) loaded without error, leaving the state `s1`, and the
command exchange for that record succeeds with a nonzero reply byte, then
`si4455_configure` returns the error `-EIO` in the very state that exchange
left (no later record is sent, no status query is made), and
`si4455_re_configure`, which enters the loader in `configure_entry s0`,
returns the same error with `configured = false`, whatever it was before. -/
theorem c6_ezconfig_check_fails (env : Env) (pre : List (List Nat)) (chk rest : List Nat)
    (s s1 : si4455_port) (hpre : ∀ x ∈ pre, 1 ≤ x.length)
    (hop : byte_at chk 0 = SI4455_CMD_ID_EZCONFIG_CHECK) (h16 : chk.length ≤ 16)
    (hload : si4455_configure env (encode_records pre ++ [0]) s = some (0, s1))
    (hret : (si4455_send_command_get_response env chk.length chk 1 (some [0]) s1).1 = 0)
    (hreply : byte_at ((si4455_send_command_get_response env chk.length chk 1
      (some [0]) s1).2.1.getD []) 0 ≠ 0) :
    si4455_configure env (encode_records pre ++ chk.length :: (chk ++ rest)) s =
      some (- EIO_CODE,
        (si4455_send_command_get_response env chk.length chk 1 (some [0]) s1).2.2) ∧
    - EIO_CODE ≠ (0 : Int) ∧
    ∀ s0, configure_entry s0 = s →
      si4455_re_configure env (encode_records pre ++ chk.length :: (chk ++ rest)) s0 =
        some (- EIO_CODE,
          (si4455_send_command_get_response env chk.length chk 1 (some [0]) s1).2.2) ∧
      (si4455_send_command_get_response env chk.length chk 1
        (some [0]) s1).2.2.configured = false := by
  obtain ⟨i1, _, hrun⟩ := configure_after_records env pre hpre s s1 hload
  have h1 : 1 ≤ chk.length := by
    cases chk with
    | nil => simp [byte_at, SI4455_CMD_ID_EZCONFIG_CHECK] at hop
    | cons c p => simp
  have hcfg : si4455_configure env (encode_records pre ++ chk.length :: (chk ++ rest)) s =
      some (- EIO_CODE,
        (si4455_send_command_get_response env chk.length chk 1 (some [0]) s1).2.2) := by
    rw [hrun]
    have hf : (encode_records pre).length - pre.length + (chk.length :: (chk ++ rest)).length =
        ((encode_records pre).length - pre.length + (chk ++ rest).length) + 1 := by
      simp; omega
    rw [hf, configure_loop_short env _ chk rest 0 i1 s1 h1 h16, if_neg (by simp [hret]),
      if_pos ⟨hop, hreply⟩]
    rfl
  refine ⟨hcfg, by decide, ?_⟩
  intro s0 hs0
  constructor
  · rw [re_configure_eq, hs0, hcfg]
    simp [EIO_CODE]
  · have hb1 := bus_frame_configured (bus_frame_configure env _ s (0, s1) hload)
    have hb2 := bus_frame_configured (bus_frame_send_command_get_response env chk.length chk 1
      (some [0]) s1)
    rw [hb2, hb1, ← hs0, configure_entry_configured]

theorem c6_loaded_eq :
    si4455_configure check_fail_env (encode_records [power_up_record] ++ [0])
      (configure_entry { zero_port with configured := true, power_count := 1 }) =
      some (0, c6_loaded) :=
  option_pair_eq _ _ (by decide) (by decide)

/-- Witness of C6: on a chip that answers the EZConfig check with reply byte
1, a table with the power-up record, the check and a GPIO command makes
`si4455_re_configure` fail with `-EIO` on a port that was configured before;
`configured` ends false and the GPIO command never reaches the bus. -/
theorem c6_ezconfig_check_witness :
    (si4455_re_configure check_fail_env
        (encode_records [power_up_record] ++ 3 :: (ezconfig_check_record ++
          encode_records [gpio_pin_cfg_record] ++ [0]))
        { zero_port with configured := true, power_count := 1 }).map
        (fun r => (r.1, r.2.configured, writes r.2.log)) =
      some (- EIO_CODE, false, [power_up_record, [0x20, 0, 0, 0], ezconfig_check_record]) := by
  have h := (c6_ezconfig_check_fails check_fail_env [power_up_record] ezconfig_check_record
    (encode_records [gpio_pin_cfg_record] ++ [0])
    (configure_entry { zero_port with configured := true, power_count := 1 }) c6_loaded
    (by decide) (by decide) (by decide) c6_loaded_eq (by decide) (by decide)).2.2
    { zero_port with configured := true, power_count := 1 } rfl
  have e : ezconfig_check_record.length = 3 := by decide
  rw [e] at h
  simp only [List.append_assoc] at h ⊢
  rw [h.1]
  decide

theorem get_int_status_result (env : Env) (a b c : Nat) (r r2 : si4455_int_status)
    (s : si4455_port) :
    (si4455_get_int_status env a b c r s).1 = (si4455_get_int_status env a b c r2 s).1 ∧
    (si4455_get_int_status env a b c r s).2.2 = (si4455_get_int_status env a b c r2 s).2.2 ∧
    ((si4455_get_int_status env a b c r2 s).1 = 0 →
      (si4455_get_int_status env a b c r s).2.1 = (si4455_get_int_status env a b c r2 s).2.1) ∧
    ((si4455_get_int_status env a b c r2 s).1 ≠ 0 →
      (si4455_get_int_status env a b c r s).2.1 = r) := by
  unfold si4455_get_int_status
  dsimp only
  split_ifs with h
  · exact ⟨rfl, rfl, fun h0 => absurd h0 h, fun _ => rfl⟩
  · have h0 : (si4455_send_command_get_response env 4 (int_status_frame a b c)
        SI4455_CMD_REPLY_COUNT_GET_INT_STATUS
        (some (List.replicate SI4455_CMD_REPLY_COUNT_GET_INT_STATUS 0)) s).1 = 0 := by
      simpa using h
    refine ⟨?_, rfl, fun _ => rfl, fun hne => ?_⟩
    · simp
    · simp at hne

/-- C7, counterexample: on a chip whose status replies always carry the
chip-error-pending bit, a table with one streamed FIFO-write record loads with
result 0, and the only frame written is that record: no InterruptStatus query
follows a streamed record. -/
theorem c7_no_query_after_stream :
    (si4455_configure chip_error_env (17 :: (0x66 :: List.replicate 16 0xAA) ++ [0])
        zero_port).map (fun r => (r.1, writes r.2.log)) =
      some (0, [0x66 :: List.replicate 16 0xAA]) := by
  decide

/-- C7, amended: after records that loaded without error (leaving `s1`), for a
command record `r` of 1 to 16 bytes whose exchange succeeds and passes the
EZConfig check, the loader next makes the InterruptStatus query (with clear
masks 0, 0, 0) in the state the exchange left.  If the query succeeds and bit
`0x08` of `chip_pend` is set in its reply, the loader returns `-EIO` in the
state the query left, whatever records follow, so none of them is sent.  When
`r` is the last record, the loader ends in the state the query left, with
`-EIO` in that case and 0 otherwise.  On a bus on which every operation
succeeds the frames written from `s1` on are `r` and the query frame. -/
theorem c7_status_query_after_command (env : Env) (pre : List (List Nat)) (r : List Nat)
    (s s1 : si4455_port) (hpre : ∀ x ∈ pre, 1 ≤ x.length)
    (h1 : 1 ≤ r.length) (h16 : r.length ≤ 16)
    (hload : si4455_configure env (encode_records pre ++ [0]) s = some (0, s1))
    (hret : (si4455_send_command_get_response env r.length r 1 (some [0]) s1).1 = 0)
    (hchk : ¬ (byte_at r 0 = SI4455_CMD_ID_EZCONFIG_CHECK ∧
      byte_at ((si4455_send_command_get_response env r.length r 1
        (some [0]) s1).2.1.getD []) 0 ≠ 0)) :
    ((si4455_get_int_status env 0 0 0 int_status_zero
        (si4455_send_command_get_response env r.length r 1 (some [0]) s1).2.2).1 = 0 →
      (si4455_get_int_status env 0 0 0 int_status_zero
        (si4455_send_command_get_response env r.length r 1 (some [0]) s1).2.2).2.1.chip_pend &&&
          SI4455_CMD_GET_CHIP_STATUS_ERROR_PEND_MASK ≠ 0 →
      ∀ rest, si4455_configure env (encode_records pre ++ r.length :: (r ++ rest)) s =
        some (- EIO_CODE, (si4455_get_int_status env 0 0 0 int_status_zero
          (si4455_send_command_get_response env r.length r 1 (some [0]) s1).2.2).2.2)) ∧
    (∀ junk, si4455_configure env (encode_records pre ++ r.length :: (r ++ 0 :: junk)) s =
      some ((if (si4455_get_int_status env 0 0 0 int_status_zero
          (si4455_send_command_get_response env r.length r 1 (some [0]) s1).2.2).1 = 0 ∧
        (si4455_get_int_status env 0 0 0 int_status_zero
          (si4455_send_command_get_response env r.length r 1 (some [0]) s1).2.2).2.1.chip_pend &&&
            SI4455_CMD_GET_CHIP_STATUS_ERROR_PEND_MASK ≠ 0 then - EIO_CODE else 0),
        (si4455_get_int_status env 0 0 0 int_status_zero
          (si4455_send_command_get_response env r.length r 1 (some [0]) s1).2.2).2.2)) ∧
    (BusOk env →
      Sent s1 (si4455_get_int_status env 0 0 0 int_status_zero
        (si4455_send_command_get_response env r.length r 1 (some [0]) s1).2.2).2.2
        [r, int_status_frame 0 0 0]) := by
  obtain ⟨i1, hi1, hrun⟩ := configure_after_records env pre hpre s s1 hload
  obtain ⟨q1, q2, q3, q4⟩ := get_int_status_result env 0 0 0 i1 int_status_zero
    (si4455_send_command_get_response env r.length r 1 (some [0]) s1).2.2
  have hstep : ∀ rest, si4455_configure env (encode_records pre ++ r.length :: (r ++ rest)) s =
      (if (si4455_get_int_status env 0 0 0 i1
          (si4455_send_command_get_response env r.length r 1 (some [0]) s1).2.2).2.1.chip_pend &&&
            SI4455_CMD_GET_CHIP_STATUS_ERROR_PEND_MASK ≠ 0 then
        some (- EIO_CODE,
          (si4455_get_int_status env 0 0 0 i1
            (si4455_send_command_get_response env r.length r 1 (some [0]) s1).2.2).2.1,
          (si4455_get_int_status env 0 0 0 i1
            (si4455_send_command_get_response env r.length r 1 (some [0]) s1).2.2).2.2)
      else configure_loop env ((encode_records pre).length - pre.length + (r ++ rest).length)
        rest (si4455_send_command_get_response env r.length r 1 (some [0]) s1).1
        (si4455_get_int_status env 0 0 0 i1
          (si4455_send_command_get_response env r.length r 1 (some [0]) s1).2.2).2.1
        (si4455_get_int_status env 0 0 0 i1
          (si4455_send_command_get_response env r.length r 1 (some [0]) s1).2.2).2.2).map
        (fun x => (x.1, x.2.2)) := by
    intro rest
    rw [hrun]
    have hf : (encode_records pre).length - pre.length + (r.length :: (r ++ rest)).length =
        ((encode_records pre).length - pre.length + (r ++ rest).length) + 1 := by
      simp; omega
    rw [hf, configure_loop_short env _ r rest 0 i1 s1 h1 h16, if_neg (by simp [hret]),
      if_neg hchk]
  refine ⟨?_, ?_, ?_⟩
  · intro hq hbit rest
    rw [hstep rest, q3 hq, if_pos hbit, q2]
    rfl
  · intro junk
    rw [hstep (0 :: junk)]
    by_cases hq : (si4455_get_int_status env 0 0 0 int_status_zero
        (si4455_send_command_get_response env r.length r 1 (some [0]) s1).2.2).1 = 0
    · rw [q3 hq, q2]
      by_cases hbit : (si4455_get_int_status env 0 0 0 int_status_zero
          (si4455_send_command_get_response env r.length r 1
            (some [0]) s1).2.2).2.1.chip_pend &&& SI4455_CMD_GET_CHIP_STATUS_ERROR_PEND_MASK ≠ 0
      · rw [if_pos hbit, if_pos ⟨hq, hbit⟩]
        rfl
      · rw [if_neg hbit, if_neg (fun h => hbit h.2)]
        have hf : (encode_records pre).length - pre.length + (r ++ 0 :: junk).length =
            ((encode_records pre).length - pre.length + (r ++ junk).length) + 1 := by
          simp; omega
        rw [hf, configure_loop_zero, hret]
        rfl
    · rw [q4 hq, q2, if_neg (by simpa using hi1), if_neg (fun h => hq h.1)]
      have hf : (encode_records pre).length - pre.length + (r ++ 0 :: junk).length =
          ((encode_records pre).length - pre.length + (r ++ junk).length) + 1 := by
        simp; omega
      rw [hf, configure_loop_zero, hret]
      rfl
  · intro ok
    obtain ⟨h, k, s2, _, hg, hs1⟩ := send_command_get_response_ok ok r.length r 1
      (some [0]) s1 (Or.inr rfl)
    rw [List.take_length] at hg hs1
    obtain ⟨_, _, i2, s3, _, hgi, _, hs2⟩ := get_int_status_ok ok 0 0 0 int_status_zero s2
    rw [hg]
    simp only [hgi]
    simpa using Sent_trans hs1 hs2

theorem c7_loaded_eq :
    si4455_configure c7_loaded_env (encode_records [power_up_record] ++ [0]) zero_port =
      some (0, c7_loaded) :=
  option_pair_eq _ _ (by decide) (by decide)

/-- Witness of C7: on a chip that starts to report a chip error after the
third frame, the GPIO command that follows the power-up record is sent and
queried, the loader fails with `-EIO`, and the EZConfig check after it is
never sent. -/
theorem c7_status_query_witness :
    (si4455_configure c7_loaded_env
        (encode_records [power_up_record] ++ 8 :: (gpio_pin_cfg_record ++
          [3, 0x19, 0xB2, 0x06, 0])) zero_port).map (fun r => (r.1, writes r.2.log)) =
      some (- EIO_CODE,
        [power_up_record, [0x20, 0, 0, 0], gpio_pin_cfg_record, [0x20, 0, 0, 0]]) := by
  have h := (c7_status_query_after_command c7_loaded_env [power_up_record] gpio_pin_cfg_record
    zero_port c7_loaded (by decide) (by decide) (by decide) c7_loaded_eq (by decide)
    (by decide)).1 (by decide) (by decide) [3, 0x19, 0xB2, 0x06, 0]
  have e : gpio_pin_cfg_record.length = 8 := by decide
  rw [e] at h
  rw [h]
  decide

/-- What `si4455_re_configure` returns is what the loader returns when entered
in `configure_entry s`, with `configured` set and `cts_error` cleared on
success and the loader's state as it is on failure. -/
theorem re_configure_some (env : Env) (fw : List Nat) (s : si4455_port) (ret : Int)
    (s2 : si4455_port) (h : si4455_re_configure env fw s = some (ret, s2)) :
    ∃ c, si4455_configure env fw (configure_entry s) = some (ret, c) ∧
      bus_frame (configure_entry s) c ∧
      s2 = (if ret = 0 then { c with configured := true, cts_error := false } else c) := by
  rw [re_configure_eq] at h
  rcases hc : si4455_configure env fw (configure_entry s) with _ | c
  · rw [hc] at h; simp at h
  · rw [hc] at h
    simp only [Option.map_some', Option.some.injEq] at h
    have hb := bus_frame_configure env fw _ c hc
    by_cases h0 : c.1 = 0
    · rw [if_pos h0] at h
      simp only [Prod.mk.injEq] at h
      obtain ⟨hr, hs⟩ := h
      refine ⟨c.2, ?_, hb, ?_⟩
      · rw [← hr]
      · rw [← hs, if_pos (by rw [← hr]; exact h0)]
    · rw [if_neg h0] at h
      subst h
      exact ⟨s2, rfl, hb, by rw [if_neg h0]⟩

/-- C8: whenever `si4455_re_configure` returns, its return value is the
loader's, and afterwards `configured` is true exactly when that value is 0, in
which case `cts_error` is false; on every failure `configured` is false,
whatever it was before the call.  And on a bus on which every operation
succeeds and no chip error is reported, the table made of the 7-byte power-up
record and the terminator gives return 0 and `configured = true`, from every
prior state. -/
theorem c8_re_configure_sets_configured (env : Env) (s : si4455_port) :
    (∀ fw ret s2, si4455_re_configure env fw s = some (ret, s2) →
      (∃ c, si4455_configure env fw (configure_entry s) = some (ret, c)) ∧
      (s2.configured = true ↔ ret = 0) ∧
      (ret = 0 → s2.cts_error = false) ∧
      (ret ≠ 0 → s2.configured = false)) ∧
    (BusOk env → NoChipError env →
      ∃ s2, si4455_re_configure env power_up_blob s = some (0, s2) ∧
        s2.configured = true ∧ s2.cts_error = false) := by
  constructor
  · intro fw ret s2 h
    obtain ⟨c, hc, hb, hs⟩ := re_configure_some env fw s ret s2 h
    have hcf : c.configured = false := by
      rw [bus_frame_configured hb, configure_entry_configured]
    refine ⟨⟨c, hc⟩, ?_, ?_, ?_⟩
    · by_cases h0 : ret = 0
      · rw [hs, if_pos h0]; simp [h0]
      · rw [hs, if_neg h0]; simp [h0, hcf]
    · intro h0
      rw [hs, if_pos h0]
    · intro h0
      rw [hs, if_neg h0, hcf]
  · intro ok he
    have hno : ∀ r ∈ [power_up_record],
        byte_at r 0 = SI4455_CMD_ID_EZCONFIG_CHECK → NoCheckError env := by
      intro r hr hop
      simp only [List.mem_singleton] at hr
      subst hr
      exact absurd hop (by decide)
    obtain ⟨i2, c, _, hrun⟩ := configure_loop_well_formed ok he [power_up_record]
      (by decide) hno 0 int_status_zero (configure_entry s)
    have hblob : power_up_blob = encode_records [power_up_record] ++ 0 :: [] := by decide
    refine ⟨{ c with configured := true, cts_error := false }, ?_, rfl, rfl⟩
    rw [re_configure_eq, hblob]
    unfold si4455_configure
    rw [hrun _ [] (by decide)]
    rfl

/-- Witness of C8: the power-up table on the always-ready chip. -/
theorem c8_re_configure_witness :
    (si4455_re_configure ready_env power_up_blob zero_port).map
      (fun r => (r.1, r.2.configured, r.2.cts_error)) = some (0, true, false) := by
  obtain ⟨s2, h, hc, he⟩ := (c8_re_configure_sets_configured ready_env zero_port).2
    ready_env_ok ready_env_no_chip_error
  rw [h]
  simp [hc, he]

theorem bus_frame_gpio {s1 s2 : si4455_port} (h : bus_frame s1 s2) : s2.gpio = s1.gpio := by
  rw [h.1]

theorem bus_frame_power_count {s1 s2 : si4455_port} (h : bus_frame s1 s2) :
    s2.power_count = s1.power_count := by
  rw [h.1]

theorem bus_frame_connected {s1 s2 : si4455_port} (h : bus_frame s1 s2) :
    s2.connected = s1.connected := by
  rw [h.1]

/-- C10: on a bus-health tick with `cts_error` set and the power rail held
once, when the configuration table is fetched and the loader replay returns 0,
the locked part of `si4455_cts_wd_proc` drives the shutdown GPIO through the
off sequence and then the on sequence, leaves `power_count` at 1, ends with
`configured = true` and `cts_error = false`, re-arms the timer when the port is
connected, and the work then runs the Reconciler on that state.  On a tick
with `cts_error` clear, `si4455_cts_wd_event` re-arms the timer with 100 ms
and changes nothing else: no bus operation, no LinkState field. -/
theorem c10_bus_health_recovery (env : Env) (s : si4455_port) :
    (∀ fw r, s.cts_error = true → s.power_count = 1 →
      si4455_re_configure env fw (si4455_s_power false s).2 = some (0, r) →
      ∃ s2, si4455_cts_wd_locked env (some fw) s = some (true, s2) ∧
        s2.gpio = s.gpio ++ [GpioOp.direction_output 0, GpioOp.direction_output 0,
          GpioOp.set_value 1] ∧
        s2.power_count = 1 ∧ s2.configured = true ∧ s2.cts_error = false ∧
        s2.cts_wd_timer = (if s.connected then some 100 else s.cts_wd_timer) ∧
        si4455_cts_wd_proc env (some fw) s = some (si4455_do_work env s2).2) ∧
    (s.cts_error = false →
      si4455_cts_wd_event s = { s with cts_wd_timer := some 100 } ∧
      (si4455_cts_wd_event s).log = s.log ∧ (si4455_cts_wd_event s).works = s.works) := by
  constructor
  · intro fw r hce hpc hre
    obtain ⟨c, _, hb, hr⟩ := re_configure_some env fw _ 0 r hre
    rw [if_pos rfl] at hr
    have hentry : configure_entry (si4455_s_power false s).2 =
        { s with
          configured := false
          gpio := s.gpio ++ [GpioOp.direction_output 0, GpioOp.direction_output 0,
            GpioOp.set_value 1]
          power_count := 1 } := by
      unfold configure_entry si4455_s_power si4455_set_power
      simp [hpc]
    rw [hentry] at hb
    have hg : r.gpio = s.gpio ++ [GpioOp.direction_output 0, GpioOp.direction_output 0,
        GpioOp.set_value 1] := by
      rw [hr]
      have h := bus_frame_gpio hb
      exact h
    have hp : r.power_count = 1 := by
      rw [hr]
      have h := bus_frame_power_count hb
      exact h
    have hcn : r.connected = s.connected := by
      rw [hr]
      have h := bus_frame_connected hb
      exact h
    have hcf : r.configured = true := by rw [hr]
    have hce2 : r.cts_error = false := by rw [hr]
    have htm : r.cts_wd_timer = s.cts_wd_timer := by
      rw [hr]
      show c.cts_wd_timer = s.cts_wd_timer
      rw [hb.1]
    have hlocked : si4455_cts_wd_locked env (some fw) s =
        some (true, if r.connected then { r with cts_wd_timer := some 100 } else r) := by
      unfold si4455_cts_wd_locked
      simp [hce, hre]
    refine ⟨if r.connected then { r with cts_wd_timer := some 100 } else r, hlocked,
      ?_, ?_, ?_, ?_, ?_, ?_⟩
    · split_ifs <;> exact hg
    · split_ifs <;> exact hp
    · split_ifs <;> exact hcf
    · split_ifs <;> exact hce2
    · rw [hcn]
      split_ifs
      · rfl
      · exact htm
    · unfold si4455_cts_wd_proc
      rw [hlocked]
      rfl
  · intro hce
    unfold si4455_cts_wd_event
    simp [hce]

theorem c10_replay_eq :
    si4455_re_configure chip_env power_up_blob (si4455_s_power false c10_start).2 =
      some (0, ((si4455_re_configure chip_env power_up_blob
        (si4455_s_power false c10_start).2).getD (0, zero_port)).2) :=
  option_pair_eq _ _ (by decide) (by decide)

/-- Witness of C10: the recovery on a connected port with a flagged bus
timeout, on the always-ready chip with the power-up table; and a tick on the
freshly zeroed port, where no timeout is flagged. -/
theorem c10_bus_health_witness :
    (∃ s2, si4455_cts_wd_locked chip_env (some power_up_blob) c10_start = some (true, s2) ∧
      s2.gpio = [GpioOp.direction_output 0, GpioOp.direction_output 0, GpioOp.set_value 1] ∧
      s2.power_count = 1 ∧ s2.configured = true ∧ s2.cts_error = false ∧
      si4455_cts_wd_proc chip_env (some power_up_blob) c10_start =
        some (si4455_do_work chip_env s2).2) ∧
    (si4455_cts_wd_event zero_port).cts_wd_timer = some 100 ∧
    (si4455_cts_wd_event zero_port).log = [] := by
  obtain ⟨s2, h1, h2, h3, h4, h5, _, h7⟩ :=
    (c10_bus_health_recovery chip_env c10_start).1 power_up_blob _ rfl rfl c10_replay_eq
  have h8 := (c10_bus_health_recovery chip_env zero_port).2 rfl
  refine ⟨⟨s2, h1, ?_, h3, h4, h5, h7⟩, ?_, ?_⟩
  · rw [h2]; rfl
  · rw [h8.1]
  · rw [h8.2.1]; rfl

/-! ## Claims C12, C13, C14 and C18: the transmit watchdog, the interrupt gate and cancel_tx -/

/-- C12: with no transmission pending a transmit-watchdog expiry does nothing:
the timer callback schedules no work, and the work leaves the whole state as
it is, so it issues no bus operation, changes no LinkState field (the
error counter included), does not touch the outbound queue, and does not run
the Reconciler. -/
theorem c12_tx_watchdog_idle (env : Env) (s : si4455_port) (h : s.tx_pending = false) :
    si4455_tx_wd_event s = s ∧ (si4455_tx_wd_event s).works = s.works ∧
    si4455_tx_wd_proc env s = s ∧
    (si4455_tx_wd_proc env s).log = s.log ∧
    (si4455_tx_wd_proc env s).tx_error_count = s.tx_error_count ∧
    (si4455_tx_wd_proc env s).xmit = s.xmit := by
  have h1 : si4455_tx_wd_event s = s := by
    unfold si4455_tx_wd_event
    simp [h]
  have h2 : si4455_tx_wd_proc env s = s := by
    unfold si4455_tx_wd_proc
    simp [h]
  rw [h1, h2]
  exact ⟨rfl, rfl, rfl, rfl, rfl, rfl⟩

/-- Witness of C12: on the idle port after bring-up the watchdog work leaves
the bus log alone, although a run of the Reconciler there would re-arm
reception over the bus. -/
theorem c12_tx_watchdog_idle_witness :
    idle_port.tx_pending = false ∧
    si4455_tx_wd_proc chip_env idle_port = idle_port ∧
    (si4455_tx_wd_event idle_port).works = idle_port.works ∧
    (si4455_do_work chip_env idle_port).2.log ≠ idle_port.log :=
  ⟨by decide, (c12_tx_watchdog_idle chip_env idle_port (by decide)).2.2.1,
   (c12_tx_watchdog_idle chip_env idle_port (by decide)).2.1, by decide⟩

/-- C14: when the link is suspended, or not connected, or not configured, or
has `power_count = 0`, the interrupt dispatcher returns `IRQ_NONE` and leaves
the whole state as it is: no bus operation, no change to LinkState or to
either queue, no run of the Reconciler. -/
theorem c14_ist_gate (env : Env) (s : si4455_port)
    (h : s.suspended = true ∨ s.connected = false ∨ s.configured = false ∨
      s.power_count = 0) :
    si4455_ist env s = (irqreturn_t.IRQ_NONE, s) ∧
    (si4455_ist env s).2.log = s.log ∧
    (si4455_ist env s).2.xmit = s.xmit ∧
    (si4455_ist env s).2.flip = s.flip := by
  have h1 : si4455_ist env s = (irqreturn_t.IRQ_NONE, s) := by
    unfold si4455_ist
    rw [if_pos]
    rcases h with h | h | h | h
    · exact Or.inl h
    · exact Or.inr (Or.inl (by simp [h]))
    · exact Or.inr (Or.inr (Or.inl (by simp [h])))
    · exact Or.inr (Or.inr (Or.inr h))
  rw [h1]
  exact ⟨rfl, rfl, rfl, rfl⟩

/-- Witness of C14: after `shutdown` the port is not connected, and an
interrupt is declined without a bus operation, although the same interrupt
on the connected port is handled over the bus. -/
theorem c14_ist_gate_witness :
    c13_shut_down.connected = false ∧
    si4455_ist chip_env c13_shut_down = (irqreturn_t.IRQ_NONE, c13_shut_down) ∧
    (si4455_ist chip_env idle_port).1 = irqreturn_t.IRQ_HANDLED ∧
    (si4455_ist chip_env idle_port).2.log ≠ idle_port.log :=
  ⟨by decide, (c14_ist_gate chip_env c13_shut_down (Or.inr (Or.inl (by decide)))).1,
   by decide, by decide⟩

theorem chip_env_ok : BusOk chip_env :=
  ⟨fun _ => rfl, fun _ => rfl, fun _ _ => ⟨0, by omega, rfl⟩⟩

theorem end_tx_ok {env : Env} (ok : BusOk env) (s : si4455_port) :
    ∃ s2, si4455_end_tx env s = (0, s2) ∧ Sent s s2 [int_status_frame 0 0 0] := by
  obtain ⟨_, _, r1, s1, _, hi, _, hs1⟩ := get_int_status_ok ok 0 0 0 int_status_zero s
  refine ⟨s1, ?_, hs1⟩
  unfold si4455_end_tx
  simp only [hi, ne_eq, not_true_eq_false, if_false]

/-- C18: `si4455_cancel_tx` with no transmission pending returns 0 and leaves
the whole state as it is.  With a transmission pending it runs `si4455_end_tx`
(the InterruptStatus query), clears `tx_pending` and `tx_pending_size`,
signals clear-to-send, and ends with the change-state command to the sleep
state, whose result it returns; the outbound queue is untouched, so the
cancelled bytes stay queued.  On a bus on which every operation succeeds the
frames written are the query `[0x20, 0, 0, 0]` and then `[0x34, 0x01]`, and
the result is 0. -/
theorem c18_cancel_tx (env : Env) (s : si4455_port) :
    (s.tx_pending = false → si4455_cancel_tx env s = (0, s)) ∧
    (s.tx_pending = true →
      si4455_cancel_tx env s =
        si4455_change_state env SI4455_CMD_CHANGE_STATE_STATE_SLEEP
          (uart_handle_cts_change TIOCM_CTS
            { (si4455_end_tx env s).2 with tx_pending := false, tx_pending_size := 0 }) ∧
      (si4455_cancel_tx env s).2.tx_pending = false ∧
      (si4455_cancel_tx env s).2.tx_pending_size = 0 ∧
      (si4455_cancel_tx env s).2.cts_changes = s.cts_changes ++ [TIOCM_CTS] ∧
      (si4455_cancel_tx env s).2.xmit = s.xmit ∧
      (BusOk env →
        (si4455_cancel_tx env s).1 = 0 ∧
        writes (si4455_cancel_tx env s).2.log =
          writes s.log ++ [[0x20, 0, 0, 0], [0x34, 0x01]])) := by
  constructor
  · intro h
    unfold si4455_cancel_tx
    simp [h]
  · intro h
    have heq : si4455_cancel_tx env s =
        si4455_change_state env SI4455_CMD_CHANGE_STATE_STATE_SLEEP
          (uart_handle_cts_change TIOCM_CTS
            { (si4455_end_tx env s).2 with tx_pending := false, tx_pending_size := 0 }) := by
      unfold si4455_cancel_tx
      simp [h]
    have hb := (bus_frame_change_state env SI4455_CMD_CHANGE_STATE_STATE_SLEEP
      (uart_handle_cts_change TIOCM_CTS
        { (si4455_end_tx env s).2 with tx_pending := false, tx_pending_size := 0 })).1
    have he := (bus_frame_end_tx env s).1
    refine ⟨heq, ?_, ?_, ?_, ?_, ?_⟩
    · rw [heq, hb]; rfl
    · rw [heq, hb]; rfl
    · rw [heq, hb]
      show (si4455_end_tx env s).2.cts_changes ++ [TIOCM_CTS] = _
      rw [he]
    · rw [heq, hb]
      show (si4455_end_tx env s).2.xmit = _
      rw [he]
    · intro ok
      obtain ⟨s1, h1, hs1⟩ := end_tx_ok ok s
      obtain ⟨s2, h2, hs2⟩ := change_state_ok ok SI4455_CMD_CHANGE_STATE_STATE_SLEEP
        (uart_handle_cts_change TIOCM_CTS { s1 with tx_pending := false, tx_pending_size := 0 })
      rw [heq, h1, h2]
      refine ⟨rfl, ?_⟩
      rw [hs2.2.2]
      show writes s1.log ++ _ = _
      rw [hs1.2.2]
      simp [int_status_frame, SI4455_CMD_ID_GET_INT_STATUS, SI4455_CMD_ID_CHANGE_STATE,
        SI4455_CMD_CHANGE_STATE_STATE_SLEEP]

/-- Witness of C18: cancelling the transmission started after bring-up clears
the pending flags, leaves the queued byte in the queue and writes the query
and the sleep command; cancelling on the idle port does nothing. -/
theorem c18_cancel_tx_witness :
    c3_sending.tx_pending = true ∧
    (si4455_cancel_tx chip_env c3_sending).1 = 0 ∧
    (si4455_cancel_tx chip_env c3_sending).2.tx_pending = false ∧
    (si4455_cancel_tx chip_env c3_sending).2.tx_pending_size = 0 ∧
    (si4455_cancel_tx chip_env c3_sending).2.xmit = c3_sending.xmit ∧
    uart_circ_chars_pending (si4455_cancel_tx chip_env c3_sending).2.xmit = 1 ∧
    writes (si4455_cancel_tx chip_env c3_sending).2.log =
      writes c3_sending.log ++ [[0x20, 0, 0, 0], [0x34, 0x01]] ∧
    si4455_cancel_tx chip_env idle_port = (0, idle_port) := by
  have h := (c18_cancel_tx chip_env c3_sending).2 (by decide)
  have hok : BusOk chip_env := chip_env_ok
  refine ⟨by decide, (h.2.2.2.2.2 hok).1, h.2.1, h.2.2.1, h.2.2.2.2.1, ?_, (h.2.2.2.2.2 hok).2,
    (c18_cancel_tx chip_env idle_port).1 (by decide)⟩
  rw [h.2.2.2.2.1]
  decide

theorem cancel_tx_tx_error_count (env : Env) (s : si4455_port) :
    (si4455_cancel_tx env s).2.tx_error_count = s.tx_error_count := by
  unfold si4455_cancel_tx
  dsimp only
  split_ifs
  · rw [(bus_frame_change_state env _ _).1]
    show (si4455_end_tx env s).2.tx_error_count = _
    rw [(bus_frame_end_tx env s).1]
  · rfl

theorem cancel_tx_clears (env : Env) (s : si4455_port) (h : s.tx_pending = true) :
    (si4455_cancel_tx env s).2.tx_pending = false ∧
    (si4455_cancel_tx env s).2.tx_pending_size = 0 := by
  unfold si4455_cancel_tx
  simp only [h, if_true]
  rw [(bus_frame_change_state env _ _).1]
  exact ⟨rfl, rfl⟩

/-- C13, counterexample: a port that was shut down while a transmission was
pending (reachable from the zeroed port) has `tx_pending = true` and
`connected = false`; the transmit-watchdog work leaves it as it is: the
transmission is not cancelled and the error counter is not incremented. -/
theorem c13_disconnected_not_cancelled :
    Reachable chip_env c13_shut_down ∧
    c13_shut_down.tx_pending = true ∧ c13_shut_down.connected = false ∧
    (si4455_tx_wd_proc chip_env c13_shut_down).tx_pending = true ∧
    (si4455_tx_wd_proc chip_env c13_shut_down).tx_error_count =
      c13_shut_down.tx_error_count ∧
    (si4455_tx_wd_proc chip_env c13_shut_down).log = c13_shut_down.log :=
  ⟨Reachable.step _ _ c3_sending_reachable (Step.shutdown _), by decide, by decide,
   by decide, by decide, by decide⟩

/-- C13, amended: for every state with `tx_pending = true` and
`connected = true`, the transmit-watchdog work cancels the transmission
(`si4455_cancel_tx`, after which `tx_pending = false` and
`tx_pending_size = 0`), increments the 32-bit counter `tx_error_count` by one,
and then runs the Reconciler on the state so obtained. -/
theorem c13_tx_watchdog_cancels (env : Env) (s : si4455_port)
    (hc : s.connected = true) (hp : s.tx_pending = true) :
    ∃ s1, s1 = { (si4455_cancel_tx env s).2 with
        tx_error_count := ((si4455_cancel_tx env s).2.tx_error_count + 1) % 2 ^ 32 } ∧
      s1.tx_pending = false ∧ s1.tx_pending_size = 0 ∧
      s1.tx_error_count = (s.tx_error_count + 1) % 2 ^ 32 ∧
      (s.tx_error_count + 1 < 2 ^ 32 → s1.tx_error_count = s.tx_error_count + 1) ∧
      si4455_tx_wd_proc env s = (si4455_do_work env s1).2 := by
  refine ⟨_, rfl, (cancel_tx_clears env s hp).1, (cancel_tx_clears env s hp).2, ?_, ?_, ?_⟩
  · show ((si4455_cancel_tx env s).2.tx_error_count + 1) % 2 ^ 32 = _
    rw [cancel_tx_tx_error_count]
  · intro hlt
    show ((si4455_cancel_tx env s).2.tx_error_count + 1) % 2 ^ 32 = _
    rw [cancel_tx_tx_error_count]
    exact Nat.mod_eq_of_lt hlt
  · unfold si4455_tx_wd_proc
    simp [hc, hp]

/-- Witness of C13: on the connected port with the transmission started after
bring-up, the watchdog work counts one transmit error; the Reconciler that
follows finds the cancelled byte still queued and starts it again. -/
theorem c13_tx_watchdog_witness :
    c3_sending.connected = true ∧ c3_sending.tx_pending = true ∧
    c3_sending.tx_error_count = 0 ∧
    (si4455_tx_wd_proc chip_env c3_sending).tx_error_count = 1 ∧
    (si4455_tx_wd_proc chip_env c3_sending).tx_pending = true := by
  obtain ⟨s1, h1, _, _, h4, _, h6⟩ :=
    c13_tx_watchdog_cancels chip_env c3_sending (by decide) (by decide)
  refine ⟨by decide, by decide, by decide, ?_, by decide⟩
  rw [h6]
  have hw : (si4455_do_work chip_env s1).2.tx_error_count = s1.tx_error_count := by
    rw [h1]
    decide
  rw [hw, h4]
  decide

/-! ## Claim C11: a failed bus-health recovery -/

theorem cts_sticky_refl (s : si4455_port) : cts_sticky s s :=
  fun h => h

theorem cts_sticky_trans {s1 s2 s3 : si4455_port} (h12 : cts_sticky s1 s2)
    (h23 : cts_sticky s2 s3) : cts_sticky s1 s3 :=
  fun h => h23 (h12 h)

theorem cts_sticky_spi_sync_transfer (env : Env) (tx : List Nat) (n : Nat) (s : si4455_port) :
    cts_sticky s (spi_sync_transfer env tx n s).2.2 :=
  fun h => h

theorem cts_sticky_spi_write (env : Env) (f : List Nat) (s : si4455_port) :
    cts_sticky s (spi_write env f s).2 :=
  fun h => h

theorem cts_sticky_kzalloc (env : Env) (s : si4455_port) : cts_sticky s (kzalloc env s).2 :=
  fun h => h

theorem cts_sticky_cts_error (s : si4455_port) (c : Nat) :
    cts_sticky s { s with cts_error_count := c, cts_error := true } :=
  fun _ => rfl

theorem cts_sticky_get_response_loop (env : Env) (n : Nat) (data : Option (List Nat)) :
    ∀ (t : Nat) (ret : Int) (s : si4455_port),
      cts_sticky s (get_response_loop env n data t ret s).2.2.2 := by
  intro t
  induction t with
  | zero => intro ret s; exact cts_sticky_refl s
  | succ t ih =>
    intro ret s
    rw [get_response_loop]
    dsimp only
    split_ifs
    all_goals first
      | exact cts_sticky_spi_sync_transfer env _ _ s
      | exact cts_sticky_trans (cts_sticky_spi_sync_transfer env _ _ s) (ih _ _)
      | exact cts_sticky_refl s

theorem cts_sticky_get_response (env : Env) (n : Nat) (data : Option (List Nat))
    (s : si4455_port) : cts_sticky s (si4455_get_response env n data s).2.2 := by
  unfold si4455_get_response
  dsimp only
  split_ifs
  · exact cts_sticky_refl s
  · exact cts_sticky_kzalloc env s
  · exact cts_sticky_trans (cts_sticky_kzalloc env s) (cts_sticky_get_response_loop env n data _ _ _)
  · exact cts_sticky_trans (cts_sticky_kzalloc env s) (cts_sticky_get_response_loop env n data _ _ _)

theorem cts_sticky_poll_cts (env : Env) (s : si4455_port) :
    cts_sticky s (si4455_poll_cts env s).2 := by
  unfold si4455_poll_cts
  dsimp only
  have h := cts_sticky_get_response env 0 none s
  split_ifs
  · exact cts_sticky_trans h (cts_sticky_cts_error _ _)
  · exact h

theorem cts_sticky_send_command (env : Env) (l : Nat) (d : List Nat) (s : si4455_port) :
    cts_sticky s (si4455_send_command env l d s).2 := by
  unfold si4455_send_command
  dsimp only
  split_ifs
  · exact cts_sticky_poll_cts env s
  · exact cts_sticky_trans (cts_sticky_poll_cts env s) (cts_sticky_spi_write env _ _)

theorem cts_sticky_send_command_get_response (env : Env) (ol : Nat) (d : List Nat) (il : Nat)
    (di : Option (List Nat)) (s : si4455_port) :
    cts_sticky s (si4455_send_command_get_response env ol d il di s).2.2 := by
  unfold si4455_send_command_get_response
  dsimp only
  split_ifs
  · exact cts_sticky_send_command env ol d s
  · exact cts_sticky_trans (cts_sticky_send_command env ol d s) (cts_sticky_get_response env _ _ _)

theorem cts_sticky_read_data (env : Env) (c : Nat) (poll : Bool) (l : Nat) (d : List Nat)
    (s : si4455_port) : cts_sticky s (si4455_read_data env c poll l d s).2.2 := by
  unfold si4455_read_data
  dsimp only
  split_ifs
  all_goals first
    | exact cts_sticky_poll_cts env s
    | exact cts_sticky_refl s

theorem cts_sticky_write_data (env : Env) (c : Nat) (poll : Bool) (l : Nat) (d : List Nat)
    (s : si4455_port) : cts_sticky s (si4455_write_data env c poll l d s).2 := by
  unfold si4455_write_data
  dsimp only
  cases poll
  · simp only [Bool.false_eq_true, if_false]
    split_ifs
    · exact absurd rfl ‹_›
    · exact cts_sticky_kzalloc env s
    · exact cts_sticky_trans (cts_sticky_kzalloc env s) (cts_sticky_spi_write env _ _)
  · simp only [if_true]
    split_ifs
    · exact cts_sticky_poll_cts env s
    · exact cts_sticky_trans (cts_sticky_poll_cts env s) (cts_sticky_kzalloc env _)
    · exact cts_sticky_trans (cts_sticky_poll_cts env s)
        (cts_sticky_trans (cts_sticky_kzalloc env _) (cts_sticky_spi_write env _ _))

theorem cts_sticky_get_part_info (env : Env) (r : si4455_part_info) (s : si4455_port) :
    cts_sticky s (si4455_get_part_info env r s).2.2 := by
  unfold si4455_get_part_info
  dsimp only
  split_ifs <;> exact cts_sticky_send_command_get_response env _ _ _ _ s

theorem cts_sticky_get_int_status (env : Env) (a b c : Nat) (r : si4455_int_status)
    (s : si4455_port) : cts_sticky s (si4455_get_int_status env a b c r s).2.2 := by
  unfold si4455_get_int_status
  dsimp only
  split_ifs <;> exact cts_sticky_send_command_get_response env _ _ _ _ s

theorem cts_sticky_get_modem_status (env : Env) (a : Nat) (r : si4455_modem_status)
    (s : si4455_port) : cts_sticky s (si4455_get_modem_status env a r s).2.2 := by
  unfold si4455_get_modem_status
  dsimp only
  split_ifs <;> exact cts_sticky_send_command_get_response env _ _ _ _ s

theorem cts_sticky_fifo_info (env : Env) (a : Nat) (r : si4455_fifo_info_s)
    (s : si4455_port) : cts_sticky s (si4455_fifo_info env a r s).2.2 := by
  unfold si4455_fifo_info
  dsimp only
  split_ifs <;> exact cts_sticky_send_command_get_response env _ _ _ _ s

theorem cts_sticky_rx (env : Env) (a b c d e f : Nat) (s : si4455_port) :
    cts_sticky s (si4455_rx env a b c d e f s).2 :=
  cts_sticky_send_command env _ _ s

theorem cts_sticky_tx (env : Env) (a b c : Nat) (s : si4455_port) :
    cts_sticky s (si4455_tx env a b c s).2 :=
  cts_sticky_send_command env _ _ s

theorem cts_sticky_change_state (env : Env) (a : Nat) (s : si4455_port) :
    cts_sticky s (si4455_change_state env a s).2 :=
  cts_sticky_send_command env _ _ s

theorem cts_sticky_begin_tx (env : Env) (ch : Nat) (l : Int) (d : List Nat) (s : si4455_port) :
    cts_sticky s (si4455_begin_tx env ch l d s).2 := by
  have h1 := cts_sticky_get_int_status env 0 0 0 int_status_zero s
  have h2 := cts_sticky_trans h1 (cts_sticky_fifo_info env SI4455_CMD_FIFO_INFO_ARG_TX_BIT
    fifo_info_zero (si4455_get_int_status env 0 0 0 int_status_zero s).2.2)
  have h3 := cts_sticky_trans h2 (cts_sticky_write_data env SI4455_CMD_ID_WRITE_TX_FIFO false
    (l.toNat % 65536) d _)
  have h4 := cts_sticky_trans h3 (cts_sticky_tx env ch 0x10 l.toNat _)
  unfold si4455_begin_tx si4455_write_tx_fifo
  dsimp only
  split_ifs
  all_goals first
    | exact cts_sticky_refl s
    | exact h1
    | exact h2
    | exact h3
    | exact h4

theorem cts_sticky_end_tx (env : Env) (s : si4455_port) :
    cts_sticky s (si4455_end_tx env s).2 := by
  unfold si4455_end_tx
  dsimp only
  split_ifs <;> exact cts_sticky_get_int_status env 0 0 0 int_status_zero s

theorem cts_sticky_begin_rx (env : Env) (ch l : Nat) (s : si4455_port) :
    cts_sticky s (si4455_begin_rx env ch l s).2 := by
  have h1 := cts_sticky_get_int_status env 0 0 0 int_status_zero s
  have h2 := cts_sticky_trans h1 (cts_sticky_fifo_info env SI4455_CMD_FIFO_INFO_ARG_RX_BIT
    fifo_info_zero (si4455_get_int_status env 0 0 0 int_status_zero s).2.2)
  have h3 := cts_sticky_trans h2 (cts_sticky_rx env ch 0x00 l
    SI4455_CMD_START_RX_RXTIMEOUT_STATE_RX SI4455_CMD_START_RX_RXVALID_STATE_RX
    SI4455_CMD_START_RX_RXINVALID_STATE_RX _)
  unfold si4455_begin_rx
  dsimp only
  split_ifs
  all_goals first
    | exact h1
    | exact h2
    | exact h3

theorem cts_sticky_end_rx (env : Env) (l : Nat) (d : List Nat) (s : si4455_port) :
    cts_sticky s (si4455_end_rx env l d s).2.2 :=
  cts_sticky_read_data env _ _ _ _ s

/-- The configuration loader never clears a flagged bus error. -/
theorem cts_sticky_configure_loop (env : Env) :
    ∀ (fuel : Nat) (data : List Nat) (ret : Int) (i : si4455_int_status) (s : si4455_port)
      (r : Int × si4455_int_status × si4455_port),
      configure_loop env fuel data ret i s = some r → cts_sticky s r.2.2 := by
  intro fuel
  induction fuel with
  | zero => intro data ret i s r h; simp [configure_loop] at h
  | succ fuel ih =>
    intro data ret i s r h
    unfold configure_loop at h
    split at h
    · simp at h
    · simp only [Option.some.injEq] at h
      subst h
      exact cts_sticky_refl s
    · split at h
      · simp at h
      · dsimp only at h
        split_ifs at h
        all_goals first
          | (simp only [Option.some.injEq] at h
             subst h
             first
               | exact cts_sticky_refl s
               | exact cts_sticky_write_data env _ _ _ _ s
               | exact cts_sticky_send_command_get_response env _ _ _ _ s
               | exact cts_sticky_trans (cts_sticky_send_command_get_response env _ _ _ _ s)
                   (cts_sticky_get_int_status env _ _ _ _ _))
          | exact cts_sticky_trans (cts_sticky_write_data env _ _ _ _ s) (ih _ _ _ _ _ h)
          | exact cts_sticky_trans
              (cts_sticky_trans (cts_sticky_send_command_get_response env _ _ _ _ s)
                (cts_sticky_get_int_status env _ _ _ _ _)) (ih _ _ _ _ _ h)

theorem cts_sticky_configure (env : Env) (data : List Nat) (s : si4455_port)
    (r : Int × si4455_port) (h : si4455_configure env data s = some r) :
    cts_sticky s r.2 := by
  unfold si4455_configure at h
  rcases hl : configure_loop env data.length data 0 int_status_zero s with _ | x
  · simp [hl] at h
  · simp [hl] at h
    subst h
    exact cts_sticky_configure_loop env _ _ _ _ _ _ hl


theorem cts_sticky_re_configure_fail (env : Env) (fw : List Nat) (s : si4455_port) (ret : Int)
    (r : si4455_port) (h : si4455_re_configure env fw s = some (ret, r)) (hne : ret ≠ 0)
    (hce : s.cts_error = true) : r.cts_error = true := by
  obtain ⟨c, hc, _, hr⟩ := re_configure_some env fw s ret r h
  rw [if_neg hne] at hr
  subst hr
  have hst := cts_sticky_configure env fw _ (ret, r) hc
  apply hst
  unfold configure_entry si4455_s_power si4455_set_power
  dsimp only
  split_ifs <;> exact hce

theorem option_some_getD {α : Type} (o : Option α) (d : α) (h : o.isSome = true) :
    o = some (o.getD d) := by
  cases o with
  | none => simp at h
  | some p => rfl

theorem c11_shut_down_reachable : Reachable flaky_env c11_shut_down := by
  have hp := option_some_getD (si4455_probe flaky_env probe_ok_input zero_port) (0, zero_port)
    (by decide)
  have h1 := Reachable.step _ _ Reachable.init (Step.probe probe_ok_input zero_port _ hp)
  have h2 := Reachable.step _ _ h1 (Step.startup _)
  exact Reachable.step _ _ h2 (Step.shutdown _)

/-- C11, counterexample: a port shut down on a chip that stopped answering is
not connected, still has `configured = true`, and has the bus error flagged
(it is reachable from the zeroed port).  When the configuration table cannot
be fetched, the bus-health work leaves `configured = true` and does not arm
the timer. -/
theorem c11_fetch_failure_keeps_state :
    Reachable flaky_env c11_shut_down ∧
    c11_shut_down.cts_error = true ∧ c11_shut_down.connected = false ∧
    c11_shut_down.configured = true ∧ c11_shut_down.cts_wd_timer = none ∧
    (si4455_cts_wd_proc flaky_env none c11_shut_down).map
      (fun r => (r.configured, r.cts_wd_timer)) = some (true, none) :=
  ⟨c11_shut_down_reachable, by decide, by decide, by decide, by decide, by decide⟩

/-- C11, amended: for every state with `cts_error` set in which the bus-health
recovery fails, the work does not run the Reconciler (`have_to_work` is
false, the result is the state the locked part leaves), `cts_error` is still
set, and the timer is re-armed (100 ms) exactly when `connected` is true.
When the configuration table cannot be fetched nothing else changes, so
`configured` stays as it was; when the loader replay returns an error,
`configured` is false. -/
theorem c11_recovery_fails (env : Env) (s : si4455_port) (hce : s.cts_error = true) :
    (si4455_cts_wd_locked env none s =
        some (false, if s.connected then { s with cts_wd_timer := some 100 } else s) ∧
      si4455_cts_wd_proc env none s =
        some (if s.connected then { s with cts_wd_timer := some 100 } else s) ∧
      (if s.connected then { s with cts_wd_timer := some 100 } else s).cts_error = true ∧
      (if s.connected then { s with cts_wd_timer := some 100 } else s).configured =
        s.configured) ∧
    (∀ fw ret r, si4455_re_configure env fw (si4455_s_power false s).2 = some (ret, r) →
      ret ≠ 0 →
      r.configured = false ∧ r.cts_error = true ∧ r.connected = s.connected ∧
      si4455_cts_wd_locked env (some fw) s =
        some (false, if s.connected then { r with cts_wd_timer := some 100 } else r) ∧
      si4455_cts_wd_proc env (some fw) s =
        some (if s.connected then { r with cts_wd_timer := some 100 } else r) ∧
      (if s.connected then { r with cts_wd_timer := some 100 } else r).configured = false ∧
      (if s.connected then { r with cts_wd_timer := some 100 } else r).cts_error = true) := by
  constructor
  · have hl : si4455_cts_wd_locked env none s =
        some (false, if s.connected then { s with cts_wd_timer := some 100 } else s) := by
      unfold si4455_cts_wd_locked
      simp [hce]
    refine ⟨hl, ?_, ?_, ?_⟩
    · unfold si4455_cts_wd_proc
      rw [hl]
      rfl
    · split_ifs <;> exact hce
    · split_ifs <;> rfl
  · intro fw ret r hre hne
    obtain ⟨c, hc, hb, hr⟩ := re_configure_some env fw _ ret r hre
    rw [if_neg hne] at hr
    subst hr
    have hcf : r.configured = false := by
      rw [bus_frame_configured hb, configure_entry_configured]
    have hcts : r.cts_error = true :=
      cts_sticky_re_configure_fail env fw _ ret r hre hne (by
        unfold si4455_s_power si4455_set_power
        dsimp only
        split_ifs <;> exact hce)
    have hcn : r.connected = s.connected := by
      rw [bus_frame_connected hb]
      unfold configure_entry si4455_s_power si4455_set_power
      dsimp only
      split_ifs <;> rfl
    have hl : si4455_cts_wd_locked env (some fw) s =
        some (false, if s.connected then { r with cts_wd_timer := some 100 } else r) := by
      unfold si4455_cts_wd_locked
      simp [hce, hre, hne, hcn]
    refine ⟨hcf, hcts, hcn, hl, ?_, ?_, ?_⟩
    · unfold si4455_cts_wd_proc
      rw [hl]
      rfl
    · split_ifs <;> exact hcf
    · split_ifs <;> exact hcts

/-- Witness of C11: on a connected port with the bus error flagged and a chip
that never reports ready, the replay of the power-up table fails; afterwards
`configured` is false, `cts_error` is set and the timer is armed.  When the
table cannot be fetched on that port, `configured` stays true. -/
theorem c11_recovery_fails_witness :
    (si4455_cts_wd_proc busy_env (some power_up_blob) c10_start).map
      (fun r => (r.configured, r.cts_error, r.cts_wd_timer)) = some (false, true, some 100) ∧
    (si4455_cts_wd_proc busy_env none c10_start).map
      (fun r => (r.configured, r.cts_error, r.cts_wd_timer)) = some (true, true, some 100) := by
  have hre := option_some_getD
    (si4455_re_configure busy_env power_up_blob (si4455_s_power false c10_start).2)
    (0, zero_port) (by decide)
  have h := (c11_recovery_fails busy_env c10_start rfl).2 power_up_blob _ _ hre (by decide)
  have h0 := (c11_recovery_fails busy_env c10_start rfl).1
  constructor
  · rw [h.2.2.2.2.1]
    simp only [Option.map_some', Option.some.injEq, Prod.mk.injEq]
    exact ⟨h.2.2.2.2.2.1, h.2.2.2.2.2.2, by decide⟩
  · rw [h0.2.1]
    decide

/-! ## Claim C17: starting a transmission from the queue -/

theorem tx_chunk_eq (s : si4455_port) :
    (if uart_circ_chars_pending s.xmit >
        (if s.package_size = 0 then SI4455_FIFO_SIZE - 3 else s.package_size)
      then (if s.package_size = 0 then SI4455_FIFO_SIZE - 3 else s.package_size)
      else uart_circ_chars_pending s.xmit) = tx_chunk s := by
  unfold tx_chunk
  rw [Nat.min_def]
  split_ifs <;> omega

/-- What `si4455_start_tx_xmit` does when it is not a no-op and the transmit
buffer is allocated. -/
theorem start_tx_xmit_eq (env : Env) (s : si4455_port) (hst : s.tx_stopped = false)
    (h0 : uart_circ_chars_pending s.xmit ≠ 0)
    (hps : ¬ uart_circ_chars_pending s.xmit < s.package_size)
    (ha : env.alloc s.allocs = true) :
    si4455_start_tx_xmit env s =
      if (si4455_begin_tx env s.tx_channel (tx_length s) (tx_data s) (kzalloc env s).2).1 = 0
      then
        (0, { (si4455_begin_tx env s.tx_channel (tx_length s) (tx_data s) (kzalloc env s).2).2 with
          tx_pending := true
          tx_pending_size := tx_chunk s
          cts_changes := (si4455_begin_tx env s.tx_channel (tx_length s) (tx_data s)
            (kzalloc env s).2).2.cts_changes ++ [0]
          tx_wd_timer := some (si4455_begin_tx env s.tx_channel (tx_length s) (tx_data s)
            (kzalloc env s).2).2.tx_wd_timeout })
      else si4455_begin_tx env s.tx_channel (tx_length s) (tx_data s) (kzalloc env s).2 := by
  have hk : (kzalloc env s).1 = true := ha
  have hc : ¬ (uart_circ_chars_pending s.xmit = 0 ∨
      uart_circ_chars_pending s.xmit < s.package_size) := by
    rintro (h | h)
    · exact h0 h
    · exact hps h
  have htc : (kzalloc env s).2.tx_channel = s.tx_channel := rfl
  unfold si4455_start_tx_xmit tx_length tx_data
  simp only [hst, Bool.false_eq_true, if_false, hc, tx_chunk_eq, hk, Bool.true_eq_false, htc]
  by_cases hz : s.package_size = 0
  · simp only [hz, if_true]
    split_ifs with h1
    · rw [h1]
      rfl
    · rfl
  · simp only [hz, if_false]
    split_ifs with h1
    · rw [h1]
      rfl
    · rfl

theorem circ_read_length (buf : Nat → Nat) (off n : Nat) : (circ_read buf off n).length = n := by
  simp [circ_read]

theorem xmit_payload_length (x : circ_buf) (n : Nat) : (xmit_payload x n).length = n := by
  unfold xmit_payload
  dsimp only
  split_ifs
  · simp [circ_read_length]; omega
  · simp [circ_read_length]

theorem start_tx_xmit_noop (env : Env) (s : si4455_port)
    (h : s.tx_stopped = true ∨ uart_circ_chars_pending s.xmit = 0 ∨
      uart_circ_chars_pending s.xmit < s.package_size) :
    si4455_start_tx_xmit env s = (0, s) := by
  unfold si4455_start_tx_xmit
  rcases h with h | h | h
  · simp [h]
  · by_cases hst : s.tx_stopped = true
    · simp [hst]
    · simp [hst, h]
  · by_cases hst : s.tx_stopped = true
    · simp [hst]
    · simp [hst, h]

theorem tx_length_range (s : si4455_port) (h64 : s.package_size ≤ 64) :
    0 ≤ tx_length s ∧ tx_length s ≤ 64 := by
  unfold tx_length tx_chunk
  simp only [SI4455_FIFO_SIZE]
  split_ifs with hz
  · constructor
    · omega
    · have : min (uart_circ_chars_pending s.xmit) (64 - 3) ≤ 61 := Nat.min_le_right _ _
      omega
  · constructor
    · omega
    · have : min (uart_circ_chars_pending s.xmit) s.package_size ≤ s.package_size :=
        Nat.min_le_right _ _
      omega

theorem tx_data_take (s : si4455_port) (h64 : s.package_size ≤ 64) :
    (tx_data s).take ((tx_length s).toNat % 65536) = tx_data s := by
  have hr := tx_length_range s h64
  have hl : (tx_data s).length = (tx_length s).toNat := by
    unfold tx_data tx_length
    split_ifs <;> simp [xmit_payload_length]
  rw [Nat.mod_eq_of_lt (by omega), ← hl, List.take_length]

/-- On a bus on which every operation succeeds, with a package size within the
FIFO, a `si4455_start_tx_xmit` that is not a no-op starts the transmission. -/
theorem start_tx_xmit_ok {env : Env} (ok : BusOk env) (s : si4455_port)
    (hst : s.tx_stopped = false) (h0 : uart_circ_chars_pending s.xmit ≠ 0)
    (hps : ¬ uart_circ_chars_pending s.xmit < s.package_size) (h64 : s.package_size ≤ 64) :
    ∃ l a, si4455_start_tx_xmit env s =
        (0, { s with
          tx_pending := true
          tx_pending_size := tx_chunk s
          cts_changes := s.cts_changes ++ [0]
          tx_wd_timer := some s.tx_wd_timeout
          log := l
          allocs := a }) ∧
      writes l = writes s.log ++ [int_status_frame 0 0 0,
        [SI4455_CMD_ID_FIFO_INFO, SI4455_CMD_FIFO_INFO_ARG_TX_BIT % 256],
        (SI4455_CMD_ID_WRITE_TX_FIFO % 256) :: tx_data s,
        (tx_frame s.part_info.rom_id s.tx_channel 0x10 (tx_length s).toNat).take
          (if s.part_info.rom_id = 6 then 6 else 5)] := by
  have hr := tx_length_range s h64
  obtain ⟨s2, hb, hs⟩ := begin_tx_ok ok s.tx_channel (tx_length s) (tx_data s) (kzalloc env s).2
    hr.1 hr.2
  rw [tx_data_take s h64] at hs
  refine ⟨s2.log, s2.allocs, ?_, hs.2.2⟩
  rw [start_tx_xmit_eq env s hst h0 hps (ok.alloc _), hb]
  simp only [if_true]
  rw [hs.1]
  rfl

/-- C17: `si4455_start_tx_xmit` returns 0 and leaves the state (bus log
included) as it is when `tx_stopped` is set, the outbound queue is empty or holds
fewer bytes than `package_size`.  Otherwise, with the transmit buffer allocated,
it makes one `si4455_begin_tx` call for the chunk of
n = min(available, capacity) queue bytes, capacity being `package_size` in fixed
mode and 61 in variable mode: the length passed is n in fixed mode and n + 1 in
variable mode, where the buffer starts with the byte n; when that call returns 0
the result is 0 with `tx_pending` set and `tx_pending_size = n`, and when it
fails its result is returned.  On a bus on which every operation succeeds, with
`package_size ≤ 64`, the call succeeds and puts exactly one transmit session on
the bus. -/
theorem c17_start_tx_xmit (env : Env) (s : si4455_port) :
    (s.tx_stopped = true ∨ uart_circ_chars_pending s.xmit = 0 ∨
        uart_circ_chars_pending s.xmit < s.package_size →
      si4455_start_tx_xmit env s = (0, s)) ∧
    (s.tx_stopped = false → uart_circ_chars_pending s.xmit ≠ 0 →
        ¬ uart_circ_chars_pending s.xmit < s.package_size → env.alloc s.allocs = true →
      tx_chunk s = min (uart_circ_chars_pending s.xmit)
        (if s.package_size = 0 then 61 else s.package_size) ∧
      tx_length s = (if s.package_size = 0 then (tx_chunk s : Int) + 1 else (tx_chunk s : Int)) ∧
      tx_data s = (if s.package_size = 0 then (tx_chunk s % 256) :: xmit_payload s.xmit (tx_chunk s)
        else xmit_payload s.xmit (tx_chunk s)) ∧
      (xmit_payload s.xmit (tx_chunk s)).length = tx_chunk s ∧
      ∃ r, r = si4455_begin_tx env s.tx_channel (tx_length s) (tx_data s) (kzalloc env s).2 ∧
        (r.1 = 0 → si4455_start_tx_xmit env s =
          (0, { r.2 with
            tx_pending := true
            tx_pending_size := tx_chunk s
            cts_changes := r.2.cts_changes ++ [0]
            tx_wd_timer := some r.2.tx_wd_timeout })) ∧
        (r.1 ≠ 0 → si4455_start_tx_xmit env s = r)) ∧
    (BusOk env → s.tx_stopped = false → uart_circ_chars_pending s.xmit ≠ 0 →
        ¬ uart_circ_chars_pending s.xmit < s.package_size → s.package_size ≤ 64 →
      ∃ l a, si4455_start_tx_xmit env s =
          (0, { s with
            tx_pending := true
            tx_pending_size := tx_chunk s
            cts_changes := s.cts_changes ++ [0]
            tx_wd_timer := some s.tx_wd_timeout
            log := l
            allocs := a }) ∧
        writes l = writes s.log ++ [int_status_frame 0 0 0,
          [SI4455_CMD_ID_FIFO_INFO, SI4455_CMD_FIFO_INFO_ARG_TX_BIT % 256],
          (SI4455_CMD_ID_WRITE_TX_FIFO % 256) :: tx_data s,
          (tx_frame s.part_info.rom_id s.tx_channel 0x10 (tx_length s).toNat).take
            (if s.part_info.rom_id = 6 then 6 else 5)]) := by
  refine ⟨start_tx_xmit_noop env s, ?_, ?_⟩
  · intro hst h0 hps ha
    refine ⟨rfl, rfl, rfl, xmit_payload_length _ _, _, rfl, ?_, ?_⟩
    · intro hr
      rw [start_tx_xmit_eq env s hst h0 hps ha, if_pos hr]
    · intro hr
      rw [start_tx_xmit_eq env s hst h0 hps ha, if_neg hr]
  · intro ok hst h0 hps h64
    exact start_tx_xmit_ok ok s hst h0 hps h64

/-- Witness of C17: in variable mode with 10 queued bytes, on the always-ready
chip, one transmit session is started; the FIFO write carries the length byte 10
followed by the 10 queued bytes, the transmit command has length 11, and
`tx_pending_size = 10`.  A stopped port is left alone. -/
theorem c17_start_tx_xmit_witness :
    (∃ l a, si4455_start_tx_xmit ready_env c17_start =
        (0, { c17_start with
          tx_pending := true
          tx_pending_size := 10
          cts_changes := [0]
          tx_wd_timer := some 100
          log := l
          allocs := a }) ∧
      writes l = [[0x20, 0, 0, 0], [0x15, 1],
        [0x66, 10, 0x30, 0x31, 0x32, 0x33, 0x34, 0x35, 0x36, 0x37, 0x38, 0x39],
        [0x31, 5, 0x10, 0, 11]]) ∧
    si4455_start_tx_xmit ready_env { c17_start with tx_stopped := true } =
      (0, { c17_start with tx_stopped := true }) := by
  refine ⟨?_, (c17_start_tx_xmit ready_env { c17_start with tx_stopped := true }).1 (Or.inl rfl)⟩
  obtain ⟨l, a, h, hw⟩ := (c17_start_tx_xmit ready_env c17_start).2.2 ready_env_ok rfl
    (by decide) (by decide) (by decide)
  exact ⟨l, a, h, hw⟩

/-! ## Claim C16: the choice of the Reconciler -/

/-- A `si4455_start_tx_xmit` that is not a no-op either fails or leaves a
transmission pending. -/
theorem start_tx_xmit_started (env : Env) (s : si4455_port) (hst : s.tx_stopped = false)
    (h0 : uart_circ_chars_pending s.xmit ≠ 0)
    (hps : ¬ uart_circ_chars_pending s.xmit < s.package_size) :
    (si4455_start_tx_xmit env s).1 ≠ 0 ∨ (si4455_start_tx_xmit env s).2.tx_pending = true := by
  by_cases ha : env.alloc s.allocs = true
  · rw [start_tx_xmit_eq env s hst h0 hps ha]
    split_ifs with h
    · exact Or.inr rfl
    · exact Or.inl h
  · left
    have hk : (kzalloc env s).1 = false := by
      simpa [kzalloc] using ha
    have hc : ¬ (uart_circ_chars_pending s.xmit = 0 ∨
        uart_circ_chars_pending s.xmit < s.package_size) := by
      rintro (h | h)
      · exact h0 h
      · exact hps h
    unfold si4455_start_tx_xmit
    simp only [hst, Bool.false_eq_true, if_false, hc, hk, if_true]
    decide

theorem do_work_closed (env : Env) (s : si4455_port)
    (h : ¬ (s.suspended = false ∧ s.connected = true ∧ s.configured = true ∧ 0 < s.power_count)) :
    si4455_do_work env s = (0, s) := by
  unfold si4455_do_work
  rw [if_neg]
  simpa using h

theorem do_work_open (env : Env) (s : si4455_port)
    (h : s.suspended = false ∧ s.connected = true ∧ s.configured = true ∧ 0 < s.power_count) :
    si4455_do_work env s =
      if ((if !(uart_circ_empty s.xmit || s.uart_stopped || s.tx_pending) then
            si4455_start_tx_xmit env s else (0, s)).1 = 0 ∧
          !(if !(uart_circ_empty s.xmit || s.uart_stopped || s.tx_pending) then
            si4455_start_tx_xmit env s else (0, s)).2.tx_pending) then
        si4455_begin_rx env
          (if !(uart_circ_empty s.xmit || s.uart_stopped || s.tx_pending) then
            si4455_start_tx_xmit env s else (0, s)).2.rx_channel
          (if !(uart_circ_empty s.xmit || s.uart_stopped || s.tx_pending) then
            si4455_start_tx_xmit env s else (0, s)).2.package_size
          (if !(uart_circ_empty s.xmit || s.uart_stopped || s.tx_pending) then
            si4455_start_tx_xmit env s else (0, s)).2
      else (if !(uart_circ_empty s.xmit || s.uart_stopped || s.tx_pending) then
            si4455_start_tx_xmit env s else (0, s)) := by
  unfold si4455_do_work
  rw [if_pos]
  simpa using h

/-- The Reconciler with the gate open and nothing to send: it starts the
receiver, unless a transmission is pending. -/
theorem do_work_idle (env : Env) (s : si4455_port)
    (h : s.suspended = false ∧ s.connected = true ∧ s.configured = true ∧ 0 < s.power_count)
    (hq : uart_circ_empty s.xmit = true ∨ s.uart_stopped = true ∨ s.tx_pending = true) :
    si4455_do_work env s =
      if s.tx_pending = true then (0, s)
      else si4455_begin_rx env s.rx_channel s.package_size s := by
  rw [do_work_open env s h]
  have hc : (!(uart_circ_empty s.xmit || s.uart_stopped || s.tx_pending)) = false := by
    rcases hq with h | h | h <;> simp [h]
  simp only [hc, Bool.false_eq_true, if_false]
  by_cases hp : s.tx_pending = true
  · simp [hp]
  · simp [hp]

/-- The Reconciler with the gate open and something to send. -/
theorem do_work_send (env : Env) (s : si4455_port)
    (h : s.suspended = false ∧ s.connected = true ∧ s.configured = true ∧ 0 < s.power_count)
    (he : uart_circ_empty s.xmit = false) (hu : s.uart_stopped = false)
    (hp : s.tx_pending = false) :
    si4455_do_work env s =
      if s.tx_stopped = true ∨ uart_circ_chars_pending s.xmit = 0 ∨
          uart_circ_chars_pending s.xmit < s.package_size then
        si4455_begin_rx env s.rx_channel s.package_size s
      else si4455_start_tx_xmit env s := by
  rw [do_work_open env s h]
  simp only [he, hu, hp, Bool.or_false, Bool.not_false, if_true]
  by_cases hn : s.tx_stopped = true ∨ uart_circ_chars_pending s.xmit = 0 ∨
      uart_circ_chars_pending s.xmit < s.package_size
  · rw [if_pos hn, start_tx_xmit_noop env s hn]
    simp [hp]
  · have hst : s.tx_stopped = false := by
      by_contra hc
      exact hn (Or.inl (by simpa using hc))
    have h0 : uart_circ_chars_pending s.xmit ≠ 0 := fun hc => hn (Or.inr (Or.inl hc))
    have hps : ¬ uart_circ_chars_pending s.xmit < s.package_size :=
      fun hc => hn (Or.inr (Or.inr hc))
    rw [if_neg hn]
    rcases start_tx_xmit_started env s hst h0 hps with hr | hr
    · rw [if_neg]
      exact fun hc => hr hc.1
    · rw [if_neg]
      intro hc
      simp [hr] at hc

theorem idle_port_reachable : Reachable chip_env idle_port := by
  have hp := option_some_getD (si4455_probe chip_env probe_ok_input zero_port) (0, zero_port)
    (by decide)
  have h1 := Reachable.step _ _ Reachable.init (Step.probe probe_ok_input zero_port _ hp)
  exact Reachable.step _ _ h1 (Step.startup _)

theorem c16_short_reachable : Reachable chip_env c16_short := by
  have h1 := Reachable.step _ _ idle_port_reachable (Step.package_size_store (0, 4) 1 _)
  have h2 := Reachable.step _ _ h1 (Step.uart_write 0x41 _)
  exact Reachable.step _ _ h2 (Step.uart_write 0x42 _)

/-- C16, counterexample: a reachable port that is not suspended, connected,
configured and powered, with a non-empty outbound queue (two bytes), not
flow-stopped and with no transmission pending, in fixed mode with packages of
four bytes.  The Reconciler calls `si4455_start_tx_xmit`, which declines
because fewer bytes are queued than one package takes, and then also calls
`si4455_begin_rx`: the start-receive command goes out on the bus. -/
theorem c16_short_queue_starts_receive :
    Reachable chip_env c16_short ∧
    (c16_short.suspended = false ∧ c16_short.connected = true ∧
      c16_short.configured = true ∧ 0 < c16_short.power_count) ∧
    uart_circ_empty c16_short.xmit = false ∧ uart_circ_chars_pending c16_short.xmit = 2 ∧
    c16_short.uart_stopped = false ∧ c16_short.tx_pending = false ∧
    c16_short.tx_stopped = false ∧ c16_short.package_size = 4 ∧
    si4455_start_tx_xmit chip_env c16_short = (0, c16_short) ∧
    si4455_do_work chip_env c16_short =
      si4455_begin_rx chip_env c16_short.rx_channel c16_short.package_size c16_short ∧
    writes (si4455_do_work chip_env c16_short).2.log =
      writes c16_short.log ++ [[0x20, 0, 0, 0], [0x15, 2], [0x32, 3, 0, 0, 4, 8, 8, 8]] := by
  have hg : c16_short.suspended = false ∧ c16_short.connected = true ∧
      c16_short.configured = true ∧ 0 < c16_short.power_count := by decide
  have hn : c16_short.tx_stopped = true ∨ uart_circ_chars_pending c16_short.xmit = 0 ∨
      uart_circ_chars_pending c16_short.xmit < c16_short.package_size :=
    Or.inr (Or.inr (by decide))
  refine ⟨c16_short_reachable, hg, by decide, by decide, by decide, by decide, by decide,
    by decide, start_tx_xmit_noop _ _ hn, ?_, by decide⟩
  rw [do_work_send chip_env c16_short hg (by decide) (by decide) (by decide), if_pos hn]

/-- C16, amended: when the port is suspended, not connected, not configured or
not powered the Reconciler returns 0 and leaves the state (bus log included) as
it is.  Otherwise: with a transmission pending it does nothing and returns 0;
with the outbound queue empty or the stream flow-stopped, and no transmission
pending, it calls `si4455_begin_rx` only; with the queue non-empty, the stream
not flow-stopped and no transmission pending it calls `si4455_start_tx_xmit`,
and its result is that call's result, except when that call is a no-op
(`tx_stopped` set, or fewer bytes queued than `package_size`), in which case
`si4455_begin_rx` is called on the unchanged state. -/
theorem c16_do_work (env : Env) (s : si4455_port) :
    (¬ (s.suspended = false ∧ s.connected = true ∧ s.configured = true ∧ 0 < s.power_count) →
      si4455_do_work env s = (0, s)) ∧
    (s.suspended = false ∧ s.connected = true ∧ s.configured = true ∧ 0 < s.power_count →
      (s.tx_pending = true → si4455_do_work env s = (0, s)) ∧
      (uart_circ_empty s.xmit = true ∨ s.uart_stopped = true → s.tx_pending = false →
        si4455_do_work env s = si4455_begin_rx env s.rx_channel s.package_size s) ∧
      (uart_circ_empty s.xmit = false → s.uart_stopped = false → s.tx_pending = false →
        (s.tx_stopped = true ∨ uart_circ_chars_pending s.xmit = 0 ∨
            uart_circ_chars_pending s.xmit < s.package_size →
          si4455_start_tx_xmit env s = (0, s) ∧
          si4455_do_work env s = si4455_begin_rx env s.rx_channel s.package_size s) ∧
        (s.tx_stopped = false → uart_circ_chars_pending s.xmit ≠ 0 →
            ¬ uart_circ_chars_pending s.xmit < s.package_size →
          si4455_do_work env s = si4455_start_tx_xmit env s ∧
          ((si4455_start_tx_xmit env s).1 ≠ 0 ∨
            (si4455_start_tx_xmit env s).2.tx_pending = true)))) := by
  refine ⟨do_work_closed env s, fun hg => ⟨?_, ?_, ?_⟩⟩
  · intro hp
    rw [do_work_idle env s hg (Or.inr (Or.inr hp)), if_pos hp]
  · intro hq hp
    have hq2 : uart_circ_empty s.xmit = true ∨ s.uart_stopped = true ∨ s.tx_pending = true := by
      rcases hq with h | h
      · exact Or.inl h
      · exact Or.inr (Or.inl h)
    rw [do_work_idle env s hg hq2, if_neg (by simp [hp])]
  · intro he hu hp
    refine ⟨fun hn => ⟨start_tx_xmit_noop env s hn, ?_⟩, fun hst h0 hps => ⟨?_, ?_⟩⟩
    · rw [do_work_send env s hg he hu hp, if_pos hn]
    · rw [do_work_send env s hg he hu hp, if_neg]
      rintro (h | h | h)
      · rw [hst] at h; exact Bool.false_ne_true h
      · exact h0 h
      · exact hps h
    · exact start_tx_xmit_started env s hst h0 hps

/-- Witness of C16, amended: on the port that has just been started the queue
is empty and the Reconciler starts the receiver; on the port with two queued
bytes and packages of four `si4455_start_tx_xmit` is a no-op and the receiver
is started; on the port with one queued byte and packages of one the
transmission is started. -/
theorem c16_do_work_witness :
    si4455_do_work chip_env idle_port =
      si4455_begin_rx chip_env idle_port.rx_channel idle_port.package_size idle_port ∧
    si4455_do_work chip_env c16_short =
      si4455_begin_rx chip_env c16_short.rx_channel c16_short.package_size c16_short ∧
    si4455_do_work chip_env (uart_write 0x41 idle_port) =
      si4455_start_tx_xmit chip_env (uart_write 0x41 idle_port) ∧
    si4455_do_work chip_env c3_sending = (0, c3_sending) :=
  ⟨((c16_do_work chip_env idle_port).2 (by decide)).2.1 (Or.inl (by decide)) (by decide),
   ((((c16_do_work chip_env c16_short).2 (by decide)).2.2 (by decide) (by decide)
      (by decide)).1 (Or.inr (Or.inr (by decide)))).2,
   ((((c16_do_work chip_env (uart_write 0x41 idle_port)).2 (by decide)).2.2 (by decide)
      (by decide) (by decide)).2 (by decide) (by decide) (by decide)).1,
   ((c16_do_work chip_env c3_sending).2 (by decide)).1 (by decide)⟩

/-! ## Claim C15: the priority chain of the interrupt dispatcher -/

theorem bus_frame_xmit {s1 s2 : si4455_port} (h : bus_frame s1 s2) :
    s2.xmit = s1.xmit := by
  rw [h.1]

@[simp] theorem xmt_kzalloc (env : Env) (s : si4455_port) :
    (kzalloc env s).2.xmit = s.xmit := rfl

@[simp] theorem xmt_begin_tx (env : Env) (ch : Nat) (l : Int) (d : List Nat) (s : si4455_port) :
    (si4455_begin_tx env ch l d s).2.xmit = s.xmit :=
  bus_frame_xmit (bus_frame_begin_tx env ch l d s)

@[simp] theorem xmt_end_tx (env : Env) (s : si4455_port) :
    (si4455_end_tx env s).2.xmit = s.xmit :=
  bus_frame_xmit (bus_frame_end_tx env s)

@[simp] theorem xmt_begin_rx (env : Env) (ch l : Nat) (s : si4455_port) :
    (si4455_begin_rx env ch l s).2.xmit = s.xmit :=
  bus_frame_xmit (bus_frame_begin_rx env ch l s)

@[simp] theorem xmt_end_rx (env : Env) (l : Nat) (d : List Nat) (s : si4455_port) :
    (si4455_end_rx env l d s).2.2.xmit = s.xmit :=
  bus_frame_xmit (bus_frame_end_rx env l d s)

@[simp] theorem xmt_change_state (env : Env) (a : Nat) (s : si4455_port) :
    (si4455_change_state env a s).2.xmit = s.xmit :=
  bus_frame_xmit (bus_frame_change_state env a s)

@[simp] theorem xmt_fifo_info (env : Env) (a : Nat) (r : si4455_fifo_info_s) (s : si4455_port) :
    (si4455_fifo_info env a r s).2.2.xmit = s.xmit :=
  bus_frame_xmit (bus_frame_fifo_info env a r s)

@[simp] theorem xmt_get_int_status (env : Env) (a b c : Nat) (r : si4455_int_status)
    (s : si4455_port) :
    (si4455_get_int_status env a b c r s).2.2.xmit = s.xmit :=
  bus_frame_xmit (bus_frame_get_int_status env a b c r s)

@[simp] theorem xmt_get_modem_status (env : Env) (a : Nat) (r : si4455_modem_status)
    (s : si4455_port) :
    (si4455_get_modem_status env a r s).2.2.xmit = s.xmit :=
  bus_frame_xmit (bus_frame_get_modem_status env a r s)

@[simp] theorem xmt_get_part_info (env : Env) (r : si4455_part_info) (s : si4455_port) :
    (si4455_get_part_info env r s).2.2.xmit = s.xmit :=
  bus_frame_xmit (bus_frame_get_part_info env r s)

@[simp] theorem xmt_s_power (b : Bool) (s : si4455_port) :
    (si4455_s_power b s).2.xmit = s.xmit := by
  unfold si4455_s_power si4455_set_power
  dsimp only
  split_ifs <;> rfl

@[simp] theorem xmt_start_tx_xmit (env : Env) (s : si4455_port) :
    (si4455_start_tx_xmit env s).2.xmit = s.xmit := by
  unfold si4455_start_tx_xmit
  dsimp only
  split_ifs <;> simp [uart_handle_cts_change]

@[simp] theorem xmt_cancel_tx (env : Env) (s : si4455_port) :
    (si4455_cancel_tx env s).2.xmit = s.xmit := by
  unfold si4455_cancel_tx
  dsimp only
  split_ifs <;> simp [uart_handle_cts_change]

@[simp] theorem xmt_do_work (env : Env) (s : si4455_port) :
    (si4455_do_work env s).2.xmit = s.xmit := by
  unfold si4455_do_work
  dsimp only
  split_ifs <;> simp

@[simp] theorem xmt_handle_rx_pend (env : Env) (f : si4455_fifo_info_s) (s : si4455_port) :
    (si4455_handle_rx_pend env f s).xmit = s.xmit := by
  unfold si4455_handle_rx_pend
  dsimp only
  split_ifs <;> simp

theorem bus_frame_flip {s1 s2 : si4455_port} (h : bus_frame s1 s2) :
    s2.flip = s1.flip := by
  rw [h.1]

@[simp] theorem flp_kzalloc (env : Env) (s : si4455_port) :
    (kzalloc env s).2.flip = s.flip := rfl

@[simp] theorem flp_begin_tx (env : Env) (ch : Nat) (l : Int) (d : List Nat) (s : si4455_port) :
    (si4455_begin_tx env ch l d s).2.flip = s.flip :=
  bus_frame_flip (bus_frame_begin_tx env ch l d s)

@[simp] theorem flp_end_tx (env : Env) (s : si4455_port) :
    (si4455_end_tx env s).2.flip = s.flip :=
  bus_frame_flip (bus_frame_end_tx env s)

@[simp] theorem flp_begin_rx (env : Env) (ch l : Nat) (s : si4455_port) :
    (si4455_begin_rx env ch l s).2.flip = s.flip :=
  bus_frame_flip (bus_frame_begin_rx env ch l s)

@[simp] theorem flp_end_rx (env : Env) (l : Nat) (d : List Nat) (s : si4455_port) :
    (si4455_end_rx env l d s).2.2.flip = s.flip :=
  bus_frame_flip (bus_frame_end_rx env l d s)

@[simp] theorem flp_change_state (env : Env) (a : Nat) (s : si4455_port) :
    (si4455_change_state env a s).2.flip = s.flip :=
  bus_frame_flip (bus_frame_change_state env a s)

@[simp] theorem flp_fifo_info (env : Env) (a : Nat) (r : si4455_fifo_info_s) (s : si4455_port) :
    (si4455_fifo_info env a r s).2.2.flip = s.flip :=
  bus_frame_flip (bus_frame_fifo_info env a r s)

@[simp] theorem flp_get_int_status (env : Env) (a b c : Nat) (r : si4455_int_status)
    (s : si4455_port) :
    (si4455_get_int_status env a b c r s).2.2.flip = s.flip :=
  bus_frame_flip (bus_frame_get_int_status env a b c r s)

@[simp] theorem flp_get_modem_status (env : Env) (a : Nat) (r : si4455_modem_status)
    (s : si4455_port) :
    (si4455_get_modem_status env a r s).2.2.flip = s.flip :=
  bus_frame_flip (bus_frame_get_modem_status env a r s)

@[simp] theorem flp_get_part_info (env : Env) (r : si4455_part_info) (s : si4455_port) :
    (si4455_get_part_info env r s).2.2.flip = s.flip :=
  bus_frame_flip (bus_frame_get_part_info env r s)

@[simp] theorem flp_s_power (b : Bool) (s : si4455_port) :
    (si4455_s_power b s).2.flip = s.flip := by
  unfold si4455_s_power si4455_set_power
  dsimp only
  split_ifs <;> rfl

@[simp] theorem flp_start_tx_xmit (env : Env) (s : si4455_port) :
    (si4455_start_tx_xmit env s).2.flip = s.flip := by
  unfold si4455_start_tx_xmit
  dsimp only
  split_ifs <;> simp [uart_handle_cts_change]

@[simp] theorem flp_cancel_tx (env : Env) (s : si4455_port) :
    (si4455_cancel_tx env s).2.flip = s.flip := by
  unfold si4455_cancel_tx
  dsimp only
  split_ifs <;> simp [uart_handle_cts_change]

@[simp] theorem flp_do_work (env : Env) (s : si4455_port) :
    (si4455_do_work env s).2.flip = s.flip := by
  unfold si4455_do_work
  dsimp only
  split_ifs <;> simp

@[simp] theorem flp_handle_tx_pend (env : Env) (s : si4455_port) :
    (si4455_handle_tx_pend env s).flip = s.flip := by
  unfold si4455_handle_tx_pend
  dsimp only
  split_ifs <;> simp [uart_handle_cts_change]


/-- What the bus transport leaves alone, field by field. -/
theorem bus_frame_fields {s1 s2 : si4455_port} (h : bus_frame s1 s2) :
    s2.xmit = s1.xmit ∧ s2.tx_pending = s1.tx_pending ∧
    s2.tx_pending_size = s1.tx_pending_size ∧ s2.icount_tx = s1.icount_tx ∧
    s2.flip = s1.flip ∧ s2.flip_pushes = s1.flip_pushes ∧ s2.icount_rx = s1.icount_rx ∧
    s2.modem_status = s1.modem_status ∧ s2.current_rssi = s1.current_rssi := by
  refine ⟨?_, ?_, ?_, ?_, ?_, ?_, ?_, ?_, ?_⟩ <;> rw [h.1]

theorem txp_handle_rx_pend (env : Env) (f : si4455_fifo_info_s) (s : si4455_port) :
    (si4455_handle_rx_pend env f s).tx_pending = s.tx_pending := by
  unfold si4455_handle_rx_pend
  dsimp only
  have h := fun l d t => (bus_frame_fields (bus_frame_end_rx env l d t)).2.1
  split_ifs
  all_goals first
    | rfl
    | (rw [h]; rfl)

theorem ist_eq (env : Env) (s : si4455_port)
    (hg : s.suspended = false ∧ s.connected = true ∧ s.configured = true ∧ 0 < s.power_count)
    (i : si4455_int_status) (s1 : si4455_port)
    (hq : si4455_get_int_status env 0 0 0 int_status_zero s = (0, i, s1)) :
    si4455_ist env s =
      if (si4455_ist_dispatch env i s1).1 = true then
        (irqreturn_t.IRQ_HANDLED, (si4455_do_work env (si4455_ist_dispatch env i s1).2).2)
      else (irqreturn_t.IRQ_HANDLED, (si4455_ist_dispatch env i s1).2) := by
  unfold si4455_ist
  have hgate : ¬ (s.suspended = true ∨ (!s.connected) = true ∨ (!s.configured) = true ∨
      s.power_count = 0) := by
    obtain ⟨h1, h2, h3, h4⟩ := hg
    simp [h1, h2, h3]
    omega
  rw [if_neg hgate]
  simp only [hq, ne_eq, not_true_eq_false, if_false]

/-- C15: with the gate open and the InterruptStatus query answered, `si4455_ist`
handles the first condition that matches, in the order chip error
(`chip_pend & 0x08`), packet sent (`ph_pend & 0x20`), packet received
(`ph_pend & 0x10`), CRC error (`ph_pend & 0x08`), and none of the later ones; it
then runs the Reconciler and returns `IRQ_HANDLED`.  When none matches the
state is left as the query left it and the Reconciler is not run.  In
particular, with the chip error pending the outbound queue (its tail included),
`tx_pending` and `tx_pending_size` are as before whatever else is pending, and
with chip error or packet sent pending no byte is pushed to the inbound queue. -/
theorem c15_ist_priority (env : Env) (s : si4455_port)
    (hg : s.suspended = false ∧ s.connected = true ∧ s.configured = true ∧ 0 < s.power_count)
    (i : si4455_int_status) (s1 : si4455_port)
    (hq : si4455_get_int_status env 0 0 0 int_status_zero s = (0, i, s1)) :
    (i.chip_pend &&& 0x08 ≠ 0 →
      ∃ d, d = (si4455_fifo_info env 0x02 fifo_info_zero
          (si4455_change_state env 1 s1).2).2.2 ∧
        si4455_ist_dispatch env i s1 = (true, d) ∧
        d.xmit = s.xmit ∧ d.tx_pending = s.tx_pending ∧
        d.tx_pending_size = s.tx_pending_size ∧ d.icount_tx = s.icount_tx ∧
        d.flip = s.flip ∧ d.flip_pushes = s.flip_pushes ∧
        d.modem_status = s.modem_status ∧
        si4455_ist env s = (irqreturn_t.IRQ_HANDLED, (si4455_do_work env d).2) ∧
        (si4455_ist env s).2.xmit = s.xmit ∧ (si4455_ist env s).2.flip = s.flip) ∧
    (i.chip_pend &&& 0x08 = 0 → i.ph_pend &&& 0x20 ≠ 0 →
      ∃ d, d = si4455_handle_tx_pend env (si4455_change_state env 1 s1).2 ∧
        si4455_ist_dispatch env i s1 = (true, d) ∧
        d.flip = s.flip ∧
        si4455_ist env s = (irqreturn_t.IRQ_HANDLED, (si4455_do_work env d).2) ∧
        (si4455_ist env s).2.flip = s.flip) ∧
    (i.chip_pend &&& 0x08 = 0 → i.ph_pend &&& 0x20 = 0 → i.ph_pend &&& 0x10 ≠ 0 →
      ∃ m c f d, m = si4455_get_modem_status env 0 s1.modem_status s1 ∧
        c = si4455_change_state env 1
          { m.2.2 with modem_status := m.2.1, current_rssi := m.2.1.curr_rssi } ∧
        f = si4455_fifo_info env 0 fifo_info_zero c.2 ∧
        d = si4455_handle_rx_pend env f.2.1 f.2.2 ∧
        si4455_ist_dispatch env i s1 = (true, d) ∧
        d.xmit = s.xmit ∧ d.tx_pending = s.tx_pending ∧
        si4455_ist env s = (irqreturn_t.IRQ_HANDLED, (si4455_do_work env d).2) ∧
        (si4455_ist env s).2.xmit = s.xmit) ∧
    (i.chip_pend &&& 0x08 = 0 → i.ph_pend &&& 0x20 = 0 → i.ph_pend &&& 0x10 = 0 →
        i.ph_pend &&& 0x08 ≠ 0 →
      ∃ d, d = (si4455_fifo_info env 0x02 fifo_info_zero
          (si4455_change_state env 1 s1).2).2.2 ∧
        si4455_ist_dispatch env i s1 = (true, d) ∧
        d.xmit = s.xmit ∧ d.tx_pending = s.tx_pending ∧ d.flip = s.flip ∧
        si4455_ist env s = (irqreturn_t.IRQ_HANDLED, (si4455_do_work env d).2) ∧
        (si4455_ist env s).2.xmit = s.xmit ∧ (si4455_ist env s).2.flip = s.flip) ∧
    (i.chip_pend &&& 0x08 = 0 → i.ph_pend &&& 0x20 = 0 → i.ph_pend &&& 0x10 = 0 →
        i.ph_pend &&& 0x08 = 0 →
      si4455_ist_dispatch env i s1 = (false, s1) ∧
      si4455_ist env s = (irqreturn_t.IRQ_HANDLED, s1)) := by
  have hs1 : bus_frame s s1 := by
    have h := bus_frame_get_int_status env 0 0 0 int_status_zero s
    rw [hq] at h
    exact h
  have f1 := bus_frame_fields hs1
  have hA : bus_frame s (si4455_fifo_info env 0x02 fifo_info_zero
      (si4455_change_state env 1 s1).2).2.2 :=
    bus_frame_trans hs1 (bus_frame_trans (bus_frame_change_state env 1 s1)
      (bus_frame_fifo_info env _ _ _))
  have fA := bus_frame_fields hA
  have hist := ist_eq env s hg i s1 hq
  refine ⟨?_, ?_, ?_, ?_, ?_⟩
  · intro h1
    have hd : si4455_ist_dispatch env i s1 = (true, (si4455_fifo_info env 0x02 fifo_info_zero
        (si4455_change_state env 1 s1).2).2.2) := by
      unfold si4455_ist_dispatch
      simp only [SI4455_CMD_GET_CHIP_STATUS_ERROR_PEND_BIT, SI4455_CMD_CHANGE_STATE_STATE_SLEEP,
        SI4455_CMD_FIFO_INFO_ARG_RX_BIT]
      rw [if_pos h1]
    rw [hd] at hist
    simp only [if_true] at hist
    refine ⟨_, rfl, hd, fA.1, fA.2.1, fA.2.2.1, fA.2.2.2.1, fA.2.2.2.2.1, fA.2.2.2.2.2.1,
      fA.2.2.2.2.2.2.2.1, hist, ?_, ?_⟩
    · rw [hist]; simp [f1.1]
    · rw [hist]; simp [f1.2.2.2.2.1]
  · intro h1 h2
    have hd : si4455_ist_dispatch env i s1 =
        (true, si4455_handle_tx_pend env (si4455_change_state env 1 s1).2) := by
      unfold si4455_ist_dispatch
      simp only [SI4455_CMD_GET_CHIP_STATUS_ERROR_PEND_BIT, SI4455_CMD_CHANGE_STATE_STATE_SLEEP,
        SI4455_CMD_GET_INT_STATUS_PACKET_SENT_PEND_BIT]
      rw [if_neg (by simp [h1]), if_pos h2]
    rw [hd] at hist
    simp only [if_true] at hist
    have hfl : (si4455_handle_tx_pend env (si4455_change_state env 1 s1).2).flip = s.flip := by
      simp [f1.2.2.2.2.1]
    refine ⟨_, rfl, hd, hfl, hist, ?_⟩
    · rw [hist]; simp [f1.2.2.2.2.1]
  · intro h1 h2 h3
    have hd : si4455_ist_dispatch env i s1 =
        (true, si4455_handle_rx_pend env
          (si4455_fifo_info env 0 fifo_info_zero (si4455_change_state env 1
            { (si4455_get_modem_status env 0 s1.modem_status s1).2.2 with
              modem_status := (si4455_get_modem_status env 0 s1.modem_status s1).2.1
              current_rssi :=
                (si4455_get_modem_status env 0 s1.modem_status s1).2.1.curr_rssi }).2).2.1
          (si4455_fifo_info env 0 fifo_info_zero (si4455_change_state env 1
            { (si4455_get_modem_status env 0 s1.modem_status s1).2.2 with
              modem_status := (si4455_get_modem_status env 0 s1.modem_status s1).2.1
              current_rssi :=
                (si4455_get_modem_status env 0 s1.modem_status s1).2.1.curr_rssi }).2).2.2) := by
      unfold si4455_ist_dispatch
      simp only [SI4455_CMD_GET_CHIP_STATUS_ERROR_PEND_BIT, SI4455_CMD_CHANGE_STATE_STATE_SLEEP,
        SI4455_CMD_GET_INT_STATUS_PACKET_SENT_PEND_BIT,
        SI4455_CMD_GET_INT_STATUS_PACKET_RX_PEND_BIT]
      rw [if_neg (by simp [h1]), if_neg (by simp [h2]), if_pos h3]
    rw [hd] at hist
    simp only [if_true] at hist
    have hx : (si4455_handle_rx_pend env
          (si4455_fifo_info env 0 fifo_info_zero (si4455_change_state env 1
            { (si4455_get_modem_status env 0 s1.modem_status s1).2.2 with
              modem_status := (si4455_get_modem_status env 0 s1.modem_status s1).2.1
              current_rssi :=
                (si4455_get_modem_status env 0 s1.modem_status s1).2.1.curr_rssi }).2).2.1
          (si4455_fifo_info env 0 fifo_info_zero (si4455_change_state env 1
            { (si4455_get_modem_status env 0 s1.modem_status s1).2.2 with
              modem_status := (si4455_get_modem_status env 0 s1.modem_status s1).2.1
              current_rssi :=
                (si4455_get_modem_status env 0 s1.modem_status s1).2.1.curr_rssi }).2).2.2).xmit
        = s.xmit := by
      simp [f1.1]
    refine ⟨_, _, _, _, rfl, rfl, rfl, rfl, hd, hx, ?_, hist, ?_⟩
    · rw [txp_handle_rx_pend, (bus_frame_fields (bus_frame_fifo_info env _ _ _)).2.1,
        (bus_frame_fields (bus_frame_change_state env _ _)).2.1]
      show (si4455_get_modem_status env 0 s1.modem_status s1).2.2.tx_pending = _
      rw [(bus_frame_fields (bus_frame_get_modem_status env _ _ _)).2.1, f1.2.1]
    · rw [hist]; simp [f1.1]
  · intro h1 h2 h3 h4
    have hd : si4455_ist_dispatch env i s1 = (true, (si4455_fifo_info env 0x02 fifo_info_zero
        (si4455_change_state env 1 s1).2).2.2) := by
      unfold si4455_ist_dispatch
      simp only [SI4455_CMD_GET_CHIP_STATUS_ERROR_PEND_BIT, SI4455_CMD_CHANGE_STATE_STATE_SLEEP,
        SI4455_CMD_FIFO_INFO_ARG_RX_BIT, SI4455_CMD_GET_INT_STATUS_PACKET_SENT_PEND_BIT,
        SI4455_CMD_GET_INT_STATUS_PACKET_RX_PEND_BIT, SI4455_CMD_GET_INT_STATUS_CRC_ERROR_BIT]
      rw [if_neg (by simp [h1]), if_neg (by simp [h2]), if_neg (by simp [h3]), if_pos h4]
    rw [hd] at hist
    simp only [if_true] at hist
    refine ⟨_, rfl, hd, fA.1, fA.2.1, fA.2.2.2.2.1, hist, ?_, ?_⟩
    · rw [hist]; simp [f1.1]
    · rw [hist]; simp [f1.2.2.2.2.1]
  · intro h1 h2 h3 h4
    have hd : si4455_ist_dispatch env i s1 = (false, s1) := by
      unfold si4455_ist_dispatch
      simp only [SI4455_CMD_GET_CHIP_STATUS_ERROR_PEND_BIT,
        SI4455_CMD_GET_INT_STATUS_PACKET_SENT_PEND_BIT,
        SI4455_CMD_GET_INT_STATUS_PACKET_RX_PEND_BIT, SI4455_CMD_GET_INT_STATUS_CRC_ERROR_BIT]
      rw [if_neg (by simp [h1]), if_neg (by simp [h2]), if_neg (by simp [h3]),
        if_neg (by simp [h4])]
    rw [hd] at hist
    exact ⟨hd, by simpa using hist⟩

/-- Witness of C15, on the port with one queued byte in flight.  When the
reply has chip error and packet sent both pending, the interrupt is handled,
the outbound queue (its tail included) and `tx_pending` are as before.  When
the reply has packet sent and packet received both pending, the tail advances
by the byte sent and nothing is pushed to the inbound queue. -/
theorem c15_ist_priority_witness :
    ((si4455_ist error_and_sent_env c3_sending).1 = irqreturn_t.IRQ_HANDLED ∧
      (si4455_ist error_and_sent_env c3_sending).2.xmit = c3_sending.xmit ∧
      c3_sending.tx_pending = true ∧
      (si4455_ist error_and_sent_env c3_sending).2.tx_pending = true) ∧
    ((si4455_ist sent_and_received_env c3_sending).1 = irqreturn_t.IRQ_HANDLED ∧
      (si4455_ist sent_and_received_env c3_sending).2.flip = c3_sending.flip ∧
      c3_sending.xmit.tail = 0 ∧
      (si4455_ist sent_and_received_env c3_sending).2.xmit.tail = 1 ∧
      (si4455_ist sent_and_received_env c3_sending).2.tx_pending = false) := by
  constructor
  · obtain ⟨d, _, _, _, _, _, _, _, _, _, hi, hx, _⟩ :=
      (c15_ist_priority error_and_sent_env c3_sending (by decide)
        (si4455_get_int_status error_and_sent_env 0 0 0 int_status_zero c3_sending).2.1
        (si4455_get_int_status error_and_sent_env 0 0 0 int_status_zero c3_sending).2.2
        (Prod.ext (by decide) rfl)).1 (by decide)
    exact ⟨by rw [hi], hx, by decide, by decide⟩
  · obtain ⟨d, _, _, _, hi, hf⟩ :=
      (c15_ist_priority sent_and_received_env c3_sending (by decide)
        (si4455_get_int_status sent_and_received_env 0 0 0 int_status_zero c3_sending).2.1
        (si4455_get_int_status sent_and_received_env 0 0 0 int_status_zero c3_sending).2.2
        (Prod.ext (by decide) rfl)).2.1 (by decide) (by decide)
    exact ⟨by rw [hi], hf, by decide, by decide, by decide⟩

/-! ## Claim C19: the bound on the package size -/

theorem bus_frame_package_size {s1 s2 : si4455_port} (h : bus_frame s1 s2) :
    s2.package_size = s1.package_size := by
  rw [h.1]

@[simp] theorem psz_kzalloc (env : Env) (s : si4455_port) :
    (kzalloc env s).2.package_size = s.package_size := rfl

@[simp] theorem psz_begin_tx (env : Env) (ch : Nat) (l : Int) (d : List Nat) (s : si4455_port) :
    (si4455_begin_tx env ch l d s).2.package_size = s.package_size :=
  bus_frame_package_size (bus_frame_begin_tx env ch l d s)

@[simp] theorem psz_end_tx (env : Env) (s : si4455_port) :
    (si4455_end_tx env s).2.package_size = s.package_size :=
  bus_frame_package_size (bus_frame_end_tx env s)

@[simp] theorem psz_begin_rx (env : Env) (ch l : Nat) (s : si4455_port) :
    (si4455_begin_rx env ch l s).2.package_size = s.package_size :=
  bus_frame_package_size (bus_frame_begin_rx env ch l s)

@[simp] theorem psz_end_rx (env : Env) (l : Nat) (d : List Nat) (s : si4455_port) :
    (si4455_end_rx env l d s).2.2.package_size = s.package_size :=
  bus_frame_package_size (bus_frame_end_rx env l d s)

@[simp] theorem psz_change_state (env : Env) (a : Nat) (s : si4455_port) :
    (si4455_change_state env a s).2.package_size = s.package_size :=
  bus_frame_package_size (bus_frame_change_state env a s)

@[simp] theorem psz_fifo_info (env : Env) (a : Nat) (r : si4455_fifo_info_s) (s : si4455_port) :
    (si4455_fifo_info env a r s).2.2.package_size = s.package_size :=
  bus_frame_package_size (bus_frame_fifo_info env a r s)

@[simp] theorem psz_get_int_status (env : Env) (a b c : Nat) (r : si4455_int_status)
    (s : si4455_port) :
    (si4455_get_int_status env a b c r s).2.2.package_size = s.package_size :=
  bus_frame_package_size (bus_frame_get_int_status env a b c r s)

@[simp] theorem psz_get_modem_status (env : Env) (a : Nat) (r : si4455_modem_status)
    (s : si4455_port) :
    (si4455_get_modem_status env a r s).2.2.package_size = s.package_size :=
  bus_frame_package_size (bus_frame_get_modem_status env a r s)

@[simp] theorem psz_get_part_info (env : Env) (r : si4455_part_info) (s : si4455_port) :
    (si4455_get_part_info env r s).2.2.package_size = s.package_size :=
  bus_frame_package_size (bus_frame_get_part_info env r s)

@[simp] theorem psz_s_power (b : Bool) (s : si4455_port) :
    (si4455_s_power b s).2.package_size = s.package_size := by
  unfold si4455_s_power si4455_set_power
  dsimp only
  split_ifs <;> rfl

@[simp] theorem psz_start_tx_xmit (env : Env) (s : si4455_port) :
    (si4455_start_tx_xmit env s).2.package_size = s.package_size := by
  unfold si4455_start_tx_xmit
  dsimp only
  split_ifs <;> simp [uart_handle_cts_change]

@[simp] theorem psz_cancel_tx (env : Env) (s : si4455_port) :
    (si4455_cancel_tx env s).2.package_size = s.package_size := by
  unfold si4455_cancel_tx
  dsimp only
  split_ifs <;> simp [uart_handle_cts_change]

@[simp] theorem psz_do_work (env : Env) (s : si4455_port) :
    (si4455_do_work env s).2.package_size = s.package_size := by
  unfold si4455_do_work
  dsimp only
  split_ifs <;> simp

@[simp] theorem psz_handle_rx_pend (env : Env) (f : si4455_fifo_info_s) (s : si4455_port) :
    (si4455_handle_rx_pend env f s).package_size = s.package_size := by
  unfold si4455_handle_rx_pend
  dsimp only
  split_ifs <;> simp

@[simp] theorem psz_handle_tx_pend (env : Env) (s : si4455_port) :
    (si4455_handle_tx_pend env s).package_size = s.package_size := by
  unfold si4455_handle_tx_pend
  dsimp only
  split_ifs <;> simp [uart_handle_cts_change]

@[simp] theorem psz_ist_dispatch (env : Env) (i : si4455_int_status) (s : si4455_port) :
    (si4455_ist_dispatch env i s).2.package_size = s.package_size := by
  unfold si4455_ist_dispatch
  dsimp only
  split_ifs <;> simp

@[simp] theorem psz_ist (env : Env) (s : si4455_port) :
    (si4455_ist env s).2.package_size = s.package_size := by
  unfold si4455_ist
  dsimp only
  split_ifs <;> simp

@[simp] theorem psz_tx_wd_proc (env : Env) (s : si4455_port) :
    (si4455_tx_wd_proc env s).package_size = s.package_size := by
  unfold si4455_tx_wd_proc
  dsimp only
  split_ifs <;> simp

theorem psz_re_configure (env : Env) (fw : List Nat) (s : si4455_port) (r : Int × si4455_port)
    (h : si4455_re_configure env fw s = some r) : r.2.package_size = s.package_size := by
  unfold si4455_re_configure at h
  dsimp only at h
  rcases hc : si4455_configure env fw
      (if s.power_count = 0 then (si4455_s_power true { s with configured := false }).2
        else { s with configured := false }) with _ | c
  · simp [hc] at h
  · have hf := bus_frame_package_size (bus_frame_configure env fw _ c hc)
    have hs : (if s.power_count = 0 then (si4455_s_power true { s with configured := false }).2
        else { s with configured := false }).package_size = s.package_size := by
      split_ifs <;> simp
    simp only [hc, Option.map_some', Option.some.injEq] at h
    subst h
    split_ifs <;> simp [hf, hs]

theorem psz_cts_wd_proc (env : Env) (fw : Option (List Nat)) (s s2 : si4455_port)
    (h : si4455_cts_wd_proc env fw s = some s2) : s2.package_size = s.package_size := by
  unfold si4455_cts_wd_proc si4455_cts_wd_locked at h
  dsimp only at h
  by_cases hce : s.cts_error = true
  · cases fw with
    | none =>
      simp [hce] at h
      subst h
      split_ifs <;> simp
    | some fw =>
      rcases hc : si4455_re_configure env fw (si4455_s_power false s).2 with _ | c
      · simp [hce, hc] at h
      · have hr := psz_re_configure env fw _ c hc
        simp [hce, hc] at h
        subst h
        split_ifs <;> simp [hr]
  · simp [hce] at h
    subst h
    split_ifs <;> simp

theorem psz_probe_out_generic (ret : Int) (s : si4455_port) (r : Int × si4455_port)
    (h : probe_out_generic ret s = some r) : r.2.package_size = s.package_size := by
  unfold probe_out_generic at h
  simp only [Option.some.injEq] at h
  subst h
  simp

theorem psz_probe_bring_up (env : Env) (a : probe_input) (s : si4455_port)
    (r : Int × si4455_port) (h : probe_bring_up env a s = some r) :
    r.2.package_size = s.package_size := by
  unfold probe_bring_up at h
  dsimp only at h
  repeat' (split at h)
  all_goals first
    | (simp at h; done)
    | (have hr := psz_re_configure env _ _ _ (by assumption)
       simp at hr
       first
         | (rw [psz_probe_out_generic _ _ _ h]; simp [hr])
         | (simp only [Option.some.injEq] at h; subst h; simp [hr]))
    | (rw [psz_probe_out_generic _ _ _ h]; simp)


theorem apply_event_step (env : Env) (e : Event) (s s2 : si4455_port)
    (h : apply_event env e s = some s2) : Step env s s2 := by
  cases e with
  | cts_wd_proc fw => exact Step.cts_wd_proc fw s s2 h
  | startup =>
    simp only [apply_event, Option.some.injEq] at h
    subst h
    exact Step.startup s
  | shutdown =>
    simp only [apply_event, Option.some.injEq] at h
    subst h
    exact Step.shutdown s
  | do_work =>
    simp only [apply_event, Option.some.injEq] at h
    subst h
    exact Step.do_work s
  | start_tx_xmit =>
    simp only [apply_event, Option.some.injEq] at h
    subst h
    exact Step.start_tx_xmit s
  | cancel_tx =>
    simp only [apply_event, Option.some.injEq] at h
    subst h
    exact Step.cancel_tx s
  | ist =>
    simp only [apply_event, Option.some.injEq] at h
    subst h
    exact Step.ist s
  | tx_wd_event =>
    simp only [apply_event, Option.some.injEq] at h
    subst h
    exact Step.tx_wd_event s
  | tx_wd_proc =>
    simp only [apply_event, Option.some.injEq] at h
    subst h
    exact Step.tx_wd_proc s
  | cts_wd_event =>
    simp only [apply_event, Option.some.injEq] at h
    subst h
    exact Step.cts_wd_event s
  | tx_proc =>
    simp only [apply_event, Option.some.injEq] at h
    subst h
    exact Step.tx_proc s
  | start_tx =>
    simp only [apply_event, Option.some.injEq] at h
    subst h
    exact Step.start_tx s
  | stop_tx =>
    simp only [apply_event, Option.some.injEq] at h
    subst h
    exact Step.stop_tx s
  | stop_rx =>
    simp only [apply_event, Option.some.injEq] at h
    subst h
    exact Step.stop_rx s
  | suspend r =>
    simp only [apply_event, Option.some.injEq] at h
    subst h
    exact Step.suspend r s
  | resume r =>
    simp only [apply_event, Option.some.injEq] at h
    subst h
    exact Step.resume r s
  | package_size_store p c =>
    simp only [apply_event, Option.some.injEq] at h
    subst h
    exact Step.package_size_store p c s
  | rx_channel_store p c =>
    simp only [apply_event, Option.some.injEq] at h
    subst h
    exact Step.rx_channel_store p c s
  | tx_channel_store p c =>
    simp only [apply_event, Option.some.injEq] at h
    subst h
    exact Step.tx_channel_store p c s
  | tx_timeout_store p c =>
    simp only [apply_event, Option.some.injEq] at h
    subst h
    exact Step.tx_timeout_store p c s
  | uart_write c =>
    simp only [apply_event, Option.some.injEq] at h
    subst h
    exact Step.uart_write c s
  | uart_flow b =>
    simp only [apply_event, Option.some.injEq] at h
    subst h
    exact Step.uart_flow b s

theorem run_events_reachable (env : Env) (evs : List Event) :
    ∀ s s2, Reachable env s → run_events env evs s = some s2 → Reachable env s2 := by
  induction evs with
  | nil =>
    intro s s2 hr h
    simp only [run_events, Option.some.injEq] at h
    subst h
    exact hr
  | cons e es ih =>
    intro s s2 hr h
    unfold run_events at h
    cases he : apply_event env e s with
    | none => simp [he] at h
    | some s1 =>
      simp only [he] at h
      exact ih s1 s2 (Reachable.step _ _ hr (apply_event_step env e s s1 he)) h

/-- A port in operation is in a state the driver can reach. -/
theorem operating_reachable (env : Env) (s : si4455_port) (h : Operating env s) :
    Reachable env s := by
  obtain ⟨a, r, evs, hp, hr⟩ := h
  exact run_events_reachable env evs r s
    (Reachable.step _ _ Reachable.init (Step.probe a zero_port (0, r) hp)) hr

theorem psz_package_size_store (env : Env) (p : Int × Nat) (c : Nat) (s : si4455_port)
    (h64 : s.package_size ≤ 64) : (package_size_store env p c s).2.package_size ≤ 64 := by
  unfold package_size_store
  dsimp only
  split_ifs with h1 h2
  · exact h64
  · exact h64
  · simp only [psz_do_work, SI4455_FIFO_SIZE] at h2 ⊢
    have : p.2 % 2 ^ 32 ≤ p.2 := Nat.mod_le _ _
    omega
  · simp only [psz_do_work, SI4455_FIFO_SIZE] at h2 ⊢
    have : p.2 % 2 ^ 32 ≤ p.2 := Nat.mod_le _ _
    omega

/-- No call on a port in operation takes `package_size` above 64. -/
theorem psz_apply_event (env : Env) (e : Event) (s s2 : si4455_port)
    (h : apply_event env e s = some s2) (h64 : s.package_size ≤ 64) :
    s2.package_size ≤ 64 := by
  cases e with
  | cts_wd_proc fw => rw [psz_cts_wd_proc env fw s s2 h]; exact h64
  | package_size_store p c =>
    simp only [apply_event, Option.some.injEq] at h
    subst h
    exact psz_package_size_store env p c s h64
  | startup =>
    simp only [apply_event, Option.some.injEq] at h
    subst h
    unfold si4455_startup
    simpa using h64
  | shutdown =>
    simp only [apply_event, Option.some.injEq] at h
    subst h
    unfold si4455_shutdown
    simpa using h64
  | do_work => simp only [apply_event, Option.some.injEq] at h; subst h; simpa using h64
  | start_tx_xmit => simp only [apply_event, Option.some.injEq] at h; subst h; simpa using h64
  | cancel_tx => simp only [apply_event, Option.some.injEq] at h; subst h; simpa using h64
  | ist => simp only [apply_event, Option.some.injEq] at h; subst h; simpa using h64
  | tx_wd_event =>
    simp only [apply_event, Option.some.injEq] at h
    subst h
    unfold si4455_tx_wd_event schedule_work
    split_ifs <;> exact h64
  | tx_wd_proc => simp only [apply_event, Option.some.injEq] at h; subst h; simpa using h64
  | cts_wd_event =>
    simp only [apply_event, Option.some.injEq] at h
    subst h
    unfold si4455_cts_wd_event schedule_work
    split_ifs <;> exact h64
  | tx_proc =>
    simp only [apply_event, Option.some.injEq] at h
    subst h
    unfold si4455_tx_proc
    simpa using h64
  | start_tx => simp only [apply_event, Option.some.injEq] at h; subst h; exact h64
  | stop_tx => simp only [apply_event, Option.some.injEq] at h; subst h; exact h64
  | stop_rx =>
    simp only [apply_event, Option.some.injEq] at h
    subst h
    unfold si4455_stop_rx
    simpa using h64
  | suspend r =>
    simp only [apply_event, Option.some.injEq] at h
    subst h
    unfold si4455_suspend
    dsimp only
    split_ifs <;> simpa using h64
  | resume r =>
    simp only [apply_event, Option.some.injEq] at h
    subst h
    unfold si4455_resume
    split_ifs <;> simpa using h64
  | rx_channel_store p c =>
    simp only [apply_event, Option.some.injEq] at h
    subst h
    unfold rx_channel_store
    dsimp only
    split_ifs <;> simpa using h64
  | tx_channel_store p c =>
    simp only [apply_event, Option.some.injEq] at h
    subst h
    unfold tx_channel_store
    dsimp only
    split_ifs <;> simpa using h64
  | tx_timeout_store p c =>
    simp only [apply_event, Option.some.injEq] at h
    subst h
    unfold tx_timeout_store
    dsimp only
    split_ifs <;> simpa using h64
  | uart_write c =>
    simp only [apply_event, Option.some.injEq] at h
    subst h
    unfold uart_write
    split_ifs <;> exact h64
  | uart_flow b => simp only [apply_event, Option.some.injEq] at h; subst h; exact h64

theorem psz_run_events (env : Env) (evs : List Event) :
    ∀ s s2, run_events env evs s = some s2 → s.package_size ≤ 64 → s2.package_size ≤ 64 := by
  induction evs with
  | nil =>
    intro s s2 h h64
    simp only [run_events, Option.some.injEq] at h
    subst h
    exact h64
  | cons e es ih =>
    intro s s2 h h64
    unfold run_events at h
    cases he : apply_event env e s with
    | none => simp [he] at h
    | some s1 =>
      simp only [he] at h
      exact ih s1 s2 h (psz_apply_event env e s s1 he h64)

theorem probe_out_generic_ret (ret : Int) (s : si4455_port) (r : Int × si4455_port)
    (h : probe_out_generic ret s = some r) : r.1 = ret := by
  unfold probe_out_generic at h
  simp only [Option.some.injEq] at h
  subst h
  rfl

/-- A bring-up that returns 0 found the package size in the device tree, at
most 64, and stored it. -/
theorem probe_ok_package_size (env : Env) (a : probe_input) (s r : si4455_port)
    (h : si4455_probe env a s = some (0, r)) :
    ∃ ps, a.dt_package_size = some ps ∧ r.package_size = ps % 2 ^ 32 ∧ ps % 2 ^ 32 ≤ 64 := by
  unfold si4455_probe at h
  dsimp only at h
  repeat' (split at h)
  all_goals first
    | (simp [ENOMEM] at h; done)
    | (have hr := probe_out_generic_ret _ _ _ h
       simp [ERANGE, EINVAL] at hr)
    | (have hp := psz_probe_bring_up _ _ _ _ h
       simp only [SI4455_FIFO_SIZE] at *
       exact ⟨_, by assumption, hp, by omega⟩)

/-- Bring-up with a package size above 64 in the device tree fails. -/
theorem probe_rejects_package_size (env : Env) (a : probe_input) (s : si4455_port) (ps : Nat)
    (hps : a.dt_package_size = some ps) (h64 : 64 < ps % 2 ^ 32) :
    (∃ r, si4455_probe env a s = some r ∧ r.1 ≠ 0) ∧
    (env.alloc s.allocs = true → a.line ≠ SI4455_UART_NRMAX → a.shdn_gpio = true →
      si4455_probe env a s = some (-EINVAL,
        (si4455_s_power false { (kzalloc env s).2 with package_size := ps % 2 ^ 32 }).2)) := by
  have hgt : ps % 2 ^ 32 > SI4455_FIFO_SIZE := h64
  constructor
  · unfold si4455_probe probe_out_generic
    dsimp only
    simp only [hps, hgt, if_true]
    split_ifs
    · exact ⟨_, rfl, (by decide : -ENOMEM ≠ 0)⟩
    · exact ⟨_, rfl, (by decide : -ERANGE ≠ 0)⟩
    · exact ⟨_, rfl, (by decide : -EINVAL ≠ 0)⟩
    · exact ⟨_, rfl, (by decide : -EINVAL ≠ 0)⟩
  · intro ha hl hg
    have hk : (kzalloc env s).1 = true := ha
    unfold si4455_probe probe_out_generic
    dsimp only
    simp only [hps, hgt, if_true, hk, Bool.true_eq_false, if_false, hl, hg]

theorem idle_port_operating : Operating chip_env idle_port := by
  have hp := option_some_getD (si4455_probe chip_env probe_ok_input zero_port) (0, zero_port)
    (by decide)
  have he : (si4455_probe chip_env probe_ok_input zero_port).getD (0, zero_port) =
      (0, c3_probed) := Prod.ext (by decide) rfl
  rw [he] at hp
  exact ⟨probe_ok_input, c3_probed, [Event.startup], hp, rfl⟩

/-- C19: `package_size ≤ 64` holds in every state of a port in operation (a
port set up by a bring-up that returned 0, after any sequence of calls of the
driver's entry points).  Bring-up fails when the device tree gives a package
size above 64, and a bring-up that returns 0 leaves `package_size ≤ 64`.
`package_size_store` answers every value above 64 with `-EINVAL` and leaves the
state (bus log included) as it is; for every value from 0 to 64 it stores the
value and runs the Reconciler once on the state so obtained, and returns the
Reconciler's error if there is one and the number of bytes written
otherwise. -/
theorem c19_package_size_bound (env : Env) :
    (∀ s, Operating env s → s.package_size ≤ 64) ∧
    (∀ a s ps, a.dt_package_size = some ps → 64 < ps % 2 ^ 32 →
      ∃ r, si4455_probe env a s = some r ∧ r.1 ≠ 0) ∧
    (∀ a s r, si4455_probe env a s = some (0, r) → r.package_size ≤ 64) ∧
    (∀ val count s, 64 < val → package_size_store env (0, val) count s = (-EINVAL, s)) ∧
    (∀ val count s, val ≤ 64 →
      package_size_store env (0, val) count s =
        (if (si4455_do_work env { s with package_size := val }).1 ≠ 0 then
            (si4455_do_work env { s with package_size := val }).1
          else (count : Int),
         (si4455_do_work env { s with package_size := val }).2) ∧
      (package_size_store env (0, val) count s).2.package_size = val) := by
  refine ⟨?_, ?_, ?_, ?_, ?_⟩
  · rintro s ⟨a, r, evs, hp, hr⟩
    obtain ⟨ps, _, h1, h2⟩ := probe_ok_package_size env a zero_port r hp
    exact psz_run_events env evs r s hr (by rw [h1]; exact h2)
  · intro a s ps hps h64
    exact (probe_rejects_package_size env a s ps hps h64).1
  · intro a s r hp
    obtain ⟨ps, _, h1, h2⟩ := probe_ok_package_size env a s r hp
    rw [h1]; exact h2
  · intro val count s h
    unfold package_size_store
    have hgt : val > SI4455_FIFO_SIZE := h
    simp only [ne_eq, not_true_eq_false, if_false, hgt, if_true]
  · intro val count s h
    have hle : ¬ val > SI4455_FIFO_SIZE := by
      simp only [SI4455_FIFO_SIZE]; omega
    have hm : val % 2 ^ 32 = val := Nat.mod_eq_of_lt (by omega)
    have he : package_size_store env (0, val) count s =
        (if (si4455_do_work env { s with package_size := val }).1 ≠ 0 then
            (si4455_do_work env { s with package_size := val }).1
          else (count : Int),
         (si4455_do_work env { s with package_size := val }).2) := by
      unfold package_size_store
      simp only [ne_eq, not_true_eq_false, if_false, hle, hm]
    refine ⟨he, ?_⟩
    rw [he]
    simp

/-- Witness of C19: the port after bring-up and `startup` is in operation, with
`package_size = 1`; writing 65 is rejected with `-EINVAL` and changes nothing;
writing 64 (3 bytes of text) is accepted, stores 64 and returns 3. -/
theorem c19_package_size_witness :
    Operating chip_env idle_port ∧ idle_port.package_size = 1 ∧
    idle_port.package_size ≤ 64 ∧
    package_size_store chip_env (0, 65) 3 idle_port = (-EINVAL, idle_port) ∧
    (package_size_store chip_env (0, 64) 3 idle_port).1 = 3 ∧
    (package_size_store chip_env (0, 64) 3 idle_port).2.package_size = 64 :=
  ⟨idle_port_operating, by decide,
   (c19_package_size_bound chip_env).1 idle_port idle_port_operating,
   (c19_package_size_bound chip_env).2.2.2.1 65 3 idle_port (by decide),
   by decide,
   ((c19_package_size_bound chip_env).2.2.2.2 64 3 idle_port (by decide)).2⟩

/-! ## Claim C20: the round trip of the outbound path -/

theorem chars_pending_eq (x : circ_buf) :
    uart_circ_chars_pending x = (x.head + (4096 - x.tail % 4096)) % 4096 := rfl

theorem uart_write_room (c : Nat) (s : si4455_port)
    (h : uart_circ_chars_pending s.xmit < 4095) :
    uart_write c s = { s with xmit :=
      { buf := fun i => if i = s.xmit.head then c % 256 else s.xmit.buf i
        head := (s.xmit.head + 1) % 4096
        tail := s.xmit.tail } } := by
  unfold uart_write
  have h2 : uart_circ_chars_pending s.xmit < UART_XMIT_SIZE - 1 := h
  rw [if_pos h2]
  rfl

theorem enqueue_spec (bytes : List Nat) :
    ∀ s : si4455_port, s.xmit.head < 4096 → s.xmit.tail < 4096 →
      uart_circ_chars_pending s.xmit + bytes.length ≤ 4095 →
      (enqueue bytes s).xmit.head = (s.xmit.head + bytes.length) % 4096 ∧
      (enqueue bytes s).xmit.tail = s.xmit.tail ∧
      enqueue bytes s = { s with xmit := (enqueue bytes s).xmit } := by
  induction bytes with
  | nil =>
    intro s hh ht _
    exact ⟨by simp [enqueue, Nat.mod_eq_of_lt hh], rfl, rfl⟩
  | cons c cs ih =>
    intro s hh ht hn
    simp only [List.length_cons] at hn
    have hw := uart_write_room c s (by omega)
    have hstep : enqueue (c :: cs) s = enqueue cs (uart_write c s) := rfl
    have hh2 : (uart_write c s).xmit.head = (s.xmit.head + 1) % 4096 := by rw [hw]
    have ht2 : (uart_write c s).xmit.tail = s.xmit.tail := by rw [hw]
    have hp2 : uart_circ_chars_pending (uart_write c s).xmit + cs.length ≤ 4095 := by
      rw [chars_pending_eq, hh2, ht2]
      rw [chars_pending_eq] at hn
      omega
    obtain ⟨i1, i2, i3⟩ := ih (uart_write c s) (by rw [hh2]; omega) (by rw [ht2]; exact ht) hp2
    rw [hstep]
    refine ⟨?_, ?_, ?_⟩
    · rw [i1, hh2, List.length_cons]; omega
    · rw [i2, ht2]
    · rw [i3, hw]

/-- What the bus transport leaves alone: the link flags, the tunables and the
outbound queue. -/
theorem bus_frame_link {s1 s2 : si4455_port} (h : bus_frame s1 s2) :
    s2.suspended = s1.suspended ∧ s2.connected = s1.connected ∧
    s2.configured = s1.configured ∧ s2.power_count = s1.power_count ∧
    s2.uart_stopped = s1.uart_stopped ∧ s2.tx_stopped = s1.tx_stopped ∧
    s2.tx_pending = s1.tx_pending ∧ s2.tx_pending_size = s1.tx_pending_size ∧
    s2.package_size = s1.package_size ∧ s2.xmit = s1.xmit := by
  refine ⟨?_, ?_, ?_, ?_, ?_, ?_, ?_, ?_, ?_, ?_⟩ <;> rw [h.1]

theorem TxIdle.of_bus_frame {s1 s2 : si4455_port} (h : bus_frame s1 s2) (i : TxIdle s1) :
    TxIdle s2 := by
  obtain ⟨h1, h2, h3, h4, h5, h6, h7, _, h9, h10⟩ := bus_frame_link h
  exact ⟨h1 ▸ i.suspended, h2 ▸ i.connected, h3 ▸ i.configured, h4 ▸ i.powered,
    h5 ▸ i.uart_stopped, h6 ▸ i.tx_stopped, h7 ▸ i.tx_pending, h9 ▸ i.package_size,
    h10 ▸ i.head, h10 ▸ i.tail⟩

theorem TxIdle.gate {s : si4455_port} (i : TxIdle s) :
    s.suspended = false ∧ s.connected = true ∧ s.configured = true ∧ 0 < s.power_count :=
  ⟨i.suspended, i.connected, i.configured, i.powered⟩

theorem TxIdle.empty_iff {s : si4455_port} (i : TxIdle s) :
    uart_circ_empty s.xmit = true ↔ uart_circ_chars_pending s.xmit = 0 := by
  have hh := i.head
  have ht := i.tail
  rw [chars_pending_eq]
  unfold uart_circ_empty
  simp only [decide_eq_true_eq]
  omega

/-- The Reconciler on an idle link with nothing to send, or with less than a
package queued: only bus traffic. -/
theorem do_work_holds_back (env : Env) (s : si4455_port) (i : TxIdle s)
    (h : uart_circ_chars_pending s.xmit = 0 ∨ uart_circ_chars_pending s.xmit < s.package_size) :
    bus_frame s (si4455_do_work env s).2 := by
  have hb : si4455_do_work env s = si4455_begin_rx env s.rx_channel s.package_size s := by
    by_cases he : uart_circ_empty s.xmit = true
    · rw [do_work_idle env s i.gate (Or.inl he), if_neg (by simp [i.tx_pending])]
    · rw [do_work_send env s i.gate (by simpa using he) i.uart_stopped i.tx_pending,
        if_pos (Or.inr h)]
  rw [hb]
  exact bus_frame_begin_rx env _ _ s

/-- The Reconciler on an idle link with at least a package queued, on a bus on
which every operation succeeds: the transmission of one chunk is started. -/
theorem do_work_starts {env : Env} (ok : BusOk env) (s : si4455_port) (i : TxIdle s)
    (h0 : uart_circ_chars_pending s.xmit ≠ 0)
    (hps : ¬ uart_circ_chars_pending s.xmit < s.package_size) :
    ∃ l a, (si4455_do_work env s).2 =
      { s with
        tx_pending := true
        tx_pending_size := tx_chunk s
        cts_changes := s.cts_changes ++ [0]
        tx_wd_timer := some s.tx_wd_timeout
        log := l
        allocs := a } := by
  have he : uart_circ_empty s.xmit = false := by
    by_contra hc
    exact h0 (i.empty_iff.1 (by simpa using hc))
  obtain ⟨l, a, hx, _⟩ := start_tx_xmit_ok ok s i.tx_stopped h0 hps i.package_size
  refine ⟨l, a, ?_⟩
  rw [do_work_send env s i.gate he i.uart_stopped i.tx_pending, if_neg, hx]
  rintro (h | h | h)
  · rw [i.tx_stopped] at h; exact Bool.false_ne_true h
  · exact h0 h
  · exact hps h

/-- The packet-sent completion event on a port with a transmission pending. -/
theorem packet_sent_eq (env : Env) (w : si4455_port) :
    (si4455_ist_dispatch env sent_status w).2 =
      si4455_handle_tx_pend env (si4455_change_state env 1 w).2 := by
  unfold si4455_ist_dispatch
  simp only [SI4455_CMD_GET_CHIP_STATUS_ERROR_PEND_BIT, SI4455_CMD_CHANGE_STATE_STATE_SLEEP,
    SI4455_CMD_GET_INT_STATUS_PACKET_SENT_PEND_BIT]
  have h1 : ¬ (sent_status.chip_pend &&& 8 ≠ 0) := by decide
  have h2 : sent_status.ph_pend &&& 32 ≠ 0 := by decide
  rw [if_neg h1, if_pos h2]

/-- What `si4455_handle_tx_pend` does to the link flags, the tunables and the
outbound queue when a transmission is pending. -/
theorem handle_tx_pend_link (env : Env) (c : si4455_port) (hp : c.tx_pending = true) :
    (si4455_handle_tx_pend env c).suspended = c.suspended ∧
    (si4455_handle_tx_pend env c).connected = c.connected ∧
    (si4455_handle_tx_pend env c).configured = c.configured ∧
    (si4455_handle_tx_pend env c).power_count = c.power_count ∧
    (si4455_handle_tx_pend env c).uart_stopped = c.uart_stopped ∧
    (si4455_handle_tx_pend env c).tx_stopped = c.tx_stopped ∧
    (si4455_handle_tx_pend env c).tx_pending = false ∧
    (si4455_handle_tx_pend env c).package_size = c.package_size ∧
    (si4455_handle_tx_pend env c).xmit.head = c.xmit.head ∧
    (si4455_handle_tx_pend env c).xmit.tail =
      (c.xmit.tail + (if c.package_size = 0 then c.tx_pending_size else c.package_size))
        % 4096 := by
  have key : ∀ c1 e : si4455_port, bus_frame c1 e →
      (uart_handle_cts_change TIOCM_CTS
        { e with tx_pending := false, tx_pending_size := 0 }).suspended = c1.suspended ∧
      (uart_handle_cts_change TIOCM_CTS
        { e with tx_pending := false, tx_pending_size := 0 }).connected = c1.connected ∧
      (uart_handle_cts_change TIOCM_CTS
        { e with tx_pending := false, tx_pending_size := 0 }).configured = c1.configured ∧
      (uart_handle_cts_change TIOCM_CTS
        { e with tx_pending := false, tx_pending_size := 0 }).power_count = c1.power_count ∧
      (uart_handle_cts_change TIOCM_CTS
        { e with tx_pending := false, tx_pending_size := 0 }).uart_stopped = c1.uart_stopped ∧
      (uart_handle_cts_change TIOCM_CTS
        { e with tx_pending := false, tx_pending_size := 0 }).tx_stopped = c1.tx_stopped ∧
      (uart_handle_cts_change TIOCM_CTS
        { e with tx_pending := false, tx_pending_size := 0 }).tx_pending = false ∧
      (uart_handle_cts_change TIOCM_CTS
        { e with tx_pending := false, tx_pending_size := 0 }).package_size = c1.package_size ∧
      (uart_handle_cts_change TIOCM_CTS
        { e with tx_pending := false, tx_pending_size := 0 }).xmit.head = c1.xmit.head ∧
      (uart_handle_cts_change TIOCM_CTS
        { e with tx_pending := false, tx_pending_size := 0 }).xmit.tail = c1.xmit.tail := by
    intro c1 e hb
    obtain ⟨h1, h2, h3, h4, h5, h6, _, _, h9, h10⟩ := bus_frame_link hb
    exact ⟨h1, h2, h3, h4, h5, h6, rfl, h9, congrArg circ_buf.head h10,
      congrArg circ_buf.tail h10⟩
  unfold si4455_handle_tx_pend
  rw [if_pos hp]
  exact key _ _ (bus_frame_end_tx env _)

theorem drive_succ (env : Env) (fuel : Nat) (s : si4455_port) :
    drive env (fuel + 1) s =
      if (si4455_do_work env s).2.tx_pending = true then
        drive env fuel (si4455_ist_dispatch env sent_status (si4455_do_work env s).2).2
      else (si4455_do_work env s).2 := rfl

theorem tx_chunk_pos (s : si4455_port) (h0 : uart_circ_chars_pending s.xmit ≠ 0)
    (hps : ¬ uart_circ_chars_pending s.xmit < s.package_size) :
    0 < tx_chunk s ∧ tx_chunk s ≤ uart_circ_chars_pending s.xmit ∧
    (s.package_size ≠ 0 → tx_chunk s = s.package_size) := by
  unfold tx_chunk
  simp only [SI4455_FIFO_SIZE]
  split_ifs with hz
  · refine ⟨?_, Nat.min_le_left _ _, fun h => absurd hz h⟩
    rw [Nat.lt_min]
    omega
  · refine ⟨?_, Nat.min_le_left _ _, fun _ => Nat.min_eq_right (by omega)⟩
    rw [Nat.lt_min]
    omega

/-- One round on a bus on which every operation succeeds: the Reconciler
starts the transmission of one chunk, and the packet-sent completion event
takes the chunk out of the queue and leaves the link idle again. -/
theorem drive_round {env : Env} (ok : BusOk env) (s : si4455_port) (i : TxIdle s)
    (h0 : uart_circ_chars_pending s.xmit ≠ 0)
    (hps : ¬ uart_circ_chars_pending s.xmit < s.package_size) :
    (si4455_do_work env s).2.tx_pending = true ∧
    TxIdle (si4455_ist_dispatch env sent_status (si4455_do_work env s).2).2 ∧
    (si4455_ist_dispatch env sent_status (si4455_do_work env s).2).2.package_size =
      s.package_size ∧
    (si4455_ist_dispatch env sent_status (si4455_do_work env s).2).2.xmit.head =
      s.xmit.head ∧
    (si4455_ist_dispatch env sent_status (si4455_do_work env s).2).2.xmit.tail =
      (s.xmit.tail + tx_chunk s) % 4096 := by
  obtain ⟨l, a, hw⟩ := do_work_starts ok s i h0 hps
  obtain ⟨_, _, hfix⟩ := tx_chunk_pos s h0 hps
  rw [hw, packet_sent_eq]
  generalize hwd : ({ s with
        tx_pending := true
        tx_pending_size := tx_chunk s
        cts_changes := s.cts_changes ++ [0]
        tx_wd_timer := some s.tx_wd_timeout
        log := l
        allocs := a } : si4455_port) = w
  have w1 : w.suspended = s.suspended := by rw [← hwd]
  have w2 : w.connected = s.connected := by rw [← hwd]
  have w3 : w.configured = s.configured := by rw [← hwd]
  have w4 : w.power_count = s.power_count := by rw [← hwd]
  have w5 : w.uart_stopped = s.uart_stopped := by rw [← hwd]
  have w6 : w.tx_stopped = s.tx_stopped := by rw [← hwd]
  have w7 : w.tx_pending = true := by rw [← hwd]
  have w8 : w.tx_pending_size = tx_chunk s := by rw [← hwd]
  have w9 : w.package_size = s.package_size := by rw [← hwd]
  have w10 : w.xmit = s.xmit := by rw [← hwd]
  obtain ⟨c1, c2, c3, c4, c5, c6, c7, c8, c9, c10⟩ :=
    bus_frame_link (bus_frame_change_state env 1 w)
  obtain ⟨t1, t2, t3, t4, t5, t6, t7, t8, t9, t10⟩ :=
    handle_tx_pend_link env (si4455_change_state env 1 w).2 (by rw [c7, w7])
  have hsent : (if (si4455_change_state env 1 w).2.package_size = 0 then
      (si4455_change_state env 1 w).2.tx_pending_size
      else (si4455_change_state env 1 w).2.package_size) = tx_chunk s := by
    rw [c9, c8, w9, w8]
    split_ifs with hz
    · rfl
    · exact (hfix hz).symm
  rw [hsent, c10, w10] at t10
  rw [c10, w10] at t9
  refine ⟨w7, ⟨?_, ?_, ?_, ?_, ?_, ?_, t7, ?_, ?_, ?_⟩, ?_, t9, t10⟩
  · rw [t1, c1, w1]; exact i.suspended
  · rw [t2, c2, w2]; exact i.connected
  · rw [t3, c3, w3]; exact i.configured
  · rw [t4, c4, w4]; exact i.powered
  · rw [t5, c5, w5]; exact i.uart_stopped
  · rw [t6, c6, w6]; exact i.tx_stopped
  · rw [t8, c9, w9]; exact i.package_size
  · rw [t9]; exact i.head
  · rw [t10]; exact Nat.mod_lt _ (by decide)
  · rw [t8, c9, w9]

theorem held_back_le (p n : Nat) : held_back p n ≤ n := by
  unfold held_back
  split_ifs
  · omega
  · exact Nat.mod_le _ _

theorem held_back_small (p n : Nat) (h : n = 0 ∨ n < p) : held_back p n = n := by
  unfold held_back
  split_ifs with hz
  · omega
  · rcases h with h | h
    · rw [h, Nat.zero_mod]
    · exact Nat.mod_eq_of_lt h

theorem held_back_chunk (p n c : Nat) (hc : c ≤ n) (hfix : p ≠ 0 → c = p) :
    held_back p (n - c) = held_back p n := by
  unfold held_back
  split_ifs with hz
  · rfl
  · rw [hfix hz] at hc ⊢
    exact (Nat.mod_eq_sub_mod hc).symm

/-- Driving an idle link to completion on a bus on which every operation
succeeds: the queue keeps its head, and the tail advances by the bytes queued
less those held back. -/
theorem drive_spec {env : Env} (ok : BusOk env) :
    ∀ n (s : si4455_port) (fuel : Nat), TxIdle s → uart_circ_chars_pending s.xmit = n →
      n < fuel →
      (drive env fuel s).tx_pending = false ∧
      (drive env fuel s).xmit.head = s.xmit.head ∧
      (drive env fuel s).package_size = s.package_size ∧
      (drive env fuel s).xmit.tail =
        (s.xmit.tail + (n - held_back s.package_size n)) % 4096 := by
  intro n
  induction n using Nat.strong_induction_on with
  | _ n ih =>
    intro s fuel i hn hf
    obtain ⟨f, rfl⟩ : ∃ f, fuel = f + 1 := ⟨fuel - 1, by omega⟩
    rw [drive_succ]
    by_cases hsmall : uart_circ_chars_pending s.xmit = 0 ∨
        uart_circ_chars_pending s.xmit < s.package_size
    · have hb := do_work_holds_back env s i hsmall
      obtain ⟨_, _, _, _, _, _, b7, _, b9, b10⟩ := bus_frame_link hb
      rw [if_neg (by rw [b7, i.tx_pending]; decide)]
      refine ⟨by rw [b7]; exact i.tx_pending, by rw [b10], b9, ?_⟩
      rw [b10, held_back_small s.package_size n (by rw [← hn]; exact hsmall)]
      have := i.tail
      omega
    · have h0 : uart_circ_chars_pending s.xmit ≠ 0 := fun h => hsmall (Or.inl h)
      have hps : ¬ uart_circ_chars_pending s.xmit < s.package_size :=
        fun h => hsmall (Or.inr h)
      obtain ⟨hpend, i2, r1, r2, r3⟩ := drive_round ok s i h0 hps
      obtain ⟨cpos, cle, cfix⟩ := tx_chunk_pos s h0 hps
      rw [hn] at cle
      rw [if_pos hpend]
      have hn2 : uart_circ_chars_pending
          (si4455_ist_dispatch env sent_status (si4455_do_work env s).2).2.xmit =
          n - tx_chunk s := by
        rw [chars_pending_eq, r2, r3]
        rw [chars_pending_eq] at hn
        have := i.head
        have := i.tail
        omega
      obtain ⟨d1, d2, d3, d4⟩ := ih (n - tx_chunk s) (by omega) _ f i2 hn2 (by omega)
      refine ⟨d1, by rw [d2, r2], by rw [d3, r1], ?_⟩
      rw [d4, r3, r1, held_back_chunk s.package_size n (tx_chunk s) cle cfix]
      have := held_back_le s.package_size (n - tx_chunk s)
      rw [held_back_chunk s.package_size n (tx_chunk s) cle cfix] at this
      omega

theorem c20_start_operating : Operating chip_env c20_start := by
  obtain ⟨a, r, evs, hp, hr⟩ := idle_port_operating
  refine ⟨a, r, evs ++ [Event.package_size_store (0, 4) 1], hp, ?_⟩
  have happ : ∀ (l : List Event) (s s2 : si4455_port) (e : Event),
      run_events chip_env l s = some s2 →
      run_events chip_env (l ++ [e]) s = apply_event chip_env e s2 := by
    intro l
    induction l with
    | nil =>
      intro s s2 e h
      simp only [run_events, Option.some.injEq] at h
      subst h
      simp only [List.nil_append, run_events]
      cases apply_event chip_env e s <;> rfl
    | cons x xs ih =>
      intro s s2 e h
      simp only [List.cons_append, run_events] at h ⊢
      cases hx : apply_event chip_env x s with
      | none => simp [hx] at h
      | some s1 =>
        simp only [hx] at h ⊢
        exact ih s1 s2 e h
  rw [happ evs r idle_port _ hr]
  rfl

/-- C20, counterexample: a port in operation in fixed mode with packages of 4
bytes, the link active and configured, the queue empty and nothing pending, on
a bus on which every operation succeeds.  After 6 bytes are enqueued and the
Reconciler and the packet-sent event are alternated until the Reconciler
starts no further transmission, 2 bytes are still queued and the tail has
advanced by 4, not by 6. -/
theorem c20_partial_package_stays_queued :
    Operating chip_env c20_start ∧ BusOk chip_env ∧
    (c20_start.suspended = false ∧ c20_start.connected = true ∧
      c20_start.configured = true ∧ 0 < c20_start.power_count) ∧
    c20_start.uart_stopped = false ∧ c20_start.tx_stopped = false ∧
    c20_start.tx_pending = false ∧ c20_start.package_size = 4 ∧
    uart_circ_empty c20_start.xmit = true ∧ c20_start.xmit.tail = 0 ∧
    (drive chip_env 7 (enqueue [1, 2, 3, 4, 5, 6] c20_start)).tx_pending = false ∧
    (si4455_do_work chip_env
      (drive chip_env 7 (enqueue [1, 2, 3, 4, 5, 6] c20_start))).2.tx_pending = false ∧
    uart_circ_empty (drive chip_env 7 (enqueue [1, 2, 3, 4, 5, 6] c20_start)).xmit = false ∧
    uart_circ_chars_pending (drive chip_env 7 (enqueue [1, 2, 3, 4, 5, 6] c20_start)).xmit = 2 ∧
    (drive chip_env 7 (enqueue [1, 2, 3, 4, 5, 6] c20_start)).xmit.tail = 4 :=
  ⟨c20_start_operating, chip_env_ok, by decide, by decide, by decide, by decide, by decide,
   by decide, by decide, by decide, by decide, by decide, by decide, by decide⟩

/-- C20, amended: on a bus on which every operation succeeds, start from an
active, configured, powered link that is not stopped, with `package_size ≤ 64`,
an empty outbound queue and no transmission pending.  After `N ≤ 4095` bytes
are enqueued and the Reconciler and the packet-sent completion event are
alternated until the Reconciler leaves no transmission pending (`N + 1` runs of
the Reconciler are enough), no transmission is pending, the queue holds the
bytes of the incomplete package, `N mod package_size` in fixed mode and none in
variable mode, and the tail has advanced by the other bytes, modulo the queue
size.  So when `package_size` is 0 or divides `N` the queue is empty and the
tail has advanced by `N` modulo the queue size. -/
theorem c20_round_trip (env : Env) (ok : BusOk env) (s : si4455_port) (bytes : List Nat)
    (fuel : Nat)
    (hg : s.suspended = false ∧ s.connected = true ∧ s.configured = true ∧ 0 < s.power_count)
    (hu : s.uart_stopped = false) (hst : s.tx_stopped = false) (hp : s.tx_pending = false)
    (h64 : s.package_size ≤ 64) (he : s.xmit.head = s.xmit.tail) (ht : s.xmit.tail < 4096)
    (hN : bytes.length ≤ 4095) (hf : bytes.length < fuel) :
    uart_circ_chars_pending (enqueue bytes s).xmit = bytes.length ∧
    (drive env fuel (enqueue bytes s)).tx_pending = false ∧
    uart_circ_chars_pending (drive env fuel (enqueue bytes s)).xmit =
      held_back s.package_size bytes.length ∧
    (drive env fuel (enqueue bytes s)).xmit.tail =
      (s.xmit.tail + (bytes.length - held_back s.package_size bytes.length)) % 4096 ∧
    (held_back s.package_size bytes.length = 0 →
      uart_circ_empty (drive env fuel (enqueue bytes s)).xmit = true ∧
      (drive env fuel (enqueue bytes s)).xmit.tail = (s.xmit.tail + bytes.length) % 4096) := by
  have hh : s.xmit.head < 4096 := by rw [he]; exact ht
  have hp0 : uart_circ_chars_pending s.xmit = 0 := by
    rw [chars_pending_eq, he]; omega
  obtain ⟨e1, e2, e3⟩ := enqueue_spec bytes s hh ht (by rw [hp0]; omega)
  have hq : uart_circ_chars_pending (enqueue bytes s).xmit = bytes.length := by
    rw [chars_pending_eq, e1, e2, he]; omega
  have i : TxIdle (enqueue bytes s) := by
    refine ⟨?_, ?_, ?_, ?_, ?_, ?_, ?_, ?_, ?_, ?_⟩
    · rw [e3]; exact hg.1
    · rw [e3]; exact hg.2.1
    · rw [e3]; exact hg.2.2.1
    · rw [e3]; exact hg.2.2.2
    · rw [e3]; exact hu
    · rw [e3]; exact hst
    · rw [e3]; exact hp
    · rw [e3]; exact h64
    · rw [e1]; exact Nat.mod_lt _ (by decide)
    · rw [e2]; exact ht
  have hps : (enqueue bytes s).package_size = s.package_size := by rw [e3]
  obtain ⟨d1, d2, d3, d4⟩ := drive_spec ok bytes.length (enqueue bytes s) fuel i hq hf
  rw [hps, e2] at d4
  rw [e1] at d2
  have hle := held_back_le s.package_size bytes.length
  have hpend : uart_circ_chars_pending (drive env fuel (enqueue bytes s)).xmit =
      held_back s.package_size bytes.length := by
    rw [chars_pending_eq, d2, d4, he]; omega
  refine ⟨hq, d1, hpend, d4, ?_⟩
  intro hz
  constructor
  · unfold uart_circ_empty
    rw [d2, d4, hz, he]
    simp
  · rw [d4, hz]
    rfl

/-- Witness of C20, amended, on the port with packages of 4 bytes: of 6 bytes
enqueued, 2 stay queued and the tail advances by 4; 8 bytes are all sent, the
queue is empty and the tail advances by 8. -/
theorem c20_round_trip_witness :
    (uart_circ_chars_pending (drive chip_env 7 (enqueue [1, 2, 3, 4, 5, 6] c20_start)).xmit = 2 ∧
      (drive chip_env 7 (enqueue [1, 2, 3, 4, 5, 6] c20_start)).xmit.tail = 4) ∧
    (uart_circ_empty
        (drive chip_env 9 (enqueue [1, 2, 3, 4, 5, 6, 7, 8] c20_start)).xmit = true ∧
      (drive chip_env 9 (enqueue [1, 2, 3, 4, 5, 6, 7, 8] c20_start)).xmit.tail = 8) := by
  have h6 := c20_round_trip chip_env chip_env_ok c20_start [1, 2, 3, 4, 5, 6] 7 (by decide)
    (by decide) (by decide) (by decide) (by decide) (by decide) (by decide) (by decide)
    (by decide)
  have h8 := c20_round_trip chip_env chip_env_ok c20_start [1, 2, 3, 4, 5, 6, 7, 8] 9
    (by decide) (by decide) (by decide) (by decide) (by decide) (by decide) (by decide)
    (by decide) (by decide)
  exact ⟨⟨h6.2.2.1, h6.2.2.2.1⟩, h8.2.2.2.2 (by decide)⟩

/-! ## Claim C30: the Reconciler while a transmission is pending -/

/-- C30: while a transmission is pending the Reconciler does nothing: for every
state with `tx_pending = true`, `si4455_do_work` returns 0 and leaves the whole
state as it is (no bus operation, so neither a start-transmit nor a
start-receive command; no change to LinkState or to either queue).  And when
the Reconciler calls `si4455_start_tx_xmit` and that call fails or leaves
`tx_pending = true`, the result of the Reconciler is the result of that call:
`si4455_begin_rx` is not called. -/
theorem c30_do_work_pending (env : Env) (s : si4455_port) :
    (s.tx_pending = true →
      si4455_do_work env s = (0, s) ∧ (si4455_do_work env s).2.log = s.log ∧
      (si4455_do_work env s).2.xmit = s.xmit ∧ (si4455_do_work env s).2.flip = s.flip) ∧
    (s.suspended = false ∧ s.connected = true ∧ s.configured = true ∧ 0 < s.power_count →
      uart_circ_empty s.xmit = false → s.uart_stopped = false → s.tx_pending = false →
      (si4455_start_tx_xmit env s).1 ≠ 0 ∨ (si4455_start_tx_xmit env s).2.tx_pending = true →
      si4455_do_work env s = si4455_start_tx_xmit env s) := by
  constructor
  · intro hp
    have h : si4455_do_work env s = (0, s) := by
      by_cases hg : s.suspended = false ∧ s.connected = true ∧ s.configured = true ∧
          0 < s.power_count
      · rw [do_work_idle env s hg (Or.inr (Or.inr hp)), if_pos hp]
      · exact do_work_closed env s hg
    rw [h]
    exact ⟨rfl, rfl, rfl, rfl⟩
  · intro hg he hu hp hx
    rw [do_work_open env s hg]
    simp only [he, hu, hp, Bool.or_false, Bool.not_false, if_true]
    rw [if_neg]
    rintro ⟨h1, h2⟩
    rcases hx with hx | hx
    · exact hx h1
    · rw [hx] at h2
      exact absurd h2 (by decide)

/-- Witness of C30: on the port with a transmission in flight the Reconciler
changes nothing; on the idle port with one queued byte it starts the
transmission and does not start the receiver; on a chip that never reports
ready the start fails with `-EIO` and the receiver is not started either. -/
theorem c30_do_work_pending_witness :
    c3_sending.tx_pending = true ∧
    si4455_do_work chip_env c3_sending = (0, c3_sending) ∧
    (si4455_start_tx_xmit chip_env (uart_write 0x41 idle_port)).2.tx_pending = true ∧
    si4455_do_work chip_env (uart_write 0x41 idle_port) =
      si4455_start_tx_xmit chip_env (uart_write 0x41 idle_port) ∧
    (si4455_start_tx_xmit busy_env (uart_write 0x41 idle_port)).1 = - EIO_CODE ∧
    si4455_do_work busy_env (uart_write 0x41 idle_port) =
      si4455_start_tx_xmit busy_env (uart_write 0x41 idle_port) :=
  ⟨by decide,
   ((c30_do_work_pending chip_env c3_sending).1 (by decide)).1,
   by decide,
   (c30_do_work_pending chip_env (uart_write 0x41 idle_port)).2 (by decide) (by decide)
     (by decide) (by decide) (Or.inr (by decide)),
   by decide,
   (c30_do_work_pending busy_env (uart_write 0x41 idle_port)).2 (by decide) (by decide)
     (by decide) (by decide) (Or.inl (by decide))⟩

/-! ## Claim C26: the length start_tx_xmit passes to begin_tx -/

theorem tx_data_length (s : si4455_port) : (tx_data s).length = (tx_length s).toNat := by
  unfold tx_data tx_length
  split_ifs <;> simp [xmit_payload_length]

/-- C26: given `package_size ≤ 64`, whenever `si4455_start_tx_xmit` is not a
no-op the length it passes to `si4455_begin_tx` is between 1 and 64: at most 62
in variable mode, exactly `package_size` in fixed mode.  So the length check of
`si4455_begin_tx` does not fire (the call never ends in `-EINVAL` with the bus
untouched), and the buffer handed over, which is as long as the length says,
fits the 64-byte FIFO. -/
theorem c26_tx_length_in_range (env : Env) (s : si4455_port) (h64 : s.package_size ≤ 64)
    (hst : s.tx_stopped = false) (h0 : uart_circ_chars_pending s.xmit ≠ 0)
    (hps : ¬ uart_circ_chars_pending s.xmit < s.package_size) :
    (env.alloc s.allocs = true →
      (si4455_start_tx_xmit env s).1 =
        (si4455_begin_tx env s.tx_channel (tx_length s) (tx_data s) (kzalloc env s).2).1) ∧
    1 ≤ tx_length s ∧ tx_length s ≤ 64 ∧
    (s.package_size = 0 → tx_length s ≤ 62) ∧
    (s.package_size ≠ 0 → tx_length s = (s.package_size : Int)) ∧
    ¬ (tx_length s > (SI4455_FIFO_SIZE : Int) ∨ tx_length s < 0) ∧
    (tx_data s).length = (tx_length s).toNat ∧ (tx_data s).length ≤ SI4455_FIFO_SIZE ∧
    ¬ ((si4455_begin_tx env s.tx_channel (tx_length s) (tx_data s) (kzalloc env s).2).1 = -EINVAL ∧
      (si4455_begin_tx env s.tx_channel (tx_length s) (tx_data s) (kzalloc env s).2).2.log =
        s.log) := by
  obtain ⟨cpos, cle, cfix⟩ := tx_chunk_pos s h0 hps
  have hr := tx_length_range s h64
  have hl1 : 1 ≤ tx_length s := by
    unfold tx_length
    split_ifs <;> omega
  have hvar : s.package_size = 0 → tx_length s ≤ 62 := by
    intro hz
    have : tx_chunk s ≤ 61 := by
      unfold tx_chunk
      simp only [hz, if_true, SI4455_FIFO_SIZE]
      exact Nat.min_le_right _ _
    unfold tx_length
    rw [if_pos hz]
    omega
  have hfix : s.package_size ≠ 0 → tx_length s = (s.package_size : Int) := by
    intro hz
    unfold tx_length
    rw [if_neg hz, cfix hz]
  refine ⟨?_, hl1, hr.2, hvar, hfix, ?_, tx_data_length s, ?_, ?_⟩
  · intro ha
    rw [start_tx_xmit_eq env s hst h0 hps ha]
    split_ifs with h
    · exact h.symm
    · rfl
  · simp only [SI4455_FIFO_SIZE]
    omega
  · rw [tx_data_length]
    simp only [SI4455_FIFO_SIZE]
    omega
  · rintro ⟨h1, h2⟩
    rcases begin_tx_in_range env s.tx_channel (tx_length s) (tx_data s) (kzalloc env s).2
      hr.1 hr.2 with h | ⟨t, ht⟩
    · rw [h] at h1
      exact absurd h1 (by decide)
    · rw [h2] at ht
      have hlen := congrArg List.length ht
      have hk : (kzalloc env s).2.log = s.log := rfl
      rw [hk] at hlen
      simp at hlen

/-- Witness of C26: with 100 bytes queued in variable mode the length is 62
(61 bytes and the length byte); with 10 bytes it is 11; with one byte queued
in fixed mode with packages of one byte it is 1. -/
theorem c26_tx_length_witness :
    (tx_length c26_long = 62 ∧ (tx_data c26_long).length = 62) ∧
    tx_length c17_start = 11 ∧
    tx_length (uart_write 0x41 idle_port) = 1 ∧
    (si4455_start_tx_xmit ready_env c26_long).1 = 0 := by
  have h1 := c26_tx_length_in_range ready_env c26_long (by decide) (by decide) (by decide)
    (by decide)
  have h3 := c26_tx_length_in_range chip_env (uart_write 0x41 idle_port) (by decide)
    (by decide) (by decide) (by decide)
  refine ⟨⟨by decide, ?_⟩, by decide, h3.2.2.2.2.1 (by decide), ?_⟩
  · rw [h1.2.2.2.2.2.2.1]; decide
  · rw [h1.1 rfl]; decide

/-! ## Claim C22: the start-transmit frame -/

theorem tx_frame_take (rom ch l : Nat) :
    (tx_frame rom ch 0x10 l).take
      (if rom = 6 then SI4455_CMD_ARG_COUNT_START_TX + 1 else SI4455_CMD_ARG_COUNT_START_TX) =
      start_tx_frame rom ch l := by
  have h : l % 65536 / 256 % 256 = l / 256 % 256 := by omega
  unfold tx_frame start_tx_frame
  simp only [SI4455_CMD_ARG_COUNT_START_TX, SI4455_CMD_ID_START_TX, h]
  split_ifs <;> rfl

/-- C22: for every channel, length and stored `rom_id`, `si4455_tx` called with
the condition `0x10` (as `si4455_begin_tx` calls it) polls for readiness and
then writes the frame `[0x31, channel mod 256, 0x10, (length >> 8) mod 256,
length mod 256]`, followed by the one byte `0x44` exactly when `rom_id = 6`:
6 bytes on that chip revision, 5 on every other.  On a bus on which every
operation succeeds this is the one frame `si4455_tx` writes, and the last
frame `si4455_begin_tx` writes. -/
theorem c22_start_tx_frame (env : Env) (channel length : Nat) (s : si4455_port) :
    si4455_tx env channel 0x10 length s =
      (if (si4455_poll_cts env s).1 ≠ 0 then si4455_poll_cts env s
        else spi_write env (start_tx_frame s.part_info.rom_id channel length)
          (si4455_poll_cts env s).2) ∧
    ((si4455_poll_cts env s).1 = 0 →
      (si4455_tx env channel 0x10 length s).2.log =
        (si4455_poll_cts env s).2.log ++
          [BusOp.write (start_tx_frame s.part_info.rom_id channel length)]) ∧
    (BusOk env →
      ∃ s2, si4455_tx env channel 0x10 length s = (0, s2) ∧
        Sent s s2 [start_tx_frame s.part_info.rom_id channel length]) ∧
    (BusOk env → ∀ (l : Int) (d : List Nat), 0 ≤ l → l ≤ 64 →
      ∃ s2 pre, si4455_begin_tx env channel l d s = (0, s2) ∧
        writes s2.log = writes s.log ++ pre ++
          [start_tx_frame s.part_info.rom_id channel l.toNat]) ∧
    start_tx_frame s.part_info.rom_id channel length =
      [0x31, channel % 256, 0x10, (length / 256) % 256, length % 256] ++
        (if s.part_info.rom_id = 6 then [0x44] else []) ∧
    ((start_tx_frame s.part_info.rom_id channel length).length = 6 ↔ s.part_info.rom_id = 6) ∧
    ((start_tx_frame s.part_info.rom_id channel length).length = 5 ↔ s.part_info.rom_id ≠ 6) := by
  have heq : si4455_tx env channel 0x10 length s =
      (if (si4455_poll_cts env s).1 ≠ 0 then si4455_poll_cts env s
        else spi_write env (start_tx_frame s.part_info.rom_id channel length)
          (si4455_poll_cts env s).2) := by
    unfold si4455_tx si4455_send_command
    dsimp only
    rw [tx_frame_take]
  refine ⟨heq, ?_, ?_, ?_, rfl, ?_, ?_⟩
  · intro hp
    rw [heq, if_neg (by simp [hp])]
    rfl
  · intro ok
    obtain ⟨s2, h1, h2⟩ := tx_ok ok channel 0x10 length s
    have ht := tx_frame_take s.part_info.rom_id channel length
    simp only [SI4455_CMD_ARG_COUNT_START_TX] at ht
    rw [ht] at h2
    exact ⟨s2, h1, h2⟩
  · intro ok l d h0 h64
    obtain ⟨s2, h1, h2⟩ := begin_tx_ok ok channel l d s h0 h64
    have ht := tx_frame_take s.part_info.rom_id channel l.toNat
    simp only [SI4455_CMD_ARG_COUNT_START_TX] at ht
    rw [ht] at h2
    refine ⟨s2, [int_status_frame 0 0 0,
      [SI4455_CMD_ID_FIFO_INFO, SI4455_CMD_FIFO_INFO_ARG_TX_BIT % 256],
      (SI4455_CMD_ID_WRITE_TX_FIFO % 256) :: d.take (l.toNat % 65536)], h1, ?_⟩
    rw [h2.2.2]
    simp
  · unfold start_tx_frame
    split_ifs with h <;> simp [h]
  · unfold start_tx_frame
    split_ifs with h <;> simp [h]

/-- Witness of C22 on the always-ready chip: channel 5 and length 11 give
`[0x31, 5, 0x10, 0, 11]` on a chip with `rom_id = 0` and
`[0x31, 5, 0x10, 0, 11, 0x44]` on a chip with `rom_id = 6`; a length of 300 is
sent as the bytes 1 and 44. -/
theorem c22_start_tx_frame_witness :
    (si4455_tx ready_env 5 0x10 11 zero_port).2.log =
      [read_cmd_buff 0, BusOp.write [0x31, 5, 0x10, 0, 11]] ∧
    (si4455_tx ready_env 5 0x10 11 c22_rom6).2.log =
      [read_cmd_buff 0, BusOp.write [0x31, 5, 0x10, 0, 11, 0x44]] ∧
    (si4455_tx ready_env 5 0x10 300 c22_rom6).2.log =
      [read_cmd_buff 0, BusOp.write [0x31, 5, 0x10, 1, 44, 0x44]] :=
  ⟨(c22_start_tx_frame ready_env 5 11 zero_port).2.1 (by decide),
   (c22_start_tx_frame ready_env 5 11 c22_rom6).2.1 (by decide),
   (c22_start_tx_frame ready_env 5 300 c22_rom6).2.1 (by decide)⟩

/-! ## Claim C23: starting the receiver -/

theorem rx_frame_eq (ch l : Nat) :
    rx_frame ch 0x00 l SI4455_CMD_START_RX_RXTIMEOUT_STATE_RX
      SI4455_CMD_START_RX_RXVALID_STATE_RX SI4455_CMD_START_RX_RXINVALID_STATE_RX =
      start_rx_frame ch l := by
  have h : l % 65536 / 256 % 256 = l / 256 % 256 := by omega
  unfold rx_frame start_rx_frame
  simp only [SI4455_CMD_ID_START_RX, SI4455_CMD_START_RX_RXTIMEOUT_STATE_RX,
    SI4455_CMD_START_RX_RXVALID_STATE_RX, SI4455_CMD_START_RX_RXINVALID_STATE_RX, h]

theorem rx_eq (env : Env) (ch l : Nat) (s : si4455_port) :
    si4455_rx env ch 0x00 l SI4455_CMD_START_RX_RXTIMEOUT_STATE_RX
      SI4455_CMD_START_RX_RXVALID_STATE_RX SI4455_CMD_START_RX_RXINVALID_STATE_RX s =
      si4455_send_command env 8 (start_rx_frame ch l) s := by
  unfold si4455_rx
  rw [rx_frame_eq]
  rfl

/-- On a bus on which every operation succeeds, `si4455_begin_rx` returns 0
after the two handshake queries and, unless `rx_stopped`, the start-receive
command. -/
theorem begin_rx_ok {env : Env} (ok : BusOk env) (ch l : Nat) (s : si4455_port) :
    ∃ s2, si4455_begin_rx env ch l s = (0, s2) ∧
      Sent s s2 ([int_status_frame 0 0 0,
        [SI4455_CMD_ID_FIFO_INFO, SI4455_CMD_FIFO_INFO_ARG_RX_BIT % 256]] ++
        (if s.rx_stopped = true then [] else [start_rx_frame ch l])) := by
  obtain ⟨_, _, r1, s1, _, hi, _, hs1⟩ := get_int_status_ok ok 0 0 0 int_status_zero s
  obtain ⟨r2, s2, hf, hs2⟩ := fifo_info_ok ok SI4455_CMD_FIFO_INFO_ARG_RX_BIT fifo_info_zero s1
  have h12 := Sent_trans hs1 hs2
  have hrs : s2.rx_stopped = s.rx_stopped := by rw [h12.1]
  by_cases hst : s.rx_stopped = true
  · refine ⟨s2, ?_, ?_⟩
    · unfold si4455_begin_rx
      simp only [hi, hf, ne_eq, not_true_eq_false, if_false, hrs, hst, if_true]
    · simpa [hst] using h12
  · obtain ⟨s3, hr, hs3⟩ := rx_ok ok ch 0x00 l SI4455_CMD_START_RX_RXTIMEOUT_STATE_RX
      SI4455_CMD_START_RX_RXVALID_STATE_RX SI4455_CMD_START_RX_RXINVALID_STATE_RX s2
    rw [rx_frame_eq] at hs3
    refine ⟨s3, ?_, ?_⟩
    · unfold si4455_begin_rx
      simp only [hi, hf, ne_eq, not_true_eq_false, if_false, hrs, hst, hr]
      simp
    · simpa [hst] using Sent_trans h12 hs3

/-- C23: `si4455_begin_rx` first issues the InterruptStatus query and, when
that succeeds, the FifoInfo query for the receive FIFO; the error of either is
returned.  After both succeeded: if `rx_stopped` is set nothing more is sent
and the result is 0; otherwise the start-receive command is sent with the frame
`[0x32, channel mod 256, 0x00, (length >> 8) mod 256, length mod 256, 8, 8, 8]`,
whose three next-state bytes all name the receive state 8.  On a bus on which
every operation succeeds the result is 0 and the frames written are the two
queries and, unless `rx_stopped`, that frame. -/
theorem c23_begin_rx (env : Env) (channel length : Nat) (s : si4455_port) :
    (∃ i f, i = si4455_get_int_status env 0 0 0 int_status_zero s ∧
      f = si4455_fifo_info env 0x02 fifo_info_zero i.2.2 ∧
      f.2.2.rx_stopped = s.rx_stopped ∧
      (i.1 ≠ 0 → si4455_begin_rx env channel length s = (i.1, i.2.2)) ∧
      (i.1 = 0 → f.1 ≠ 0 → si4455_begin_rx env channel length s = (f.1, f.2.2)) ∧
      (i.1 = 0 → f.1 = 0 → s.rx_stopped = true →
        si4455_begin_rx env channel length s = (0, f.2.2)) ∧
      (i.1 = 0 → f.1 = 0 → s.rx_stopped = false →
        (si4455_begin_rx env channel length s).1 =
          (si4455_send_command env 8 (start_rx_frame channel length) f.2.2).1 ∧
        (si4455_begin_rx env channel length s).2 =
          (si4455_send_command env 8 (start_rx_frame channel length) f.2.2).2)) ∧
    (BusOk env →
      (si4455_begin_rx env channel length s).1 = 0 ∧
      writes (si4455_begin_rx env channel length s).2.log =
        writes s.log ++ ([[0x20, 0, 0, 0], [0x15, 0x02]] ++
          (if s.rx_stopped = true then [] else [start_rx_frame channel length]))) ∧
    start_rx_frame channel length =
      [0x32, channel % 256, 0x00, (length / 256) % 256, length % 256, 8, 8, 8] := by
  have hrs : (si4455_fifo_info env 0x02 fifo_info_zero
      (si4455_get_int_status env 0 0 0 int_status_zero s).2.2).2.2.rx_stopped =
      s.rx_stopped := by
    have h := bus_frame_trans (bus_frame_get_int_status env 0 0 0 int_status_zero s)
      (bus_frame_fifo_info env 0x02 fifo_info_zero _)
    rw [h.1]
  refine ⟨⟨_, _, rfl, rfl, hrs, ?_, ?_, ?_, ?_⟩, ?_, rfl⟩
  · intro hi
    unfold si4455_begin_rx
    simp only [hi, ne_eq, not_false_eq_true, if_true]
  · intro hi hf
    unfold si4455_begin_rx
    simp only [hi, ne_eq, not_true_eq_false, if_false, SI4455_CMD_FIFO_INFO_ARG_RX_BIT, hf,
      not_false_eq_true, if_true]
  · intro hi hf hst
    unfold si4455_begin_rx
    simp only [hi, ne_eq, not_true_eq_false, if_false, SI4455_CMD_FIFO_INFO_ARG_RX_BIT, hf,
      hrs, hst, if_true]
  · intro hi hf hst
    unfold si4455_begin_rx
    simp only [hi, ne_eq, not_true_eq_false, if_false, SI4455_CMD_FIFO_INFO_ARG_RX_BIT, hf,
      hrs, hst, Bool.false_eq_true, rx_eq]
    split_ifs with h
    · have h0 : (si4455_send_command env 8 (start_rx_frame channel length)
          (si4455_fifo_info env 2 fifo_info_zero
            (si4455_get_int_status env 0 0 0 int_status_zero s).2.2).2.2).1 = 0 := by
        simpa using h
      exact ⟨h0.symm, rfl⟩
    · exact ⟨rfl, rfl⟩
  · intro ok
    obtain ⟨s2, h1, h2⟩ := begin_rx_ok ok channel length s
    rw [h1]
    exact ⟨rfl, h2.2.2⟩

/-- Witness of C23 on the always-ready chip: channel 3 and length 4 give the
two queries and then `[0x32, 3, 0, 0, 4, 8, 8, 8]`; with `rx_stopped` set only
the two queries are sent. -/
theorem c23_begin_rx_witness :
    ((si4455_begin_rx ready_env 3 4 zero_port).1 = 0 ∧
      writes (si4455_begin_rx ready_env 3 4 zero_port).2.log =
        [[0x20, 0, 0, 0], [0x15, 0x02], [0x32, 3, 0, 0, 4, 8, 8, 8]]) ∧
    ((si4455_begin_rx ready_env 3 4 { zero_port with rx_stopped := true }).1 = 0 ∧
      writes (si4455_begin_rx ready_env 3 4 { zero_port with rx_stopped := true }).2.log =
        [[0x20, 0, 0, 0], [0x15, 0x02]]) :=
  ⟨(c23_begin_rx ready_env 3 4 zero_port).2.1 ready_env_ok,
   (c23_begin_rx ready_env 3 4 { zero_port with rx_stopped := true }).2.1 ready_env_ok⟩

/-! ## Claim C21: the copy out of the circular queue -/

theorem byte_at_circ_read (buf : Nat → Nat) (off n i : Nat) (h : i < n) :
    byte_at (circ_read buf off n) i = buf (off + i) := by
  simp [byte_at, circ_read, List.getD, h]

theorem byte_at_append_left (a b : List Nat) (i : Nat) (h : i < a.length) :
    byte_at (a ++ b) i = byte_at a i := by
  simp [byte_at, List.getD, List.getElem?_append_left h]

theorem byte_at_append_right (a b : List Nat) (i : Nat) (h : a.length ≤ i) :
    byte_at (a ++ b) i = byte_at b (i - a.length) := by
  simp [byte_at, List.getD, List.getElem?_append_right h]

/-- The copy out of the circular queue: byte `i` of the payload is the queue
byte at index `(tail + i) mod UART_XMIT_SIZE`. -/
theorem xmit_payload_byte (x : circ_buf) (n i : Nat) (ht : x.tail < 4096)
    (hn : n ≤ uart_circ_chars_pending x) (hi : i < n) :
    byte_at (xmit_payload x n) i = x.buf ((x.tail + i) % 4096) := by
  rw [chars_pending_eq] at hn
  unfold xmit_payload CIRC_CNT_TO_END
  simp only [UART_XMIT_SIZE]
  by_cases hlt : (x.head + (4096 - x.tail)) % 4096 < 4096 - x.tail
  · rw [if_pos hlt]
    have hno : ¬ (x.head + (4096 - x.tail)) % 4096 < n := by
      have : x.tail % 4096 = x.tail := Nat.mod_eq_of_lt ht
      rw [this] at hn
      omega
    rw [if_neg hno, byte_at_circ_read _ _ _ _ hi]
    congr 1
    have : x.tail % 4096 = x.tail := Nat.mod_eq_of_lt ht
    rw [this] at hn
    omega
  · rw [if_neg hlt]
    by_cases hw : 4096 - x.tail < n
    · rw [if_pos hw]
      by_cases hi2 : i < 4096 - x.tail
      · rw [byte_at_append_left _ _ _ (by rw [circ_read_length]; exact hi2),
          byte_at_circ_read _ _ _ _ hi2]
        congr 1
        omega
      · rw [byte_at_append_right _ _ _ (by rw [circ_read_length]; omega), circ_read_length,
          byte_at_circ_read _ _ _ _ (by omega)]
        congr 1
        omega
    · rw [if_neg hw, byte_at_circ_read _ _ _ _ hi]
      congr 1
      omega

/-- C21: for every outbound queue with its tail inside the buffer, and every
chunk size `n` up to the bytes pending, the payload copied out of the queue has
`n` bytes and `payload[i] = buf[(tail + i) mod UART_XMIT_SIZE]` for every
`i < n`, also when the bytes wrap past the end of the buffer.  The chunk
`si4455_start_tx_xmit` chooses is at most the bytes pending; the buffer it hands
to `si4455_begin_tx` is this payload in fixed mode, and the length byte `n`
followed by this payload in variable mode.  The call leaves the queue (head,
tail and contents) as it is. -/
theorem c21_payload_copy (env : Env) (s : si4455_port) (ht : s.xmit.tail < UART_XMIT_SIZE) :
    (∀ n i, n ≤ uart_circ_chars_pending s.xmit → i < n →
      byte_at (xmit_payload s.xmit n) i = s.xmit.buf ((s.xmit.tail + i) % UART_XMIT_SIZE)) ∧
    (∀ n, (xmit_payload s.xmit n).length = n) ∧
    tx_chunk s ≤ uart_circ_chars_pending s.xmit ∧
    (s.package_size ≠ 0 →
      (tx_data s).length = tx_chunk s ∧
      ∀ i, i < tx_chunk s →
        byte_at (tx_data s) i = s.xmit.buf ((s.xmit.tail + i) % UART_XMIT_SIZE)) ∧
    (s.package_size = 0 →
      (tx_data s).length = tx_chunk s + 1 ∧ byte_at (tx_data s) 0 = tx_chunk s ∧
      ∀ i, i < tx_chunk s →
        byte_at (tx_data s) (i + 1) = s.xmit.buf ((s.xmit.tail + i) % UART_XMIT_SIZE)) ∧
    (s.tx_stopped = false → uart_circ_chars_pending s.xmit ≠ 0 →
        ¬ uart_circ_chars_pending s.xmit < s.package_size → env.alloc s.allocs = true →
      (si4455_start_tx_xmit env s).1 =
        (si4455_begin_tx env s.tx_channel (tx_length s) (tx_data s) (kzalloc env s).2).1) ∧
    (si4455_start_tx_xmit env s).2.xmit = s.xmit := by
  have hb : ∀ n i, n ≤ uart_circ_chars_pending s.xmit → i < n →
      byte_at (xmit_payload s.xmit n) i = s.xmit.buf ((s.xmit.tail + i) % UART_XMIT_SIZE) :=
    fun n i hn hi => xmit_payload_byte s.xmit n i ht hn hi
  have hc : tx_chunk s ≤ uart_circ_chars_pending s.xmit := by
    unfold tx_chunk
    exact Nat.min_le_left _ _
  refine ⟨hb, xmit_payload_length s.xmit, hc, ?_, ?_, ?_, xmt_start_tx_xmit env s⟩
  · intro hz
    have hd : tx_data s = xmit_payload s.xmit (tx_chunk s) := by
      unfold tx_data
      rw [if_neg hz]
    rw [hd]
    exact ⟨xmit_payload_length _ _, fun i hi => hb _ i hc hi⟩
  · intro hz
    have hd : tx_data s = (tx_chunk s % 256) :: xmit_payload s.xmit (tx_chunk s) := by
      unfold tx_data
      rw [if_pos hz]
    have h61 : tx_chunk s ≤ 61 := by
      unfold tx_chunk
      simp only [hz, if_true, SI4455_FIFO_SIZE]
      exact Nat.min_le_right _ _
    rw [hd]
    refine ⟨by simp [xmit_payload_length], ?_, ?_⟩
    · show tx_chunk s % 256 = tx_chunk s
      omega
    · intro i hi
      rw [← byte_at_tail]
      exact hb _ i hc hi
  · intro hst h0 hps ha
    rw [start_tx_xmit_eq env s hst h0 hps ha]
    split_ifs with h
    · exact h.symm
    · rfl

/-- Witness of C21: 4 queued bytes that wrap past the end of the buffer (tail
4094, head 2), in variable mode.  The buffer handed to `si4455_begin_tx` is the
length byte 4 followed by the queue bytes at the indices 4094, 4095, 0 and 1,
and the queue is as before. -/
theorem c21_payload_copy_witness :
    uart_circ_chars_pending c21_wrapped.xmit = 4 ∧ tx_chunk c21_wrapped = 4 ∧
    tx_data c21_wrapped = [4, 5, 6, 7, 8] ∧
    byte_at (tx_data c21_wrapped) 3 = c21_wrapped.xmit.buf 0 ∧
    (si4455_start_tx_xmit ready_env c21_wrapped).2.xmit = c21_wrapped.xmit :=
  ⟨by decide, by decide, by decide,
   ((c21_payload_copy ready_env c21_wrapped (by decide)).2.2.2.2.1 rfl).2.2 2 (by decide),
   (c21_payload_copy ready_env c21_wrapped (by decide)).2.2.2.2.2.2⟩

/-! ## Claim C24: handling a received packet -/

theorem rx_bytes_length (r : BusReply) (n : Nat) : (rx_bytes r n).length = n := by
  simp [rx_bytes]

/-- What `si4455_handle_rx_pend` does once its buffer is allocated. -/
theorem handle_rx_pend_eq (env : Env) (f : si4455_fifo_info_s) (s : si4455_port)
    (ha : env.alloc s.allocs = true) :
    si4455_handle_rx_pend env f s =
      if (env.bus (s.log ++ [read_rx_fifo_op (rx_length s f)])).ret ≠ 0 ∨ s.rx_stopped = true then
        { s with log := s.log ++ [read_rx_fifo_op (rx_length s f)], allocs := s.allocs + 1 }
      else
        { s with
          log := s.log ++ [read_rx_fifo_op (rx_length s f)]
          allocs := s.allocs + 1
          flip := s.flip ++
            rx_bytes (env.bus (s.log ++ [read_rx_fifo_op (rx_length s f)])) (rx_length s f)
          icount_rx := (s.icount_rx + rx_length s f) % 2 ^ 32
          flip_pushes := s.flip_pushes + 1 } := by
  have ht : (rx_bytes (env.bus (s.log ++ [read_rx_fifo_op (rx_length s f)]))
      (rx_length s f)).take (rx_length s f) =
      rx_bytes (env.bus (s.log ++ [read_rx_fifo_op (rx_length s f)])) (rx_length s f) := by
    rw [List.take_of_length_le]
    rw [rx_bytes_length]
  have hk : (kzalloc env s).1 = true := ha
  unfold si4455_handle_rx_pend
  simp only [hk, Bool.true_eq_false, if_false]
  unfold si4455_end_rx si4455_read_rx_fifo si4455_read_data
  simp only [Bool.false_eq_true, if_false, ne_eq, not_true_eq_false]
  by_cases hr : (env.bus (s.log ++ [read_rx_fifo_op (rx_length s f)])).ret = 0
  · by_cases hs : s.rx_stopped = true
    · have hc : (env.bus (s.log ++ [read_rx_fifo_op (rx_length s f)])).ret ≠ 0 ∨
          s.rx_stopped = true := Or.inr hs
      rw [if_pos hc]
      simp [spi_sync_transfer, kzalloc, read_rx_fifo_op, rx_length, SI4455_CMD_ID_READ_RX_FIFO,
        hs] at hr ⊢
      simp [hr]
    · have hc : ¬ ((env.bus (s.log ++ [read_rx_fifo_op (rx_length s f)])).ret ≠ 0 ∨
          s.rx_stopped = true) := by
        rintro (h | h)
        · exact h hr
        · exact hs h
      rw [if_neg hc]
      simp [spi_sync_transfer, kzalloc, read_rx_fifo_op, rx_length, SI4455_CMD_ID_READ_RX_FIFO,
        hs] at hr ht ⊢
      simp [hr, ht]
  · have hc : (env.bus (s.log ++ [read_rx_fifo_op (rx_length s f)])).ret ≠ 0 ∨
        s.rx_stopped = true := Or.inl hr
    rw [if_pos hc]
    simp [spi_sync_transfer, kzalloc, read_rx_fifo_op, rx_length, SI4455_CMD_ID_READ_RX_FIFO]
      at hr ⊢
    simp [hr]

/-- C24: for every state and FifoInfo value, `si4455_handle_rx_pend` (once its
buffer is allocated) makes one read from the receive FIFO, of exactly `L`
bytes, where `L` is `package_size` in fixed mode and the reported
`rx_fifo_count` in variable mode.  If the read succeeds and `rx_stopped` is
false, exactly the `L` bytes read are appended to the inbound queue in the
order read, `L` is added to the 32-bit received-byte counter, and the queue is
flushed once.  If the read fails or `rx_stopped` is true, the inbound queue,
the counter and the number of flushes are as before.  When the buffer cannot
be allocated nothing is read and nothing is pushed. -/
theorem c24_handle_rx_pend (env : Env) (f : si4455_fifo_info_s) (s : si4455_port) :
    rx_length s f = (if s.package_size = 0 then f.rx_fifo_count else s.package_size) ∧
    (env.alloc s.allocs = false →
      (si4455_handle_rx_pend env f s).log = s.log ∧
      (si4455_handle_rx_pend env f s).flip = s.flip ∧
      (si4455_handle_rx_pend env f s).icount_rx = s.icount_rx ∧
      (si4455_handle_rx_pend env f s).flip_pushes = s.flip_pushes) ∧
    (env.alloc s.allocs = true →
      (si4455_handle_rx_pend env f s).log =
        s.log ++ [BusOp.transfer [0x77] (rx_length s f)] ∧
      ((env.bus (s.log ++ [BusOp.transfer [0x77] (rx_length s f)])).ret = 0 →
          s.rx_stopped = false →
        (si4455_handle_rx_pend env f s).flip =
          s.flip ++ rx_bytes (env.bus (s.log ++ [BusOp.transfer [0x77] (rx_length s f)]))
            (rx_length s f) ∧
        (rx_bytes (env.bus (s.log ++ [BusOp.transfer [0x77] (rx_length s f)]))
          (rx_length s f)).length = rx_length s f ∧
        (si4455_handle_rx_pend env f s).flip.length = s.flip.length + rx_length s f ∧
        (si4455_handle_rx_pend env f s).icount_rx = (s.icount_rx + rx_length s f) % 2 ^ 32 ∧
        (si4455_handle_rx_pend env f s).flip_pushes = s.flip_pushes + 1) ∧
      ((env.bus (s.log ++ [BusOp.transfer [0x77] (rx_length s f)])).ret ≠ 0 ∨
          s.rx_stopped = true →
        (si4455_handle_rx_pend env f s).flip = s.flip ∧
        (si4455_handle_rx_pend env f s).icount_rx = s.icount_rx ∧
        (si4455_handle_rx_pend env f s).flip_pushes = s.flip_pushes)) := by
  refine ⟨rfl, ?_, ?_⟩
  · intro ha
    have hk : (kzalloc env s).1 = false := ha
    unfold si4455_handle_rx_pend
    simp only [hk, if_true]
    exact ⟨rfl, rfl, rfl, rfl⟩
  · intro ha
    have he := handle_rx_pend_eq env f s ha
    have hop : read_rx_fifo_op (rx_length s f) = BusOp.transfer [0x77] (rx_length s f) := rfl
    rw [hop] at he
    refine ⟨?_, ?_, ?_⟩
    · rw [he]
      split_ifs <;> rfl
    · intro hr hs
      have hc : ¬ ((env.bus (s.log ++ [BusOp.transfer [0x77] (rx_length s f)])).ret ≠ 0 ∨
          s.rx_stopped = true) := by
        rintro (h | h)
        · exact h hr
        · rw [hs] at h; exact Bool.false_ne_true h
      rw [he, if_neg hc]
      refine ⟨rfl, rx_bytes_length _ _, ?_, rfl, rfl⟩
      show (s.flip ++ rx_bytes _ _).length = _
      rw [List.length_append, rx_bytes_length]
    · intro hc
      rw [he, if_pos hc]
      exact ⟨rfl, rfl, rfl⟩

/-- Witness of C24.  In fixed mode with packages of 3 bytes the three bytes
read are pushed in the order read, whatever occupancy is reported; in variable
mode the 2 bytes the FIFO reports are read and pushed; with `rx_stopped` set,
or when the read fails, nothing is pushed. -/
theorem c24_handle_rx_pend_witness :
    ((si4455_handle_rx_pend rx_data_env { rx_fifo_count := 7, tx_fifo_space := 0 }
        { zero_port with package_size := 3, flip := [1] }).flip = [1, 0x10, 0x11, 0x12] ∧
      (si4455_handle_rx_pend rx_data_env { rx_fifo_count := 7, tx_fifo_space := 0 }
        { zero_port with package_size := 3, flip := [1] }).icount_rx = 3) ∧
    (si4455_handle_rx_pend rx_data_env { rx_fifo_count := 2, tx_fifo_space := 0 }
      zero_port).flip = [0x10, 0x11] ∧
    (si4455_handle_rx_pend rx_data_env { rx_fifo_count := 2, tx_fifo_space := 0 }
      { zero_port with rx_stopped := true }).flip = [] ∧
    (si4455_handle_rx_pend rx_fail_env { rx_fifo_count := 2, tx_fifo_space := 0 }
      zero_port).flip = [] := by
  have h1 := ((c24_handle_rx_pend rx_data_env { rx_fifo_count := 7, tx_fifo_space := 0 }
    { zero_port with package_size := 3, flip := [1] }).2.2 rfl).2.1 rfl rfl
  have h2 := ((c24_handle_rx_pend rx_data_env { rx_fifo_count := 2, tx_fifo_space := 0 }
    zero_port).2.2 rfl).2.1 rfl rfl
  have h3 := ((c24_handle_rx_pend rx_data_env { rx_fifo_count := 2, tx_fifo_space := 0 }
    { zero_port with rx_stopped := true }).2.2 rfl).2.2 (Or.inr rfl)
  have h4 := ((c24_handle_rx_pend rx_fail_env { rx_fifo_count := 2, tx_fifo_space := 0 }
    zero_port).2.2 rfl).2.2 (Or.inl (by decide))
  exact ⟨⟨h1.1, h1.2.2.2.1⟩, h2.1, h3.1, h4.1⟩

/-! ## Claim C27: the retry budget of the readiness poll -/

theorem first_ready_read (env : Env) (h : List BusOp) (n : Nat)
    (hex : ∃ k, k < 99 ∧ poll_ready (poll_reply env h n k)) :
    ∃ k, k < 99 ∧ poll_ready (poll_reply env h n k) ∧
      ∀ j, j < k → ¬ poll_ready (poll_reply env h n j) := by
  classical
  have hex2 : ∃ k, poll_ready (poll_reply env h n k) := by
    obtain ⟨k, _, hk⟩ := hex
    exact ⟨k, hk⟩
  refine ⟨Nat.find hex2, ?_, Nat.find_spec hex2, fun j hj => Nat.find_min hex2 hj⟩
  obtain ⟨k, hk99, hk⟩ := hex
  exact lt_of_le_of_lt (Nat.find_min' hex2 hk) hk99

/-- C27: the retry budget of `si4455_get_response` is exactly 99 status reads.
With the reply buffer allocated and no transfer error among the first 99
reads, it makes at least one and at most 99 reads; it returns 0 if and only if
one of the first 99 reads shows the first byte `0xFF`, and the timeout error
`-EIO` if and only if none of them does.  On success it has stopped at the
first such read, and the caller's buffer holds the `length` bytes that follow
the sentinel in that same read; on timeout it has made exactly 99 reads and
the caller's buffer is as it was. -/
theorem c27_get_response_budget (env : Env) (n : Nat) (data : Option (List Nat))
    (s : si4455_port) (hd : n = 0 ∨ data.isSome) (ha : env.alloc s.allocs = true)
    (hret : ∀ k, k < 99 → (poll_reply env s.log n k).ret = 0) :
    (∃ m, 1 ≤ m ∧ m ≤ 99 ∧
      (si4455_get_response env n data s).2.2.log =
        s.log ++ List.replicate m (read_cmd_buff n)) ∧
    ((si4455_get_response env n data s).1 = 0 ↔
      ∃ k, k < 99 ∧ poll_ready (poll_reply env s.log n k)) ∧
    ((si4455_get_response env n data s).1 = - EIO_CODE ↔
      ∀ k, k < 99 → ¬ poll_ready (poll_reply env s.log n k)) ∧
    (∀ k, k < 99 → poll_ready (poll_reply env s.log n k) →
      (∀ j, j < k → ¬ poll_ready (poll_reply env s.log n j)) →
      si4455_get_response env n data s =
        (0, (if 0 < n then some ((rx_bytes (poll_reply env s.log n k) (1 + n)).drop 1)
          else data), after_polls s n (k + 1)) ∧
      ((rx_bytes (poll_reply env s.log n k) (1 + n)).drop 1).length = n ∧
      ∀ i, i < n → byte_at ((rx_bytes (poll_reply env s.log n k) (1 + n)).drop 1) i =
        byte_at (poll_reply env s.log n k).rx (i + 1) % 256) ∧
    ((∀ k, k < 99 → ¬ poll_ready (poll_reply env s.log n k)) →
      si4455_get_response env n data s = (- EIO_CODE, data, after_polls s n 99)) := by
  have hready : ∀ k, k < 99 → poll_ready (poll_reply env s.log n k) →
      (∀ j, j < k → ¬ poll_ready (poll_reply env s.log n j)) →
      si4455_get_response env n data s =
        (0, (if 0 < n then some ((rx_bytes (poll_reply env s.log n k) (1 + n)).drop 1)
          else data), after_polls s n (k + 1)) := by
    intro k hk hr hb
    exact get_response_ready env n data s hd ha k hk
      (fun j hj => ⟨hret j (by omega), hb j hj⟩) (hret k hk) hr
  have htimeout : (∀ k, k < 99 → ¬ poll_ready (poll_reply env s.log n k)) →
      si4455_get_response env n data s = (- EIO_CODE, data, after_polls s n 99) := by
    intro h
    exact get_response_timeout env n data s hd ha (fun k hk => ⟨hret k hk, h k hk⟩)
  by_cases hex : ∃ k, k < 99 ∧ poll_ready (poll_reply env s.log n k)
  · obtain ⟨k, hk, hr, hb⟩ := first_ready_read env s.log n hex
    have hg := hready k hk hr hb
    refine ⟨⟨k + 1, by omega, by omega, by rw [hg]; rfl⟩, ?_, ?_, ?_, htimeout⟩
    · rw [hg]
      exact ⟨fun _ => hex, fun _ => rfl⟩
    · rw [hg]
      constructor
      · intro h
        exact absurd h (by decide : ¬ ((0 : Int) = - EIO_CODE))
      · intro h
        exact absurd hr (h k hk)
    · intro k2 hk2 hr2 hb2
      refine ⟨hready k2 hk2 hr2 hb2, by simp [rx_bytes_length], ?_⟩
      intro i hi
      rw [byte_at_drop_one, byte_at_rx_bytes, if_pos (by omega)]
  · have hno : ∀ k, k < 99 → ¬ poll_ready (poll_reply env s.log n k) :=
      fun k hk hr => hex ⟨k, hk, hr⟩
    have hg := htimeout hno
    refine ⟨⟨99, by omega, by omega, by rw [hg]; rfl⟩, ?_, ?_, ?_, htimeout⟩
    · rw [hg]
      constructor
      · intro h
        exact absurd h (by decide : ¬ (- EIO_CODE = (0 : Int)))
      · intro h
        exact absurd h hex
    · rw [hg]
      exact ⟨fun _ => hno, fun _ => rfl⟩
    · intro k2 hk2 hr2 _
      exact absurd hr2 (hno k2 hk2)

/-- Witness of C27.  A chip that reports ready at the 99th read: the result is
0 and the two reply bytes of that read are in the buffer.  A chip that reports
ready only from the 100th read on: the result is `-EIO` after 99 reads and the
buffer is as it was. -/
theorem c27_get_response_witness :
    si4455_get_response (slow_env 98) 2 (some [0, 0]) zero_port =
      (0, some [0xA1, 0xA2], after_polls zero_port 2 99) ∧
    si4455_get_response (slow_env 99) 2 (some [0, 0]) zero_port =
      (- EIO_CODE, some [0, 0], after_polls zero_port 2 99) ∧
    poll_ready (poll_reply (slow_env 99) zero_port.log 2 99) :=
  ⟨((c27_get_response_budget (slow_env 98) 2 (some [0, 0]) zero_port (Or.inr rfl) rfl
      (fun _ _ => rfl)).2.2.2.1 98 (by decide) (by decide) (by decide)).1,
   (c27_get_response_budget (slow_env 99) 2 (some [0, 0]) zero_port (Or.inr rfl) rfl
      (fun _ _ => rfl)).2.2.2.2 (by decide),
   by decide⟩

/-! ## Claim C28: a failed InterruptStatus query in the loader -/

/-- One iteration of the loader on a command record whose exchange succeeds
and passes the check, when the InterruptStatus query after it fails and the
status carried from earlier queries has the chip-error bit clear: the loader
goes on with the rest of the table, in the state the failed query left, with
the carried status as it was. -/
theorem configure_loop_query_failed (env : Env) (fuel : Nat) (r rest : List Nat) (ret : Int)
    (i : si4455_int_status) (s : si4455_port) (h1 : 1 ≤ r.length) (h16 : r.length ≤ 16)
    (hret : (si4455_send_command_get_response env r.length r 1 (some [0]) s).1 = 0)
    (hchk : ¬ (byte_at r 0 = SI4455_CMD_ID_EZCONFIG_CHECK ∧
      byte_at ((si4455_send_command_get_response env r.length r 1
        (some [0]) s).2.1.getD []) 0 ≠ 0))
    (hq : (si4455_get_int_status env 0 0 0 int_status_zero
      (si4455_send_command_get_response env r.length r 1 (some [0]) s).2.2).1 ≠ 0)
    (hi : i.chip_pend &&& SI4455_CMD_GET_CHIP_STATUS_ERROR_PEND_MASK = 0) :
    configure_loop env (fuel + 1) (r.length :: (r ++ rest)) ret i s =
      configure_loop env fuel rest 0 i
        (si4455_get_int_status env 0 0 0 int_status_zero
          (si4455_send_command_get_response env r.length r 1 (some [0]) s).2.2).2.2 := by
  obtain ⟨_, q2, _, q4⟩ := get_int_status_result env 0 0 0 i int_status_zero
    (si4455_send_command_get_response env r.length r 1 (some [0]) s).2.2
  rw [configure_loop_short env fuel r rest ret i s h1 h16, if_neg (by simp [hret]),
    if_neg hchk, q4 hq, q2, if_neg (by simpa using hi), hret]

theorem configure_loop_fuel_le (env : Env) (fuel : Nat) (data : List Nat) (ret : Int)
    (i : si4455_int_status) (s : si4455_port) (h : data.length ≤ fuel) :
    configure_loop env fuel data ret i s = configure_loop env data.length data ret i s := by
  obtain ⟨e, rfl⟩ : ∃ e, fuel = data.length + e := ⟨fuel - data.length, by omega⟩
  exact configure_loop_fuel env data.length data ret i s (le_refl _) e

/-- C28: the loader ignores a failure of the InterruptStatus query it makes
after a command.  After records that loaded without error (leaving `s1`, and
the chip-error bit of the carried status clear), take a command record `r` of
1 to 16 bytes whose exchange succeeds and passes the EZConfig check, and
whose InterruptStatus query fails.  Then the loader does not stop: it goes on
with the records that follow, in the state the failed query left; when `r` is
the last record the loader returns 0, and `si4455_re_configure` then returns 0
with `configured` set and `cts_error` cleared. -/
theorem c28_query_failure_ignored (env : Env) (pre : List (List Nat)) (r : List Nat)
    (s s1 : si4455_port) (hpre : ∀ x ∈ pre, 1 ≤ x.length)
    (h1 : 1 ≤ r.length) (h16 : r.length ≤ 16)
    (hload : si4455_configure env (encode_records pre ++ [0]) s = some (0, s1))
    (hret : (si4455_send_command_get_response env r.length r 1 (some [0]) s1).1 = 0)
    (hchk : ¬ (byte_at r 0 = SI4455_CMD_ID_EZCONFIG_CHECK ∧
      byte_at ((si4455_send_command_get_response env r.length r 1
        (some [0]) s1).2.1.getD []) 0 ≠ 0))
    (hq : (si4455_get_int_status env 0 0 0 int_status_zero
      (si4455_send_command_get_response env r.length r 1 (some [0]) s1).2.2).1 ≠ 0) :
    (∃ i1 : si4455_int_status,
      i1.chip_pend &&& SI4455_CMD_GET_CHIP_STATUS_ERROR_PEND_MASK = 0 ∧
      ∀ rest, si4455_configure env (encode_records pre ++ r.length :: (r ++ rest)) s =
        (configure_loop env rest.length rest 0 i1
          (si4455_get_int_status env 0 0 0 int_status_zero
            (si4455_send_command_get_response env r.length r 1 (some [0]) s1).2.2).2.2).map
          (fun x => (x.1, x.2.2))) ∧
    (∀ junk, si4455_configure env (encode_records pre ++ r.length :: (r ++ 0 :: junk)) s =
      some (0, (si4455_get_int_status env 0 0 0 int_status_zero
        (si4455_send_command_get_response env r.length r 1 (some [0]) s1).2.2).2.2)) ∧
    (∀ s0 junk, s = configure_entry s0 →
      si4455_re_configure env (encode_records pre ++ r.length :: (r ++ 0 :: junk)) s0 =
        some (0, { (si4455_get_int_status env 0 0 0 int_status_zero
          (si4455_send_command_get_response env r.length r 1 (some [0]) s1).2.2).2.2 with
          configured := true, cts_error := false })) := by
  obtain ⟨i1, hi1, hrun⟩ := configure_after_records env pre hpre s s1 hload
  have hstep : ∀ rest, si4455_configure env (encode_records pre ++ r.length :: (r ++ rest)) s =
      (configure_loop env rest.length rest 0 i1
        (si4455_get_int_status env 0 0 0 int_status_zero
          (si4455_send_command_get_response env r.length r 1 (some [0]) s1).2.2).2.2).map
        (fun x => (x.1, x.2.2)) := by
    intro rest
    rw [hrun]
    have hf : (encode_records pre).length - pre.length + (r.length :: (r ++ rest)).length =
        ((encode_records pre).length - pre.length + (r ++ rest).length) + 1 := by
      simp; omega
    rw [hf, configure_loop_query_failed env _ r rest 0 i1 s1 h1 h16 hret hchk hq hi1,
      configure_loop_fuel_le env _ rest 0 i1 _ (by simp; omega)]
  have hlast : ∀ junk,
      si4455_configure env (encode_records pre ++ r.length :: (r ++ 0 :: junk)) s =
        some (0, (si4455_get_int_status env 0 0 0 int_status_zero
          (si4455_send_command_get_response env r.length r 1 (some [0]) s1).2.2).2.2) := by
    intro junk
    rw [hstep (0 :: junk)]
    have hl : (0 :: junk).length = junk.length + 1 := rfl
    rw [hl, configure_loop_zero]
    rfl
  refine ⟨⟨i1, hi1, hstep⟩, hlast, ?_⟩
  intro s0 junk hs
  rw [re_configure_eq, ← hs, hlast junk]
  rfl

/-- Witness of C28, on a chip that goes silent for 99 status reads after it
has answered the power-up command.  The InterruptStatus query after the
power-up record runs into the bus timeout before its frame is written, the
loader goes on with the GPIO record and returns 0, and `si4455_re_configure`
reports success with `configured` set and `cts_error` cleared, although the
timeout was counted. -/
theorem c28_query_failure_witness :
    (si4455_get_int_status c28_env 0 0 0 int_status_zero
      (si4455_send_command_get_response c28_env 7 power_up_record 1 (some [0])
        c28_start).2.2).1 = - EIO_CODE ∧
    (si4455_configure c28_env (7 :: (power_up_record ++ [0])) c28_start).map
      (fun x => (x.1, x.2.cts_error, writes x.2.log)) =
      some (0, true, [power_up_record]) ∧
    (si4455_re_configure c28_env (7 :: (power_up_record ++ [0])) c28_start).map
      (fun x => (x.1, x.2.configured, x.2.cts_error, x.2.cts_error_count)) =
      some (0, true, false, 1) ∧
    (si4455_re_configure c28_env
        (7 :: (power_up_record ++ 8 :: (gpio_pin_cfg_record ++ [0]))) c28_start).map
      (fun x => (x.1, x.2.configured, x.2.cts_error, writes x.2.log)) =
      some (0, true, false, [power_up_record, gpio_pin_cfg_record, [0x20, 0, 0, 0]]) := by
  have h := c28_query_failure_ignored c28_env [] power_up_record c28_start c28_start
    (by decide) (by decide) (by decide) rfl (by decide) (by decide) (by decide)
  have e1 : encode_records [] ++ power_up_record.length :: (power_up_record ++ [0]) =
      7 :: (power_up_record ++ [0]) := rfl
  refine ⟨by decide, ?_, ?_, by decide⟩
  · have h2 := h.2.1 []
    rw [e1] at h2
    rw [h2]
    decide
  · have h3 := h.2.2 c28_start [] rfl
    rw [e1] at h3
    rw [h3]
    decide

/-! ## Claim C29: the InterruptStatus request -/

theorem writes_snoc_transfer (l : List BusOp) (tx : List Nat) (n : Nat) :
    writes (l ++ [BusOp.transfer tx n]) = writes l := by
  rw [writes_append]
  simp [writes]

theorem writes_snoc_write (l : List BusOp) (f : List Nat) :
    writes (l ++ [BusOp.write f]) = writes l ++ [f] := by
  rw [writes_append]
  simp [writes]

theorem writes_get_response_loop (env : Env) (n : Nat) (data : Option (List Nat)) :
    ∀ (t : Nat) (ret : Int) (s : si4455_port),
      writes (get_response_loop env n data t ret s).2.2.2.log = writes s.log := by
  intro t
  induction t with
  | zero => intro ret s; rfl
  | succ t ih =>
    intro ret s
    rw [get_response_loop]
    dsimp only
    split_ifs
    all_goals first
      | rfl
      | exact writes_snoc_transfer _ _ _
      | (rw [ih]; exact writes_snoc_transfer _ _ _)

theorem writes_get_response (env : Env) (n : Nat) (data : Option (List Nat)) (s : si4455_port) :
    writes (si4455_get_response env n data s).2.2.log = writes s.log := by
  unfold si4455_get_response
  dsimp only
  split_ifs
  all_goals first
    | rfl
    | exact writes_get_response_loop env n data _ _ _

theorem writes_poll_cts (env : Env) (s : si4455_port) :
    writes (si4455_poll_cts env s).2.log = writes s.log := by
  unfold si4455_poll_cts
  dsimp only
  split_ifs <;> exact writes_get_response env 0 none s

/-- The frames `si4455_send_command` writes: the command, when the readiness
poll succeeded, and nothing otherwise. -/
theorem writes_send_command (env : Env) (l : Nat) (d : List Nat) (s : si4455_port) :
    writes (si4455_send_command env l d s).2.log =
      writes s.log ++ (if (si4455_poll_cts env s).1 = 0 then [d.take l] else []) := by
  unfold si4455_send_command
  dsimp only
  by_cases h : (si4455_poll_cts env s).1 = 0
  · rw [if_neg (by simp [h]), if_pos h]
    show writes ((si4455_poll_cts env s).2.log ++ [BusOp.write (d.take l)]) = _
    rw [writes_snoc_write, writes_poll_cts]
  · rw [if_pos h, if_neg h, writes_poll_cts]
    simp

theorem writes_send_command_get_response (env : Env) (ol : Nat) (d : List Nat) (il : Nat)
    (di : Option (List Nat)) (s : si4455_port) :
    writes (si4455_send_command_get_response env ol d il di s).2.2.log =
      writes s.log ++ (if (si4455_poll_cts env s).1 = 0 then [d.take ol] else []) := by
  unfold si4455_send_command_get_response
  dsimp only
  by_cases h : (si4455_send_command env ol d s).1 ≠ 0
  · rw [if_pos h]
    exact writes_send_command env ol d s
  · rw [if_neg h, writes_get_response]
    exact writes_send_command env ol d s

/-- The frames `si4455_get_int_status` writes: the request, when the readiness
poll succeeded, and nothing otherwise. -/
theorem writes_get_int_status (env : Env) (a b c : Nat) (r : si4455_int_status)
    (s : si4455_port) :
    writes (si4455_get_int_status env a b c r s).2.2.log =
      writes s.log ++
        (if (si4455_poll_cts env s).1 = 0 then [[0x20, a % 256, b % 256, c % 256]] else []) := by
  have h := writes_send_command_get_response env 4 (int_status_frame a b c)
    SI4455_CMD_REPLY_COUNT_GET_INT_STATUS
    (some (List.replicate SI4455_CMD_REPLY_COUNT_GET_INT_STATUS 0)) s
  unfold si4455_get_int_status
  dsimp only
  split_ifs at h ⊢ <;> exact h

/-- The InterruptStatus query with clear masks 0, 0, 0 is the exchange with
the request `[0x20, 0, 0, 0]`. -/
theorem get_int_status_exchange (env : Env) (r : si4455_int_status) (s : si4455_port) :
    (si4455_get_int_status env 0 0 0 r s).1 = (int_status_exchange env s).1 ∧
    (si4455_get_int_status env 0 0 0 r s).2.2 = (int_status_exchange env s).2.2 := by
  unfold si4455_get_int_status int_status_exchange
  dsimp only
  have e : int_status_frame 0 0 0 = int_status_request := rfl
  have e8 : SI4455_CMD_REPLY_COUNT_GET_INT_STATUS = 8 := rfl
  rw [e, e8]
  split_ifs with h
  · exact ⟨rfl, rfl⟩
  · exact ⟨Eq.symm (by simpa using h), rfl⟩

/-- C29: every InterruptStatus request of the driver is the frame
`[0x20, 0x00, 0x00, 0x00]`.  A query with the clear masks `a`, `b`, `c` writes
the one frame `[0x20, a, b, c]` (when its readiness poll succeeds, and nothing
otherwise); with the masks 0, 0, 0 it is, as far as the bus and the return
value go, the exchange with the request `[0x20, 0, 0, 0]`.  Each of the five
callers makes exactly this exchange: `si4455_end_tx`, `si4455_begin_tx` and
`si4455_begin_rx` as their first step, the interrupt dispatcher after its
gate, and the loader after each command record. -/
theorem c29_int_status_request (env : Env) (s : si4455_port) :
    (∀ a b c r, writes (si4455_get_int_status env a b c r s).2.2.log =
      writes s.log ++
        (if (si4455_poll_cts env s).1 = 0 then [[0x20, a % 256, b % 256, c % 256]] else [])) ∧
    writes (int_status_exchange env s).2.2.log =
      writes s.log ++ (if (si4455_poll_cts env s).1 = 0 then [[0x20, 0x00, 0x00, 0x00]] else []) ∧
    (si4455_end_tx env s).1 = (int_status_exchange env s).1 ∧
    (si4455_end_tx env s).2 = (int_status_exchange env s).2.2 ∧
    (∀ ch (l : Int) d, 0 ≤ l → l ≤ 64 →
      si4455_begin_tx env ch l d s =
        if (int_status_exchange env s).1 ≠ 0 then
          ((int_status_exchange env s).1, (int_status_exchange env s).2.2)
        else if (si4455_fifo_info env 0x01 fifo_info_zero
            (int_status_exchange env s).2.2).1 ≠ 0 then
          ((si4455_fifo_info env 0x01 fifo_info_zero (int_status_exchange env s).2.2).1,
           (si4455_fifo_info env 0x01 fifo_info_zero (int_status_exchange env s).2.2).2.2)
        else if (si4455_write_tx_fifo env (l.toNat % 65536) d
            (si4455_fifo_info env 0x01 fifo_info_zero
              (int_status_exchange env s).2.2).2.2).1 ≠ 0 then
          si4455_write_tx_fifo env (l.toNat % 65536) d
            (si4455_fifo_info env 0x01 fifo_info_zero (int_status_exchange env s).2.2).2.2
        else if (si4455_tx env ch 0x10 l.toNat
            (si4455_write_tx_fifo env (l.toNat % 65536) d
              (si4455_fifo_info env 0x01 fifo_info_zero
                (int_status_exchange env s).2.2).2.2).2).1 ≠ 0 then
          si4455_tx env ch 0x10 l.toNat
            (si4455_write_tx_fifo env (l.toNat % 65536) d
              (si4455_fifo_info env 0x01 fifo_info_zero (int_status_exchange env s).2.2).2.2).2
        else
          (0, (si4455_tx env ch 0x10 l.toNat
            (si4455_write_tx_fifo env (l.toNat % 65536) d
              (si4455_fifo_info env 0x01 fifo_info_zero
                (int_status_exchange env s).2.2).2.2).2).2)) ∧
    (∀ ch l,
      si4455_begin_rx env ch l s =
        if (int_status_exchange env s).1 ≠ 0 then
          ((int_status_exchange env s).1, (int_status_exchange env s).2.2)
        else if (si4455_fifo_info env 0x02 fifo_info_zero
            (int_status_exchange env s).2.2).1 ≠ 0 then
          ((si4455_fifo_info env 0x02 fifo_info_zero (int_status_exchange env s).2.2).1,
           (si4455_fifo_info env 0x02 fifo_info_zero (int_status_exchange env s).2.2).2.2)
        else if (si4455_fifo_info env 0x02 fifo_info_zero
            (int_status_exchange env s).2.2).2.2.rx_stopped = true then
          (0, (si4455_fifo_info env 0x02 fifo_info_zero (int_status_exchange env s).2.2).2.2)
        else if (si4455_rx env ch 0x00 l 8 8 8
            (si4455_fifo_info env 0x02 fifo_info_zero
              (int_status_exchange env s).2.2).2.2).1 ≠ 0 then
          si4455_rx env ch 0x00 l 8 8 8
            (si4455_fifo_info env 0x02 fifo_info_zero (int_status_exchange env s).2.2).2.2
        else
          (0, (si4455_rx env ch 0x00 l 8 8 8
            (si4455_fifo_info env 0x02 fifo_info_zero
              (int_status_exchange env s).2.2).2.2).2)) ∧
    (s.suspended = false ∧ s.connected = true ∧ s.configured = true ∧ 0 < s.power_count →
      ∃ i, i = (si4455_get_int_status env 0 0 0 int_status_zero s).2.1 ∧ si4455_ist env s =
        if (int_status_exchange env s).1 ≠ 0 then
          (irqreturn_t.IRQ_NONE, (int_status_exchange env s).2.2)
        else if (si4455_ist_dispatch env i (int_status_exchange env s).2.2).1 = true then
          (irqreturn_t.IRQ_HANDLED,
            (si4455_do_work env
              (si4455_ist_dispatch env i (int_status_exchange env s).2.2).2).2)
        else
          (irqreturn_t.IRQ_HANDLED,
            (si4455_ist_dispatch env i (int_status_exchange env s).2.2).2)) ∧
    (∀ fuel (r rest : List Nat) ret i, 1 ≤ r.length → r.length ≤ 16 →
      (si4455_send_command_get_response env r.length r 1 (some [0]) s).1 = 0 →
      ¬ (byte_at r 0 = SI4455_CMD_ID_EZCONFIG_CHECK ∧
        byte_at ((si4455_send_command_get_response env r.length r 1
          (some [0]) s).2.1.getD []) 0 ≠ 0) →
      ∃ i2, i2 = (si4455_get_int_status env 0 0 0 i
          (si4455_send_command_get_response env r.length r 1 (some [0]) s).2.2).2.1 ∧
        configure_loop env (fuel + 1) (r.length :: (r ++ rest)) ret i s =
        if i2.chip_pend &&& 0x08 ≠ 0 then
          some (- EIO_CODE, i2, (int_status_exchange env
            (si4455_send_command_get_response env r.length r 1 (some [0]) s).2.2).2.2)
        else
          configure_loop env fuel rest 0 i2 (int_status_exchange env
            (si4455_send_command_get_response env r.length r 1 (some [0]) s).2.2).2.2) := by
  have hx := fun r t => get_int_status_exchange env r t
  refine ⟨fun a b c r => writes_get_int_status env a b c r s, ?_, ?_, ?_, ?_, ?_, ?_, ?_⟩
  · rw [← (hx int_status_zero s).2]
    exact writes_get_int_status env 0 0 0 int_status_zero s
  · unfold si4455_end_tx
    dsimp only
    rw [(hx int_status_zero s).1, (hx int_status_zero s).2]
    split_ifs with h
    · rfl
    · exact Eq.symm (by simpa using h)
  · unfold si4455_end_tx
    dsimp only
    rw [(hx int_status_zero s).1, (hx int_status_zero s).2]
    split_ifs <;> rfl
  · intro ch l d h0 h64
    have hr : ¬ (l > (SI4455_FIFO_SIZE : Int) ∨ l < 0) := by
      simp only [SI4455_FIFO_SIZE]; omega
    unfold si4455_begin_tx
    rw [if_neg hr]
    dsimp only
    rw [(hx int_status_zero s).1, (hx int_status_zero s).2]
    rfl
  · intro ch l
    unfold si4455_begin_rx
    dsimp only
    rw [(hx int_status_zero s).1, (hx int_status_zero s).2]
    rfl
  · intro hg
    refine ⟨(si4455_get_int_status env 0 0 0 int_status_zero s).2.1, rfl, ?_⟩
    have hgate : ¬ (s.suspended = true ∨ (!s.connected) = true ∨ (!s.configured) = true ∨
        s.power_count = 0) := by
      obtain ⟨h1, h2, h3, h4⟩ := hg
      simp [h1, h2, h3]
      omega
    unfold si4455_ist
    rw [if_neg hgate]
    dsimp only
    rw [(hx int_status_zero s).1, (hx int_status_zero s).2]
  · intro fuel r rest ret i h1 h16 hret hchk
    refine ⟨(si4455_get_int_status env 0 0 0 i
      (si4455_send_command_get_response env r.length r 1 (some [0]) s).2.2).2.1, rfl, ?_⟩
    rw [configure_loop_short env fuel r rest ret i s h1 h16, if_neg (by simp [hret]),
      if_neg hchk, (hx i _).2, hret]
    rfl

/-- Witness of C29 on the always-ready chip: the exchange writes the one frame
`[0x20, 0, 0, 0]`; `si4455_end_tx` is this exchange; the first frame of
`si4455_begin_tx` and of `si4455_begin_rx`, the first frame of the interrupt
dispatcher, and the frame after the loader's command are all this frame. -/
theorem c29_int_status_witness :
    writes (int_status_exchange ready_env zero_port).2.2.log = [[0x20, 0, 0, 0]] ∧
    (si4455_end_tx ready_env zero_port).2 = (int_status_exchange ready_env zero_port).2.2 ∧
    writes (si4455_begin_tx ready_env 3 1 [7] zero_port).2.log =
      [[0x20, 0, 0, 0], [0x15, 1], [0x66, 7], [0x31, 3, 0x10, 0, 1]] ∧
    writes (si4455_begin_rx ready_env 3 4 zero_port).2.log =
      [[0x20, 0, 0, 0], [0x15, 2], [0x32, 3, 0, 0, 4, 8, 8, 8]] ∧
    (writes (si4455_ist ready_env c10_start).2.log).take 1 = [[0x20, 0, 0, 0]] ∧
    (configure_loop ready_env 9 (7 :: (power_up_record ++ [0])) 0 int_status_zero
      zero_port).map (fun x => writes x.2.2.log) = some [power_up_record, [0x20, 0, 0, 0]] := by
  have h := c29_int_status_request ready_env zero_port
  have hb := h.2.2.2.2.1 3 1 [7] (by decide) (by decide)
  obtain ⟨i, hi, hist⟩ := (c29_int_status_request ready_env c10_start).2.2.2.2.2.2.1 (by decide)
  obtain ⟨i2, hi2, hload⟩ := h.2.2.2.2.2.2.2 8 power_up_record [0] 0 int_status_zero
    (by decide) (by decide) (by decide) (by decide)
  subst hi hi2
  refine ⟨?_, h.2.2.2.1, ?_, ?_, ?_, ?_⟩
  · rw [h.2.1]; decide
  · rw [hb]; decide
  · rw [h.2.2.2.2.2.1 3 4]; decide
  · rw [hist]; decide
  · have e : power_up_record.length :: (power_up_record ++ [0]) =
        7 :: (power_up_record ++ [0]) := rfl
    rw [e] at hload
    rw [hload]
    decide

/-! ## Claim C25: tx_pending_size is not read while nothing is pending -/

theorem tps_spi_sync_transfer (env : Env) (v : Nat) (tx : List Nat) (n : Nat) (s : si4455_port) :
    spi_sync_transfer env tx n (with_size v s) =
      ((spi_sync_transfer env tx n s).1, (spi_sync_transfer env tx n s).2.1,
        with_size v (spi_sync_transfer env tx n s).2.2) := rfl

theorem tps_spi_write (env : Env) (v : Nat) (f : List Nat) (s : si4455_port) :
    spi_write env f (with_size v s) =
      ((spi_write env f s).1, with_size v (spi_write env f s).2) := rfl

theorem tps_kzalloc (env : Env) (v : Nat) (s : si4455_port) :
    kzalloc env (with_size v s) = ((kzalloc env s).1, with_size v (kzalloc env s).2) := rfl

theorem tps_get_response_loop (env : Env) (v : Nat) (n : Nat) (data : Option (List Nat)) :
    ∀ (t : Nat) (ret : Int) (s : si4455_port),
      get_response_loop env n data t ret (with_size v s) =
        ((get_response_loop env n data t ret s).1, (get_response_loop env n data t ret s).2.1,
          (get_response_loop env n data t ret s).2.2.1,
          with_size v (get_response_loop env n data t ret s).2.2.2) := by
  intro t
  induction t with
  | zero => intro ret s; rfl
  | succ t ih =>
    intro ret s
    rw [get_response_loop, get_response_loop]
    simp only [tps_spi_sync_transfer]
    split_ifs
    all_goals first
      | rfl
      | exact ih _ _

theorem tps_get_response (env : Env) (v : Nat) (n : Nat) (data : Option (List Nat))
    (s : si4455_port) :
    si4455_get_response env n data (with_size v s) =
      ((si4455_get_response env n data s).1, (si4455_get_response env n data s).2.1,
        with_size v (si4455_get_response env n data s).2.2) := by
  unfold si4455_get_response
  simp only [tps_kzalloc, tps_get_response_loop]
  split_ifs <;> rfl

theorem tps_poll_cts (env : Env) (v : Nat) (s : si4455_port) :
    si4455_poll_cts env (with_size v s) =
      ((si4455_poll_cts env s).1, with_size v (si4455_poll_cts env s).2) := by
  unfold si4455_poll_cts
  simp only [tps_get_response]
  split_ifs <;> rfl

theorem tps_send_command (env : Env) (v : Nat) (l : Nat) (d : List Nat) (s : si4455_port) :
    si4455_send_command env l d (with_size v s) =
      ((si4455_send_command env l d s).1, with_size v (si4455_send_command env l d s).2) := by
  unfold si4455_send_command
  simp only [tps_poll_cts, tps_spi_write]
  split_ifs <;> rfl

theorem tps_send_command_get_response (env : Env) (v : Nat) (ol : Nat) (d : List Nat) (il : Nat)
    (di : Option (List Nat)) (s : si4455_port) :
    si4455_send_command_get_response env ol d il di (with_size v s) =
      ((si4455_send_command_get_response env ol d il di s).1,
        (si4455_send_command_get_response env ol d il di s).2.1,
        with_size v (si4455_send_command_get_response env ol d il di s).2.2) := by
  unfold si4455_send_command_get_response
  simp only [tps_send_command, tps_get_response]
  split_ifs <;> rfl

theorem tps_read_data (env : Env) (v : Nat) (c : Nat) (poll : Bool) (l : Nat) (d : List Nat) (s : si4455_port) :
    si4455_read_data env c poll l d (with_size v s) =
      ((si4455_read_data env c poll l d s).1, (si4455_read_data env c poll l d s).2.1,
        with_size v (si4455_read_data env c poll l d s).2.2) := by
  unfold si4455_read_data
  cases poll
  · simp only [Bool.false_eq_true, if_false, tps_poll_cts, tps_spi_sync_transfer]
    first
      | rfl
      | (split_ifs <;> rfl)
  · simp only [if_true, tps_poll_cts, tps_spi_sync_transfer]
    first
      | rfl
      | (split_ifs <;> rfl)

theorem tps_write_data (env : Env) (v : Nat) (c : Nat) (poll : Bool) (l : Nat) (d : List Nat) (s : si4455_port) :
    si4455_write_data env c poll l d (with_size v s) =
      ((si4455_write_data env c poll l d s).1, with_size v (si4455_write_data env c poll l d s).2) := by
  unfold si4455_write_data
  cases poll
  · simp only [Bool.false_eq_true, if_false, tps_poll_cts, tps_kzalloc, tps_spi_write]
    first
      | rfl
      | (split_ifs <;> rfl)
  · simp only [if_true, tps_poll_cts, tps_kzalloc, tps_spi_write]
    first
      | rfl
      | (split_ifs <;> rfl)

theorem tps_get_int_status (env : Env) (v : Nat) (a b c : Nat) (r : si4455_int_status) (s : si4455_port) :
    si4455_get_int_status env a b c r (with_size v s) =
      ((si4455_get_int_status env a b c r s).1, (si4455_get_int_status env a b c r s).2.1,
        with_size v (si4455_get_int_status env a b c r s).2.2) := by
  unfold si4455_get_int_status
  simp only [tps_send_command_get_response]
  first
    | rfl
    | (split_ifs <;> rfl)

theorem tps_get_modem_status (env : Env) (v : Nat) (a : Nat) (r : si4455_modem_status) (s : si4455_port) :
    si4455_get_modem_status env a r (with_size v s) =
      ((si4455_get_modem_status env a r s).1, (si4455_get_modem_status env a r s).2.1,
        with_size v (si4455_get_modem_status env a r s).2.2) := by
  unfold si4455_get_modem_status
  simp only [tps_send_command_get_response]
  first
    | rfl
    | (split_ifs <;> rfl)

theorem tps_fifo_info (env : Env) (v : Nat) (a : Nat) (r : si4455_fifo_info_s) (s : si4455_port) :
    si4455_fifo_info env a r (with_size v s) =
      ((si4455_fifo_info env a r s).1, (si4455_fifo_info env a r s).2.1,
        with_size v (si4455_fifo_info env a r s).2.2) := by
  unfold si4455_fifo_info
  simp only [tps_send_command_get_response]
  first
    | rfl
    | (split_ifs <;> rfl)

theorem tps_read_rx_fifo (env : Env) (v : Nat) (l : Nat) (d : List Nat) (s : si4455_port) :
    si4455_read_rx_fifo env l d (with_size v s) =
      ((si4455_read_rx_fifo env l d s).1, (si4455_read_rx_fifo env l d s).2.1,
        with_size v (si4455_read_rx_fifo env l d s).2.2) := by
  unfold si4455_read_rx_fifo
  simp only [tps_read_data]

theorem tps_write_tx_fifo (env : Env) (v : Nat) (l : Nat) (d : List Nat) (s : si4455_port) :
    si4455_write_tx_fifo env l d (with_size v s) =
      ((si4455_write_tx_fifo env l d s).1, with_size v (si4455_write_tx_fifo env l d s).2) := by
  unfold si4455_write_tx_fifo
  simp only [tps_write_data]

theorem tps_rx (env : Env) (v : Nat) (a b c d e f : Nat) (s : si4455_port) :
    si4455_rx env a b c d e f (with_size v s) =
      ((si4455_rx env a b c d e f s).1, with_size v (si4455_rx env a b c d e f s).2) := by
  unfold si4455_rx
  simp only [tps_send_command]

theorem tps_change_state (env : Env) (v : Nat) (a : Nat) (s : si4455_port) :
    si4455_change_state env a (with_size v s) =
      ((si4455_change_state env a s).1, with_size v (si4455_change_state env a s).2) := by
  unfold si4455_change_state
  simp only [tps_send_command]

theorem tps_end_tx (env : Env) (v : Nat)  (s : si4455_port) :
    si4455_end_tx env  (with_size v s) =
      ((si4455_end_tx env  s).1, with_size v (si4455_end_tx env  s).2) := by
  unfold si4455_end_tx
  simp only [tps_get_int_status]
  first
    | rfl
    | (split_ifs <;> rfl)

theorem tps_end_rx (env : Env) (v : Nat) (l : Nat) (d : List Nat) (s : si4455_port) :
    si4455_end_rx env l d (with_size v s) =
      ((si4455_end_rx env l d s).1, (si4455_end_rx env l d s).2.1,
        with_size v (si4455_end_rx env l d s).2.2) := by
  unfold si4455_end_rx
  simp only [tps_read_rx_fifo]

theorem with_size_part_info (v : Nat) (s : si4455_port) :
    (with_size v s).part_info = s.part_info := rfl

theorem with_size_rx_stopped (v : Nat) (s : si4455_port) :
    (with_size v s).rx_stopped = s.rx_stopped := rfl

theorem tps_tx (env : Env) (v : Nat) (a b c : Nat) (s : si4455_port) :
    si4455_tx env a b c (with_size v s) =
      ((si4455_tx env a b c s).1, with_size v (si4455_tx env a b c s).2) := by
  unfold si4455_tx
  simp only [tps_send_command, with_size_part_info]

theorem tps_begin_tx (env : Env) (v : Nat) (ch : Nat) (l : Int) (d : List Nat) (s : si4455_port) :
    si4455_begin_tx env ch l d (with_size v s) =
      ((si4455_begin_tx env ch l d s).1, with_size v (si4455_begin_tx env ch l d s).2) := by
  unfold si4455_begin_tx
  simp only [tps_get_int_status, tps_fifo_info, tps_write_tx_fifo, tps_tx]
  first
    | rfl
    | (split_ifs <;> rfl)

theorem tps_begin_rx (env : Env) (v : Nat) (ch l : Nat) (s : si4455_port) :
    si4455_begin_rx env ch l (with_size v s) =
      ((si4455_begin_rx env ch l s).1, with_size v (si4455_begin_rx env ch l s).2) := by
  unfold si4455_begin_rx
  simp only [tps_get_int_status, tps_fifo_info, tps_rx, with_size_rx_stopped]
  first
    | rfl
    | (split_ifs <;> rfl)

theorem tps_start_tx_xmit (env : Env) (v : Nat) (s : si4455_port) :
    ∃ v2, si4455_start_tx_xmit env (with_size v s) =
      ((si4455_start_tx_xmit env s).1, with_size v2 (si4455_start_tx_xmit env s).2) := by
  unfold si4455_start_tx_xmit
  simp only [tps_kzalloc, tps_begin_tx]
  simp only [with_size, uart_handle_cts_change]
  split_ifs
  all_goals first
    | exact ⟨v, rfl⟩
    | exact ⟨_, rfl⟩

theorem with_size_modem_status (v : Nat) (s : si4455_port) :
    (with_size v s).modem_status = s.modem_status := rfl

theorem with_size_package_size (v : Nat) (s : si4455_port) :
    (with_size v s).package_size = s.package_size := rfl

theorem with_size_tx_pending (v : Nat) (s : si4455_port) :
    (with_size v s).tx_pending = s.tx_pending := rfl

theorem with_size_suspended (v : Nat) (s : si4455_port) :
    (with_size v s).suspended = s.suspended := rfl

theorem with_size_connected (v : Nat) (s : si4455_port) :
    (with_size v s).connected = s.connected := rfl

theorem with_size_configured (v : Nat) (s : si4455_port) :
    (with_size v s).configured = s.configured := rfl

theorem with_size_power_count (v : Nat) (s : si4455_port) :
    (with_size v s).power_count = s.power_count := rfl

theorem with_size_xmit (v : Nat) (s : si4455_port) :
    (with_size v s).xmit = s.xmit := rfl

theorem with_size_uart_stopped (v : Nat) (s : si4455_port) :
    (with_size v s).uart_stopped = s.uart_stopped := rfl

theorem with_size_tx_stopped (v : Nat) (s : si4455_port) :
    (with_size v s).tx_stopped = s.tx_stopped := rfl

theorem with_size_rx_channel (v : Nat) (s : si4455_port) :
    (with_size v s).rx_channel = s.rx_channel := rfl

theorem rx_noted_with_size (v : Nat) (a : Int) (b : si4455_modem_status) (t : si4455_port) :
    rx_noted (a, b, with_size v t) = with_size v (rx_noted (a, b, t)) := rfl

theorem tps_handle_rx_pend (env : Env) (v : Nat) (f : si4455_fifo_info_s) (s : si4455_port) :
    si4455_handle_rx_pend env f (with_size v s) = with_size v (si4455_handle_rx_pend env f s) := by
  unfold si4455_handle_rx_pend
  simp only [tps_kzalloc, tps_end_rx, with_size_package_size, with_size_rx_stopped]
  split_ifs <;> rfl

/-- With no transmission pending, the packet-sent handling, `si4455_cancel_tx`
and the transmit-watchdog work return the state they are given. -/
theorem tx_idle_noops (env : Env) (s : si4455_port) (hp : s.tx_pending = false) :
    si4455_handle_tx_pend env s = s ∧ si4455_cancel_tx env s = (0, s) ∧
    si4455_tx_wd_proc env s = s := by
  refine ⟨?_, ?_, ?_⟩
  · unfold si4455_handle_tx_pend
    simp [hp]
  · unfold si4455_cancel_tx
    simp [hp]
  · unfold si4455_tx_wd_proc
    simp [hp]

theorem tps_do_work (env : Env) (v : Nat) (s : si4455_port) :
    ∃ v2, si4455_do_work env (with_size v s) =
      ((si4455_do_work env s).1, with_size v2 (si4455_do_work env s).2) := by
  by_cases hg : s.suspended = false ∧ s.connected = true ∧ s.configured = true ∧
      0 < s.power_count
  · have hgv : (with_size v s).suspended = false ∧ (with_size v s).connected = true ∧
        (with_size v s).configured = true ∧ 0 < (with_size v s).power_count := hg
    by_cases hq : uart_circ_empty s.xmit = true ∨ s.uart_stopped = true ∨ s.tx_pending = true
    · have e1 := do_work_idle env (with_size v s) hgv hq
      have e2 := do_work_idle env s hg hq
      rw [e1, e2]
      simp only [with_size_tx_pending, with_size_rx_channel, with_size_package_size,
        tps_begin_rx]
      exact ⟨v, by split_ifs <;> rfl⟩
    · have he : uart_circ_empty s.xmit = false := by
        by_contra h
        exact hq (Or.inl (by simpa using h))
      have hu : s.uart_stopped = false := by
        by_contra h
        exact hq (Or.inr (Or.inl (by simpa using h)))
      have hp : s.tx_pending = false := by
        by_contra h
        exact hq (Or.inr (Or.inr (by simpa using h)))
      have e1 := do_work_send env (with_size v s) hgv he hu hp
      have e2 := do_work_send env s hg he hu hp
      obtain ⟨v1, h1⟩ := tps_start_tx_xmit env v s
      rw [e1, e2]
      simp only [with_size_tx_stopped, with_size_xmit, with_size_rx_channel,
        with_size_package_size, tps_begin_rx, h1]
      by_cases hn : s.tx_stopped = true ∨ uart_circ_chars_pending s.xmit = 0 ∨
          uart_circ_chars_pending s.xmit < s.package_size
      · rw [if_pos hn, if_pos hn]
        exact ⟨v, rfl⟩
      · rw [if_neg hn, if_neg hn]
        exact ⟨v1, rfl⟩
  · have hgv : ¬ ((with_size v s).suspended = false ∧ (with_size v s).connected = true ∧
        (with_size v s).configured = true ∧ 0 < (with_size v s).power_count) := hg
    rw [do_work_closed env (with_size v s) hgv, do_work_closed env s hg]
    exact ⟨v, rfl⟩

/-- The four branches of the priority chain, and the case that nothing is
pending. -/
theorem ist_dispatch_cases (env : Env) (i : si4455_int_status) (s : si4455_port) :
    si4455_ist_dispatch env i s =
      if i.chip_pend &&& 0x08 ≠ 0 then
        (true, (si4455_fifo_info env 0x02 fifo_info_zero (si4455_change_state env 1 s).2).2.2)
      else if i.ph_pend &&& 0x20 ≠ 0 then
        (true, si4455_handle_tx_pend env (si4455_change_state env 1 s).2)
      else if i.ph_pend &&& 0x10 ≠ 0 then
        (true, si4455_handle_rx_pend env
          (si4455_fifo_info env 0 fifo_info_zero (si4455_change_state env 1
            (rx_noted (si4455_get_modem_status env 0 s.modem_status s))).2).2.1
          (si4455_fifo_info env 0 fifo_info_zero (si4455_change_state env 1
            (rx_noted (si4455_get_modem_status env 0 s.modem_status s))).2).2.2)
      else if i.ph_pend &&& 0x08 ≠ 0 then
        (true, (si4455_fifo_info env 0x02 fifo_info_zero (si4455_change_state env 1 s).2).2.2)
      else (false, s) := rfl

theorem tps_ist_dispatch (env : Env) (v : Nat) (i : si4455_int_status) (s : si4455_port)
    (hp : s.tx_pending = false) :
    si4455_ist_dispatch env i (with_size v s) =
      ((si4455_ist_dispatch env i s).1, with_size v (si4455_ist_dispatch env i s).2) := by
  have hc : (si4455_change_state env 1 s).2.tx_pending = false := by
    rw [(bus_frame_link (bus_frame_change_state env 1 s)).2.2.2.2.2.2.1, hp]
  have hcv : (with_size v (si4455_change_state env 1 s).2).tx_pending = false := hc
  rw [ist_dispatch_cases, ist_dispatch_cases]
  simp only [tps_change_state, tps_fifo_info, tps_get_modem_status, with_size_modem_status,
    rx_noted_with_size, tps_handle_rx_pend, (tx_idle_noops env _ hc).1,
    (tx_idle_noops env _ hcv).1]
  split_ifs <;> rfl

theorem ist_closed (env : Env) (s : si4455_port)
    (h : ¬ (s.suspended = false ∧ s.connected = true ∧ s.configured = true ∧
      s.power_count ≠ 0)) :
    si4455_ist env s = (irqreturn_t.IRQ_NONE, s) := by
  unfold si4455_ist
  rw [if_pos]
  by_contra hc
  apply h
  simp only [not_or] at hc
  obtain ⟨h1, h2, h3, h4⟩ := hc
  exact ⟨by simpa using h1, by simpa using h2, by simpa using h3, h4⟩

theorem ist_open (env : Env) (s : si4455_port)
    (h : s.suspended = false ∧ s.connected = true ∧ s.configured = true ∧ s.power_count ≠ 0) :
    si4455_ist env s =
      if (si4455_get_int_status env 0 0 0 int_status_zero s).1 ≠ 0 then
        (irqreturn_t.IRQ_NONE, (si4455_get_int_status env 0 0 0 int_status_zero s).2.2)
      else if (si4455_ist_dispatch env (si4455_get_int_status env 0 0 0 int_status_zero s).2.1
          (si4455_get_int_status env 0 0 0 int_status_zero s).2.2).1 = true then
        (irqreturn_t.IRQ_HANDLED,
          (si4455_do_work env
            (si4455_ist_dispatch env (si4455_get_int_status env 0 0 0 int_status_zero s).2.1
              (si4455_get_int_status env 0 0 0 int_status_zero s).2.2).2).2)
      else
        (irqreturn_t.IRQ_HANDLED,
          (si4455_ist_dispatch env (si4455_get_int_status env 0 0 0 int_status_zero s).2.1
            (si4455_get_int_status env 0 0 0 int_status_zero s).2.2).2) := by
  have hgate : ¬ (s.suspended = true ∨ (!s.connected) = true ∨ (!s.configured) = true ∨
      s.power_count = 0) := by
    obtain ⟨h1, h2, h3, h4⟩ := h
    simp [h1, h2, h3, h4]
  unfold si4455_ist
  rw [if_neg hgate]

theorem tps_ist (env : Env) (v : Nat) (s : si4455_port) (hp : s.tx_pending = false) :
    ∃ v2, si4455_ist env (with_size v s) =
      ((si4455_ist env s).1, with_size v2 (si4455_ist env s).2) := by
  by_cases hg : s.suspended = false ∧ s.connected = true ∧ s.configured = true ∧
      s.power_count ≠ 0
  · have hgv : (with_size v s).suspended = false ∧ (with_size v s).connected = true ∧
        (with_size v s).configured = true ∧ (with_size v s).power_count ≠ 0 := hg
    have hq : (si4455_get_int_status env 0 0 0 int_status_zero s).2.2.tx_pending = false := by
      rw [(bus_frame_link (bus_frame_get_int_status env 0 0 0 int_status_zero s)).2.2.2.2.2.2.1,
        hp]
    obtain ⟨v2, hw⟩ := tps_do_work env v
      (si4455_ist_dispatch env (si4455_get_int_status env 0 0 0 int_status_zero s).2.1
        (si4455_get_int_status env 0 0 0 int_status_zero s).2.2).2
    rw [ist_open env (with_size v s) hgv, ist_open env s hg]
    simp only [tps_get_int_status, tps_ist_dispatch env v _ _ hq, hw]
    by_cases h1 : (si4455_get_int_status env 0 0 0 int_status_zero s).1 ≠ 0
    · rw [if_pos h1, if_pos h1]
      exact ⟨v, rfl⟩
    · rw [if_neg h1, if_neg h1]
      by_cases h2 : (si4455_ist_dispatch env
          (si4455_get_int_status env 0 0 0 int_status_zero s).2.1
          (si4455_get_int_status env 0 0 0 int_status_zero s).2.2).1 = true
      · rw [if_pos h2, if_pos h2]
        exact ⟨v2, rfl⟩
      · rw [if_neg h2, if_neg h2]
        exact ⟨v, rfl⟩
  · have hgv : ¬ ((with_size v s).suspended = false ∧ (with_size v s).connected = true ∧
        (with_size v s).configured = true ∧ (with_size v s).power_count ≠ 0) := hg
    rw [ist_closed env (with_size v s) hgv, ist_closed env s hg]
    exact ⟨v, rfl⟩

theorem same_but_size_eq {s1 s2 : si4455_port} (h : same_but_size s1 s2) :
    s2 = with_size s2.tx_pending_size s1 := by
  have e : with_size s2.tx_pending_size (with_size 0 s1) = with_size s2.tx_pending_size s1 := rfl
  rw [← e, h]
  rfl

theorem same_but_size_with_size (v : Nat) (s : si4455_port) :
    same_but_size (with_size v s) s := rfl

/-- C25: `tx_pending_size` is not read while `tx_pending` is false.  For any
two states that differ at most in `tx_pending_size` and have
`tx_pending = false`, each of the Reconciler, `si4455_start_tx_xmit`,
`si4455_cancel_tx`, the packet-sent handling, the interrupt dispatcher and the
transmit-watchdog work returns the same value on both and leaves states that
again differ at most in `tx_pending_size`; such states have the same bus log,
the same outbound and inbound queue and the same `tx_pending`. -/
theorem c25_tx_pending_size_unread (env : Env) (s1 s2 : si4455_port)
    (hs : same_but_size s1 s2) (hp : s1.tx_pending = false) :
    s2.tx_pending = false ∧
    ((si4455_do_work env s2).1 = (si4455_do_work env s1).1 ∧
      same_but_size (si4455_do_work env s2).2 (si4455_do_work env s1).2) ∧
    ((si4455_start_tx_xmit env s2).1 = (si4455_start_tx_xmit env s1).1 ∧
      same_but_size (si4455_start_tx_xmit env s2).2 (si4455_start_tx_xmit env s1).2) ∧
    ((si4455_cancel_tx env s2).1 = (si4455_cancel_tx env s1).1 ∧
      same_but_size (si4455_cancel_tx env s2).2 (si4455_cancel_tx env s1).2) ∧
    same_but_size (si4455_handle_tx_pend env s2) (si4455_handle_tx_pend env s1) ∧
    ((si4455_ist env s2).1 = (si4455_ist env s1).1 ∧
      same_but_size (si4455_ist env s2).2 (si4455_ist env s1).2) ∧
    same_but_size (si4455_tx_wd_proc env s2) (si4455_tx_wd_proc env s1) ∧
    (∀ t1 t2, same_but_size t1 t2 →
      t1.log = t2.log ∧ t1.xmit = t2.xmit ∧ t1.flip = t2.flip ∧
      t1.tx_pending = t2.tx_pending ∧ t1.icount_tx = t2.icount_tx ∧
      t1.cts_changes = t2.cts_changes) := by
  have e := same_but_size_eq hs
  have hp2 : (with_size s2.tx_pending_size s1).tx_pending = false := hp
  obtain ⟨n1, n2, n3⟩ := tx_idle_noops env s1 hp
  obtain ⟨m1, m2, m3⟩ := tx_idle_noops env (with_size s2.tx_pending_size s1) hp2
  obtain ⟨v1, hw⟩ := tps_do_work env s2.tx_pending_size s1
  obtain ⟨v2, hx⟩ := tps_start_tx_xmit env s2.tx_pending_size s1
  obtain ⟨v3, hi⟩ := tps_ist env s2.tx_pending_size s1 hp
  rw [e]
  refine ⟨hp, ⟨?_, ?_⟩, ⟨?_, ?_⟩, ⟨?_, ?_⟩, ?_, ⟨?_, ?_⟩, ?_, ?_⟩
  · rw [hw]
  · rw [hw]; exact same_but_size_with_size _ _
  · rw [hx]
  · rw [hx]; exact same_but_size_with_size _ _
  · rw [m2, n2]
  · rw [m2, n2]; exact same_but_size_with_size _ _
  · rw [m1, n1]; exact same_but_size_with_size _ _
  · rw [hi]
  · rw [hi]; exact same_but_size_with_size _ _
  · rw [m3, n3]; exact same_but_size_with_size _ _
  · intro t1 t2 h0
    have h : with_size 0 t1 = with_size 0 t2 := h0
    exact ⟨(congrArg si4455_port.log h : (with_size 0 t1).log = (with_size 0 t2).log),
      (congrArg si4455_port.xmit h : (with_size 0 t1).xmit = (with_size 0 t2).xmit),
      (congrArg si4455_port.flip h : (with_size 0 t1).flip = (with_size 0 t2).flip),
      (congrArg si4455_port.tx_pending h :
        (with_size 0 t1).tx_pending = (with_size 0 t2).tx_pending),
      (congrArg si4455_port.icount_tx h :
        (with_size 0 t1).icount_tx = (with_size 0 t2).icount_tx),
      (congrArg si4455_port.cts_changes h :
        (with_size 0 t1).cts_changes = (with_size 0 t2).cts_changes)⟩

/-- Witness of C25: on the idle port after bring-up, another value in
`tx_pending_size` changes neither the result nor the bus traffic of the
Reconciler and of the interrupt dispatcher.  With a transmission pending the
value is read: in variable mode the packet-sent handling advances the tail by
it. -/
theorem c25_tx_pending_size_witness :
    idle_port.tx_pending = false ∧
    (si4455_do_work chip_env (with_size 99 idle_port)).1 = (si4455_do_work chip_env idle_port).1 ∧
    (si4455_do_work chip_env (with_size 99 idle_port)).2.log =
      (si4455_do_work chip_env idle_port).2.log ∧
    (si4455_ist error_and_sent_env (with_size 99 idle_port)).2.log =
      (si4455_ist error_and_sent_env idle_port).2.log ∧
    (si4455_handle_tx_pend ready_env
      { zero_port with tx_pending := true, tx_pending_size := 5 }).xmit.tail = 5 ∧
    (si4455_handle_tx_pend ready_env
      (with_size 7 { zero_port with tx_pending := true, tx_pending_size := 5 })).xmit.tail = 7 := by
  have h := c25_tx_pending_size_unread chip_env idle_port (with_size 99 idle_port) rfl
    (by decide)
  have h2 := c25_tx_pending_size_unread error_and_sent_env idle_port (with_size 99 idle_port)
    rfl (by decide)
  exact ⟨by decide, h.2.1.1, (h.2.2.2.2.2.2.2 _ _ h.2.1.2).1,
    (h2.2.2.2.2.2.2.2 _ _ h2.2.2.2.2.2.1.2).1, by decide, by decide⟩

end Si4455
